import Mathlib

/-!
# SIP URI parsers (`parser_lexing.go`, `parser_rl.go`, `uri.go`): shallow embedding

Go strings are byte sequences; they are embedded as lists of naturals (`Bytes`),
a byte being a number below 256.  The lexer goroutine is embedded as functions on
the `lexer` record that return the values they send on the two unbuffered
channels, in program order, and `none` when an index or slice expression would
panic.  `LexerParse` runs the receive loop, with its 10 ms timer, over that
sequence: time is measured by the bytes over which the lexer moves its cursor
while it sends nothing, and `budget` is the number of bytes it moves over in
10 ms.  `LexerParseInTime` is the same without the timer.  `RagelParse`, the
recognizer generated from `parser.rl`, is embedded label by label.
-/

namespace SipUri

/-- A Go `string`: its bytes. -/
abbrev Bytes := List Nat

/-- The bytes of an ASCII literal of the source. -/
def B (s : String) : Bytes := s.toList.map Char.toNat

/-! ## `uri.go` -/

/-- The `Scheme` enumeration: `UNKNOWN` is the zero value. -/
inductive Scheme where
  | UNKNOWN
  | SIPS
  | SIP
deriving DecidableEq, Repr

/-- The `URI` record. -/
structure URI where
  scheme : Scheme
  userinfo : Bytes
  hostport : Bytes
  params : Bytes
  headers : Bytes
deriving DecidableEq, Repr

/-- The zero value `&URI{}`. -/
def URI.zero : URI := ⟨Scheme.UNKNOWN, [], [], [], []⟩

/-! ## Go string primitives -/

/-- The slice expression `s[lo:hi]`; `none` when it panics. -/
def slice (s : Bytes) (lo hi : Nat) : Option Bytes :=
  if lo ≤ hi ∧ hi ≤ s.length then some ((s.drop lo).take (hi - lo)) else none

/-- The slice expression `s[lo:]`; `none` when it panics. -/
def sliceFrom (s : Bytes) (lo : Nat) : Option Bytes :=
  if lo ≤ s.length then some (s.drop lo) else none

/-- The function `strings.HasPrefix`. -/
def HasPrefix (s pre : Bytes) : Bool := pre.isPrefixOf s

/-- The function `strings.IndexByte`; `none` stands for `-1`. -/
def IndexByte : Bytes → Nat → Option Nat
  | [], _ => none
  | b :: s, c => if b = c then some 0 else (IndexByte s c).map (· + 1)

/-- The replacement rune `utf8.RuneError`. -/
def RuneError : Nat := 0xFFFD

/-- Whether `b` is a UTF-8 continuation byte. -/
def isCont (b : Nat) : Bool := decide (0x80 ≤ b ∧ b ≤ 0xBF)

/-- The length of the UTF-8 sequence that the byte `s0` starts: 1 for ASCII, 0
for a byte that starts none. -/
def runeSize (s0 : Nat) : Nat :=
  if s0 < 0x80 then 1
  else if 0xC2 ≤ s0 ∧ s0 ≤ 0xDF then 2
  else if 0xE0 ≤ s0 ∧ s0 ≤ 0xEF then 3
  else if 0xF0 ≤ s0 ∧ s0 ≤ 0xF4 then 4
  else 0

/-- The least second byte accepted after the first byte `s0`. -/
def acceptLo (s0 : Nat) : Nat := if s0 = 0xE0 then 0xA0 else if s0 = 0xF0 then 0x90 else 0x80

/-- The greatest second byte accepted after the first byte `s0`. -/
def acceptHi (s0 : Nat) : Nat := if s0 = 0xED then 0x9F else if s0 = 0xF4 then 0x8F else 0xBF

/-- The rune that starts the non-empty string `s0 :: t` and its width in bytes:
an invalid or truncated sequence decodes to `RuneError` with width 1. -/
def decodeRune (s0 : Nat) (t : Bytes) : Nat × Nat :=
  let sz := runeSize s0
  if sz = 1 then (s0, 1)
  else if sz = 0 then (RuneError, 1)
  else if t.length + 1 < sz then (RuneError, 1)
  else
    let s1 := t.getD 0 0
    if s1 < acceptLo s0 ∨ acceptHi s0 < s1 then (RuneError, 1)
    else if sz ≤ 2 then ((s0 % 32) * 64 + s1 % 64, 2)
    else
      let s2 := t.getD 1 0
      if ¬ isCont s2 then (RuneError, 1)
      else if sz ≤ 3 then ((s0 % 16) * 4096 + (s1 % 64) * 64 + s2 % 64, 3)
      else
        let s3 := t.getD 2 0
        if ¬ isCont s3 then (RuneError, 1)
        else ((s0 % 8) * 262144 + (s1 % 64) * 4096 + (s2 % 64) * 64 + s3 % 64, 4)

/-- The runes of a string from a position on, `skip` bytes of the rune decoded
last being still to pass. -/
def runesFrom : Nat → Bytes → List Nat
  | _, [] => []
  | skip + 1, _ :: t => runesFrom skip t
  | 0, s0 :: t => (decodeRune s0 t).1 :: runesFrom ((decodeRune s0 t).2 - 1) t

/-- The runes a `for _, c := range s` loop iterates over. -/
def runes (s : Bytes) : List Nat := runesFrom 0 s

/-- The bytes `fmt` writes for the verb `%c` applied to the rune `r`. -/
def encodeRune (r : Nat) : Bytes :=
  if r < 0x80 then [r]
  else if r < 0x800 then [0xC0 + r / 64, 0x80 + r % 64]
  else if 0xD800 ≤ r ∧ r ≤ 0xDFFF then [0xEF, 0xBF, 0xBD]
  else if r < 0x10000 then [0xE0 + r / 4096, 0x80 + (r / 64) % 64, 0x80 + r % 64]
  else if r ≤ 0x10FFFF then
    [0xF0 + r / 262144, 0x80 + (r / 4096) % 64, 0x80 + (r / 64) % 64, 0x80 + r % 64]
  else [0xEF, 0xBF, 0xBD]

/-- The conversion `byte(c)` of a rune. -/
def byte (c : Nat) : Nat := c % 256

/-! ## Byte classes -/

/-- The function `isNum`. -/
def isNum (c : Nat) : Bool := decide (48 ≤ c ∧ c ≤ 57)

/-- The function `isAlphaNum`. -/
def isAlphaNum (c : Nat) : Bool :=
  decide (97 ≤ c ∧ c ≤ 122) || decide (65 ≤ c ∧ c ≤ 90) || isNum c

/-- The function `isHex`. -/
def isHex (c : Nat) : Bool :=
  decide (97 ≤ c ∧ c ≤ 102) || decide (65 ≤ c ∧ c ≤ 70) || isNum c

/-- The function `isUnreserved`: alphanumerics and `- _ . ! ~ * ' ( )`. -/
def isUnreserved (c : Nat) : Bool :=
  if isAlphaNum c then true
  else if c = 45 ∨ c = 95 ∨ c = 46 ∨ c = 33 ∨ c = 126 ∨ c = 42 ∨ c = 39 ∨ c = 40 ∨ c = 41 then true
  else false

/-! ## `dtoi` and `parseIPv4` -/

/-- The loop of `dtoi`: `n` and `i` are the loop variables, the list is `s[i:]`. -/
def dtoiLoop : Bytes → Nat → Nat → Nat × Nat × Bool
  | [], n, i => if i = 0 then (0, 0, false) else (n, i, true)
  | b :: s, n, i =>
    if 48 ≤ b ∧ b ≤ 57 then
      let n1 := n * 10 + (b - 48)
      if n1 ≥ 0xFFFFF then (0xFFFFF, i, false) else dtoiLoop s n1 (i + 1)
    else if i = 0 then (0, 0, false) else (n, i, true)

/-- The function `dtoi`: number, characters consumed, success. -/
def dtoi (s : Bytes) : Nat × Nat × Bool := dtoiLoop s 0 0

/-- The loop of `parseIPv4`, from iteration `i = 4 - k` on. -/
def parseIPv4Loop : Nat → Bool → Bytes → Nat → Option (Nat × Bool)
  | 0, _, _, l => some (l, true)
  | k + 1, first, input, l =>
    match input with
    | [] => some (0, false)
    | b :: rest =>
      if ¬ first ∧ b ≠ 46 then some (0, false)
      else
        let input1 := if first then input else rest
        let l1 := if first then l else l + 1
        let r := dtoi input1
        if ¬ r.2.2 ∨ r.1 > 0xFF then some (0, false)
        else
          match sliceFrom input1 r.2.1 with
          | none => none
          | some input2 => parseIPv4Loop k false input2 (l1 + r.2.1)

/-- The function `parseIPv4`; `none` when a slice expression panics. -/
def parseIPv4 (data : Bytes) : Option (Nat × Bool) := parseIPv4Loop 4 true data 0

/-! ## The lexer -/

/-- The token kinds. -/
inductive Token where
  | tUnknown
  | tSip
  | tSips
  | tUserinfo
  | tHost
  | tPort
  | tParams
  | tHeader
  | tEOF
deriving DecidableEq, Repr

/-- An `Item` sent on the `items` channel. -/
structure Item where
  token : Token
  value : Bytes
deriving DecidableEq, Repr

/-- A value sent by the lexer: an item on `items` or a message on `err`. -/
inductive Event where
  | item (it : Item)
  | err (msg : Bytes)
deriving DecidableEq, Repr

/-- The scalar fields of the `lexer` record. -/
structure lexer where
  input : Bytes
  limit : Nat
  cursor : Nat
  marker : Nat
deriving DecidableEq, Repr

/-- The state functions; `Option lexFunc` is a `lexFunc` value, `none` being `nil`. -/
inductive lexFunc where
  | lexScheme
  | lexUserinfo
  | lexHostport
  | lexHostname
  | lexIPv6
  | lexPort
  | lexParams
  | lexHeaders
deriving DecidableEq, Repr

/-- What one call of a state function does: the lexer after it, the values it
sent, and the state it returns. -/
structure Step where
  l : lexer
  sent : List Event
  next : Option lexFunc
deriving DecidableEq, Repr

/-- The function `newLexer`. -/
def newLexer (data : Bytes) : lexer := ⟨data, data.length, 0, 0⟩

/-- The value sent by `emit`. -/
def lexer.emit (l : lexer) (tk : Token) : Option Event :=
  (slice l.input l.marker l.cursor).map fun v => Event.item ⟨tk, v⟩

/-- The value sent by `errorf`, the message being already formatted. -/
def errorf (msg : Bytes) : Event := Event.err msg

/-- The constant `eof`. -/
def eof : Int := -1

/-- The method `current`. -/
def lexer.current (l : lexer) : Option Int :=
  if l.cursor ≥ l.limit then some eof
  else (l.input.get? l.cursor).map fun b => (b : Int)

/-- The method `lexScheme`. -/
def lexer.lexScheme (l : lexer) : Option Step :=
  if HasPrefix l.input (B "sip:") then
    let l1 := { l with cursor := 4 }
    (l1.emit Token.tSip).map fun e => ⟨l1, [e], some lexFunc.lexUserinfo⟩
  else if HasPrefix l.input (B "sips:") then
    let l1 := { l with cursor := 5 }
    (l1.emit Token.tSips).map fun e => ⟨l1, [e], some lexFunc.lexUserinfo⟩
  else some ⟨l, [errorf (B "invalid scheme")], none⟩

/-- Whether `c` is one of `& = + $ , ; ? / % :`. -/
def isUserExtra (c : Nat) : Bool :=
  decide (c = 38 ∨ c = 61 ∨ c = 43 ∨ c = 36 ∨ c = 44 ∨ c = 59 ∨ c = 63 ∨ c = 47 ∨ c = 37 ∨ c = 58)

/-- The loop of `lexUserinfo`, with `k = atIndex - cursor` iterations left; it
yields the lexer and the error sent, if any. -/
def lexUserinfoLoop : Nat → lexer → Option (lexer × Option Event)
  | 0, l => some (l, none)
  | k + 1, l =>
    match l.input.get? l.cursor with
    | none => none
    | some c =>
      if isUnreserved c then lexUserinfoLoop k { l with cursor := l.cursor + 1 }
      else if isUserExtra c then lexUserinfoLoop k { l with cursor := l.cursor + 1 }
      else (sliceFrom l.input l.cursor).map fun rest =>
        (l, some (errorf (B "invalid userinfo ..." ++ rest)))

/-- The method `lexUserinfo`. -/
def lexer.lexUserinfo (l0 : lexer) : Option Step :=
  let l := { l0 with marker := l0.cursor }
  match IndexByte l.input 64 with
  | none => some ⟨l, [], some lexFunc.lexHostport⟩
  | some atIndex =>
    match lexUserinfoLoop (atIndex - l.cursor) l with
    | none => none
    | some (l1, some e) => some ⟨l1, [e], none⟩
    | some (l1, none) =>
      (l1.emit Token.tUserinfo).map fun e =>
        ⟨{ l1 with cursor := l1.cursor + 1 }, [e], some lexFunc.lexHostport⟩

/-- The method `lexHostport`. -/
def lexer.lexHostport (l0 : lexer) : Option Step :=
  let l := { l0 with marker := l0.cursor }
  match l.current with
  | none => none
  | some c =>
    if c = eof then some ⟨l, [errorf (B "invalid host/port")], none⟩
    else if c = 91 then some ⟨{ l with cursor := l.cursor + 1 }, [], some lexFunc.lexIPv6⟩
    else
      match sliceFrom l.input l.marker with
      | none => none
      | some s =>
        match parseIPv4 s with
        | none => none
        | some (length, true) =>
          let l1 := { l with cursor := l.cursor + length }
          (l1.emit Token.tHost).map fun e => ⟨l1, [e], some lexFunc.lexPort⟩
        | some (_, false) =>
          if isAlphaNum (byte c.toNat) then some ⟨l, [], some lexFunc.lexHostname⟩
          else some ⟨l, [errorf (B "invalid host part")], none⟩

/-- The loop of `lexHostname` over the runes left. -/
def lexHostnameLoop : List Nat → lexer → Option Step
  | [], l =>
    match l.emit Token.tHost, l.emit Token.tEOF with
    | some e1, some e2 => some ⟨l, [e1, e2], none⟩
    | _, _ => none
  | c :: cs, l =>
    if isAlphaNum (byte c) ∨ c = 45 ∨ c = 46 then
      lexHostnameLoop cs { l with cursor := l.cursor + 1 }
    else if c = 58 then (l.emit Token.tHost).map fun e => ⟨l, [e], some lexFunc.lexPort⟩
    else if c = 59 then (l.emit Token.tHost).map fun e => ⟨l, [e], some lexFunc.lexParams⟩
    else if c = 63 then (l.emit Token.tHost).map fun e => ⟨l, [e], some lexFunc.lexHeaders⟩
    else some ⟨l, [errorf (B "invalid hostname")], none⟩

/-- The method `lexHostname`. -/
def lexer.lexHostname (l : lexer) : Option Step :=
  match sliceFrom l.input l.marker with
  | none => none
  | some s => lexHostnameLoop (runes s) l

/-- The loop of `lexIPv6` over the runes left. -/
def lexIPv6Loop : List Nat → lexer → Option Step
  | [], l => some ⟨l, [errorf (B "invalid host part ipv6")], none⟩
  | c :: cs, l =>
    let l1 := { l with cursor := l.cursor + 1 }
    if c = 93 then (l1.emit Token.tHost).map fun e => ⟨l1, [e], some lexFunc.lexPort⟩
    else if isHex (byte c) ∨ c = 58 ∨ c = 46 then lexIPv6Loop cs l1
    else some ⟨l1, [errorf (B "invalid host part ipv6 >" ++ encodeRune c ++ B "<")], none⟩

/-- The method `lexIPv6`. -/
def lexer.lexIPv6 (l : lexer) : Option Step :=
  match sliceFrom l.input l.cursor with
  | none => none
  | some s => lexIPv6Loop (runes s) l

/-- The method `lexPort`: the error branch has no `return`, so the port item is
sent after the error. -/
def lexer.lexPort (l : lexer) : Option Step :=
  match l.current with
  | none => none
  | some c =>
    if c = eof then (l.emit Token.tEOF).map fun e => ⟨l, [e], none⟩
    else if c ≠ 58 then some ⟨l, [], some lexFunc.lexParams⟩
    else
      let l1 := { l with cursor := l.cursor + 1, marker := l.cursor + 1 }
      match sliceFrom l1.input l1.marker with
      | none => none
      | some s =>
        let r := dtoi s
        let l2 := { l1 with cursor := l1.cursor + r.2.1 }
        if ¬ r.2.2 ∨ r.1 > 0xFFFF then
          match slice l1.input l1.marker (l1.marker + r.2.1), l2.emit Token.tPort with
          | some v, some e =>
            some ⟨l2, [errorf (B "invalid port " ++ v), e], some lexFunc.lexParams⟩
          | _, _ => none
        else (l2.emit Token.tPort).map fun e => ⟨l2, [e], some lexFunc.lexParams⟩

/-- Whether the rune `c` is one of `[ ] / : & + $`. -/
def isParamExtra (c : Nat) : Bool :=
  decide (c = 91 ∨ c = 93 ∨ c = 47 ∨ c = 58 ∨ c = 38 ∨ c = 43 ∨ c = 36)

/-- The loop of `lexParams` over the runes left. -/
def lexParamsLoop : List Nat → lexer → Option Step
  | [], l =>
    match l.emit Token.tParams, l.emit Token.tEOF with
    | some e1, some e2 => some ⟨l, [e1, e2], none⟩
    | _, _ => none
  | c :: cs, l =>
    if c = 63 then (l.emit Token.tParams).map fun e => ⟨l, [e], some lexFunc.lexHeaders⟩
    else
      let l1 := { l with cursor := l.cursor + 1 }
      if isUnreserved (byte c) ∨ c = 61 ∨ c = 59 ∨ c = 37 then lexParamsLoop cs l1
      else if isParamExtra c then lexParamsLoop cs l1
      else (sliceFrom l1.input l1.cursor).map fun rest =>
        ⟨l1, [errorf (B "invalid param ...>" ++ rest)], none⟩

/-- The method `lexParams`. -/
def lexer.lexParams (l0 : lexer) : Option Step :=
  let l := { l0 with marker := l0.cursor }
  match l.current with
  | none => none
  | some c =>
    if c = eof then (l.emit Token.tEOF).map fun e => ⟨l, [e], none⟩
    else if c = 63 then some ⟨l, [], some lexFunc.lexHeaders⟩
    else if c ≠ 59 then some ⟨l, [errorf (B "invalid params")], none⟩
    else
      let l1 := { l with cursor := l.cursor + 1, marker := l.cursor + 1 }
      match sliceFrom l1.input l1.cursor with
      | none => none
      | some s => lexParamsLoop (runes s) l1

/-- Whether the rune `c` is one of `[ ] / ? : + $`. -/
def isHeaderExtra (c : Nat) : Bool :=
  decide (c = 91 ∨ c = 93 ∨ c = 47 ∨ c = 63 ∨ c = 58 ∨ c = 43 ∨ c = 36)

/-- The loop of `lexHeaders` over the runes left: the error branch has no
`return`, so the loop goes on; it yields the lexer and the errors sent. -/
def lexHeadersLoop : List Nat → lexer → Option (lexer × List Event)
  | [], l => some (l, [])
  | c :: cs, l =>
    let l1 := { l with cursor := l.cursor + 1 }
    if isUnreserved (byte c) ∨ c = 61 ∨ c = 37 ∨ c = 38 then lexHeadersLoop cs l1
    else if isHeaderExtra c then lexHeadersLoop cs l1
    else
      match sliceFrom l1.input l1.cursor, lexHeadersLoop cs l1 with
      | some rest, some (l2, es) => some (l2, errorf (B "invalid header ...>" ++ rest) :: es)
      | _, _ => none

/-- The method `lexHeaders`. -/
def lexer.lexHeaders (l0 : lexer) : Option Step :=
  let l := { l0 with marker := l0.cursor }
  match l.current with
  | none => none
  | some c =>
    if c = eof then (l.emit Token.tEOF).map fun e => ⟨l, [e], none⟩
    else if c ≠ 63 then some ⟨l, [errorf (B "invalid headers")], none⟩
    else
      let l1 := { l with cursor := l.cursor + 1, marker := l.cursor + 1 }
      match sliceFrom l1.input l1.marker with
      | none => none
      | some s =>
        match lexHeadersLoop (runes s) l1 with
        | none => none
        | some (l2, es) =>
          match l2.emit Token.tHeader, l2.emit Token.tEOF with
          | some e1, some e2 => some ⟨l2, es ++ [e1, e2], none⟩
          | _, _ => none

/-- Calling a state function value. -/
def lexFunc.call : lexFunc → lexer → Option Step
  | lexFunc.lexScheme, l => l.lexScheme
  | lexFunc.lexUserinfo, l => l.lexUserinfo
  | lexFunc.lexHostport, l => l.lexHostport
  | lexFunc.lexHostname, l => l.lexHostname
  | lexFunc.lexIPv6, l => l.lexIPv6
  | lexFunc.lexPort, l => l.lexPort
  | lexFunc.lexParams, l => l.lexParams
  | lexFunc.lexHeaders, l => l.lexHeaders

/-- The loop of `run`, for at most `fuel` calls, from `state`: the values sent
and the state left (`none` when the loop has ended); `none` on a panic. -/
def runLoop : Nat → lexFunc → lexer → Option (List Event × Option lexFunc)
  | 0, state, _ => some ([], some state)
  | fuel + 1, state, l =>
    match state.call l with
    | none => none
    | some ⟨_, sent, none⟩ => some (sent, none)
    | some ⟨l1, sent, some state1⟩ =>
      match runLoop fuel state1 l1 with
      | none => none
      | some (sent1, left) => some (sent ++ sent1, left)

/-- The method `run`: there are eight state functions and none is entered
twice, so eight calls end the loop (`scheme_sim`: seven or more calls all end it
with the same values sent). -/
def lexer.run (l : lexer) : Option (List Event) :=
  (runLoop 8 lexFunc.lexScheme l).map Prod.fst

/-- The method `setSegment`. -/
def URI.setSegment (uri : URI) (item : Item) : URI :=
  match item.token with
  | Token.tSip => { uri with scheme := Scheme.SIP }
  | Token.tSips => { uri with scheme := Scheme.SIPS }
  | Token.tUserinfo => { uri with userinfo := item.value }
  | Token.tHost => { uri with hostport := item.value }
  | Token.tPort => { uri with hostport := uri.hostport ++ B ":" ++ item.value }
  | Token.tParams => { uri with params := item.value }
  | Token.tHeader => { uri with headers := item.value }
  | _ => uri

/-- What `LexerParse` returns: the `*URI` and the `error`, `none` being `nil`. -/
abbrev Result := Option URI × Option Bytes

/-- The receive loop of `LexerParse` when every value arrives before the timer
fires, over the values the lexer sends.  Both channels are unbuffered, so the
values arrive in the order sent; when the lexer ends without a closing value
only the timer is left to fire.  The loop with the timer is `mainLoop`. -/
def mainLoopInTime (data : Bytes) : URI → List Event → Result
  | _, [] => (none, some (B "Invalid uri '" ++ data ++ B "': timeout parsing"))
  | uri, Event.item it :: rest =>
    if it.token = Token.tEOF then (some uri, none)
    else mainLoopInTime data (uri.setSegment it) rest
  | _, Event.err e :: _ => (none, some (B "Invalid uri '" ++ data ++ B "': " ++ e))

/-- What `LexerParse` returns when every value arrives before the timer fires;
`none` when the lexer goroutine panics.  The function with the timer is
`LexerParse`. -/
def LexerParseInTime (data : Bytes) : Option Result :=
  ((newLexer data).run).map fun sent => mainLoopInTime data URI.zero sent

/-! ## The values sent, as functions of the input left

`xSent` is the sequence of values sent from the state function `x` on, as a
function of the input from the cursor on (`rest`, `suf`) and, where a span is
being scanned, of the span between marker and cursor (`done`).  The theorems
`*_sim` below show that the lexer sends exactly these values. -/

/-- Continuing the loop of `run` after one call that returned `r`. -/
def andThen (fuel : Nat) (r : Option Step) : Option (List Event × Option lexFunc) :=
  match r with
  | none => none
  | some ⟨_, sent, none⟩ => some (sent, none)
  | some ⟨l1, sent, some state1⟩ =>
    match runLoop fuel state1 l1 with
    | none => none
    | some (sent1, left) => some (sent ++ sent1, left)

/-- The errors `lexHeadersLoop` sends over the runes `cs`. -/
def headerErrs : List Nat → Bytes → List Event
  | [], _ => []
  | c :: cs, rest =>
    if isUnreserved (byte c) ∨ c = 61 ∨ c = 37 ∨ c = 38 then headerErrs cs (rest.drop 1)
    else if isHeaderExtra c then headerErrs cs (rest.drop 1)
    else errorf (B "invalid header ...>" ++ rest.drop 1) :: headerErrs cs (rest.drop 1)

/-- The values sent from `lexHeaders` on. -/
def headersSent (suf : Bytes) : List Event :=
  match suf with
  | [] => [Event.item ⟨Token.tEOF, []⟩]
  | c :: hs =>
    if c ≠ 63 then [errorf (B "invalid headers")]
    else headerErrs (runes hs) hs ++
      [Event.item ⟨Token.tHeader, hs.take (runes hs).length⟩,
       Event.item ⟨Token.tEOF, hs.take (runes hs).length⟩]

/-- The values sent from the loop of `lexParams` on. -/
def paramsLoopSent : List Nat → Bytes → Bytes → List Event
  | [], done, _ => [Event.item ⟨Token.tParams, done⟩, Event.item ⟨Token.tEOF, done⟩]
  | c :: cs, done, rest =>
    if c = 63 then Event.item ⟨Token.tParams, done⟩ :: headersSent rest
    else if isUnreserved (byte c) ∨ c = 61 ∨ c = 59 ∨ c = 37 then
      paramsLoopSent cs (done ++ rest.take 1) (rest.drop 1)
    else if isParamExtra c then paramsLoopSent cs (done ++ rest.take 1) (rest.drop 1)
    else [errorf (B "invalid param ...>" ++ rest.drop 1)]

/-- The values sent from `lexParams` on. -/
def paramsSent (suf : Bytes) : List Event :=
  match suf with
  | [] => [Event.item ⟨Token.tEOF, []⟩]
  | c :: ps =>
    if c = 63 then headersSent suf
    else if c ≠ 59 then [errorf (B "invalid params")]
    else paramsLoopSent (runes ps) [] ps

/-- The values sent from `lexPort` on. -/
def portSent (done suf : Bytes) : List Event :=
  match suf with
  | [] => [Event.item ⟨Token.tEOF, done⟩]
  | c :: r =>
    if c ≠ 58 then paramsSent suf
    else
      (if ¬ (dtoi r).2.2 ∨ (dtoi r).1 > 0xFFFF
        then [errorf (B "invalid port " ++ r.take (dtoi r).2.1)] else []) ++
      Event.item ⟨Token.tPort, r.take (dtoi r).2.1⟩ :: paramsSent (r.drop (dtoi r).2.1)

/-- The values sent from the loop of `lexHostname` on. -/
def hostnameLoopSent : List Nat → Bytes → Bytes → List Event
  | [], done, _ => [Event.item ⟨Token.tHost, done⟩, Event.item ⟨Token.tEOF, done⟩]
  | c :: cs, done, rest =>
    if isAlphaNum (byte c) ∨ c = 45 ∨ c = 46 then
      hostnameLoopSent cs (done ++ rest.take 1) (rest.drop 1)
    else if c = 58 then Event.item ⟨Token.tHost, done⟩ :: portSent done rest
    else if c = 59 then Event.item ⟨Token.tHost, done⟩ :: paramsSent rest
    else if c = 63 then Event.item ⟨Token.tHost, done⟩ :: headersSent rest
    else [errorf (B "invalid hostname")]

/-- The values sent from the loop of `lexIPv6` on. -/
def ipv6LoopSent : List Nat → Bytes → Bytes → List Event
  | [], _, _ => [errorf (B "invalid host part ipv6")]
  | c :: cs, done, rest =>
    if c = 93 then
      Event.item ⟨Token.tHost, done ++ rest.take 1⟩ :: portSent (done ++ rest.take 1) (rest.drop 1)
    else if isHex (byte c) ∨ c = 58 ∨ c = 46 then
      ipv6LoopSent cs (done ++ rest.take 1) (rest.drop 1)
    else [errorf (B "invalid host part ipv6 >" ++ encodeRune c ++ B "<")]

/-- The values sent from `lexHostport` on. -/
def hostportSent (suf : Bytes) : List Event :=
  match suf with
  | [] => [errorf (B "invalid host/port")]
  | c :: r =>
    if c = 91 then ipv6LoopSent (runes r) [91] r
    else if ((parseIPv4 suf).getD (0, false)).2 then
      Event.item ⟨Token.tHost, suf.take ((parseIPv4 suf).getD (0, false)).1⟩ ::
        portSent (suf.take ((parseIPv4 suf).getD (0, false)).1)
          (suf.drop ((parseIPv4 suf).getD (0, false)).1)
    else if isAlphaNum (byte c) then hostnameLoopSent (runes suf) [] suf
    else [errorf (B "invalid host part")]

/-- The error `lexUserinfoLoop` sends over the bytes `u`, followed by `after`. -/
def userinfoErr : Bytes → Bytes → Option Event
  | [], _ => none
  | c :: u, after =>
    if isUnreserved c then userinfoErr u after
    else if isUserExtra c then userinfoErr u after
    else some (errorf (B "invalid userinfo ..." ++ (c :: u ++ after)))

/-- The values sent from `lexUserinfo` on. -/
def userinfoSent (suf : Bytes) : List Event :=
  match IndexByte suf 64 with
  | none => hostportSent suf
  | some k =>
    match userinfoErr (suf.take k) (suf.drop k) with
    | some e => [e]
    | none => Event.item ⟨Token.tUserinfo, suf.take k⟩ :: hostportSent (suf.drop (k + 1))

/-- The values sent from `lexScheme` on, that is by `run`. -/
def schemeSent (data : Bytes) : List Event :=
  if HasPrefix data (B "sip:") then
    Event.item ⟨Token.tSip, data.take 4⟩ :: userinfoSent (data.drop 4)
  else if HasPrefix data (B "sips:") then
    Event.item ⟨Token.tSips, data.take 5⟩ :: userinfoSent (data.drop 5)
  else [errorf (B "invalid scheme")]

/-! ## Vocabulary of the claims -/

/-- The order in which the token kinds are sent; an error ranks last. -/
def Event.rank : Event → Nat
  | Event.item ⟨Token.tUnknown, _⟩ => 0
  | Event.item ⟨Token.tSip, _⟩ => 1
  | Event.item ⟨Token.tSips, _⟩ => 1
  | Event.item ⟨Token.tUserinfo, _⟩ => 2
  | Event.item ⟨Token.tHost, _⟩ => 3
  | Event.item ⟨Token.tPort, _⟩ => 4
  | Event.item ⟨Token.tParams, _⟩ => 5
  | Event.item ⟨Token.tHeader, _⟩ => 6
  | Event.item ⟨Token.tEOF, _⟩ => 7
  | Event.err _ => 8

/-- An ASCII letter. -/
def isLetter (c : Nat) : Bool := decide (97 ≤ c ∧ c ≤ 122) || decide (65 ≤ c ∧ c ≤ 90)

/-- A byte of a host name: an ASCII letter, a digit, `-` or `.`. -/
def isHostByte (c : Nat) : Bool := isLetter c || isNum c || decide (c = 45) || decide (c = 46)

/-- A legal userinfo byte: unreserved or one of `& = + $ , ; ? / % :`. -/
def isUserinfoByte (c : Nat) : Bool := isUnreserved c || isUserExtra c

/-- A legal param byte: unreserved or one of `= ; % [ ] / : & + $`. -/
def isParamByte (c : Nat) : Bool :=
  isUnreserved c || decide (c = 61) || decide (c = 59) || decide (c = 37) || isParamExtra c

/-- A legal header byte: unreserved or one of `= % & [ ] / ? : + $`. -/
def isHeaderByte (c : Nat) : Bool :=
  isUnreserved c || decide (c = 61) || decide (c = 37) || decide (c = 38) || isHeaderExtra c

/-- The value of a string of ASCII digits read as a decimal number. -/
def decVal (d : Bytes) : Nat := d.foldl (fun n b => n * 10 + (b - 48)) 0

/-- An optional part followed by its delimiter: empty when the part is omitted. -/
def withSuffix (part : Option Bytes) (delim : Bytes) : Bytes :=
  match part with
  | none => []
  | some v => v ++ delim

/-- An optional part after its delimiter: empty when the part is omitted. -/
def withPrefix (delim : Bytes) (part : Option Bytes) : Bytes :=
  match part with
  | none => []
  | some v => delim ++ v

/-- A host name of the claims: it begins with an ASCII letter and consists of
ASCII letters, digits, `-` and `.`. -/
def isHostName (h : Bytes) : Prop :=
  ∃ x t, h = x :: t ∧ isLetter x = true ∧ ∀ c ∈ t, isHostByte c = true

/-- A decimal octet: a non-empty string of ASCII digits of value at most 255. -/
def isOctet (d : Bytes) : Prop := d ≠ [] ∧ (∀ c ∈ d, isNum c = true) ∧ decVal d ≤ 255

/-- A dotted-decimal IPv4 literal: four decimal octets separated by `.`. -/
def isIPv4Literal (h : Bytes) : Prop :=
  ∃ d1 d2 d3 d4, h = d1 ++ 46 :: (d2 ++ 46 :: (d3 ++ 46 :: d4)) ∧
    isOctet d1 ∧ isOctet d2 ∧ isOctet d3 ∧ isOctet d4

/-! ## The parts of an accepted input

`XPart piece old new` relates a piece of the input to the field it sets: the
piece is empty and the field keeps its old value, or the piece is the delimiter
with the text captured into the field. -/

/-- The headers piece: empty, or `?` and the headers. -/
def HeadersPart (H old new : Bytes) : Prop :=
  (H = [] ∧ new = old) ∨ (H = 63 :: new ∧ ∀ c ∈ new, isHeaderByte c = true)

/-- The params piece: empty, or `;` and the params. -/
def ParamsPart (P old new : Bytes) : Prop :=
  (P = [] ∧ new = old) ∨ (P = 59 :: new ∧ ∀ c ∈ new, isParamByte c = true)

/-- The port piece: empty, or `:` and digits of value at most 65535 that are
appended to the hostport. -/
def PortPart (PT old new : Bytes) : Prop :=
  (PT = [] ∧ new = old) ∨
  (∃ d, PT = 58 :: d ∧ d ≠ [] ∧ (∀ c ∈ d, isNum c = true) ∧ decVal d ≤ 65535 ∧
    new = old ++ 58 :: d)

/-- The userinfo piece: empty, or the userinfo and `@`. -/
def UserPart (U old new : Bytes) : Prop :=
  (U = [] ∧ new = old) ∨ (U = new ++ [64] ∧ ∀ c ∈ new, isUserinfoByte c = true)

/-- The result `u` of the receive loop started with `u0` on the values sent from
`lexHeaders` on over the input `T`. -/
def HeadersTail (u0 u : URI) (T : Bytes) : Prop :=
  u.scheme = u0.scheme ∧ u.userinfo = u0.userinfo ∧ u.hostport = u0.hostport ∧
  u.params = u0.params ∧ HeadersPart T u0.headers u.headers

/-- The same from `lexParams` on. -/
def ParamsTail (u0 u : URI) (T : Bytes) : Prop :=
  ∃ P H, T = P ++ H ∧ u.scheme = u0.scheme ∧ u.userinfo = u0.userinfo ∧
    u.hostport = u0.hostport ∧ ParamsPart P u0.params u.params ∧
    HeadersPart H u0.headers u.headers

/-- The same from `lexPort` on. -/
def PortTail (u0 u : URI) (T : Bytes) : Prop :=
  ∃ PT P H, T = PT ++ (P ++ H) ∧ u.scheme = u0.scheme ∧ u.userinfo = u0.userinfo ∧
    PortPart PT u0.hostport u.hostport ∧ ParamsPart P u0.params u.params ∧
    HeadersPart H u0.headers u.headers

/-- The same from `lexHostport` on: `h` is the host sent. -/
def HostTail (u0 u : URI) (T : Bytes) : Prop :=
  ∃ h PT P H, T = h ++ (PT ++ (P ++ H)) ∧ u.scheme = u0.scheme ∧ u.userinfo = u0.userinfo ∧
    h ≠ [] ∧ (∃ evs, hostportSent T = Event.item ⟨Token.tHost, h⟩ :: evs) ∧
    PortPart PT h u.hostport ∧ ParamsPart P u0.params u.params ∧
    HeadersPart H u0.headers u.headers

/-- The text of a scheme: `sip` for SIP and `sips` for SIPS. -/
def schemeText : Scheme → Bytes
  | Scheme.SIP => B "sip"
  | Scheme.SIPS => B "sips"
  | Scheme.UNKNOWN => []

/-- The re-concatenation of the captured fields with their delimiters, a
delimiter being written when its field is not empty. -/
def reassemble (u : URI) : Bytes :=
  schemeText u.scheme ++ B ":" ++
    (if u.userinfo ≠ [] then u.userinfo ++ B "@" else []) ++
    u.hostport ++
    (if u.params ≠ [] then B ";" ++ u.params else []) ++
    (if u.headers ≠ [] then B "?" ++ u.headers else [])

/-! ## `parser_rl.go`: the generated recognizer

The generated code is a `goto` program: the label `stN` advances `p`, leaves
through `_test_eofN` (which sets `cs = N`) at the end of the data, and otherwise
falls into `st_case_N`, which inspects `data[p]` and jumps to a label `stM`, to a
label `trK` (actions, then `goto stM`) or to `st0`.  Each `st_case_N` is embedded
as the function from the byte `data[p]` to the jump taken, and the state number
stands for the position in the program. -/

/-- The actions of `parser.rl` embedded in the generated code. -/
inductive Act where
  | mark
  | setSip
  | setSips
  | setUserinfo
  | setHostport
  | setParams
  | setHeaders
deriving DecidableEq, Repr

/-- Where a `goto` of the generated code leads: the actions run on the way and the
state entered; `none` is the error state `st0`. -/
abbrev Goto := Option (List Act × Nat)

/-- The label `st0`. -/
def st0 : Goto := none

/-- The label `stN`: no action. -/
def st (n : Nat) : Goto := some ([], n)

/-- The label `tr4`. -/
def tr4 : Goto := some ([Act.setSip], 5)

/-- The label `tr6`. -/
def tr6 : Goto := some ([Act.mark], 6)

/-- The label `tr7`. -/
def tr7 : Goto := some ([Act.mark], 7)

/-- The label `tr8`. -/
def tr8 : Goto := some ([Act.mark], 78)

/-- The label `tr9`. -/
def tr9 : Goto := some ([Act.mark], 134)

/-- The label `tr10`. -/
def tr10 : Goto := some ([Act.mark], 43)

/-- The label `tr14`. -/
def tr14 : Goto := some ([Act.setUserinfo], 12)

/-- The label `tr18`. -/
def tr18 : Goto := some ([Act.mark], 13)

/-- The label `tr19`. -/
def tr19 : Goto := some ([Act.mark], 120)

/-- The label `tr34`. -/
def tr34 : Goto := some ([Act.mark], 26)

/-- The label `tr35`. -/
def tr35 : Goto := some ([Act.mark], 27)

/-- The label `tr105`. -/
def tr105 : Goto := some ([Act.mark], 96)

/-- The label `tr106`. -/
def tr106 : Goto := some ([Act.mark], 97)

/-- The label `tr107`. -/
def tr107 : Goto := some ([Act.mark], 99)

/-- The label `tr128`. -/
def tr128 : Goto := some ([Act.setSips], 5)

/-- The label `tr131`. -/
def tr131 : Goto := some ([Act.setHostport, Act.mark], 19)

/-- The label `tr132`. -/
def tr132 : Goto := some ([Act.setHostport, Act.mark, Act.setParams], 25)

/-- The label `tr139`. -/
def tr139 : Goto := some ([Act.setParams], 25)

/-- The label `tr146`. -/
def tr146 : Goto := some ([Act.setHostport, Act.mark], 84)

/-- The label `tr147`. -/
def tr147 : Goto := some ([Act.setHostport, Act.mark, Act.setParams], 95)

/-- The label `tr154`. -/
def tr154 : Goto := some ([Act.setParams], 95)

/-- The label `st_case_0`. -/
def st_case_0 (_c : Nat) : Goto :=
  st0

/-- The label `st_case_1`. -/
def st_case_1 (c : Nat) : Goto :=
  if c = 115 then st 2
  else st0

/-- The label `st_case_2`. -/
def st_case_2 (c : Nat) : Goto :=
  if c = 105 then st 3
  else st0

/-- The label `st_case_3`. -/
def st_case_3 (c : Nat) : Goto :=
  if c = 112 then st 4
  else st0

/-- The label `st_case_4`. -/
def st_case_4 (c : Nat) : Goto :=
  if c = 58 then tr4
  else if c = 115 then st 119
  else st0

/-- The label `st_case_5`. -/
def st_case_5 (c : Nat) : Goto :=
  if c = 33 then tr6
  else if c = 37 then tr7
  else if c = 59 then tr6
  else if c = 61 then tr6
  else if c = 63 then tr6
  else if c = 91 then tr10
  else if c = 95 then tr6
  else if c = 126 then tr6
  else if c < 48 then (if 36 ≤ c ∧ c ≤ 47 then tr6
    else st0)
  else if c > 57 then (if c > 90 then (if 97 ≤ c ∧ c ≤ 122 then tr9
      else st0)
    else if c ≥ 65 then tr9
    else st0)
  else tr8

/-- The label `st_case_6`. -/
def st_case_6 (c : Nat) : Goto :=
  if c = 33 then st 6
  else if c = 37 then st 7
  else if c = 58 then st 9
  else if c = 61 then st 6
  else if c = 64 then tr14
  else if c = 95 then st 6
  else if c = 126 then st 6
  else if c < 63 then (if 36 ≤ c ∧ c ≤ 59 then st 6
    else st0)
  else if c > 90 then (if 97 ≤ c ∧ c ≤ 122 then st 6
    else st0)
  else st 6

/-- The label `st_case_7`. -/
def st_case_7 (c : Nat) : Goto :=
  if c < 65 then (if 48 ≤ c ∧ c ≤ 57 then st 8
    else st0)
  else if c > 70 then (if 97 ≤ c ∧ c ≤ 102 then st 8
    else st0)
  else st 8

/-- The label `st_case_8`. -/
def st_case_8 (c : Nat) : Goto :=
  if c < 65 then (if 48 ≤ c ∧ c ≤ 57 then st 6
    else st0)
  else if c > 70 then (if 97 ≤ c ∧ c ≤ 102 then st 6
    else st0)
  else st 6

/-- The label `st_case_9`. -/
def st_case_9 (c : Nat) : Goto :=
  if c = 33 then st 9
  else if c = 37 then st 10
  else if c = 61 then st 9
  else if c = 64 then tr14
  else if c = 95 then st 9
  else if c = 126 then st 9
  else if c < 48 then (if 36 ≤ c ∧ c ≤ 46 then st 9
    else st0)
  else if c > 57 then (if c > 90 then (if 97 ≤ c ∧ c ≤ 122 then st 9
      else st0)
    else if c ≥ 65 then st 9
    else st0)
  else st 9

/-- The label `st_case_10`. -/
def st_case_10 (c : Nat) : Goto :=
  if c < 65 then (if 48 ≤ c ∧ c ≤ 57 then st 11
    else st0)
  else if c > 70 then (if 97 ≤ c ∧ c ≤ 102 then st 11
    else st0)
  else st 11

/-- The label `st_case_11`. -/
def st_case_11 (c : Nat) : Goto :=
  if c < 65 then (if 48 ≤ c ∧ c ≤ 57 then st 9
    else st0)
  else if c > 70 then (if 97 ≤ c ∧ c ≤ 102 then st 9
    else st0)
  else st 9

/-- The label `st_case_12`. -/
def st_case_12 (c : Nat) : Goto :=
  if c = 91 then tr10
  else if c < 65 then (if 48 ≤ c ∧ c ≤ 57 then tr18
    else st0)
  else if c > 90 then (if 97 ≤ c ∧ c ≤ 122 then tr19
    else st0)
  else tr19

/-- The label `st_case_13`. -/
def st_case_13 (c : Nat) : Goto :=
  if c = 45 then st 14
  else if c = 46 then st 32
  else if c < 65 then (if 48 ≤ c ∧ c ≤ 57 then st 41
    else st0)
  else if c > 90 then (if 97 ≤ c ∧ c ≤ 122 then st 15
    else st0)
  else st 15

/-- The label `st_case_14`. -/
def st_case_14 (c : Nat) : Goto :=
  if c = 45 then st 14
  else if c < 65 then (if 48 ≤ c ∧ c ≤ 57 then st 15
    else st0)
  else if c > 90 then (if 97 ≤ c ∧ c ≤ 122 then st 15
    else st0)
  else st 15

/-- The label `st_case_15`. -/
def st_case_15 (c : Nat) : Goto :=
  if c = 45 then st 14
  else if c = 46 then st 16
  else if c < 65 then (if 48 ≤ c ∧ c ≤ 57 then st 15
    else st0)
  else if c > 90 then (if 97 ≤ c ∧ c ≤ 122 then st 15
    else st0)
  else st 15

/-- The label `st_case_16`. -/
def st_case_16 (c : Nat) : Goto :=
  if c < 65 then (if 48 ≤ c ∧ c ≤ 57 then st 15
    else st0)
  else if c > 90 then (if 97 ≤ c ∧ c ≤ 122 then st 120
    else st0)
  else st 120

/-- The label `st_case_17`. -/
def st_case_17 (c : Nat) : Goto :=
  if c = 45 then st 17
  else if c < 65 then (if 48 ≤ c ∧ c ≤ 57 then st 120
    else st0)
  else if c > 90 then (if 97 ≤ c ∧ c ≤ 122 then st 120
    else st0)
  else st 120

/-- The label `st_case_18`. -/
def st_case_18 (c : Nat) : Goto :=
  if 48 ≤ c ∧ c ≤ 57 then st 122
  else st0

/-- The label `st_case_19`. -/
def st_case_19 (c : Nat) : Goto :=
  if c = 33 then st 127
  else if c = 37 then st 20
  else if c = 93 then st 127
  else if c = 95 then st 127
  else if c = 126 then st 127
  else if c < 45 then (if 36 ≤ c ∧ c ≤ 43 then st 127
    else st0)
  else if c > 58 then (if c > 91 then (if 97 ≤ c ∧ c ≤ 122 then st 127
      else st0)
    else if c ≥ 65 then st 127
    else st0)
  else st 127

/-- The label `st_case_20`. -/
def st_case_20 (c : Nat) : Goto :=
  if c < 65 then (if 48 ≤ c ∧ c ≤ 57 then st 21
    else st0)
  else if c > 70 then (if 97 ≤ c ∧ c ≤ 102 then st 21
    else st0)
  else st 21

/-- The label `st_case_21`. -/
def st_case_21 (c : Nat) : Goto :=
  if c < 65 then (if 48 ≤ c ∧ c ≤ 57 then st 127
    else st0)
  else if c > 70 then (if 97 ≤ c ∧ c ≤ 102 then st 127
    else st0)
  else st 127

/-- The label `st_case_22`. -/
def st_case_22 (c : Nat) : Goto :=
  if c = 33 then st 128
  else if c = 37 then st 23
  else if c = 93 then st 128
  else if c = 95 then st 128
  else if c = 126 then st 128
  else if c < 45 then (if 36 ≤ c ∧ c ≤ 43 then st 128
    else st0)
  else if c > 58 then (if c > 91 then (if 97 ≤ c ∧ c ≤ 122 then st 128
      else st0)
    else if c ≥ 65 then st 128
    else st0)
  else st 128

/-- The label `st_case_23`. -/
def st_case_23 (c : Nat) : Goto :=
  if c < 65 then (if 48 ≤ c ∧ c ≤ 57 then st 24
    else st0)
  else if c > 70 then (if 97 ≤ c ∧ c ≤ 102 then st 24
    else st0)
  else st 24

/-- The label `st_case_24`. -/
def st_case_24 (c : Nat) : Goto :=
  if c < 65 then (if 48 ≤ c ∧ c ≤ 57 then st 128
    else st0)
  else if c > 70 then (if 97 ≤ c ∧ c ≤ 102 then st 128
    else st0)
  else st 128

/-- The label `st_case_25`. -/
def st_case_25 (c : Nat) : Goto :=
  if c = 33 then tr34
  else if c = 36 then tr34
  else if c = 37 then tr35
  else if c = 63 then tr34
  else if c = 93 then tr34
  else if c = 95 then tr34
  else if c = 126 then tr34
  else if c < 45 then (if 39 ≤ c ∧ c ≤ 43 then tr34
    else st0)
  else if c > 58 then (if c > 91 then (if 97 ≤ c ∧ c ≤ 122 then tr34
      else st0)
    else if c ≥ 65 then tr34
    else st0)
  else tr34

/-- The label `st_case_26`. -/
def st_case_26 (c : Nat) : Goto :=
  if c = 33 then st 26
  else if c = 36 then st 26
  else if c = 37 then st 27
  else if c = 61 then st 129
  else if c = 63 then st 26
  else if c = 93 then st 26
  else if c = 95 then st 26
  else if c = 126 then st 26
  else if c < 45 then (if 39 ≤ c ∧ c ≤ 43 then st 26
    else st0)
  else if c > 58 then (if c > 91 then (if 97 ≤ c ∧ c ≤ 122 then st 26
      else st0)
    else if c ≥ 65 then st 26
    else st0)
  else st 26

/-- The label `st_case_27`. -/
def st_case_27 (c : Nat) : Goto :=
  if c < 65 then (if 48 ≤ c ∧ c ≤ 57 then st 28
    else st0)
  else if c > 70 then (if 97 ≤ c ∧ c ≤ 102 then st 28
    else st0)
  else st 28

/-- The label `st_case_28`. -/
def st_case_28 (c : Nat) : Goto :=
  if c < 65 then (if 48 ≤ c ∧ c ≤ 57 then st 26
    else st0)
  else if c > 70 then (if 97 ≤ c ∧ c ≤ 102 then st 26
    else st0)
  else st 26

/-- The label `st_case_29`. -/
def st_case_29 (c : Nat) : Goto :=
  if c < 65 then (if 48 ≤ c ∧ c ≤ 57 then st 30
    else st0)
  else if c > 70 then (if 97 ≤ c ∧ c ≤ 102 then st 30
    else st0)
  else st 30

/-- The label `st_case_30`. -/
def st_case_30 (c : Nat) : Goto :=
  if c < 65 then (if 48 ≤ c ∧ c ≤ 57 then st 129
    else st0)
  else if c > 70 then (if 97 ≤ c ∧ c ≤ 102 then st 129
    else st0)
  else st 129

/-- The label `st_case_31`. -/
def st_case_31 (c : Nat) : Goto :=
  if c = 33 then st 26
  else if c = 36 then st 26
  else if c = 37 then st 27
  else if c = 63 then st 26
  else if c = 93 then st 26
  else if c = 95 then st 26
  else if c = 126 then st 26
  else if c < 45 then (if 39 ≤ c ∧ c ≤ 43 then st 26
    else st0)
  else if c > 58 then (if c > 91 then (if 97 ≤ c ∧ c ≤ 122 then st 26
      else st0)
    else if c ≥ 65 then st 26
    else st0)
  else st 26

/-- The label `st_case_32`. -/
def st_case_32 (c : Nat) : Goto :=
  if c < 65 then (if 48 ≤ c ∧ c ≤ 57 then st 33
    else st0)
  else if c > 90 then (if 97 ≤ c ∧ c ≤ 122 then st 120
    else st0)
  else st 120

/-- The label `st_case_33`. -/
def st_case_33 (c : Nat) : Goto :=
  if c = 45 then st 14
  else if c = 46 then st 34
  else if c < 65 then (if 48 ≤ c ∧ c ≤ 57 then st 39
    else st0)
  else if c > 90 then (if 97 ≤ c ∧ c ≤ 122 then st 15
    else st0)
  else st 15

/-- The label `st_case_34`. -/
def st_case_34 (c : Nat) : Goto :=
  if c < 65 then (if 48 ≤ c ∧ c ≤ 57 then st 35
    else st0)
  else if c > 90 then (if 97 ≤ c ∧ c ≤ 122 then st 120
    else st0)
  else st 120

/-- The label `st_case_35`. -/
def st_case_35 (c : Nat) : Goto :=
  if c = 45 then st 14
  else if c = 46 then st 36
  else if c < 65 then (if 48 ≤ c ∧ c ≤ 57 then st 37
    else st0)
  else if c > 90 then (if 97 ≤ c ∧ c ≤ 122 then st 15
    else st0)
  else st 15

/-- The label `st_case_36`. -/
def st_case_36 (c : Nat) : Goto :=
  if c < 65 then (if 48 ≤ c ∧ c ≤ 57 then st 130
    else st0)
  else if c > 90 then (if 97 ≤ c ∧ c ≤ 122 then st 120
    else st0)
  else st 120

/-- The label `st_case_37`. -/
def st_case_37 (c : Nat) : Goto :=
  if c = 45 then st 14
  else if c = 46 then st 36
  else if c < 65 then (if 48 ≤ c ∧ c ≤ 57 then st 38
    else st0)
  else if c > 90 then (if 97 ≤ c ∧ c ≤ 122 then st 15
    else st0)
  else st 15

/-- The label `st_case_38`. -/
def st_case_38 (c : Nat) : Goto :=
  if c = 45 then st 14
  else if c = 46 then st 36
  else if c < 65 then (if 48 ≤ c ∧ c ≤ 57 then st 15
    else st0)
  else if c > 90 then (if 97 ≤ c ∧ c ≤ 122 then st 15
    else st0)
  else st 15

/-- The label `st_case_39`. -/
def st_case_39 (c : Nat) : Goto :=
  if c = 45 then st 14
  else if c = 46 then st 34
  else if c < 65 then (if 48 ≤ c ∧ c ≤ 57 then st 40
    else st0)
  else if c > 90 then (if 97 ≤ c ∧ c ≤ 122 then st 15
    else st0)
  else st 15

/-- The label `st_case_40`. -/
def st_case_40 (c : Nat) : Goto :=
  if c = 45 then st 14
  else if c = 46 then st 34
  else if c < 65 then (if 48 ≤ c ∧ c ≤ 57 then st 15
    else st0)
  else if c > 90 then (if 97 ≤ c ∧ c ≤ 122 then st 15
    else st0)
  else st 15

/-- The label `st_case_41`. -/
def st_case_41 (c : Nat) : Goto :=
  if c = 45 then st 14
  else if c = 46 then st 32
  else if c < 65 then (if 48 ≤ c ∧ c ≤ 57 then st 42
    else st0)
  else if c > 90 then (if 97 ≤ c ∧ c ≤ 122 then st 15
    else st0)
  else st 15

/-- The label `st_case_42`. -/
def st_case_42 (c : Nat) : Goto :=
  if c = 45 then st 14
  else if c = 46 then st 32
  else if c < 65 then (if 48 ≤ c ∧ c ≤ 57 then st 15
    else st0)
  else if c > 90 then (if 97 ≤ c ∧ c ≤ 122 then st 15
    else st0)
  else st 15

/-- The label `st_case_43`. -/
def st_case_43 (c : Nat) : Goto :=
  if c = 58 then st 77
  else if c < 65 then (if 48 ≤ c ∧ c ≤ 57 then st 44
    else st0)
  else if c > 70 then (if 97 ≤ c ∧ c ≤ 102 then st 44
    else st0)
  else st 44

/-- The label `st_case_44`. -/
def st_case_44 (c : Nat) : Goto :=
  if c = 58 then st 48
  else if c = 93 then st 133
  else if c < 65 then (if 48 ≤ c ∧ c ≤ 57 then st 45
    else st0)
  else if c > 70 then (if 97 ≤ c ∧ c ≤ 102 then st 45
    else st0)
  else st 45

/-- The label `st_case_45`. -/
def st_case_45 (c : Nat) : Goto :=
  if c = 58 then st 48
  else if c = 93 then st 133
  else if c < 65 then (if 48 ≤ c ∧ c ≤ 57 then st 46
    else st0)
  else if c > 70 then (if 97 ≤ c ∧ c ≤ 102 then st 46
    else st0)
  else st 46

/-- The label `st_case_46`. -/
def st_case_46 (c : Nat) : Goto :=
  if c = 58 then st 48
  else if c = 93 then st 133
  else if c < 65 then (if 48 ≤ c ∧ c ≤ 57 then st 47
    else st0)
  else if c > 70 then (if 97 ≤ c ∧ c ≤ 102 then st 47
    else st0)
  else st 47

/-- The label `st_case_47`. -/
def st_case_47 (c : Nat) : Goto :=
  if c = 58 then st 48
  else if c = 93 then st 133
  else st0

/-- The label `st_case_48`. -/
def st_case_48 (c : Nat) : Goto :=
  if c = 58 then st 64
  else if c < 65 then (if 48 ≤ c ∧ c ≤ 57 then st 49
    else st0)
  else if c > 70 then (if 97 ≤ c ∧ c ≤ 102 then st 44
    else st0)
  else st 44

/-- The label `st_case_49`. -/
def st_case_49 (c : Nat) : Goto :=
  if c = 46 then st 50
  else if c = 58 then st 48
  else if c = 93 then st 133
  else if c < 65 then (if 48 ≤ c ∧ c ≤ 57 then st 62
    else st0)
  else if c > 70 then (if 97 ≤ c ∧ c ≤ 102 then st 45
    else st0)
  else st 45

/-- The label `st_case_50`. -/
def st_case_50 (c : Nat) : Goto :=
  if 48 ≤ c ∧ c ≤ 57 then st 51
  else st0

/-- The label `st_case_51`. -/
def st_case_51 (c : Nat) : Goto :=
  if c = 46 then st 52
  else if 48 ≤ c ∧ c ≤ 57 then st 60
  else st0

/-- The label `st_case_52`. -/
def st_case_52 (c : Nat) : Goto :=
  if 48 ≤ c ∧ c ≤ 57 then st 53
  else st0

/-- The label `st_case_53`. -/
def st_case_53 (c : Nat) : Goto :=
  if c = 46 then st 54
  else if 48 ≤ c ∧ c ≤ 57 then st 58
  else st0

/-- The label `st_case_54`. -/
def st_case_54 (c : Nat) : Goto :=
  if 48 ≤ c ∧ c ≤ 57 then st 55
  else st0

/-- The label `st_case_55`. -/
def st_case_55 (c : Nat) : Goto :=
  if c = 93 then st 133
  else if 48 ≤ c ∧ c ≤ 57 then st 56
  else st0

/-- The label `st_case_56`. -/
def st_case_56 (c : Nat) : Goto :=
  if c = 93 then st 133
  else if 48 ≤ c ∧ c ≤ 57 then st 57
  else st0

/-- The label `st_case_57`. -/
def st_case_57 (c : Nat) : Goto :=
  if c = 93 then st 133
  else st0

/-- The label `st_case_58`. -/
def st_case_58 (c : Nat) : Goto :=
  if c = 46 then st 54
  else if 48 ≤ c ∧ c ≤ 57 then st 59
  else st0

/-- The label `st_case_59`. -/
def st_case_59 (c : Nat) : Goto :=
  if c = 46 then st 54
  else st0

/-- The label `st_case_60`. -/
def st_case_60 (c : Nat) : Goto :=
  if c = 46 then st 52
  else if 48 ≤ c ∧ c ≤ 57 then st 61
  else st0

/-- The label `st_case_61`. -/
def st_case_61 (c : Nat) : Goto :=
  if c = 46 then st 52
  else st0

/-- The label `st_case_62`. -/
def st_case_62 (c : Nat) : Goto :=
  if c = 46 then st 50
  else if c = 58 then st 48
  else if c = 93 then st 133
  else if c < 65 then (if 48 ≤ c ∧ c ≤ 57 then st 63
    else st0)
  else if c > 70 then (if 97 ≤ c ∧ c ≤ 102 then st 46
    else st0)
  else st 46

/-- The label `st_case_63`. -/
def st_case_63 (c : Nat) : Goto :=
  if c = 46 then st 50
  else if c = 58 then st 48
  else if c = 93 then st 133
  else if c < 65 then (if 48 ≤ c ∧ c ≤ 57 then st 47
    else st0)
  else if c > 70 then (if 97 ≤ c ∧ c ≤ 102 then st 47
    else st0)
  else st 47

/-- The label `st_case_64`. -/
def st_case_64 (c : Nat) : Goto :=
  if c = 58 then st 73
  else if c = 93 then st 133
  else if c < 65 then (if 48 ≤ c ∧ c ≤ 57 then st 65
    else st0)
  else if c > 70 then (if 97 ≤ c ∧ c ≤ 102 then st 65
    else st0)
  else st 65

/-- The label `st_case_65`. -/
def st_case_65 (c : Nat) : Goto :=
  if c = 58 then st 69
  else if c = 93 then st 133
  else if c < 65 then (if 48 ≤ c ∧ c ≤ 57 then st 66
    else st0)
  else if c > 70 then (if 97 ≤ c ∧ c ≤ 102 then st 66
    else st0)
  else st 66

/-- The label `st_case_66`. -/
def st_case_66 (c : Nat) : Goto :=
  if c = 58 then st 69
  else if c = 93 then st 133
  else if c < 65 then (if 48 ≤ c ∧ c ≤ 57 then st 67
    else st0)
  else if c > 70 then (if 97 ≤ c ∧ c ≤ 102 then st 67
    else st0)
  else st 67

/-- The label `st_case_67`. -/
def st_case_67 (c : Nat) : Goto :=
  if c = 58 then st 69
  else if c = 93 then st 133
  else if c < 65 then (if 48 ≤ c ∧ c ≤ 57 then st 68
    else st0)
  else if c > 70 then (if 97 ≤ c ∧ c ≤ 102 then st 68
    else st0)
  else st 68

/-- The label `st_case_68`. -/
def st_case_68 (c : Nat) : Goto :=
  if c = 58 then st 69
  else if c = 93 then st 133
  else st0

/-- The label `st_case_69`. -/
def st_case_69 (c : Nat) : Goto :=
  if c < 65 then (if 48 ≤ c ∧ c ≤ 57 then st 70
    else st0)
  else if c > 70 then (if 97 ≤ c ∧ c ≤ 102 then st 65
    else st0)
  else st 65

/-- The label `st_case_70`. -/
def st_case_70 (c : Nat) : Goto :=
  if c = 46 then st 50
  else if c = 58 then st 69
  else if c = 93 then st 133
  else if c < 65 then (if 48 ≤ c ∧ c ≤ 57 then st 71
    else st0)
  else if c > 70 then (if 97 ≤ c ∧ c ≤ 102 then st 66
    else st0)
  else st 66

/-- The label `st_case_71`. -/
def st_case_71 (c : Nat) : Goto :=
  if c = 46 then st 50
  else if c = 58 then st 69
  else if c = 93 then st 133
  else if c < 65 then (if 48 ≤ c ∧ c ≤ 57 then st 72
    else st0)
  else if c > 70 then (if 97 ≤ c ∧ c ≤ 102 then st 67
    else st0)
  else st 67

/-- The label `st_case_72`. -/
def st_case_72 (c : Nat) : Goto :=
  if c = 46 then st 50
  else if c = 58 then st 69
  else if c = 93 then st 133
  else if c < 65 then (if 48 ≤ c ∧ c ≤ 57 then st 68
    else st0)
  else if c > 70 then (if 97 ≤ c ∧ c ≤ 102 then st 68
    else st0)
  else st 68

/-- The label `st_case_73`. -/
def st_case_73 (c : Nat) : Goto :=
  if 48 ≤ c ∧ c ≤ 57 then st 74
  else st0

/-- The label `st_case_74`. -/
def st_case_74 (c : Nat) : Goto :=
  if c = 46 then st 50
  else if 48 ≤ c ∧ c ≤ 57 then st 75
  else st0

/-- The label `st_case_75`. -/
def st_case_75 (c : Nat) : Goto :=
  if c = 46 then st 50
  else if 48 ≤ c ∧ c ≤ 57 then st 76
  else st0

/-- The label `st_case_76`. -/
def st_case_76 (c : Nat) : Goto :=
  if c = 46 then st 50
  else st0

/-- The label `st_case_77`. -/
def st_case_77 (c : Nat) : Goto :=
  if c = 58 then st 64
  else st0

/-- The label `st_case_78`. -/
def st_case_78 (c : Nat) : Goto :=
  if c = 33 then st 6
  else if c = 37 then st 7
  else if c = 45 then st 79
  else if c = 46 then st 108
  else if c = 58 then st 9
  else if c = 59 then st 6
  else if c = 61 then st 6
  else if c = 63 then st 6
  else if c = 64 then tr14
  else if c = 95 then st 6
  else if c = 126 then st 6
  else if c < 48 then (if 36 ≤ c ∧ c ≤ 47 then st 6
    else st0)
  else if c > 57 then (if c > 90 then (if 97 ≤ c ∧ c ≤ 122 then st 80
      else st0)
    else if c ≥ 65 then st 80
    else st0)
  else st 117

/-- The label `st_case_79`. -/
def st_case_79 (c : Nat) : Goto :=
  if c = 33 then st 6
  else if c = 37 then st 7
  else if c = 45 then st 79
  else if c = 58 then st 9
  else if c = 59 then st 6
  else if c = 61 then st 6
  else if c = 63 then st 6
  else if c = 64 then tr14
  else if c = 95 then st 6
  else if c = 126 then st 6
  else if c < 48 then (if 36 ≤ c ∧ c ≤ 47 then st 6
    else st0)
  else if c > 57 then (if c > 90 then (if 97 ≤ c ∧ c ≤ 122 then st 80
      else st0)
    else if c ≥ 65 then st 80
    else st0)
  else st 80

/-- The label `st_case_80`. -/
def st_case_80 (c : Nat) : Goto :=
  if c = 33 then st 6
  else if c = 37 then st 7
  else if c = 45 then st 79
  else if c = 46 then st 81
  else if c = 58 then st 9
  else if c = 59 then st 6
  else if c = 61 then st 6
  else if c = 63 then st 6
  else if c = 64 then tr14
  else if c = 95 then st 6
  else if c = 126 then st 6
  else if c < 48 then (if 36 ≤ c ∧ c ≤ 47 then st 6
    else st0)
  else if c > 57 then (if c > 90 then (if 97 ≤ c ∧ c ≤ 122 then st 80
      else st0)
    else if c ≥ 65 then st 80
    else st0)
  else st 80

/-- The label `st_case_81`. -/
def st_case_81 (c : Nat) : Goto :=
  if c = 33 then st 6
  else if c = 37 then st 7
  else if c = 58 then st 9
  else if c = 59 then st 6
  else if c = 61 then st 6
  else if c = 63 then st 6
  else if c = 64 then tr14
  else if c = 95 then st 6
  else if c = 126 then st 6
  else if c < 48 then (if 36 ≤ c ∧ c ≤ 47 then st 6
    else st0)
  else if c > 57 then (if c > 90 then (if 97 ≤ c ∧ c ≤ 122 then st 134
      else st0)
    else if c ≥ 65 then st 134
    else st0)
  else st 80

/-- The label `st_case_82`. -/
def st_case_82 (c : Nat) : Goto :=
  if c = 33 then st 6
  else if c = 37 then st 7
  else if c = 45 then st 82
  else if c = 58 then st 9
  else if c = 59 then st 6
  else if c = 61 then st 6
  else if c = 63 then st 6
  else if c = 64 then tr14
  else if c = 95 then st 6
  else if c = 126 then st 6
  else if c < 48 then (if 36 ≤ c ∧ c ≤ 47 then st 6
    else st0)
  else if c > 57 then (if c > 90 then (if 97 ≤ c ∧ c ≤ 122 then st 134
      else st0)
    else if c ≥ 65 then st 134
    else st0)
  else st 134

/-- The label `st_case_83`. -/
def st_case_83 (c : Nat) : Goto :=
  if c = 33 then st 9
  else if c = 37 then st 10
  else if c = 61 then st 9
  else if c = 64 then tr14
  else if c = 95 then st 9
  else if c = 126 then st 9
  else if c < 48 then (if 36 ≤ c ∧ c ≤ 46 then st 9
    else st0)
  else if c > 57 then (if c > 90 then (if 97 ≤ c ∧ c ≤ 122 then st 9
      else st0)
    else if c ≥ 65 then st 9
    else st0)
  else st 136

/-- The label `st_case_84`. -/
def st_case_84 (c : Nat) : Goto :=
  if c = 33 then st 141
  else if c = 37 then st 85
  else if c = 44 then st 6
  else if c = 58 then st 142
  else if c = 59 then st 6
  else if c = 61 then st 6
  else if c = 63 then st 6
  else if c = 64 then tr14
  else if c = 91 then st 127
  else if c = 93 then st 127
  else if c = 95 then st 141
  else if c = 126 then st 141
  else if c < 65 then (if 36 ≤ c ∧ c ≤ 57 then st 141
    else st0)
  else if c > 90 then (if 97 ≤ c ∧ c ≤ 122 then st 141
    else st0)
  else st 141

/-- The label `st_case_85`. -/
def st_case_85 (c : Nat) : Goto :=
  if c < 65 then (if 48 ≤ c ∧ c ≤ 57 then st 86
    else st0)
  else if c > 70 then (if 97 ≤ c ∧ c ≤ 102 then st 86
    else st0)
  else st 86

/-- The label `st_case_86`. -/
def st_case_86 (c : Nat) : Goto :=
  if c < 65 then (if 48 ≤ c ∧ c ≤ 57 then st 141
    else st0)
  else if c > 70 then (if 97 ≤ c ∧ c ≤ 102 then st 141
    else st0)
  else st 141

/-- The label `st_case_87`. -/
def st_case_87 (c : Nat) : Goto :=
  if c < 65 then (if 48 ≤ c ∧ c ≤ 57 then st 88
    else st0)
  else if c > 70 then (if 97 ≤ c ∧ c ≤ 102 then st 88
    else st0)
  else st 88

/-- The label `st_case_88`. -/
def st_case_88 (c : Nat) : Goto :=
  if c < 65 then (if 48 ≤ c ∧ c ≤ 57 then st 142
    else st0)
  else if c > 70 then (if 97 ≤ c ∧ c ≤ 102 then st 142
    else st0)
  else st 142

/-- The label `st_case_89`. -/
def st_case_89 (c : Nat) : Goto :=
  if c = 33 then st 143
  else if c = 37 then st 90
  else if c = 44 then st 9
  else if c = 47 then st 128
  else if c = 58 then st 128
  else if c = 61 then st 9
  else if c = 64 then tr14
  else if c = 91 then st 128
  else if c = 93 then st 128
  else if c = 95 then st 143
  else if c = 126 then st 143
  else if c < 65 then (if 36 ≤ c ∧ c ≤ 57 then st 143
    else st0)
  else if c > 90 then (if 97 ≤ c ∧ c ≤ 122 then st 143
    else st0)
  else st 143

/-- The label `st_case_90`. -/
def st_case_90 (c : Nat) : Goto :=
  if c < 65 then (if 48 ≤ c ∧ c ≤ 57 then st 91
    else st0)
  else if c > 70 then (if 97 ≤ c ∧ c ≤ 102 then st 91
    else st0)
  else st 91

/-- The label `st_case_91`. -/
def st_case_91 (c : Nat) : Goto :=
  if c < 65 then (if 48 ≤ c ∧ c ≤ 57 then st 143
    else st0)
  else if c > 70 then (if 97 ≤ c ∧ c ≤ 102 then st 143
    else st0)
  else st 143

/-- The label `st_case_92`. -/
def st_case_92 (c : Nat) : Goto :=
  if c = 33 then st 144
  else if c = 37 then st 93
  else if c = 44 then st 6
  else if c = 58 then st 143
  else if c = 59 then st 6
  else if c = 61 then st 6
  else if c = 63 then st 6
  else if c = 64 then tr14
  else if c = 91 then st 128
  else if c = 93 then st 128
  else if c = 95 then st 144
  else if c = 126 then st 144
  else if c < 65 then (if 36 ≤ c ∧ c ≤ 57 then st 144
    else st0)
  else if c > 90 then (if 97 ≤ c ∧ c ≤ 122 then st 144
    else st0)
  else st 144

/-- The label `st_case_93`. -/
def st_case_93 (c : Nat) : Goto :=
  if c < 65 then (if 48 ≤ c ∧ c ≤ 57 then st 94
    else st0)
  else if c > 70 then (if 97 ≤ c ∧ c ≤ 102 then st 94
    else st0)
  else st 94

/-- The label `st_case_94`. -/
def st_case_94 (c : Nat) : Goto :=
  if c < 65 then (if 48 ≤ c ∧ c ≤ 57 then st 144
    else st0)
  else if c > 70 then (if 97 ≤ c ∧ c ≤ 102 then st 144
    else st0)
  else st 144

/-- The label `st_case_95`. -/
def st_case_95 (c : Nat) : Goto :=
  if c = 33 then tr105
  else if c = 37 then tr106
  else if c = 38 then st 6
  else if c = 44 then st 6
  else if c = 58 then tr107
  else if c = 59 then st 6
  else if c = 61 then st 6
  else if c = 64 then tr14
  else if c = 91 then tr34
  else if c = 93 then tr34
  else if c = 95 then tr105
  else if c = 126 then tr105
  else if c < 63 then (if 36 ≤ c ∧ c ≤ 57 then tr105
    else st0)
  else if c > 90 then (if 97 ≤ c ∧ c ≤ 122 then tr105
    else st0)
  else tr105

/-- The label `st_case_96`. -/
def st_case_96 (c : Nat) : Goto :=
  if c = 33 then st 96
  else if c = 37 then st 97
  else if c = 38 then st 6
  else if c = 44 then st 6
  else if c = 58 then st 99
  else if c = 59 then st 6
  else if c = 61 then st 146
  else if c = 64 then tr14
  else if c = 91 then st 26
  else if c = 93 then st 26
  else if c = 95 then st 96
  else if c = 126 then st 96
  else if c < 63 then (if 36 ≤ c ∧ c ≤ 57 then st 96
    else st0)
  else if c > 90 then (if 97 ≤ c ∧ c ≤ 122 then st 96
    else st0)
  else st 96

/-- The label `st_case_97`. -/
def st_case_97 (c : Nat) : Goto :=
  if c < 65 then (if 48 ≤ c ∧ c ≤ 57 then st 98
    else st0)
  else if c > 70 then (if 97 ≤ c ∧ c ≤ 102 then st 98
    else st0)
  else st 98

/-- The label `st_case_98`. -/
def st_case_98 (c : Nat) : Goto :=
  if c < 65 then (if 48 ≤ c ∧ c ≤ 57 then st 96
    else st0)
  else if c > 70 then (if 97 ≤ c ∧ c ≤ 102 then st 96
    else st0)
  else st 96

/-- The label `st_case_99`. -/
def st_case_99 (c : Nat) : Goto :=
  if c = 33 then st 99
  else if c = 37 then st 100
  else if c = 38 then st 9
  else if c = 44 then st 9
  else if c = 47 then st 26
  else if c = 58 then st 26
  else if c = 61 then st 145
  else if c = 63 then st 26
  else if c = 64 then tr14
  else if c = 91 then st 26
  else if c = 93 then st 26
  else if c = 95 then st 99
  else if c = 126 then st 99
  else if c < 65 then (if 36 ≤ c ∧ c ≤ 57 then st 99
    else st0)
  else if c > 90 then (if 97 ≤ c ∧ c ≤ 122 then st 99
    else st0)
  else st 99

/-- The label `st_case_100`. -/
def st_case_100 (c : Nat) : Goto :=
  if c < 65 then (if 48 ≤ c ∧ c ≤ 57 then st 101
    else st0)
  else if c > 70 then (if 97 ≤ c ∧ c ≤ 102 then st 101
    else st0)
  else st 101

/-- The label `st_case_101`. -/
def st_case_101 (c : Nat) : Goto :=
  if c < 65 then (if 48 ≤ c ∧ c ≤ 57 then st 99
    else st0)
  else if c > 70 then (if 97 ≤ c ∧ c ≤ 102 then st 99
    else st0)
  else st 99

/-- The label `st_case_102`. -/
def st_case_102 (c : Nat) : Goto :=
  if c < 65 then (if 48 ≤ c ∧ c ≤ 57 then st 103
    else st0)
  else if c > 70 then (if 97 ≤ c ∧ c ≤ 102 then st 103
    else st0)
  else st 103

/-- The label `st_case_103`. -/
def st_case_103 (c : Nat) : Goto :=
  if c < 65 then (if 48 ≤ c ∧ c ≤ 57 then st 145
    else st0)
  else if c > 70 then (if 97 ≤ c ∧ c ≤ 102 then st 145
    else st0)
  else st 145

/-- The label `st_case_104`. -/
def st_case_104 (c : Nat) : Goto :=
  if c = 33 then st 99
  else if c = 37 then st 100
  else if c = 38 then st 9
  else if c = 44 then st 9
  else if c = 47 then st 26
  else if c = 58 then st 26
  else if c = 61 then st 9
  else if c = 63 then st 26
  else if c = 64 then tr14
  else if c = 91 then st 26
  else if c = 93 then st 26
  else if c = 95 then st 99
  else if c = 126 then st 99
  else if c < 65 then (if 36 ≤ c ∧ c ≤ 57 then st 99
    else st0)
  else if c > 90 then (if 97 ≤ c ∧ c ≤ 122 then st 99
    else st0)
  else st 99

/-- The label `st_case_105`. -/
def st_case_105 (c : Nat) : Goto :=
  if c < 65 then (if 48 ≤ c ∧ c ≤ 57 then st 106
    else st0)
  else if c > 70 then (if 97 ≤ c ∧ c ≤ 102 then st 106
    else st0)
  else st 106

/-- The label `st_case_106`. -/
def st_case_106 (c : Nat) : Goto :=
  if c < 65 then (if 48 ≤ c ∧ c ≤ 57 then st 146
    else st0)
  else if c > 70 then (if 97 ≤ c ∧ c ≤ 102 then st 146
    else st0)
  else st 146

/-- The label `st_case_107`. -/
def st_case_107 (c : Nat) : Goto :=
  if c = 33 then st 96
  else if c = 37 then st 97
  else if c = 38 then st 6
  else if c = 44 then st 6
  else if c = 58 then st 99
  else if c = 59 then st 6
  else if c = 61 then st 6
  else if c = 64 then tr14
  else if c = 91 then st 26
  else if c = 93 then st 26
  else if c = 95 then st 96
  else if c = 126 then st 96
  else if c < 63 then (if 36 ≤ c ∧ c ≤ 57 then st 96
    else st0)
  else if c > 90 then (if 97 ≤ c ∧ c ≤ 122 then st 96
    else st0)
  else st 96

/-- The label `st_case_108`. -/
def st_case_108 (c : Nat) : Goto :=
  if c = 33 then st 6
  else if c = 37 then st 7
  else if c = 58 then st 9
  else if c = 59 then st 6
  else if c = 61 then st 6
  else if c = 63 then st 6
  else if c = 64 then tr14
  else if c = 95 then st 6
  else if c = 126 then st 6
  else if c < 48 then (if 36 ≤ c ∧ c ≤ 47 then st 6
    else st0)
  else if c > 57 then (if c > 90 then (if 97 ≤ c ∧ c ≤ 122 then st 134
      else st0)
    else if c ≥ 65 then st 134
    else st0)
  else st 109

/-- The label `st_case_109`. -/
def st_case_109 (c : Nat) : Goto :=
  if c = 33 then st 6
  else if c = 37 then st 7
  else if c = 45 then st 79
  else if c = 46 then st 110
  else if c = 58 then st 9
  else if c = 59 then st 6
  else if c = 61 then st 6
  else if c = 63 then st 6
  else if c = 64 then tr14
  else if c = 95 then st 6
  else if c = 126 then st 6
  else if c < 48 then (if 36 ≤ c ∧ c ≤ 47 then st 6
    else st0)
  else if c > 57 then (if c > 90 then (if 97 ≤ c ∧ c ≤ 122 then st 80
      else st0)
    else if c ≥ 65 then st 80
    else st0)
  else st 115

/-- The label `st_case_110`. -/
def st_case_110 (c : Nat) : Goto :=
  if c = 33 then st 6
  else if c = 37 then st 7
  else if c = 58 then st 9
  else if c = 59 then st 6
  else if c = 61 then st 6
  else if c = 63 then st 6
  else if c = 64 then tr14
  else if c = 95 then st 6
  else if c = 126 then st 6
  else if c < 48 then (if 36 ≤ c ∧ c ≤ 47 then st 6
    else st0)
  else if c > 57 then (if c > 90 then (if 97 ≤ c ∧ c ≤ 122 then st 134
      else st0)
    else if c ≥ 65 then st 134
    else st0)
  else st 111

/-- The label `st_case_111`. -/
def st_case_111 (c : Nat) : Goto :=
  if c = 33 then st 6
  else if c = 37 then st 7
  else if c = 45 then st 79
  else if c = 46 then st 112
  else if c = 58 then st 9
  else if c = 59 then st 6
  else if c = 61 then st 6
  else if c = 63 then st 6
  else if c = 64 then tr14
  else if c = 95 then st 6
  else if c = 126 then st 6
  else if c < 48 then (if 36 ≤ c ∧ c ≤ 47 then st 6
    else st0)
  else if c > 57 then (if c > 90 then (if 97 ≤ c ∧ c ≤ 122 then st 80
      else st0)
    else if c ≥ 65 then st 80
    else st0)
  else st 113

/-- The label `st_case_112`. -/
def st_case_112 (c : Nat) : Goto :=
  if c = 33 then st 6
  else if c = 37 then st 7
  else if c = 58 then st 9
  else if c = 59 then st 6
  else if c = 61 then st 6
  else if c = 63 then st 6
  else if c = 64 then tr14
  else if c = 95 then st 6
  else if c = 126 then st 6
  else if c < 48 then (if 36 ≤ c ∧ c ≤ 47 then st 6
    else st0)
  else if c > 57 then (if c > 90 then (if 97 ≤ c ∧ c ≤ 122 then st 134
      else st0)
    else if c ≥ 65 then st 134
    else st0)
  else st 147

/-- The label `st_case_113`. -/
def st_case_113 (c : Nat) : Goto :=
  if c = 33 then st 6
  else if c = 37 then st 7
  else if c = 45 then st 79
  else if c = 46 then st 112
  else if c = 58 then st 9
  else if c = 59 then st 6
  else if c = 61 then st 6
  else if c = 63 then st 6
  else if c = 64 then tr14
  else if c = 95 then st 6
  else if c = 126 then st 6
  else if c < 48 then (if 36 ≤ c ∧ c ≤ 47 then st 6
    else st0)
  else if c > 57 then (if c > 90 then (if 97 ≤ c ∧ c ≤ 122 then st 80
      else st0)
    else if c ≥ 65 then st 80
    else st0)
  else st 114

/-- The label `st_case_114`. -/
def st_case_114 (c : Nat) : Goto :=
  if c = 33 then st 6
  else if c = 37 then st 7
  else if c = 45 then st 79
  else if c = 46 then st 112
  else if c = 58 then st 9
  else if c = 59 then st 6
  else if c = 61 then st 6
  else if c = 63 then st 6
  else if c = 64 then tr14
  else if c = 95 then st 6
  else if c = 126 then st 6
  else if c < 48 then (if 36 ≤ c ∧ c ≤ 47 then st 6
    else st0)
  else if c > 57 then (if c > 90 then (if 97 ≤ c ∧ c ≤ 122 then st 80
      else st0)
    else if c ≥ 65 then st 80
    else st0)
  else st 80

/-- The label `st_case_115`. -/
def st_case_115 (c : Nat) : Goto :=
  if c = 33 then st 6
  else if c = 37 then st 7
  else if c = 45 then st 79
  else if c = 46 then st 110
  else if c = 58 then st 9
  else if c = 59 then st 6
  else if c = 61 then st 6
  else if c = 63 then st 6
  else if c = 64 then tr14
  else if c = 95 then st 6
  else if c = 126 then st 6
  else if c < 48 then (if 36 ≤ c ∧ c ≤ 47 then st 6
    else st0)
  else if c > 57 then (if c > 90 then (if 97 ≤ c ∧ c ≤ 122 then st 80
      else st0)
    else if c ≥ 65 then st 80
    else st0)
  else st 116

/-- The label `st_case_116`. -/
def st_case_116 (c : Nat) : Goto :=
  if c = 33 then st 6
  else if c = 37 then st 7
  else if c = 45 then st 79
  else if c = 46 then st 110
  else if c = 58 then st 9
  else if c = 59 then st 6
  else if c = 61 then st 6
  else if c = 63 then st 6
  else if c = 64 then tr14
  else if c = 95 then st 6
  else if c = 126 then st 6
  else if c < 48 then (if 36 ≤ c ∧ c ≤ 47 then st 6
    else st0)
  else if c > 57 then (if c > 90 then (if 97 ≤ c ∧ c ≤ 122 then st 80
      else st0)
    else if c ≥ 65 then st 80
    else st0)
  else st 80

/-- The label `st_case_117`. -/
def st_case_117 (c : Nat) : Goto :=
  if c = 33 then st 6
  else if c = 37 then st 7
  else if c = 45 then st 79
  else if c = 46 then st 108
  else if c = 58 then st 9
  else if c = 59 then st 6
  else if c = 61 then st 6
  else if c = 63 then st 6
  else if c = 64 then tr14
  else if c = 95 then st 6
  else if c = 126 then st 6
  else if c < 48 then (if 36 ≤ c ∧ c ≤ 47 then st 6
    else st0)
  else if c > 57 then (if c > 90 then (if 97 ≤ c ∧ c ≤ 122 then st 80
      else st0)
    else if c ≥ 65 then st 80
    else st0)
  else st 118

/-- The label `st_case_118`. -/
def st_case_118 (c : Nat) : Goto :=
  if c = 33 then st 6
  else if c = 37 then st 7
  else if c = 45 then st 79
  else if c = 46 then st 108
  else if c = 58 then st 9
  else if c = 59 then st 6
  else if c = 61 then st 6
  else if c = 63 then st 6
  else if c = 64 then tr14
  else if c = 95 then st 6
  else if c = 126 then st 6
  else if c < 48 then (if 36 ≤ c ∧ c ≤ 47 then st 6
    else st0)
  else if c > 57 then (if c > 90 then (if 97 ≤ c ∧ c ≤ 122 then st 80
      else st0)
    else if c ≥ 65 then st 80
    else st0)
  else st 80

/-- The label `st_case_119`. -/
def st_case_119 (c : Nat) : Goto :=
  if c = 58 then tr128
  else st0

/-- The label `st_case_120`. -/
def st_case_120 (c : Nat) : Goto :=
  if c = 45 then st 17
  else if c = 46 then st 121
  else if c = 58 then st 18
  else if c = 59 then tr131
  else if c = 63 then tr132
  else if c < 65 then (if 48 ≤ c ∧ c ≤ 57 then st 120
    else st0)
  else if c > 90 then (if 97 ≤ c ∧ c ≤ 122 then st 120
    else st0)
  else st 120

/-- The label `st_case_121`. -/
def st_case_121 (c : Nat) : Goto :=
  if c = 58 then st 18
  else if c = 59 then tr131
  else if c = 63 then tr132
  else if c < 65 then (if 48 ≤ c ∧ c ≤ 57 then st 15
    else st0)
  else if c > 90 then (if 97 ≤ c ∧ c ≤ 122 then st 120
    else st0)
  else st 120

/-- The label `st_case_122`. -/
def st_case_122 (c : Nat) : Goto :=
  if c = 59 then tr131
  else if c = 63 then tr132
  else if 48 ≤ c ∧ c ≤ 57 then st 123
  else st0

/-- The label `st_case_123`. -/
def st_case_123 (c : Nat) : Goto :=
  if c = 59 then tr131
  else if c = 63 then tr132
  else if 48 ≤ c ∧ c ≤ 57 then st 124
  else st0

/-- The label `st_case_124`. -/
def st_case_124 (c : Nat) : Goto :=
  if c = 59 then tr131
  else if c = 63 then tr132
  else if 48 ≤ c ∧ c ≤ 57 then st 125
  else st0

/-- The label `st_case_125`. -/
def st_case_125 (c : Nat) : Goto :=
  if c = 59 then tr131
  else if c = 63 then tr132
  else if 48 ≤ c ∧ c ≤ 57 then st 126
  else st0

/-- The label `st_case_126`. -/
def st_case_126 (c : Nat) : Goto :=
  if c = 59 then tr131
  else if c = 63 then tr132
  else st0

/-- The label `st_case_127`. -/
def st_case_127 (c : Nat) : Goto :=
  if c = 33 then st 127
  else if c = 37 then st 20
  else if c = 59 then st 19
  else if c = 61 then st 22
  else if c = 63 then tr139
  else if c = 93 then st 127
  else if c = 95 then st 127
  else if c = 126 then st 127
  else if c < 45 then (if 36 ≤ c ∧ c ≤ 43 then st 127
    else st0)
  else if c > 58 then (if c > 91 then (if 97 ≤ c ∧ c ≤ 122 then st 127
      else st0)
    else if c ≥ 65 then st 127
    else st0)
  else st 127

/-- The label `st_case_128`. -/
def st_case_128 (c : Nat) : Goto :=
  if c = 33 then st 128
  else if c = 37 then st 23
  else if c = 59 then st 19
  else if c = 63 then tr139
  else if c = 93 then st 128
  else if c = 95 then st 128
  else if c = 126 then st 128
  else if c < 45 then (if 36 ≤ c ∧ c ≤ 43 then st 128
    else st0)
  else if c > 58 then (if c > 91 then (if 97 ≤ c ∧ c ≤ 122 then st 128
      else st0)
    else if c ≥ 65 then st 128
    else st0)
  else st 128

/-- The label `st_case_129`. -/
def st_case_129 (c : Nat) : Goto :=
  if c = 33 then st 129
  else if c = 37 then st 29
  else if c = 38 then st 31
  else if c = 63 then st 129
  else if c = 93 then st 129
  else if c = 95 then st 129
  else if c = 126 then st 129
  else if c < 45 then (if 36 ≤ c ∧ c ≤ 43 then st 129
    else st0)
  else if c > 58 then (if c > 91 then (if 97 ≤ c ∧ c ≤ 122 then st 129
      else st0)
    else if c ≥ 65 then st 129
    else st0)
  else st 129

/-- The label `st_case_130`. -/
def st_case_130 (c : Nat) : Goto :=
  if c = 45 then st 14
  else if c = 46 then st 16
  else if c = 58 then st 18
  else if c = 59 then tr131
  else if c = 63 then tr132
  else if c < 65 then (if 48 ≤ c ∧ c ≤ 57 then st 131
    else st0)
  else if c > 90 then (if 97 ≤ c ∧ c ≤ 122 then st 15
    else st0)
  else st 15

/-- The label `st_case_131`. -/
def st_case_131 (c : Nat) : Goto :=
  if c = 45 then st 14
  else if c = 46 then st 16
  else if c = 58 then st 18
  else if c = 59 then tr131
  else if c = 63 then tr132
  else if c < 65 then (if 48 ≤ c ∧ c ≤ 57 then st 132
    else st0)
  else if c > 90 then (if 97 ≤ c ∧ c ≤ 122 then st 15
    else st0)
  else st 15

/-- The label `st_case_132`. -/
def st_case_132 (c : Nat) : Goto :=
  if c = 45 then st 14
  else if c = 46 then st 16
  else if c = 58 then st 18
  else if c = 59 then tr131
  else if c = 63 then tr132
  else if c < 65 then (if 48 ≤ c ∧ c ≤ 57 then st 15
    else st0)
  else if c > 90 then (if 97 ≤ c ∧ c ≤ 122 then st 15
    else st0)
  else st 15

/-- The label `st_case_133`. -/
def st_case_133 (c : Nat) : Goto :=
  if c = 58 then st 18
  else if c = 59 then tr131
  else if c = 63 then tr132
  else st0

/-- The label `st_case_134`. -/
def st_case_134 (c : Nat) : Goto :=
  if c = 33 then st 6
  else if c = 37 then st 7
  else if c = 45 then st 82
  else if c = 46 then st 135
  else if c = 58 then st 83
  else if c = 59 then tr146
  else if c = 61 then st 6
  else if c = 63 then tr147
  else if c = 64 then tr14
  else if c = 95 then st 6
  else if c = 126 then st 6
  else if c < 48 then (if 36 ≤ c ∧ c ≤ 47 then st 6
    else st0)
  else if c > 57 then (if c > 90 then (if 97 ≤ c ∧ c ≤ 122 then st 134
      else st0)
    else if c ≥ 65 then st 134
    else st0)
  else st 134

/-- The label `st_case_135`. -/
def st_case_135 (c : Nat) : Goto :=
  if c = 33 then st 6
  else if c = 37 then st 7
  else if c = 58 then st 83
  else if c = 59 then tr146
  else if c = 61 then st 6
  else if c = 63 then tr147
  else if c = 64 then tr14
  else if c = 95 then st 6
  else if c = 126 then st 6
  else if c < 48 then (if 36 ≤ c ∧ c ≤ 47 then st 6
    else st0)
  else if c > 57 then (if c > 90 then (if 97 ≤ c ∧ c ≤ 122 then st 134
      else st0)
    else if c ≥ 65 then st 134
    else st0)
  else st 80

/-- The label `st_case_136`. -/
def st_case_136 (c : Nat) : Goto :=
  if c = 33 then st 9
  else if c = 37 then st 10
  else if c = 59 then tr131
  else if c = 61 then st 9
  else if c = 63 then tr132
  else if c = 64 then tr14
  else if c = 95 then st 9
  else if c = 126 then st 9
  else if c < 48 then (if 36 ≤ c ∧ c ≤ 46 then st 9
    else st0)
  else if c > 57 then (if c > 90 then (if 97 ≤ c ∧ c ≤ 122 then st 9
      else st0)
    else if c ≥ 65 then st 9
    else st0)
  else st 137

/-- The label `st_case_137`. -/
def st_case_137 (c : Nat) : Goto :=
  if c = 33 then st 9
  else if c = 37 then st 10
  else if c = 59 then tr131
  else if c = 61 then st 9
  else if c = 63 then tr132
  else if c = 64 then tr14
  else if c = 95 then st 9
  else if c = 126 then st 9
  else if c < 48 then (if 36 ≤ c ∧ c ≤ 46 then st 9
    else st0)
  else if c > 57 then (if c > 90 then (if 97 ≤ c ∧ c ≤ 122 then st 9
      else st0)
    else if c ≥ 65 then st 9
    else st0)
  else st 138

/-- The label `st_case_138`. -/
def st_case_138 (c : Nat) : Goto :=
  if c = 33 then st 9
  else if c = 37 then st 10
  else if c = 59 then tr131
  else if c = 61 then st 9
  else if c = 63 then tr132
  else if c = 64 then tr14
  else if c = 95 then st 9
  else if c = 126 then st 9
  else if c < 48 then (if 36 ≤ c ∧ c ≤ 46 then st 9
    else st0)
  else if c > 57 then (if c > 90 then (if 97 ≤ c ∧ c ≤ 122 then st 9
      else st0)
    else if c ≥ 65 then st 9
    else st0)
  else st 139

/-- The label `st_case_139`. -/
def st_case_139 (c : Nat) : Goto :=
  if c = 33 then st 9
  else if c = 37 then st 10
  else if c = 59 then tr131
  else if c = 61 then st 9
  else if c = 63 then tr132
  else if c = 64 then tr14
  else if c = 95 then st 9
  else if c = 126 then st 9
  else if c < 48 then (if 36 ≤ c ∧ c ≤ 46 then st 9
    else st0)
  else if c > 57 then (if c > 90 then (if 97 ≤ c ∧ c ≤ 122 then st 9
      else st0)
    else if c ≥ 65 then st 9
    else st0)
  else st 140

/-- The label `st_case_140`. -/
def st_case_140 (c : Nat) : Goto :=
  if c = 33 then st 9
  else if c = 37 then st 10
  else if c = 59 then tr131
  else if c = 61 then st 9
  else if c = 63 then tr132
  else if c = 64 then tr14
  else if c = 95 then st 9
  else if c = 126 then st 9
  else if c < 48 then (if 36 ≤ c ∧ c ≤ 46 then st 9
    else st0)
  else if c > 57 then (if c > 90 then (if 97 ≤ c ∧ c ≤ 122 then st 9
      else st0)
    else if c ≥ 65 then st 9
    else st0)
  else st 9

/-- The label `st_case_141`. -/
def st_case_141 (c : Nat) : Goto :=
  if c = 33 then st 141
  else if c = 37 then st 85
  else if c = 44 then st 6
  else if c = 58 then st 142
  else if c = 59 then st 84
  else if c = 61 then st 92
  else if c = 63 then tr154
  else if c = 64 then tr14
  else if c = 91 then st 127
  else if c = 93 then st 127
  else if c = 95 then st 141
  else if c = 126 then st 141
  else if c < 65 then (if 36 ≤ c ∧ c ≤ 57 then st 141
    else st0)
  else if c > 90 then (if 97 ≤ c ∧ c ≤ 122 then st 141
    else st0)
  else st 141

/-- The label `st_case_142`. -/
def st_case_142 (c : Nat) : Goto :=
  if c = 33 then st 142
  else if c = 37 then st 87
  else if c = 44 then st 9
  else if c = 47 then st 127
  else if c = 58 then st 127
  else if c = 59 then st 19
  else if c = 61 then st 89
  else if c = 63 then tr139
  else if c = 64 then tr14
  else if c = 91 then st 127
  else if c = 93 then st 127
  else if c = 95 then st 142
  else if c = 126 then st 142
  else if c < 65 then (if 36 ≤ c ∧ c ≤ 57 then st 142
    else st0)
  else if c > 90 then (if 97 ≤ c ∧ c ≤ 122 then st 142
    else st0)
  else st 142

/-- The label `st_case_143`. -/
def st_case_143 (c : Nat) : Goto :=
  if c = 33 then st 143
  else if c = 37 then st 90
  else if c = 44 then st 9
  else if c = 47 then st 128
  else if c = 58 then st 128
  else if c = 59 then st 19
  else if c = 61 then st 9
  else if c = 63 then tr139
  else if c = 64 then tr14
  else if c = 91 then st 128
  else if c = 93 then st 128
  else if c = 95 then st 143
  else if c = 126 then st 143
  else if c < 65 then (if 36 ≤ c ∧ c ≤ 57 then st 143
    else st0)
  else if c > 90 then (if 97 ≤ c ∧ c ≤ 122 then st 143
    else st0)
  else st 143

/-- The label `st_case_144`. -/
def st_case_144 (c : Nat) : Goto :=
  if c = 33 then st 144
  else if c = 37 then st 93
  else if c = 44 then st 6
  else if c = 58 then st 143
  else if c = 59 then st 84
  else if c = 61 then st 6
  else if c = 63 then tr154
  else if c = 64 then tr14
  else if c = 91 then st 128
  else if c = 93 then st 128
  else if c = 95 then st 144
  else if c = 126 then st 144
  else if c < 65 then (if 36 ≤ c ∧ c ≤ 57 then st 144
    else st0)
  else if c > 90 then (if 97 ≤ c ∧ c ≤ 122 then st 144
    else st0)
  else st 144

/-- The label `st_case_145`. -/
def st_case_145 (c : Nat) : Goto :=
  if c = 33 then st 145
  else if c = 37 then st 102
  else if c = 38 then st 104
  else if c = 44 then st 9
  else if c = 47 then st 129
  else if c = 58 then st 129
  else if c = 61 then st 9
  else if c = 63 then st 129
  else if c = 64 then tr14
  else if c = 91 then st 129
  else if c = 93 then st 129
  else if c = 95 then st 145
  else if c = 126 then st 145
  else if c < 65 then (if 36 ≤ c ∧ c ≤ 57 then st 145
    else st0)
  else if c > 90 then (if 97 ≤ c ∧ c ≤ 122 then st 145
    else st0)
  else st 145

/-- The label `st_case_146`. -/
def st_case_146 (c : Nat) : Goto :=
  if c = 33 then st 146
  else if c = 37 then st 105
  else if c = 38 then st 107
  else if c = 44 then st 6
  else if c = 58 then st 145
  else if c = 59 then st 6
  else if c = 61 then st 6
  else if c = 64 then tr14
  else if c = 91 then st 129
  else if c = 93 then st 129
  else if c = 95 then st 146
  else if c = 126 then st 146
  else if c < 63 then (if 36 ≤ c ∧ c ≤ 57 then st 146
    else st0)
  else if c > 90 then (if 97 ≤ c ∧ c ≤ 122 then st 146
    else st0)
  else st 146

/-- The label `st_case_147`. -/
def st_case_147 (c : Nat) : Goto :=
  if c = 33 then st 6
  else if c = 37 then st 7
  else if c = 45 then st 79
  else if c = 46 then st 81
  else if c = 58 then st 83
  else if c = 59 then tr146
  else if c = 61 then st 6
  else if c = 63 then tr147
  else if c = 64 then tr14
  else if c = 95 then st 6
  else if c = 126 then st 6
  else if c < 48 then (if 36 ≤ c ∧ c ≤ 47 then st 6
    else st0)
  else if c > 57 then (if c > 90 then (if 97 ≤ c ∧ c ≤ 122 then st 80
      else st0)
    else if c ≥ 65 then st 80
    else st0)
  else st 148

/-- The label `st_case_148`. -/
def st_case_148 (c : Nat) : Goto :=
  if c = 33 then st 6
  else if c = 37 then st 7
  else if c = 45 then st 79
  else if c = 46 then st 81
  else if c = 58 then st 83
  else if c = 59 then tr146
  else if c = 61 then st 6
  else if c = 63 then tr147
  else if c = 64 then tr14
  else if c = 95 then st 6
  else if c = 126 then st 6
  else if c < 48 then (if 36 ≤ c ∧ c ≤ 47 then st 6
    else st0)
  else if c > 57 then (if c > 90 then (if 97 ≤ c ∧ c ≤ 122 then st 80
      else st0)
    else if c ≥ 65 then st 80
    else st0)
  else st 149

/-- The label `st_case_149`. -/
def st_case_149 (c : Nat) : Goto :=
  if c = 33 then st 6
  else if c = 37 then st 7
  else if c = 45 then st 79
  else if c = 46 then st 81
  else if c = 58 then st 83
  else if c = 59 then tr146
  else if c = 61 then st 6
  else if c = 63 then tr147
  else if c = 64 then tr14
  else if c = 95 then st 6
  else if c = 126 then st 6
  else if c < 48 then (if 36 ≤ c ∧ c ≤ 47 then st 6
    else st0)
  else if c > 57 then (if c > 90 then (if 97 ≤ c ∧ c ≤ 122 then st 80
      else st0)
    else if c ≥ 65 then st 80
    else st0)
  else st 80

/-- The labels `st_case_N`, in the order of their numbers. -/
def st_cases : List (Nat → Goto) :=
  [st_case_0, st_case_1, st_case_2, st_case_3, st_case_4, st_case_5,
   st_case_6, st_case_7, st_case_8, st_case_9, st_case_10, st_case_11,
   st_case_12, st_case_13, st_case_14, st_case_15, st_case_16, st_case_17,
   st_case_18, st_case_19, st_case_20, st_case_21, st_case_22, st_case_23,
   st_case_24, st_case_25, st_case_26, st_case_27, st_case_28, st_case_29,
   st_case_30, st_case_31, st_case_32, st_case_33, st_case_34, st_case_35,
   st_case_36, st_case_37, st_case_38, st_case_39, st_case_40, st_case_41,
   st_case_42, st_case_43, st_case_44, st_case_45, st_case_46, st_case_47,
   st_case_48, st_case_49, st_case_50, st_case_51, st_case_52, st_case_53,
   st_case_54, st_case_55, st_case_56, st_case_57, st_case_58, st_case_59,
   st_case_60, st_case_61, st_case_62, st_case_63, st_case_64, st_case_65,
   st_case_66, st_case_67, st_case_68, st_case_69, st_case_70, st_case_71,
   st_case_72, st_case_73, st_case_74, st_case_75, st_case_76, st_case_77,
   st_case_78, st_case_79, st_case_80, st_case_81, st_case_82, st_case_83,
   st_case_84, st_case_85, st_case_86, st_case_87, st_case_88, st_case_89,
   st_case_90, st_case_91, st_case_92, st_case_93, st_case_94, st_case_95,
   st_case_96, st_case_97, st_case_98, st_case_99, st_case_100, st_case_101,
   st_case_102, st_case_103, st_case_104, st_case_105, st_case_106, st_case_107,
   st_case_108, st_case_109, st_case_110, st_case_111, st_case_112, st_case_113,
   st_case_114, st_case_115, st_case_116, st_case_117, st_case_118, st_case_119,
   st_case_120, st_case_121, st_case_122, st_case_123, st_case_124, st_case_125,
   st_case_126, st_case_127, st_case_128, st_case_129, st_case_130, st_case_131,
   st_case_132, st_case_133, st_case_134, st_case_135, st_case_136, st_case_137,
   st_case_138, st_case_139, st_case_140, st_case_141, st_case_142, st_case_143,
   st_case_144, st_case_145, st_case_146, st_case_147, st_case_148, st_case_149]

/-- The jump taken in the state `cs` on the byte `c`: the `switch cs` over the
labels. -/
def st_case (cs : Nat) (c : Nat) : Goto :=
  match st_cases.get? cs with
  | some f => f c
  | none => st0

/-- The variables of `RagelParse`: the record being filled, the state `cs`, the
data pointer `p` and the marker `m`. -/
structure ragel where
  uri : URI
  cs : Nat
  p : Nat
  m : Nat
deriving DecidableEq, Repr

/-- One action; `none` when the slice expression `str[m:p]` panics. -/
def Act.exec (str : Bytes) (r : ragel) : Act → Option ragel
  | Act.mark => some { r with m := r.p }
  | Act.setSip => some { r with uri := { r.uri with scheme := Scheme.SIP } }
  | Act.setSips => some { r with uri := { r.uri with scheme := Scheme.SIPS } }
  | Act.setUserinfo =>
    (slice str r.m r.p).map fun v => { r with uri := { r.uri with userinfo := v } }
  | Act.setHostport =>
    (slice str r.m r.p).map fun v => { r with uri := { r.uri with hostport := v } }
  | Act.setParams =>
    (slice str r.m r.p).map fun v => { r with uri := { r.uri with params := v } }
  | Act.setHeaders =>
    (slice str r.m r.p).map fun v => { r with uri := { r.uri with headers := v } }

/-- The actions of a label `trK`, in order. -/
def execAll (str : Bytes) : List Act → ragel → Option ragel
  | [], r => some r
  | a :: acts, r =>
    match a.exec str r with
    | none => none
    | some r1 => execAll str acts r1

/-- The `goto` program from a label `st_case_N` on, `N = r.cs`, the list being
`data[p:]`: at the end of the data it leaves through `_test_eof` with `cs = N`;
on a byte without a transition it leaves through `st0` and `_out` with `cs = 0`;
otherwise it runs the actions of the jump and goes on from `stM`, which advances
`p`. -/
def execLoop (str : Bytes) : Bytes → ragel → Option ragel
  | [], r => some r
  | c :: rest, r =>
    match st_case r.cs c with
    | none => some { r with cs := 0 }
    | some (acts, n) =>
      match execAll str acts r with
      | none => none
      | some r1 => execLoop str rest { r1 with cs := n, p := r1.p + 1 }

/-- The actions of the `switch cs` under `if p == eof`. -/
def eofActions (cs : Nat) : List Act :=
  if cs ∈ [127, 128, 141, 142, 143, 144] then [Act.setParams]
  else if cs ∈ [129, 145, 146] then [Act.setHeaders]
  else if cs ∈ [120, 121, 122, 123, 124, 125, 126, 130, 131, 132, 133, 134, 135, 136, 137,
      138, 139, 140, 147, 148, 149] then [Act.setHostport, Act.mark, Act.setParams]
  else []

/-- The constant `uri_start`. -/
def uri_start : Nat := 1

/-- The constant `uri_first_final`. -/
def uri_first_final : Nat := 120

/-- The function `RagelParse`; `none` when a slice expression panics. -/
def RagelParse (str : Bytes) : Option Result :=
  match execLoop str str ⟨URI.zero, uri_start, 0, 0⟩ with
  | none => none
  | some r =>
    match (if r.p = str.length then execAll str (eofActions r.cs) r else some r) with
    | none => none
    | some r1 =>
      if r1.cs ≥ uri_first_final then some (some r1.uri, none)
      else some (none, some (B "Invalid URI '" ++ str ++ B "'."))

/-! ## `DummyParser` -/

/-- The record `URIRegex`: the input left and the URI being filled. -/
structure URIRegex where
  input : Bytes
  uri : URI
deriving DecidableEq, Repr

/-- The method `parseScheme`: the record after the call and the error returned;
`none` when a slice expression panics. -/
def URIRegex.parseScheme (u : URIRegex) : Option (URIRegex × Option Bytes) :=
  if HasPrefix u.input (B "sip:") then
    (sliceFrom u.input 4).map fun r => (⟨r, { u.uri with scheme := Scheme.SIP }⟩, none)
  else if HasPrefix u.input (B "sips:") then
    (sliceFrom u.input 5).map fun r => (⟨r, { u.uri with scheme := Scheme.SIPS }⟩, none)
  else some (u, some (B "Invalid URI scheme"))

/-- The method `parseUserinfo`. -/
def URIRegex.parseUserinfo (u : URIRegex) : Option (URIRegex × Option Bytes) :=
  match IndexByte u.input 64 with
  | none => some (u, none)
  | some idx =>
    match slice u.input 0 idx, sliceFrom u.input (idx + 1) with
    | some usrinf, some r => some (⟨r, { u.uri with userinfo := usrinf }⟩, none)
    | _, _ => none

/-- The method `parseHostport`: without `;` and `?` the input is kept. -/
def URIRegex.parseHostport (u : URIRegex) : Option (URIRegex × Option Bytes) :=
  match IndexByte u.input 59 with
  | some idx =>
    match slice u.input 0 idx, sliceFrom u.input idx with
    | some h, some r => some (⟨r, { u.uri with hostport := h }⟩, none)
    | _, _ => none
  | none =>
    match IndexByte u.input 63 with
    | some idx =>
      match slice u.input 0 idx, sliceFrom u.input idx with
      | some h, some r => some (⟨r, { u.uri with hostport := h }⟩, none)
      | _, _ => none
    | none => some (⟨u.input, { u.uri with hostport := u.input }⟩, none)

/-- The method `parseParams`; the index expression `u.input[0]` panics on an
empty input. -/
def URIRegex.parseParams (u : URIRegex) : Option (URIRegex × Option Bytes) :=
  match u.input.get? 0 with
  | none => none
  | some c =>
    if c ≠ 59 then some (u, none)
    else
      match IndexByte u.input 63 with
      | some idx =>
        match slice u.input 1 idx, sliceFrom u.input idx with
        | some p, some r => some (⟨r, { u.uri with params := p }⟩, none)
        | _, _ => none
      | none =>
        (sliceFrom u.input 1).map fun p => (⟨u.input, { u.uri with params := p }⟩, none)

/-- The method `parseHeaders`; the index expression `u.input[0]` panics on an
empty input. -/
def URIRegex.parseHeaders (u : URIRegex) : Option (URIRegex × Option Bytes) :=
  match u.input.get? 0 with
  | none => none
  | some c =>
    if c ≠ 63 then some (u, none)
    else (sliceFrom u.input 1).map fun h => (⟨u.input, { u.uri with headers := h }⟩, none)

/-- One step of `DummyParser`: the next method is called when the methods before
it returned no error. -/
def URIRegex.andThen (r : Option (URIRegex × Option Bytes))
    (f : URIRegex → Option (URIRegex × Option Bytes)) : Option (URIRegex × Option Bytes) :=
  match r with
  | none => none
  | some (u, some e) => some (u, some e)
  | some (u, none) => f u

/-- The function `DummyParser`; `none` when it panics. -/
def DummyParser (data : Bytes) : Option Result :=
  let r0 := URIRegex.parseScheme ⟨data, URI.zero⟩
  let r1 := URIRegex.andThen r0 URIRegex.parseUserinfo
  let r2 := URIRegex.andThen r1 URIRegex.parseHostport
  let r3 := URIRegex.andThen r2 URIRegex.parseParams
  let r4 := URIRegex.andThen r3 URIRegex.parseHeaders
  match r4 with
  | none => none
  | some (_, some e) => some (none, some e)
  | some (u, none) => some (some u.uri, none)

/-! ## `RegexParse`

The pattern of `RegexParse` is matched by the package `regexp`, whose match is the
one a backtracking search finds first (leftmost-first, greedy operators).  The
pattern is embedded as a term of `Regex` and matched by such a search.  `regexp`
reads the input rune by rune; every delimiter of the pattern is an ASCII byte and
no two classes of the pattern are adjacent, so the search over bytes finds the
same match. -/

/-- A one-character class under `+` or `*`: a negated set `[^...]`, or `.`, which
matches every character but the newline. -/
inductive Cls where
  | notIn (cs : List Nat)
  | dot
deriving DecidableEq, Repr

/-- Whether the class matches the byte. -/
def Cls.test : Cls → Nat → Bool
  | Cls.notIn cs, c => !(cs.contains c)
  | Cls.dot, c => c != 10

/-- The syntax of the pattern: a literal character, `k+`, `k*`, `r?`, a
concatenation, and the capturing group number `i`. -/
inductive Regex where
  | chr (c : Nat)
  | plus (k : Cls)
  | star (k : Cls)
  | opt (r : Regex)
  | seq (a b : Regex)
  | cap (i : Nat) (r : Regex)
deriving DecidableEq, Repr

/-- The groups captured so far, the last one first. -/
abbrev Caps := List (Nat × Bytes)

/-- The text of group `i`: the empty string when the group did not take part. -/
def Caps.text (caps : Caps) (i : Nat) : Bytes :=
  match caps.find? (fun e => e.1 == i) with
  | some e => e.2
  | none => []

/-- The greedy search for `k*`: the longest run of `k` first, then shorter ones. -/
def starRun (k : Cls) : Bytes → (Bytes → Option Caps) → Option Caps
  | [], kont => kont []
  | c :: s, kont =>
    if k.test c then
      match starRun k s kont with
      | some res => some res
      | none => kont (c :: s)
    else kont (c :: s)

/-- The backtracking search: `kont` matches what follows the expression. -/
def Regex.run : Regex → Bytes → Caps → (Bytes → Caps → Option Caps) → Option Caps
  | Regex.chr c, s, caps, kont =>
    match s with
    | [] => none
    | x :: s1 => if x = c then kont s1 caps else none
  | Regex.plus k, s, caps, kont =>
    match s with
    | [] => none
    | x :: s1 => if k.test x then starRun k s1 (fun s2 => kont s2 caps) else none
  | Regex.star k, s, caps, kont => starRun k s (fun s2 => kont s2 caps)
  | Regex.opt r, s, caps, kont =>
    match r.run s caps kont with
    | some res => some res
    | none => kont s caps
  | Regex.seq a b, s, caps, kont => a.run s caps (fun s1 caps1 => b.run s1 caps1 kont)
  | Regex.cap i r, s, caps, kont =>
    r.run s caps (fun s1 caps1 => kont s1 ((i, s.take (s.length - s1.length)) :: caps1))

/-- The group `(?P<scheme>sips?)`, group 1. -/
def expScheme : Regex :=
  Regex.cap 1 (Regex.seq (Regex.chr 115) (Regex.seq (Regex.chr 105)
    (Regex.seq (Regex.chr 112) (Regex.opt (Regex.chr 115)))))

/-- The group `(:?(?P<userinfo>[^@]+)@)`, group 2, with the userinfo as group 3;
`(:?` opens a capturing group that begins with an optional colon. -/
def expUserinfo : Regex :=
  Regex.cap 2 (Regex.seq (Regex.opt (Regex.chr 58))
    (Regex.seq (Regex.cap 3 (Regex.plus (Cls.notIn [64]))) (Regex.chr 64)))

/-- The group `(?P<hostport>[^;?]+)`, group 4. -/
def expHostport : Regex := Regex.cap 4 (Regex.plus (Cls.notIn [59, 63]))

/-- The group `(:?;(?P<params>[^?]+))`, group 5, with the params as group 6. -/
def expParams : Regex :=
  Regex.cap 5 (Regex.seq (Regex.opt (Regex.chr 58))
    (Regex.seq (Regex.chr 59) (Regex.cap 6 (Regex.plus (Cls.notIn [63])))))

/-- The group `(:?[?](?P<headers>.*))`, group 7, with the headers as group 8. -/
def expHeaders : Regex :=
  Regex.cap 7 (Regex.seq (Regex.opt (Regex.chr 58))
    (Regex.seq (Regex.chr 63) (Regex.cap 8 (Regex.star Cls.dot))))

/-- What follows the userinfo group in the pattern. -/
def expTail : Regex :=
  Regex.seq expHostport (Regex.seq (Regex.opt expParams) (Regex.opt expHeaders))

/-- The pattern `exp` between `^` and `$`. -/
def exp : Regex :=
  Regex.seq expScheme (Regex.seq (Regex.chr 58) (Regex.seq (Regex.opt expUserinfo) expTail))

/-- The groups of the match of `^exp$`; `none` when there is no match. -/
def FindStringSubmatch (input : Bytes) : Option Caps :=
  exp.run input [] (fun rest caps => if rest = [] then some caps else none)

/-- The function `RegexParse`: the pattern compiles, so the first error return is
never taken; the index of a named group is its number. -/
def RegexParse (input : Bytes) : Option Result :=
  match FindStringSubmatch input with
  | none => some (none, some (B "Invalid URI"))
  | some found =>
    let scheme :=
      if found.text 1 = B "sip" then Scheme.SIP
      else if found.text 1 = B "sips" then Scheme.SIPS
      else Scheme.UNKNOWN
    some (some ⟨scheme, found.text 3, found.text 4, found.text 6, found.text 8⟩, none)

/-- The numbers of the capturing groups of an expression. -/
def Regex.groups : Regex → List Nat
  | Regex.chr _ => []
  | Regex.plus _ => []
  | Regex.star _ => []
  | Regex.opt r => r.groups
  | Regex.seq a b => a.groups ++ b.groups
  | Regex.cap i r => i :: r.groups

/-! ## An invariant of the generated recognizer

For every state the table `facts` records what holds of the marker `m`, the
pointer `p` and the text between them whenever the program is at that state's
label.  `okGoto` is the check that a jump keeps the table, and `okEof` that the
actions at the end of the data find what they need. -/

/-- What is known in a state: `pq`, the byte before `p` is `?`; `pm`, the marker
is on a `;` before `p`; `hm`, the byte before the marker is `?`; `na`, no `@`
between marker and pointer; `nd`, none of `;`, `?`, `@` between them. -/
structure Facts where
  pq : Bool
  pm : Bool
  hm : Bool
  na : Bool
  nd : Bool
deriving DecidableEq, Repr

/-- The table of the facts of each state. -/
def facts (cs : Nat) : Facts :=
  if cs ∈ [19, 20, 21, 22, 23, 24, 84, 85, 86, 87, 88, 89, 90, 91, 92, 93, 94, 127, 128, 141,
      142, 143, 144] then ⟨false, true, false, true, false⟩
  else if cs ∈ [25, 95] then ⟨true, false, false, true, false⟩
  else if cs ∈ [26, 27, 28, 29, 30, 31, 96, 97, 98, 99, 100, 101, 102, 103, 104, 105, 106,
      107, 129, 145, 146] then ⟨false, false, true, true, false⟩
  else if cs ∈ [6, 7, 8, 9, 10, 11] then ⟨false, false, false, true, false⟩
  else if cs ∈ [0, 12] then ⟨false, false, false, false, false⟩
  else ⟨false, false, false, true, true⟩

/-- Every fact of `g` is a fact of `f`. -/
def Facts.le (f g : Facts) : Bool :=
  (!g.pq || f.pq) && (!g.pm || f.pm) && (!g.hm || f.hm) && (!g.na || f.na) && (!g.nd || f.nd)

/-- The facts after one action, the second component telling that the marker is
at the pointer; `none` when the facts do not give what the action needs: a slice
for the params must be empty or begin at a `;`, for the userinfo have no `@`, for
the hostport none of `;`, `?`, `@`, and for the headers begin after a `?` and end
with the data. -/
def Facts.act (atEof : Bool) (w : Facts × Bool) : Act → Option (Facts × Bool)
  | Act.mark => some (⟨w.1.pq, false, w.1.pq, true, true⟩, true)
  | Act.setSip => some w
  | Act.setSips => some w
  | Act.setUserinfo => if w.1.na then some w else none
  | Act.setHostport => if w.1.nd then some w else none
  | Act.setParams => if w.1.pm || w.2 then some w else none
  | Act.setHeaders => if atEof && w.1.hm then some w else none

/-- The facts after the actions of a jump. -/
def Facts.acts (atEof : Bool) : List Act → Facts × Bool → Option (Facts × Bool)
  | [], w => some w
  | a :: l, w =>
    match Facts.act atEof w a with
    | none => none
    | some w1 => Facts.acts atEof l w1

/-- The facts after the pointer has passed a byte, of which it is known whether
it is `;`, `?` or `@`. -/
def Facts.consume (w : Facts × Bool) (is59 is63 is64 : Bool) : Facts :=
  ⟨is63, w.1.pm || (w.2 && is59), w.1.hm, w.1.na && !is64,
    w.1.nd && !is59 && !is63 && !is64⟩

/-- The check of a jump taken from a state with the facts `f`. -/
def okGotoB (f : Facts) (is59 is63 is64 : Bool) (g : Goto) : Bool :=
  match g with
  | none => true
  | some (acts, n) =>
    match Facts.acts false acts (f, false) with
    | none => false
    | some w => (Facts.consume w is59 is63 is64).le (facts n)

/-- The check of the jump `g` taken on the byte `c`. -/
def okGoto (f : Facts) (c : Nat) (g : Goto) : Bool :=
  okGotoB f (c == 59) (c == 63) (c == 64) g

/-- The check of the actions at the end of the data in the state `cs`. -/
def okEof (cs : Nat) : Bool := (Facts.acts true (eofActions cs) (facts cs, false)).isSome

/-- The meaning of the facts for the data `str`, the marker `m` and the pointer
`p`. -/
def Facts.Holds (f : Facts) (str : Bytes) (m p : Nat) : Prop :=
  m ≤ p ∧ p ≤ str.length ∧
  (f.pq = true → 1 ≤ p ∧ str.get? (p - 1) = some 63) ∧
  (f.pm = true → m < p ∧ str.get? m = some 59) ∧
  (f.hm = true → 1 ≤ m ∧ str.get? (m - 1) = some 63) ∧
  (f.na = true → ∀ i, m ≤ i → i < p → str.get? i ≠ some 64) ∧
  (f.nd = true → ∀ i, m ≤ i → i < p →
    str.get? i ≠ some 59 ∧ str.get? i ≠ some 63 ∧ str.get? i ≠ some 64)

/-- The fields of a URI carry the delimiters as claimed: the params are empty or
begin with `;`, the userinfo has no `@`, the hostport none of `;`, `?`, `@`, and
the headers are empty or the text that follows a `?` of the data. -/
def UriOK (str : Bytes) (u : URI) : Prop :=
  (u.params = [] ∨ ∃ t, u.params = 59 :: t) ∧ 64 ∉ u.userinfo ∧
  (∀ c ∈ u.hostport, c ≠ 59 ∧ c ≠ 63 ∧ c ≠ 64) ∧
  (u.headers = [] ∨ ∃ pre, str = pre ++ 63 :: u.headers)

/-- A bracketed host as `lexIPv6` takes it: `[`, then hexadecimal digits, `:` and
`.`, then `]`. -/
def isBracketHost (h : Bytes) : Prop :=
  ∃ m, h = 91 :: (m ++ [93]) ∧ ∀ c ∈ m, isHex c = true ∨ c = 58 ∨ c = 46

/-- A host without brackets: an ASCII letter or digit, then ASCII letters,
digits, `-` and `.`. -/
def isPlainHost (h : Bytes) : Prop :=
  ∃ x t, h = x :: t ∧ isAlphaNum x = true ∧ ∀ c ∈ t, isHostByte c = true

/-! ## The calls of the loop of `run`, and the values received -/

/-- The method `next`, with the lexer after it; no state function calls it. -/
def lexer.next (l : lexer) : Option (Int × lexer) :=
  if l.cursor ≥ l.limit then some (eof, l)
  else (l.input.get? l.cursor).map fun b => ((b : Int), { l with cursor := l.cursor + 1 })

/-- The place of a state function in the order of the scan; `lexHostname` and
`lexIPv6` share a place. -/
def lexFunc.rank : lexFunc → Nat
  | lexFunc.lexScheme => 0
  | lexFunc.lexUserinfo => 1
  | lexFunc.lexHostport => 2
  | lexFunc.lexHostname => 3
  | lexFunc.lexIPv6 => 3
  | lexFunc.lexPort => 4
  | lexFunc.lexParams => 5
  | lexFunc.lexHeaders => 6

/-- What `runCalls` yields: the calls, the lexer after the last call and the
state left. -/
abbrev Calls := List (lexFunc × lexer) × lexer × Option lexFunc

/-- Continuing the loop of `run` after the call of `state` on `l` returned `r`,
the calls being recorded. -/
def andThenCalls (cont : lexFunc → lexer → Option Calls) (state : lexFunc) (l : lexer)
    (r : Option Step) : Option Calls :=
  match r with
  | none => none
  | some ⟨l1, _, none⟩ => some ([(state, l)], l1, none)
  | some ⟨l1, _, some state1⟩ =>
    match cont state1 l1 with
    | none => none
    | some (calls, lend, left) => some ((state, l) :: calls, lend, left)

/-- The calls that the loop of `run` makes in program order, for at most `fuel`
calls from `state`: each state function called with the lexer it is called on,
then the lexer after the last call and the state left, `none` when the loop has
ended.  The result is `none` on a panic. -/
def runCalls : Nat → lexFunc → lexer → Option Calls
  | 0, state, l => some ([], l, some state)
  | fuel + 1, state, l => andThenCalls (runCalls fuel) state l (state.call l)

/-- The indices of the lexer `l` over the input `i` are in range:
`0 ≤ marker ≤ cursor ≤ len(input)`, and `limit` is `len(input)`. -/
def lexer.within (l : lexer) (i : Bytes) : Prop :=
  l.input = i ∧ l.limit = i.length ∧ l.marker ≤ l.cursor ∧ l.cursor ≤ i.length

/-- The calls `calls`, ended with the lexer `lend`, go forward over `i`: the
ranks of the state functions called increase from `r` on, the cursor does not
decrease from `k` on, and every lexer has its indices in range. -/
def ForwardCalls (i : Bytes) : Nat → Nat → List (lexFunc × lexer) → lexer → Prop
  | _, k, [], lend => lend.within i ∧ k ≤ lend.cursor
  | r, k, (f, l) :: calls, lend =>
    r ≤ f.rank ∧ l.within i ∧ k ≤ l.cursor ∧ ForwardCalls i (f.rank + 1) l.cursor calls lend

/-- The loop of `run` has made a forward pass and ended. -/
def Forward (i : Bytes) (r k : Nat) (res : Option Calls) : Prop :=
  ∃ calls lend, res = some (calls, lend, none) ∧ ForwardCalls i r k calls lend

/-- The number of values that the receive loop of `LexerParse` takes from the
lexer before it returns: it returns on the first `tEOF` item and on the first
error.  Both channels are unbuffered and have no other receiver, so the send of
a later value never completes. -/
def received : List Event → Nat
  | [] => 0
  | Event.item it :: rest => if it.token = Token.tEOF then 1 else 1 + received rest
  | Event.err _ :: _ => 1

/-! ## The timer of `LexerParse`

The select of `LexerParse` has a third case, `<-time.After(10 ms)`: it is taken
when the lexer sends nothing for 10 ms.  While it sends nothing the lexer scans
the input, so the wait for a value is measured by the bytes over which the lexer
moved its cursor since the value before; `budget` is the number of bytes over
which it moves the cursor in 10 ms. -/

/-- Whether the loop of `lexHeaders` goes on at the rune `c` without a send. -/
def headerLegal (c : Nat) : Bool :=
  decide (isUnreserved (byte c) = true ∨ c = 61 ∨ c = 37 ∨ c = 38) || isHeaderExtra c

/-- The bytes over which the call of `state` on `l`, which returned `st`, moved
the cursor before its first send.  `lexScheme` sets the cursor without a scan;
`lexUserinfo` steps over the `@` after it has sent the userinfo, and moves
nothing without an `@`; `lexHeaders` sends its first error from inside its loop,
two bytes after the legal runes it has passed; every other state function sends
when its scan is over. -/
def lexFunc.silent (state : lexFunc) (l : lexer) (st : Step) : Nat :=
  match state with
  | lexFunc.lexScheme => 0
  | lexFunc.lexUserinfo =>
    if st.next = none then st.l.cursor - l.cursor else st.l.cursor - l.cursor - 1
  | lexFunc.lexHeaders =>
    min (st.l.cursor - l.cursor)
      (((runes (l.input.drop (l.cursor + 1))).takeWhile headerLegal).length + 2)
  | _ => st.l.cursor - l.cursor

/-- The values sent by one call, each with the wait of the receive loop for it:
`w` for the first, and no wait for those that the call sends right after. -/
def stamp (w : Nat) : List Event → List (Nat × Event)
  | [] => []
  | e :: es => (w, e) :: es.map fun x => (0, x)

/-- The loop of `run`, for at most `fuel` calls from `state`, with the wait for
every value sent; `acc` is the wait that calls without a send have added up since
the last value.  The result is `none` on a panic. -/
def runTimed : Nat → lexFunc → lexer → Nat → Option (List (Nat × Event))
  | 0, _, _, _ => some []
  | fuel + 1, state, l, acc =>
    match state.call l with
    | none => none
    | some st =>
      match st.next with
      | none => some (stamp (acc + state.silent l st) st.sent)
      | some state1 =>
        (runTimed fuel state1 st.l (if st.sent = [] then acc + state.silent l st else 0)).map
          fun rest => stamp (acc + state.silent l st) st.sent ++ rest

/-- The receive loop `mainLoop` of `LexerParse`, over the values the lexer sends
and the wait for each.  A select takes the value when its wait is within
`budget` and returns the timeout error when it is not; once the lexer has ended
without a closing value only the timer is left to fire. -/
def mainLoop (budget : Nat) (data : Bytes) : URI → List (Nat × Event) → Result
  | _, [] => (none, some (B "Invalid uri '" ++ data ++ B "': timeout parsing"))
  | uri, (w, Event.item it) :: rest =>
    if budget < w then (none, some (B "Invalid uri '" ++ data ++ B "': timeout parsing"))
    else if it.token = Token.tEOF then (some uri, none)
    else mainLoop budget data (uri.setSegment it) rest
  | _, (w, Event.err e) :: _ =>
    if budget < w then (none, some (B "Invalid uri '" ++ data ++ B "': timeout parsing"))
    else (none, some (B "Invalid uri '" ++ data ++ B "': " ++ e))

/-- The function `LexerParse`, on a machine whose lexer moves over `budget` bytes
in 10 ms; `none` when the lexer goroutine panics. -/
def LexerParse (budget : Nat) (data : Bytes) : Option Result :=
  (runTimed 8 lexFunc.lexScheme (newLexer data) 0).map fun sent =>
    mainLoop budget data URI.zero sent

/-- The waits of the values of `res` fit the input `i` left from the cursor `k`
on, after calls without a send that have added up the wait `acc`. -/
def StampsWithin (i : Bytes) (k acc : Nat) (res : Option (List (Nat × Event))) : Prop :=
  ∃ tv, res = some tv ∧ ∀ p ∈ tv, p.1 + k ≤ acc + i.length

/-- Among the values of `res` one has a wait above `budget`, and those before it
are items other than `tEOF`: the receive loop gets to that value and its timer
fires first. -/
def TimerFires (budget : Nat) (res : Option (List (Nat × Event))) : Prop :=
  ∀ tv, res = some tv → ∃ pre w e rest, tv = pre ++ (w, e) :: rest ∧
    (∀ p ∈ pre, ∃ it, p.2 = Event.item it ∧ it.token ≠ Token.tEOF) ∧ budget < w

/-! ## The lexer sends exactly the values of `schemeSent` -/

theorem B_sip : B "sip:" = [115, 105, 112, 58] := by decide
theorem B_sips : B "sips:" = [115, 105, 112, 115, 58] := by decide
theorem B_colon : B ":" = [58] := by decide

theorem runes_cons_lt (b : Nat) (s : Bytes) (h : b < 128) : runes (b :: s) = b :: runes s := by
  simp [runes, runesFrom, decodeRune, runeSize, h]

theorem runes_ascii (s : Bytes) (h : ∀ b ∈ s, b < 128) : runes s = s := by
  induction s with
  | nil => simp [runes, runesFrom]
  | cons b s ih =>
    rw [runes_cons_lt b s (h b (by simp)), ih (fun x hx => h x (by simp [hx]))]

theorem runesFrom_length_le (s : Bytes) : ∀ k, (runesFrom k s).length ≤ s.length := by
  induction s with
  | nil => intro k; simp [runesFrom]
  | cons b s ih =>
    intro k
    cases k with
    | zero => simp only [runesFrom, List.length_cons]; have := ih ((decodeRune b s).2 - 1); omega
    | succ k => simp only [runesFrom, List.length_cons]; have := ih k; omega

theorem runes_length_le (s : Bytes) : (runes s).length ≤ s.length := runesFrom_length_le s 0

theorem runLoop_succ (n : Nat) (st : lexFunc) (l : lexer) :
    runLoop (n + 1) st l = andThen n (st.call l) := by
  simp only [runLoop, andThen]

theorem drop_succ_eq (i : Bytes) (k : Nat) : (i.drop k).drop 1 = i.drop (k + 1) := by
  rw [List.drop_drop, Nat.add_comm]

theorem get?_eq_head_drop (i : Bytes) (k : Nat) : i.get? k = (i.drop k).head? := by
  simp [List.head?_drop]

theorem span_succ (i : Bytes) (m k : Nat) (h : m ≤ k) :
    (i.drop m).take (k + 1 - m) = (i.drop m).take (k - m) ++ (i.drop k).take 1 := by
  have h1 : k + 1 - m = (k - m) + 1 := by omega
  rw [h1, List.take_add, List.drop_drop]
  have h2 : m + (k - m) = k := by omega
  rw [h2]

theorem headersLoop_sim (cs : List Nat) (i : Bytes) (lim m : Nat) :
    ∀ k, k + cs.length ≤ i.length →
    lexHeadersLoop cs ⟨i, lim, k, m⟩
      = some (⟨i, lim, k + cs.length, m⟩, headerErrs cs (i.drop k)) := by
  induction cs with
  | nil => intro k _; simp [lexHeadersLoop, headerErrs]
  | cons x cs ih =>
    intro k h
    have h1 : k + 1 + cs.length ≤ i.length := by simp at h; omega
    have h2 : k + 1 ≤ i.length := by omega
    simp only [lexHeadersLoop, headerErrs, ih (k + 1) h1, sliceFrom, h2, if_true, drop_succ_eq,
      List.length_cons]
    have h3 : k + 1 + cs.length = k + (cs.length + 1) := by omega
    split_ifs <;> simp [h3]

theorem headers_sim (n : Nat) (i : Bytes) (lim k m : Nat) (hl : lim = i.length)
    (hk : k ≤ i.length) :
    runLoop (n + 1) lexFunc.lexHeaders ⟨i, lim, k, m⟩ = some (headersSent (i.drop k), none) := by
  subst hl
  rw [runLoop_succ]
  simp only [lexFunc.call, lexer.lexHeaders, lexer.current, get?_eq_head_drop]
  rcases hsuf : i.drop k with _ | ⟨x, c⟩
  · have : i.length ≤ k := by simpa using hsuf
    simp [this, andThen, headersSent, lexer.emit, slice, hk, eof]
  · have hlt : k < i.length := by
      by_contra hcon
      have : i.drop k = [] := by simp; omega
      simp [this] at hsuf
    have hc : i.drop (k + 1) = c := by rw [← drop_succ_eq, hsuf]; rfl
    have hlen : k + 1 + (runes c).length ≤ i.length := by
      have := runes_length_le c
      have : c.length = i.length - (k + 1) := by rw [← hc]; simp
      omega
    have hnle : ¬ i.length ≤ k := by omega
    have h2 : k + 1 ≤ i.length := by omega
    by_cases hx : x = 63
    · subst hx
      simp [eof, hnle, h2, sliceFrom, headersLoop_sim, hc, hlen, andThen, headersSent, lexer.emit, slice]
    · have : ¬ ((x : Int) = 63) := by omega
      simp [eof, hnle, hx, this, andThen, headersSent]

theorem drop_cons_facts {i : Bytes} {k x : Nat} {c : Bytes} (h : i.drop k = x :: c) :
    k < i.length ∧ i.drop (k + 1) = c ∧ c.length = i.length - (k + 1) := by
  have hlt : k < i.length := by
    by_contra hcon
    have : i.drop k = [] := by simp; omega
    simp [this] at h
  have hc : i.drop (k + 1) = c := by rw [← drop_succ_eq, h]; rfl
  refine ⟨hlt, hc, ?_⟩
  rw [← hc]; simp

theorem paramsLoop_sim (n : Nat) (cs : List Nat) (i : Bytes) (m : Nat) :
    ∀ k, m ≤ k → k + cs.length ≤ i.length →
    andThen (n + 1) (lexParamsLoop cs ⟨i, i.length, k, m⟩)
      = some (paramsLoopSent cs ((i.drop m).take (k - m)) (i.drop k), none) := by
  induction cs with
  | nil =>
    intro k hm hk
    have hk1 : k ≤ i.length := by simpa using hk
    simp [lexParamsLoop, paramsLoopSent, lexer.emit, slice, andThen, hm, hk1]
  | cons x cs ih =>
    intro k hm hk
    have h1 : k + 1 + cs.length ≤ i.length := by simp at hk; omega
    have h2 : k + 1 ≤ i.length := by omega
    have h3 : k ≤ i.length := by omega
    have h4 : m ≤ k + 1 := by omega
    simp only [lexParamsLoop, paramsLoopSent]
    split_ifs with ha hb hc
    · simp [lexer.emit, slice, hm, h3, andThen, headers_sim n i i.length k m rfl h3]
    · rw [ih (k + 1) h4 h1, span_succ i m k hm, drop_succ_eq]
    · rw [ih (k + 1) h4 h1, span_succ i m k hm, drop_succ_eq]
    · simp [sliceFrom, h2, andThen, drop_succ_eq]

theorem cast_eq_eof (x : Nat) : ((x : Int) = eof) = False := by
  simp [eof]

theorem cast_eq_58 (x : Nat) : ((x : Int) = 58) = (x = 58) :=
  propext ⟨fun h => by omega, fun h => by omega⟩

theorem cast_eq_59 (x : Nat) : ((x : Int) = 59) = (x = 59) :=
  propext ⟨fun h => by omega, fun h => by omega⟩

theorem cast_eq_63 (x : Nat) : ((x : Int) = 63) = (x = 63) :=
  propext ⟨fun h => by omega, fun h => by omega⟩

theorem cast_eq_91 (x : Nat) : ((x : Int) = 91) = (x = 91) :=
  propext ⟨fun h => by omega, fun h => by omega⟩

theorem current_nil (i : Bytes) (k m : Nat) (h : i.drop k = []) :
    (⟨i, i.length, k, m⟩ : lexer).current = some eof := by
  have : i.length ≤ k := by simpa using h
  simp [lexer.current, this]

theorem current_cons (i : Bytes) (k m x : Nat) (c : Bytes) (h : i.drop k = x :: c) :
    (⟨i, i.length, k, m⟩ : lexer).current = some (x : Int) := by
  have hlt := (drop_cons_facts h).1
  have hnle : ¬ i.length ≤ k := by omega
  have hx : i[k]? = some x := by rw [← List.head?_drop, h]; rfl
  simp [lexer.current, hnle, hx]

theorem emit_eq (i : Bytes) (k m : Nat) (tk : Token) (hm : m ≤ k) (hk : k ≤ i.length) :
    (⟨i, i.length, k, m⟩ : lexer).emit tk = some (Event.item ⟨tk, (i.drop m).take (k - m)⟩) := by
  simp [lexer.emit, slice, hm, hk]

theorem params_sim (n : Nat) (i : Bytes) (k m : Nat) (hk : k ≤ i.length) :
    runLoop (n + 2) lexFunc.lexParams ⟨i, i.length, k, m⟩
      = some (paramsSent (i.drop k), none) := by
  rw [runLoop_succ]
  simp only [lexFunc.call, lexer.lexParams]
  rcases hsuf : i.drop k with _ | ⟨x, c⟩
  · rw [current_nil i k k hsuf]
    simp [andThen, paramsSent, emit_eq, hk]
  · obtain ⟨hlt, hc, hclen⟩ := drop_cons_facts hsuf
    have hlen : k + 1 + (runes c).length ≤ i.length := by
      have := runes_length_le c
      omega
    have h2 : k + 1 ≤ i.length := by omega
    rw [current_cons i k k x c hsuf]
    simp only [cast_eq_eof, cast_eq_63, cast_eq_59, paramsSent, ne_eq, if_false]
    by_cases hx : x = 63
    · subst hx
      have := headers_sim n i i.length k k rfl hk
      simp [andThen, this, hsuf]
    · by_cases hy : x = 59
      · subst hy
        have := paramsLoop_sim n (runes c) i (k + 1) (k + 1) (le_refl _) hlen
        simp [sliceFrom, h2, hc] at this ⊢
        exact this
      · simp [hx, hy, andThen]

theorem dtoiLoop_le (s : Bytes) : ∀ n i, (dtoiLoop s n i).2.1 ≤ i + s.length := by
  induction s with
  | nil => intro n i; simp only [dtoiLoop]; split_ifs <;> simp
  | cons b s ih =>
    intro n i
    simp only [dtoiLoop]
    have := ih (n * 10 + (b - 48)) (i + 1)
    split_ifs
    all_goals simp
    all_goals omega

theorem dtoi_le (s : Bytes) : (dtoi s).2.1 ≤ s.length := by
  have := dtoiLoop_le s 0 0
  simpa [dtoi] using this

theorem port_sim (n : Nat) (i : Bytes) (k m : Nat) (hm : m ≤ k) (hk : k ≤ i.length) :
    runLoop (n + 3) lexFunc.lexPort ⟨i, i.length, k, m⟩
      = some (portSent ((i.drop m).take (k - m)) (i.drop k), none) := by
  rw [runLoop_succ]
  simp only [lexFunc.call, lexer.lexPort]
  rcases hsuf : i.drop k with _ | ⟨x, c⟩
  · rw [current_nil i k m hsuf]
    simp [andThen, portSent, emit_eq, hk, hm]
  · obtain ⟨hlt, hc, hclen⟩ := drop_cons_facts hsuf
    have h2 : k + 1 ≤ i.length := by omega
    rw [current_cons i k m x c hsuf]
    simp only [cast_eq_eof, cast_eq_58, portSent, ne_eq, if_false]
    by_cases hx : x = 58
    · subst hx
      have hd := dtoi_le c
      have h3 : k + 1 + (dtoi c).2.1 ≤ i.length := by omega
      have hp := params_sim n i (k + 1 + (dtoi c).2.1) (k + 1) h3
      have hdd : i.drop (k + 1 + (dtoi c).2.1) = c.drop (dtoi c).2.1 := by
        rw [← hc, List.drop_drop]
      simp only [not_true_eq_false, if_false, sliceFrom, h2, if_true, hc, slice, le_refl,
        Nat.le_add_right, h3, and_self, Nat.add_sub_cancel_left, lexer.emit]
      split_ifs
      all_goals simp [andThen, hp, hdd]
    · have hp := params_sim n i k m hk
      simp [hx, andThen, hp, hsuf]

theorem andThen_next (f : Nat) (l : lexer) (sent evs : List Event) (st : lexFunc)
    (h : runLoop f st l = some (evs, none)) :
    andThen f (some ⟨l, sent, some st⟩) = some (sent ++ evs, none) := by
  simp [andThen, h]

theorem parseIPv4Loop_nil (k : Nat) (first : Bool) (l : Nat) :
    parseIPv4Loop (k + 1) first [] l = some (0, false) := by
  simp [parseIPv4Loop]

theorem parseIPv4Loop_first (k : Nat) (b : Nat) (rest : Bytes) (l : Nat) :
    parseIPv4Loop (k + 1) true (b :: rest) l =
      if (dtoi (b :: rest)).2.2 = true ∧ (dtoi (b :: rest)).1 ≤ 255 then
        parseIPv4Loop k false ((b :: rest).drop (dtoi (b :: rest)).2.1)
          (l + (dtoi (b :: rest)).2.1)
      else some (0, false) := by
  have hd := dtoi_le (b :: rest)
  have hd1 : (dtoi (b :: rest)).2.1 ≤ rest.length + 1 := by simpa using hd
  by_cases hc : (dtoi (b :: rest)).2.2 = true ∧ (dtoi (b :: rest)).1 ≤ 255
  · have hc2 : ¬ 255 < (dtoi (b :: rest)).1 := by omega
    simp [parseIPv4Loop, hc, sliceFrom, hd1, hc2]
  · rw [if_neg hc]
    simp only [not_and_or, not_le] at hc
    simp [parseIPv4Loop]
    intro h1 h2
    rcases hc with hc | hc
    · simp [h1] at hc
    · omega

theorem parseIPv4Loop_next (k : Nat) (b : Nat) (rest : Bytes) (l : Nat) :
    parseIPv4Loop (k + 1) false (b :: rest) l =
      if b = 46 ∧ (dtoi rest).2.2 = true ∧ (dtoi rest).1 ≤ 255 then
        parseIPv4Loop k false (rest.drop (dtoi rest).2.1) (l + 1 + (dtoi rest).2.1)
      else some (0, false) := by
  have hd := dtoi_le rest
  by_cases hc : b = 46 ∧ (dtoi rest).2.2 = true ∧ (dtoi rest).1 ≤ 255
  · have hc2 : ¬ 255 < (dtoi rest).1 := by omega
    simp [parseIPv4Loop, hc, sliceFrom, hd, hc2]
  · rw [if_neg hc]
    simp [parseIPv4Loop]
    intro h1 h2 h3
    exact absurd ⟨h1, h2, h3⟩ hc

theorem parseIPv4Loop_spec (k : Nat) : ∀ (first : Bool) (input : Bytes) (l : Nat),
    ∃ r, parseIPv4Loop k first input l = some r ∧ (r.2 = true → r.1 ≤ l + input.length) := by
  induction k with
  | zero => intro first input l; exact ⟨(l, true), by simp [parseIPv4Loop]⟩
  | succ k ih =>
    intro first input l
    match input with
    | [] => exact ⟨(0, false), by simp [parseIPv4Loop]⟩
    | b :: rest =>
      cases first with
      | true =>
        rw [parseIPv4Loop_first]
        split_ifs
        · obtain ⟨r, hr, hb⟩ := ih false (List.drop (dtoi (b :: rest)).2.1 (b :: rest))
            (l + (dtoi (b :: rest)).2.1)
          refine ⟨r, hr, fun ht => ?_⟩
          have := hb ht
          have hd := dtoi_le (b :: rest)
          simp only [List.length_drop] at this
          omega
        · exact ⟨(0, false), rfl, by simp⟩
      | false =>
        rw [parseIPv4Loop_next]
        split_ifs
        · obtain ⟨r, hr, hb⟩ := ih false (List.drop (dtoi rest).2.1 rest)
            (l + 1 + (dtoi rest).2.1)
          refine ⟨r, hr, fun ht => ?_⟩
          have := hb ht
          have hd := dtoi_le rest
          simp only [List.length_drop, List.length_cons] at this ⊢
          omega
        · exact ⟨(0, false), rfl, by simp⟩

theorem parseIPv4Loop_ge (k : Nat) : ∀ (first : Bool) (input : Bytes) (l r : Nat),
    parseIPv4Loop k first input l = some (r, true) → l ≤ r := by
  induction k with
  | zero => intro first input l r h; simp [parseIPv4Loop] at h; omega
  | succ k ih =>
    intro first input l r h
    match input with
    | [] => simp [parseIPv4Loop] at h
    | b :: rest =>
      cases first with
      | true =>
        rw [parseIPv4Loop_first] at h
        split_ifs at h
        · have := ih _ _ _ _ h; omega
        · simp at h
      | false =>
        rw [parseIPv4Loop_next] at h
        split_ifs at h
        · have := ih _ _ _ _ h; omega
        · simp at h

theorem parseIPv4_spec (s : Bytes) :
    ∃ r, parseIPv4 s = some r ∧ (r.2 = true → r.1 ≤ s.length) := by
  obtain ⟨r, hr, hb⟩ := parseIPv4Loop_spec 4 true s 0
  exact ⟨r, hr, fun h => by simpa using hb h⟩

theorem hostnameLoop_sim (n : Nat) (cs : List Nat) (i : Bytes) (m : Nat) :
    ∀ k, m ≤ k → k + cs.length ≤ i.length →
    andThen (n + 3) (lexHostnameLoop cs ⟨i, i.length, k, m⟩)
      = some (hostnameLoopSent cs ((i.drop m).take (k - m)) (i.drop k), none) := by
  induction cs with
  | nil =>
    intro k hm hk
    have hk1 : k ≤ i.length := by simpa using hk
    simp [lexHostnameLoop, hostnameLoopSent, emit_eq, andThen, hm, hk1]
  | cons x cs ih =>
    intro k hm hk
    have h1 : k + 1 + cs.length ≤ i.length := by simp at hk; omega
    have h3 : k ≤ i.length := by omega
    have h4 : m ≤ k + 1 := by omega
    simp only [lexHostnameLoop, hostnameLoopSent]
    split_ifs with ha hb hc hd
    · rw [ih (k + 1) h4 h1, span_succ i m k hm, drop_succ_eq]
    · simp [emit_eq, hm, h3, andThen, port_sim n i k m hm h3]
    · simp [emit_eq, hm, h3, andThen, params_sim (n + 1) i k m h3]
    · simp [emit_eq, hm, h3, andThen, headers_sim (n + 2) i i.length k m rfl h3]
    · simp [andThen]

theorem ipv6Loop_sim (n : Nat) (cs : List Nat) (i : Bytes) (m : Nat) :
    ∀ k, m ≤ k → k + cs.length ≤ i.length →
    andThen (n + 3) (lexIPv6Loop cs ⟨i, i.length, k, m⟩)
      = some (ipv6LoopSent cs ((i.drop m).take (k - m)) (i.drop k), none) := by
  induction cs with
  | nil =>
    intro k hm hk
    simp [lexIPv6Loop, ipv6LoopSent, andThen]
  | cons x cs ih =>
    intro k hm hk
    have h1 : k + 1 + cs.length ≤ i.length := by simp at hk; omega
    have h2 : k + 1 ≤ i.length := by omega
    have h4 : m ≤ k + 1 := by omega
    simp only [lexIPv6Loop, ipv6LoopSent]
    split_ifs with ha hb
    · simp [emit_eq, h4, h2, andThen, port_sim n i (k + 1) m h4 h2, span_succ i m k hm,
        drop_succ_eq]
    · rw [ih (k + 1) h4 h1, span_succ i m k hm, drop_succ_eq]
    · simp [andThen]

theorem hostport_sim (n : Nat) (i : Bytes) (k m : Nat) (hk : k ≤ i.length) :
    runLoop (n + 5) lexFunc.lexHostport ⟨i, i.length, k, m⟩
      = some (hostportSent (i.drop k), none) := by
  rw [runLoop_succ]
  simp only [lexFunc.call, lexer.lexHostport]
  rcases hsuf : i.drop k with _ | ⟨x, c⟩
  · rw [current_nil i k k hsuf]
    simp [andThen, hostportSent]
  · obtain ⟨hlt, hc, hclen⟩ := drop_cons_facts hsuf
    have h2 : k + 1 ≤ i.length := by omega
    rw [current_cons i k k x c hsuf]
    simp only [cast_eq_eof, cast_eq_91, hostportSent, if_false, Int.toNat_ofNat]
    by_cases hx : x = 91
    · subst hx
      have hlen : k + 1 + (runes c).length ≤ i.length := by
        have := runes_length_le c
        omega
      have hl := ipv6Loop_sim n (runes c) i k (k + 1) (by omega) hlen
      have hsp : List.take (k + 1 - k) (List.drop k i) = [91] := by
        simp [hsuf]
      rw [hsp, hc] at hl
      simp only [if_true]
      apply andThen_next
      rw [runLoop_succ]
      simp only [lexFunc.call, lexer.lexIPv6, sliceFrom, h2, if_true, hc]
      exact hl
    · simp only [hx, if_false, sliceFrom, hk, if_true, hsuf]
      obtain ⟨r, hr, hb⟩ := parseIPv4_spec (x :: c)
      rw [hr]
      obtain ⟨len, ok⟩ := r
      cases ok with
      | true =>
        have hlen : len ≤ (x :: c).length := hb rfl
        have h3 : k + len ≤ i.length := by simp at hlen; omega
        have hp := port_sim (n + 1) i (k + len) k (by omega) h3
        have hsp : List.take (k + len - k) (List.drop k i) = List.take len (x :: c) := by
          rw [hsuf]; congr 1; omega
        have hdd : i.drop (k + len) = (x :: c).drop len := by
          rw [← hsuf, List.drop_drop]
        rw [hsp, hdd] at hp
        simp only [emit_eq i (k + len) k Token.tHost (by omega) h3, Option.map_some',
          Option.getD_some, if_true, hsp]
        exact andThen_next _ _ _ _ _ hp
      | false =>
        simp only [Option.getD_some, Bool.false_eq_true, if_false]
        by_cases ha : isAlphaNum (byte x) = true
        · simp only [ha, if_true]
          have hlen : k + (runes (x :: c)).length ≤ i.length := by
            have := runes_length_le (x :: c)
            simp at this; omega
          have hl := hostnameLoop_sim n (runes (x :: c)) i k k (le_refl _) hlen
          rw [hsuf] at hl
          simp only [Nat.sub_self, List.take_zero] at hl
          apply andThen_next
          rw [runLoop_succ]
          simp only [lexFunc.call, lexer.lexHostname, sliceFrom, hk, if_true, hsuf]
          exact hl
        · simp [ha, andThen]

theorem IndexByte_lt (s : Bytes) (c : Nat) : ∀ j, IndexByte s c = some j → j < s.length := by
  induction s with
  | nil => intro j h; simp [IndexByte] at h
  | cons b s ih =>
    intro j h
    simp only [IndexByte] at h
    split_ifs at h with hb
    · simp at h; subst h; simp
    · cases hs : IndexByte s c with
      | none => simp [hs] at h
      | some j1 =>
        simp [hs] at h
        subst h
        have := ih j1 hs
        simp; omega

theorem userinfoLoop_sim (i : Bytes) (lim m : Nat) : ∀ n k, k + n ≤ i.length →
    ∃ l1, lexUserinfoLoop n ⟨i, lim, k, m⟩
        = some (l1, userinfoErr ((i.drop k).take n) ((i.drop k).drop n)) ∧
      (userinfoErr ((i.drop k).take n) ((i.drop k).drop n) = none → l1 = ⟨i, lim, k + n, m⟩) := by
  intro n
  induction n with
  | zero => intro k _; exact ⟨_, by simp [lexUserinfoLoop, userinfoErr], fun _ => rfl⟩
  | succ n ih =>
    intro k hk
    rcases hsuf : i.drop k with _ | ⟨x, c⟩
    · have : i.length ≤ k := by simpa using hsuf
      omega
    · obtain ⟨hlt, hc, hclen⟩ := drop_cons_facts hsuf
      have hx : i[k]? = some x := by rw [← List.head?_drop, hsuf]; rfl
      have hk1 : k + 1 + n ≤ i.length := by omega
      obtain ⟨l1, h1, h2⟩ := ih (k + 1) hk1
      rw [hc] at h1 h2
      simp only [lexUserinfoLoop, List.get?_eq_getElem?, hx, List.take_succ_cons,
        List.drop_succ_cons, userinfoErr]
      split_ifs with ha hb
      · exact ⟨l1, h1, fun h => by rw [h2 h]; simp; omega⟩
      · exact ⟨l1, h1, fun h => by rw [h2 h]; simp; omega⟩
      · refine ⟨⟨i, lim, k, m⟩, ?_, fun h => by simp at h⟩
        have : k ≤ i.length := by omega
        simp [sliceFrom, this, hsuf]

theorem userinfo_sim (n : Nat) (i : Bytes) (k m : Nat) (hk : k ≤ i.length)
    (hat : IndexByte i 64 = (IndexByte (i.drop k) 64).map (· + k)) :
    runLoop (n + 6) lexFunc.lexUserinfo ⟨i, i.length, k, m⟩
      = some (userinfoSent (i.drop k), none) := by
  rw [runLoop_succ]
  simp only [lexFunc.call, lexer.lexUserinfo, userinfoSent, hat]
  cases hj : IndexByte (i.drop k) 64 with
  | none =>
    simp only [Option.map_none']
    have := andThen_next _ _ [] _ _ (hostport_sim n i k k hk)
    simpa using this
  | some j =>
    have hjl := IndexByte_lt _ _ j hj
    simp only [List.length_drop] at hjl
    have hkj : k + j ≤ i.length := by omega
    obtain ⟨l1, h1, h2⟩ := userinfoLoop_sim i i.length k j k hkj
    simp only [Option.map_some', Nat.add_sub_cancel, h1]
    cases he : userinfoErr ((i.drop k).take j) ((i.drop k).drop j) with
    | some e => simp [andThen]
    | none =>
      rw [h2 he]
      have hh := hostport_sim n i (k + j + 1) k (by omega)
      have hdd : i.drop (k + j + 1) = (i.drop k).drop (j + 1) := by
        rw [List.drop_drop, Nat.add_assoc]
      rw [hdd] at hh
      have hsp : List.take (k + j - k) (List.drop k i) = List.take j (List.drop k i) := by
        congr 1; omega
      simp only [emit_eq i (k + j) k Token.tUserinfo (by omega) hkj, Option.map_some', hsp]
      exact andThen_next _ _ _ _ _ hh

theorem scheme_sim (n : Nat) (data : Bytes) :
    runLoop (n + 7) lexFunc.lexScheme (newLexer data) = some (schemeSent data, none) := by
  rw [runLoop_succ]
  simp only [lexFunc.call, lexer.lexScheme, schemeSent, newLexer]
  by_cases h1 : HasPrefix data (B "sip:") = true
  · simp only [h1, if_true]
    have hp : B "sip:" <+: data := by simpa [HasPrefix] using h1
    obtain ⟨r, hr⟩ := hp
    rw [B_sip] at hr
    subst hr
    have hu := userinfo_sim n ([115, 105, 112, 58] ++ r) 4 0 (by simp)
      (by simp [IndexByte])
    have he := emit_eq ([115, 105, 112, 58] ++ r) 4 0 Token.tSip (by omega) (by simp)
    simp only [he, Option.map_some']
    exact andThen_next _ _ _ _ _ hu
  · simp only [h1, if_false]
    by_cases h2 : HasPrefix data (B "sips:") = true
    · simp only [h2, if_true]
      have hp : B "sips:" <+: data := by simpa [HasPrefix] using h2
      obtain ⟨r, hr⟩ := hp
      rw [B_sips] at hr
      subst hr
      have hu := userinfo_sim n ([115, 105, 112, 115, 58] ++ r) 5 0 (by simp)
        (by simp [IndexByte])
      have he := emit_eq ([115, 105, 112, 115, 58] ++ r) 5 0 Token.tSips (by omega) (by simp)
      simp only [he, Option.map_some']
      exact andThen_next _ _ _ _ _ hu
    · simp [h2, andThen]

/-- The lexer never panics, and `LexerParseInTime` is the receive loop over `schemeSent`. -/
theorem LexerParseInTime_eq (data : Bytes) :
    LexerParseInTime data = some (mainLoopInTime data URI.zero (schemeSent data)) := by
  simp [LexerParseInTime, lexer.run, scheme_sim 1 data]

/-! ## The receive loop -/

theorem mainLoopInTime_cases (data : Bytes) (evs : List Event) : ∀ u,
    (∃ v, mainLoopInTime data u evs = (some v, none)) ∨ (∃ e, mainLoopInTime data u evs = (none, some e)) := by
  induction evs with
  | nil => intro u; exact Or.inr ⟨_, rfl⟩
  | cons e evs ih =>
    intro u
    cases e with
    | item it =>
      simp only [mainLoopInTime]
      split_ifs
      · exact Or.inl ⟨u, rfl⟩
      · exact ih _
    | err m => exact Or.inr ⟨_, rfl⟩

theorem mainLoopInTime_errs_append (data : Bytes) (u : URI) (errs rest : List Event)
    (h : ∀ e ∈ errs, ∃ m, e = Event.err m) (v : URI)
    (hv : mainLoopInTime data u (errs ++ rest) = (some v, none)) :
    errs = [] ∧ mainLoopInTime data u rest = (some v, none) := by
  cases errs with
  | nil => exact ⟨rfl, by simpa using hv⟩
  | cons e errs =>
    obtain ⟨m, hm⟩ := h e (by simp)
    subst hm
    simp [mainLoopInTime] at hv

theorem mainLoopInTime_scheme (data : Bytes) (evs : List Event) : ∀ (u0 u : URI),
    (∀ e ∈ evs, 2 ≤ e.rank) → mainLoopInTime data u0 evs = (some u, none) → u.scheme = u0.scheme := by
  induction evs with
  | nil => intro u0 u _ h; simp [mainLoopInTime] at h
  | cons e evs ih =>
    intro u0 u hr h
    have hr1 : ∀ e ∈ evs, 2 ≤ e.rank := fun x hx => hr x (by simp [hx])
    have he := hr e (by simp)
    cases e with
    | err m => simp [mainLoopInTime] at h
    | item it =>
      obtain ⟨tk, v⟩ := it
      simp only [mainLoopInTime] at h
      split_ifs at h with ht
      · simp at h; rw [h]
      · have := ih _ _ hr1 h
        rw [this]
        cases tk <;> simp [URI.setSegment, Event.rank] at he ⊢

theorem mainLoopInTime_hostport (data : Bytes) (evs : List Event) : ∀ (u0 u : URI),
    (∀ e ∈ evs, 4 ≤ e.rank) → mainLoopInTime data u0 evs = (some u, none) →
    u0.hostport ≠ [] → u.hostport ≠ [] := by
  induction evs with
  | nil => intro u0 u _ h; simp [mainLoopInTime] at h
  | cons e evs ih =>
    intro u0 u hr h h0
    have hr1 : ∀ e ∈ evs, 4 ≤ e.rank := fun x hx => hr x (by simp [hx])
    have he := hr e (by simp)
    cases e with
    | err m => simp [mainLoopInTime] at h
    | item it =>
      obtain ⟨tk, v⟩ := it
      simp only [mainLoopInTime] at h
      split_ifs at h with ht
      · simp at h; rw [← h]; exact h0
      · refine ih _ _ hr1 h ?_
        cases tk <;> simp [URI.setSegment, Event.rank] at he ⊢ <;> simp [h0]

/-! ## The kinds of the values sent from each state on -/

theorem headerErrs_err (cs : List Nat) : ∀ rest, ∀ e ∈ headerErrs cs rest, ∃ m, e = Event.err m := by
  induction cs with
  | nil => intro rest e he; simp [headerErrs] at he
  | cons c cs ih =>
    intro rest e he
    simp only [headerErrs] at he
    split_ifs at he
    · exact ih _ e he
    · exact ih _ e he
    · rcases List.mem_cons.1 he with h | h
      · exact ⟨_, h⟩
      · exact ih _ e h

theorem rank_headers (suf : Bytes) : ∀ e ∈ headersSent suf, 6 ≤ e.rank := by
  intro e he
  match suf with
  | [] => simp [headersSent] at he; subst he; simp [Event.rank]
  | c :: hs =>
    simp only [headersSent] at he
    split_ifs at he
    · simp [errorf] at he; subst he; simp [Event.rank]
    · rcases List.mem_append.1 he with h | h
      · obtain ⟨m, hm⟩ := headerErrs_err _ _ e h
        subst hm; simp [Event.rank]
      · simp at h
        rcases h with h | h <;> subst h <;> simp [Event.rank]

theorem rank_paramsLoop (cs : List Nat) : ∀ done rest, ∀ e ∈ paramsLoopSent cs done rest,
    5 ≤ e.rank := by
  induction cs with
  | nil =>
    intro done rest e he
    simp [paramsLoopSent] at he
    rcases he with h | h <;> subst h <;> simp [Event.rank]
  | cons c cs ih =>
    intro done rest e he
    simp only [paramsLoopSent] at he
    split_ifs at he
    · rcases List.mem_cons.1 he with h | h
      · subst h; simp [Event.rank]
      · have := rank_headers _ e h; omega
    · exact ih _ _ e he
    · exact ih _ _ e he
    · simp [errorf] at he; subst he; simp [Event.rank]

theorem rank_params (suf : Bytes) : ∀ e ∈ paramsSent suf, 5 ≤ e.rank := by
  intro e he
  match suf with
  | [] => simp [paramsSent] at he; subst he; simp [Event.rank]
  | c :: ps =>
    simp only [paramsSent] at he
    split_ifs at he
    · have := rank_headers _ e he; omega
    · simp [errorf] at he; subst he; simp [Event.rank]
    · exact rank_paramsLoop _ _ _ e he

theorem rank_port (done suf : Bytes) : ∀ e ∈ portSent done suf, 4 ≤ e.rank := by
  intro e he
  match suf with
  | [] => simp [portSent] at he; subst he; simp [Event.rank]
  | c :: r =>
    simp only [portSent] at he
    split_ifs at he
    · have := rank_params _ e he; omega
    · simp [errorf] at he
      rcases he with h | h | h
      · subst h; simp [Event.rank]
      · subst h; simp [Event.rank]
      · have := rank_params _ e h; omega
    · simp at he
      rcases he with h | h
      · subst h; simp [Event.rank]
      · have := rank_params _ e h; omega

/-- The values sent from the host on: an error first, or a non-empty host and
then nothing that is sent before a port. -/
theorem hostOK_hostnameLoop (cs : List Nat) : ∀ done rest, done ≠ [] →
    (∃ m evs, hostnameLoopSent cs done rest = Event.err m :: evs) ∨
    (∃ v evs, hostnameLoopSent cs done rest = Event.item ⟨Token.tHost, v⟩ :: evs ∧ v ≠ [] ∧
      ∀ e ∈ evs, 4 ≤ e.rank) := by
  induction cs with
  | nil =>
    intro done rest hd
    exact Or.inr ⟨done, _, rfl, hd, by simp [Event.rank]⟩
  | cons c cs ih =>
    intro done rest hd
    simp only [hostnameLoopSent]
    split_ifs
    · exact ih _ _ (by simp [hd])
    · exact Or.inr ⟨done, _, rfl, hd, rank_port _ _⟩
    · exact Or.inr ⟨done, _, rfl, hd, fun e he => by have := rank_params _ e he; omega⟩
    · exact Or.inr ⟨done, _, rfl, hd, fun e he => by have := rank_headers _ e he; omega⟩
    · exact Or.inl ⟨_, _, rfl⟩

theorem hostOK_ipv6Loop (cs : List Nat) : ∀ done rest, done ≠ [] →
    (∃ m evs, ipv6LoopSent cs done rest = Event.err m :: evs) ∨
    (∃ v evs, ipv6LoopSent cs done rest = Event.item ⟨Token.tHost, v⟩ :: evs ∧ v ≠ [] ∧
      ∀ e ∈ evs, 4 ≤ e.rank) := by
  induction cs with
  | nil => intro done rest _; exact Or.inl ⟨_, _, rfl⟩
  | cons c cs ih =>
    intro done rest hd
    simp only [ipv6LoopSent]
    split_ifs
    · exact Or.inr ⟨_, _, rfl, by simp [hd], rank_port _ _⟩
    · exact ih _ _ (by simp [hd])
    · exact Or.inl ⟨_, _, rfl⟩

theorem dtoiLoop_pos (s : Bytes) : ∀ n i, (dtoiLoop s n i).2.2 = true →
    1 ≤ (dtoiLoop s n i).2.1 := by
  induction s with
  | nil =>
    intro n i
    by_cases hi : i = 0
    · simp [dtoiLoop, hi]
    · simp [dtoiLoop, hi]; omega
  | cons b s ih =>
    intro n i
    simp only [dtoiLoop]
    have := ih (n * 10 + (b - 48)) (i + 1)
    split_ifs
    all_goals first | exact this | (simp; try omega)

theorem dtoi_pos (s : Bytes) (h : (dtoi s).2.2 = true) : 1 ≤ (dtoi s).2.1 :=
  dtoiLoop_pos s 0 0 h

theorem parseIPv4_pos (data : Bytes) (r : Nat) (h : parseIPv4 data = some (r, true)) : 1 ≤ r := by
  match data with
  | [] => simp [parseIPv4, parseIPv4Loop] at h
  | b :: rest =>
    rw [parseIPv4, parseIPv4Loop_first] at h
    split_ifs at h with h1
    · have := parseIPv4Loop_ge _ _ _ _ _ h
      have := dtoi_pos _ h1.1
      omega
    · simp at h

theorem runes_cons_ge (x : Nat) (c : Bytes) (h : 256 ≤ x) :
    runes (x :: c) = RuneError :: runes c := by
  have h1 : ¬ x < 128 := by omega
  have h2 : ¬ (194 ≤ x ∧ x ≤ 223) := by omega
  have h3 : ¬ (224 ≤ x ∧ x ≤ 239) := by omega
  have h4 : ¬ (240 ≤ x ∧ x ≤ 244) := by omega
  simp [runes, runesFrom, decodeRune, runeSize, h1, h2, h3, h4]

theorem hostOK_hostport (suf : Bytes) :
    (∃ m evs, hostportSent suf = Event.err m :: evs) ∨
    (∃ v evs, hostportSent suf = Event.item ⟨Token.tHost, v⟩ :: evs ∧ v ≠ [] ∧
      ∀ e ∈ evs, 4 ≤ e.rank) := by
  match suf with
  | [] => exact Or.inl ⟨_, _, rfl⟩
  | x :: c =>
    simp only [hostportSent]
    split_ifs with h1 h2 h3
    · exact hostOK_ipv6Loop _ _ _ (by simp)
    · refine Or.inr ⟨_, _, rfl, ?_, rank_port _ _⟩
      obtain ⟨r, hr, _⟩ := parseIPv4_spec (x :: c)
      rw [hr] at h2 ⊢
      obtain ⟨len, ok⟩ := r
      simp at h2
      subst h2
      have := parseIPv4_pos _ _ hr
      simp only [Option.getD_some]
      cases len with
      | zero => omega
      | succ len => simp
    · by_cases hx : x < 128
      · rw [runes_cons_lt x c hx]
        have hb : byte x = x := by simp [byte]; omega
        rw [hb] at h3
        simp only [hostnameLoopSent, byte, Nat.mod_eq_of_lt (show x < 256 by omega)]
        have : isAlphaNum x = true ∨ x = 45 ∨ x = 46 := Or.inl h3
        simp only [this, if_true]
        exact hostOK_hostnameLoop _ _ _ (by simp)
      · have hge : 256 ≤ x := by
          by_contra hc
          have hb : byte x = x := by simp [byte]; omega
          rw [hb] at h3
          simp [isAlphaNum, isNum] at h3
          omega
        have : hostnameLoopSent (runes (x :: c)) [] (x :: c) = [errorf (B "invalid hostname")] := by
          rw [runes_cons_ge x c hge]
          simp [hostnameLoopSent, RuneError, byte, isAlphaNum, isNum]
        rw [this]
        exact Or.inl ⟨_, _, rfl⟩
    · exact Or.inl ⟨_, _, rfl⟩

theorem rank_hostnameLoop (cs : List Nat) : ∀ done rest, ∀ e ∈ hostnameLoopSent cs done rest,
    3 ≤ e.rank := by
  induction cs with
  | nil =>
    intro done rest e he
    simp [hostnameLoopSent] at he
    rcases he with h | h <;> subst h <;> simp [Event.rank]
  | cons c cs ih =>
    intro done rest e he
    simp only [hostnameLoopSent] at he
    split_ifs at he
    · exact ih _ _ e he
    · rcases List.mem_cons.1 he with h | h
      · subst h; simp [Event.rank]
      · have := rank_port _ _ e h; omega
    · rcases List.mem_cons.1 he with h | h
      · subst h; simp [Event.rank]
      · have := rank_params _ e h; omega
    · rcases List.mem_cons.1 he with h | h
      · subst h; simp [Event.rank]
      · have := rank_headers _ e h; omega
    · simp [errorf] at he; subst he; simp [Event.rank]

theorem rank_ipv6Loop (cs : List Nat) : ∀ done rest, ∀ e ∈ ipv6LoopSent cs done rest,
    3 ≤ e.rank := by
  induction cs with
  | nil =>
    intro done rest e he
    simp [ipv6LoopSent, errorf] at he
    subst he; simp [Event.rank]
  | cons c cs ih =>
    intro done rest e he
    simp only [ipv6LoopSent] at he
    split_ifs at he
    · rcases List.mem_cons.1 he with h | h
      · subst h; simp [Event.rank]
      · have := rank_port _ _ e h; omega
    · exact ih _ _ e he
    · simp [errorf] at he; subst he; simp [Event.rank]

theorem rank_hostport (suf : Bytes) : ∀ e ∈ hostportSent suf, 3 ≤ e.rank := by
  intro e he
  match suf with
  | [] => simp [hostportSent, errorf] at he; subst he; simp [Event.rank]
  | x :: c =>
    simp only [hostportSent] at he
    split_ifs at he
    · exact rank_ipv6Loop _ _ _ e he
    · rcases List.mem_cons.1 he with h | h
      · subst h; simp [Event.rank]
      · have := rank_port _ _ e h; omega
    · exact rank_hostnameLoop _ _ _ e he
    · simp [errorf] at he; subst he; simp [Event.rank]

theorem userinfoErr_err (u : Bytes) : ∀ after ev, userinfoErr u after = some ev →
    ∃ m, ev = Event.err m := by
  induction u with
  | nil => intro after ev h; simp [userinfoErr] at h
  | cons c u ih =>
    intro after ev h
    simp only [userinfoErr] at h
    split_ifs at h
    · exact ih _ _ h
    · exact ih _ _ h
    · simp at h; exact ⟨_, h.symm⟩

theorem rank_userinfo (suf : Bytes) : ∀ e ∈ userinfoSent suf, 2 ≤ e.rank := by
  intro e he
  simp only [userinfoSent] at he
  cases hi : IndexByte suf 64 with
  | none =>
    simp only [hi] at he
    have := rank_hostport _ e he; omega
  | some k =>
    simp only [hi] at he
    cases hu : userinfoErr (List.take k suf) (List.drop k suf) with
    | none =>
      simp only [hu] at he
      rcases List.mem_cons.1 he with h | h
      · subst h; simp [Event.rank]
      · have := rank_hostport _ e h; omega
    | some ev =>
      simp only [hu, List.mem_singleton] at he
      subst he
      obtain ⟨m, hm⟩ := userinfoErr_err _ _ _ hu
      subst hm; simp [Event.rank]

/-! ## Claims on the scheme, the result and the host -/

/-- Without the timer: an input that begins with neither `sip:` nor `sips:` yields a nil URI and
the error `Invalid uri '<input>': invalid scheme`. -/
theorem LexerParseInTime_invalid_scheme (data : Bytes)
    (h1 : HasPrefix data (B "sip:") = false) (h2 : HasPrefix data (B "sips:") = false) :
    LexerParseInTime data = some (none, some (B "Invalid uri '" ++ data ++ B "': invalid scheme")) := by
  have hb : B "': " ++ B "invalid scheme" = B "': invalid scheme" := by decide
  simp [LexerParseInTime_eq, schemeSent, h1, h2, mainLoopInTime, errorf, hb]

theorem LexerParseInTime_invalid_scheme_witness :
    HasPrefix (B " SIP:a") (B "sip:") = false ∧ HasPrefix (B " SIP:a") (B "sips:") = false ∧
    LexerParseInTime (B " SIP:a")
      = some (none, some (B "Invalid uri '" ++ B " SIP:a" ++ B "': invalid scheme")) :=
  ⟨by decide, by decide, LexerParseInTime_invalid_scheme (B " SIP:a") (by decide) (by decide)⟩

/-- Without the timer: an accepted input never has the scheme UNKNOWN: the scheme is SIP exactly
when the input begins with `sip:` and SIPS exactly when it begins with `sips:`. -/
theorem LexerParseInTime_scheme (data : Bytes) (u : URI)
    (h : LexerParseInTime data = some (some u, none)) :
    u.scheme ≠ Scheme.UNKNOWN ∧
    (u.scheme = Scheme.SIP ↔ HasPrefix data (B "sip:") = true) ∧
    (u.scheme = Scheme.SIPS ↔ HasPrefix data (B "sips:") = true) := by
  rw [LexerParseInTime_eq] at h
  simp only [Option.some.injEq] at h
  simp only [schemeSent] at h
  by_cases h1 : HasPrefix data (B "sip:") = true
  · have h2 : HasPrefix data (B "sips:") = false := by
      have hp : B "sip:" <+: data := by simpa [HasPrefix] using h1
      obtain ⟨r, hr⟩ := hp
      subst hr
      simp [HasPrefix, B_sip, B_sips, List.isPrefixOf]
    simp only [h1, if_true, mainLoopInTime] at h
    simp only [URI.setSegment, reduceCtorEq, if_false] at h
    have := mainLoopInTime_scheme _ _ _ _ (rank_userinfo _) h
    simp [this, h1, h2]
  · simp only [h1, if_false] at h
    by_cases h2 : HasPrefix data (B "sips:") = true
    · simp only [h2, if_true, mainLoopInTime] at h
      simp only [URI.setSegment, reduceCtorEq, if_false] at h
      have := mainLoopInTime_scheme _ _ _ _ (rank_userinfo _) h
      simp [this, h1, h2]
    · simp [h2, mainLoopInTime, errorf] at h

theorem LexerParseInTime_scheme_witness :
    LexerParseInTime (B "sips:a") = some (some ⟨Scheme.SIPS, [], B "a", [], []⟩, none) ∧
    (Scheme.SIPS ≠ Scheme.UNKNOWN ∧
    (Scheme.SIPS = Scheme.SIP ↔ HasPrefix (B "sips:a") (B "sip:") = true) ∧
    (Scheme.SIPS = Scheme.SIPS ↔ HasPrefix (B "sips:a") (B "sips:") = true)) :=
  ⟨by decide, LexerParseInTime_scheme (B "sips:a") ⟨Scheme.SIPS, [], B "a", [], []⟩ (by decide)⟩

/-- Without the timer: for every input `LexerParseInTime` returns either a URI and a nil error, or a
nil URI and an error. -/
theorem LexerParseInTime_uri_or_error (data : Bytes) :
    (∃ uri, LexerParseInTime data = some (some uri, none)) ∨
    (∃ err, LexerParseInTime data = some (none, some err)) := by
  rw [LexerParseInTime_eq]
  rcases mainLoopInTime_cases data (schemeSent data) URI.zero with ⟨v, hv⟩ | ⟨e, he⟩
  · exact Or.inl ⟨v, by rw [hv]⟩
  · exact Or.inr ⟨e, by rw [he]⟩

/-- Without the timer: the hostport of an accepted input, ASCII or not, is not empty. -/
theorem LexerParseInTime_hostport_ne_nil (data : Bytes) (u : URI)
    (h : LexerParseInTime data = some (some u, none)) : u.hostport ≠ [] := by
  rw [LexerParseInTime_eq] at h
  simp only [Option.some.injEq] at h
  have key : ∀ (u0 : URI) (suf : Bytes),
      mainLoopInTime data u0 (userinfoSent suf) = (some u, none) → u.hostport ≠ [] := by
    intro u0 suf hm
    have hh : ∀ (u1 : URI) (s : Bytes),
        mainLoopInTime data u1 (hostportSent s) = (some u, none) → u.hostport ≠ [] := by
      intro u1 s hs
      rcases hostOK_hostport s with ⟨m, evs, he⟩ | ⟨v, evs, he, hv, hr⟩
      · rw [he] at hs; simp [mainLoopInTime] at hs
      · rw [he] at hs
        simp only [mainLoopInTime, reduceCtorEq, if_false, URI.setSegment] at hs
        exact mainLoopInTime_hostport _ _ _ _ hr hs hv
    simp only [userinfoSent] at hm
    cases hi : IndexByte suf 64 with
    | none => simp only [hi] at hm; exact hh _ _ hm
    | some k =>
      simp only [hi] at hm
      cases hu : userinfoErr (List.take k suf) (List.drop k suf) with
      | none =>
        simp only [hu, mainLoopInTime, reduceCtorEq, if_false] at hm
        exact hh _ _ hm
      | some ev =>
        simp only [hu] at hm
        obtain ⟨m, hm1⟩ := userinfoErr_err _ _ _ hu
        subst hm1
        simp [mainLoopInTime] at hm
  simp only [schemeSent] at h
  split_ifs at h
  · simp only [mainLoopInTime, reduceCtorEq, if_false] at h
    exact key _ _ h
  · simp only [mainLoopInTime, reduceCtorEq, if_false] at h
    exact key _ _ h
  · simp [mainLoopInTime, errorf] at h

theorem LexerParseInTime_hostport_ne_nil_witness :
    LexerParseInTime [115, 105, 112, 58, 97, 197, 129]
      = some (some ⟨Scheme.SIP, [], [97, 197], [], []⟩, none) ∧
    ([97, 197] : Bytes) ≠ [] :=
  ⟨by decide, LexerParseInTime_hostport_ne_nil [115, 105, 112, 58, 97, 197, 129]
    ⟨Scheme.SIP, [], [97, 197], [], []⟩ (by decide)⟩

/-! ## Byte classes and digits -/

theorem byte_of_lt (c : Nat) (h : c < 256) : byte c = c := by
  simp [byte]; omega

theorem isAlphaNum_lt (c : Nat) (h : isAlphaNum c = true) : c < 128 := by
  simp [isAlphaNum, isNum] at h; omega

theorem isUnreserved_lt (c : Nat) (h : isUnreserved c = true) : c < 128 := by
  simp only [isUnreserved] at h
  split_ifs at h with h1 h2
  · exact isAlphaNum_lt c h1
  · omega

theorem isHostByte_lt (c : Nat) (h : isHostByte c = true) : c < 128 := by
  simp [isHostByte, isLetter, isNum] at h; omega

theorem isUserinfoByte_lt (c : Nat) (h : isUserinfoByte c = true) : c < 128 := by
  simp only [isUserinfoByte, Bool.or_eq_true] at h
  rcases h with h | h
  · exact isUnreserved_lt c h
  · simp [isUserExtra] at h; omega

theorem isParamByte_lt (c : Nat) (h : isParamByte c = true) : c < 128 := by
  simp only [isParamByte, Bool.or_eq_true, decide_eq_true_eq] at h
  rcases h with (((h | h) | h) | h) | h
  · exact isUnreserved_lt c h
  · omega
  · omega
  · omega
  · simp [isParamExtra] at h; omega

theorem isHeaderByte_lt (c : Nat) (h : isHeaderByte c = true) : c < 128 := by
  simp only [isHeaderByte, Bool.or_eq_true, decide_eq_true_eq] at h
  rcases h with (((h | h) | h) | h) | h
  · exact isUnreserved_lt c h
  · omega
  · omega
  · omega
  · simp [isHeaderExtra] at h; omega

theorem isHostByte_iff (c : Nat) :
    isHostByte c = true ↔ (isAlphaNum c = true ∨ c = 45 ∨ c = 46) := by
  simp [isHostByte, isLetter, isAlphaNum, isNum, or_assoc]

theorem isParamByte_ne_63 (c : Nat) (h : isParamByte c = true) : c ≠ 63 := by
  intro hc
  subst hc
  revert h
  decide

theorem isUserinfoByte_ne_64 (c : Nat) (h : isUserinfoByte c = true) : c ≠ 64 := by
  intro hc
  subst hc
  revert h
  decide

theorem isHostByte_ne_64 (c : Nat) (h : isHostByte c = true) : c ≠ 64 := by
  intro hc
  subst hc
  revert h
  decide

theorem isParamByte_ne_64 (c : Nat) (h : isParamByte c = true) : c ≠ 64 := by
  intro hc
  subst hc
  revert h
  decide

theorem isHeaderByte_ne_64 (c : Nat) (h : isHeaderByte c = true) : c ≠ 64 := by
  intro hc
  subst hc
  revert h
  decide

theorem isNum_ne_64 (c : Nat) (h : isNum c = true) : c ≠ 64 := by
  intro hc
  subst hc
  revert h
  decide

theorem runes_append_ascii (a : Bytes) (s : Bytes) (h : ∀ b ∈ a, b < 128) :
    runes (a ++ s) = a ++ runes s := by
  induction a with
  | nil => rfl
  | cons b a ih =>
    rw [List.cons_append, runes_cons_lt b _ (h b (by simp)), ih (fun x hx => h x (by simp [hx]))]
    rfl

/-! ## `dtoi` on a run of digits -/

theorem foldl_dec_ge (d : Bytes) : ∀ n, n ≤ d.foldl (fun n b => n * 10 + (b - 48)) n := by
  induction d with
  | nil => intro n; simp
  | cons b d ih =>
    intro n
    simp only [List.foldl_cons]
    have := ih (n * 10 + (b - 48))
    omega

/-- On digits `d` followed by `rest` that does not begin with a digit, the loop
of `dtoi` reads all of `d` when the value stays below `0xFFFFF`. -/
theorem dtoiLoop_digits (d : Bytes) : ∀ (rest : Bytes) (n i : Nat),
    (∀ c ∈ d, isNum c = true) → (∀ x t, rest = x :: t → isNum x = false) →
    0 < i + d.length →
    d.foldl (fun n b => n * 10 + (b - 48)) n < 0xFFFFF →
    dtoiLoop (d ++ rest) n i
      = (d.foldl (fun n b => n * 10 + (b - 48)) n, i + d.length, true) := by
  induction d with
  | nil =>
    intro rest n i _ hr hi _
    have hi0 : i ≠ 0 := by simp at hi; omega
    match rest with
    | [] => simp [dtoiLoop, hi0]
    | x :: t =>
      have hx := hr x t rfl
      simp only [isNum, decide_eq_false_iff_not] at hx
      simp [dtoiLoop, hx, hi0]
  | cons b d ih =>
    intro rest n i hd hr _ hv
    have hb := hd b (by simp)
    simp only [isNum, decide_eq_true_eq] at hb
    simp only [List.foldl_cons] at hv
    have hmono := foldl_dec_ge d (n * 10 + (b - 48))
    have hlt : ¬ (n * 10 + (b - 48) ≥ 0xFFFFF) := by omega
    simp only [List.cons_append, dtoiLoop, hb, and_self, if_true, hlt, if_false, List.foldl_cons,
      List.append_eq]
    rw [ih rest _ (i + 1) (fun c hc => hd c (by simp [hc])) hr (by omega) hv]
    simp; omega

theorem dtoi_digits (d rest : Bytes) (hd : ∀ c ∈ d, isNum c = true) (hne : d ≠ [])
    (hr : ∀ x t, rest = x :: t → isNum x = false) (hv : decVal d < 0xFFFFF) :
    dtoi (d ++ rest) = (decVal d, d.length, true) := by
  have hl : 0 < 0 + d.length := by
    cases d with
    | nil => exact absurd rfl hne
    | cons b d => simp
  have := dtoiLoop_digits d rest 0 0 hd hr hl hv
  simpa [dtoi, decVal] using this

/-- The loop of `dtoi` fails when the digits read reach `0xFFFFF`. -/
theorem dtoiLoop_big (d : Bytes) : ∀ (rest : Bytes) (n i : Nat),
    (∀ c ∈ d, isNum c = true) →
    0xFFFFF ≤ d.foldl (fun n b => n * 10 + (b - 48)) n → n < 0xFFFFF →
    (dtoiLoop (d ++ rest) n i).2.2 = false ∧ (dtoiLoop (d ++ rest) n i).2.1 ≤ i + d.length := by
  induction d with
  | nil => intro rest n i _ hv hn; simp at hv; omega
  | cons b d ih =>
    intro rest n i hd hv hn
    have hb := hd b (by simp)
    simp only [isNum, decide_eq_true_eq] at hb
    simp only [List.foldl_cons] at hv
    simp only [List.cons_append, dtoiLoop, hb, and_self, if_true, List.append_eq]
    by_cases hlt : n * 10 + (b - 48) ≥ 0xFFFFF
    · simp [hlt]
    · simp only [hlt, if_false]
      have := ih rest _ (i + 1) (fun c hc => hd c (by simp [hc])) hv (by omega)
      simp only [List.length_cons]
      exact ⟨this.1, by omega⟩

theorem dtoi_nondigit (s : Bytes) (h : ∀ x t, s = x :: t → isNum x = false) :
    dtoi s = (0, 0, false) := by
  match s with
  | [] => simp [dtoi, dtoiLoop]
  | x :: t =>
    have hx := h x t rfl
    simp only [isNum, decide_eq_false_iff_not] at hx
    simp [dtoi, dtoiLoop, hx]

theorem parseIPv4_nondigit (s : Bytes) (h : ∀ x t, s = x :: t → isNum x = false) :
    parseIPv4 s = some (0, false) := by
  match s with
  | [] => simp [parseIPv4, parseIPv4Loop]
  | x :: t =>
    rw [parseIPv4, parseIPv4Loop_first, dtoi_nondigit _ h]
    simp

/-! ## The values sent on inputs of a known shape -/

theorem hostnameLoop_consume (a : Bytes) : ∀ (cs : List Nat) (done rest : Bytes),
    (∀ c ∈ a, isHostByte c = true) →
    hostnameLoopSent (a ++ cs) done (a ++ rest) = hostnameLoopSent cs (done ++ a) rest := by
  induction a with
  | nil => intro cs done rest _; simp
  | cons x a ih =>
    intro cs done rest h
    have hx := h x (by simp)
    have hlt := isHostByte_lt x hx
    have hc : isAlphaNum (byte x) = true ∨ x = 45 ∨ x = 46 := by
      rw [byte_of_lt x (by omega)]
      exact (isHostByte_iff x).1 hx
    simp only [List.cons_append, hostnameLoopSent, hc, if_true, List.take_succ_cons,
      List.take_zero, List.drop_succ_cons, List.drop_zero, List.append_eq]
    rw [ih cs (done ++ [x]) rest (fun c hc => h c (by simp [hc]))]
    simp

theorem paramsLoop_consume (a : Bytes) : ∀ (cs : List Nat) (done rest : Bytes),
    (∀ c ∈ a, isParamByte c = true) →
    paramsLoopSent (a ++ cs) done (a ++ rest) = paramsLoopSent cs (done ++ a) rest := by
  induction a with
  | nil => intro cs done rest _; simp
  | cons x a ih =>
    intro cs done rest h
    have hx := h x (by simp)
    have hlt := isParamByte_lt x hx
    have hne := isParamByte_ne_63 x hx
    have hb := byte_of_lt x (by omega)
    have hrec := ih cs (done ++ [x]) rest (fun c hc => h c (by simp [hc]))
    simp only [List.append_assoc, List.singleton_append] at hrec
    simp only [List.cons_append, paramsLoopSent, hne, if_false, List.take_succ_cons,
      List.take_zero, List.drop_succ_cons, List.drop_zero, hb, List.append_eq, hrec]
    simp only [isParamByte, Bool.or_eq_true, decide_eq_true_eq] at hx
    split_ifs with h1 h2
    · rfl
    · rfl
    · exfalso
      rcases hx with (((hx | hx) | hx) | hx) | hx
      · exact h1 (Or.inl hx)
      · exact h1 (Or.inr (Or.inl hx))
      · exact h1 (Or.inr (Or.inr (Or.inl hx)))
      · exact h1 (Or.inr (Or.inr (Or.inr hx)))
      · exact h2 hx

theorem headerErrs_legal (q : Bytes) : ∀ rest, (∀ c ∈ q, isHeaderByte c = true) →
    headerErrs q rest = [] := by
  induction q with
  | nil => intro rest _; rfl
  | cons x q ih =>
    intro rest h
    have hx := h x (by simp)
    have hlt := isHeaderByte_lt x hx
    have hb := byte_of_lt x (by omega)
    have hrec := ih (rest.drop 1) (fun c hc => h c (by simp [hc]))
    simp only [headerErrs, hb, hrec]
    simp only [isHeaderByte, Bool.or_eq_true, decide_eq_true_eq] at hx
    split_ifs with h1 h2
    · rfl
    · rfl
    · exfalso
      rcases hx with (((hx | hx) | hx) | hx) | hx
      · exact h1 (Or.inl hx)
      · exact h1 (Or.inr (Or.inl hx))
      · exact h1 (Or.inr (Or.inr (Or.inl hx)))
      · exact h1 (Or.inr (Or.inr (Or.inr hx)))
      · exact h2 hx

theorem userinfoErr_legal (u : Bytes) : ∀ after, (∀ c ∈ u, isUserinfoByte c = true) →
    userinfoErr u after = none := by
  induction u with
  | nil => intro after _; rfl
  | cons x u ih =>
    intro after h
    have hx := h x (by simp)
    have hrec := ih after (fun c hc => h c (by simp [hc]))
    simp only [userinfoErr, hrec]
    simp only [isUserinfoByte, Bool.or_eq_true] at hx
    split_ifs with h1 h2
    · rfl
    · rfl
    · rcases hx with hx | hx
      · exact absurd hx h1
      · exact absurd hx h2

theorem IndexByte_none (s : Bytes) (h : ∀ c ∈ s, c ≠ 64) : IndexByte s 64 = none := by
  induction s with
  | nil => rfl
  | cons b s ih =>
    have hb := h b (by simp)
    simp [IndexByte, hb, ih (fun c hc => h c (by simp [hc]))]

theorem IndexByte_at (a r : Bytes) (h : ∀ c ∈ a, c ≠ 64) :
    IndexByte (a ++ 64 :: r) 64 = some a.length := by
  induction a with
  | nil => simp [IndexByte]
  | cons b a ih =>
    have hb := h b (by simp)
    simp [IndexByte, hb, ih (fun c hc => h c (by simp [hc]))]

theorem schemeSent_sip (r : Bytes) :
    schemeSent (B "sip:" ++ r) = Event.item ⟨Token.tSip, B "sip:"⟩ :: userinfoSent r := by
  simp [schemeSent, HasPrefix, B_sip]

theorem schemeSent_sips (r : Bytes) :
    schemeSent (B "sips:" ++ r) = Event.item ⟨Token.tSips, B "sips:"⟩ :: userinfoSent r := by
  simp [schemeSent, HasPrefix, B_sip, B_sips, List.isPrefixOf]

theorem userinfoSent_absent (s : Bytes) (h : ∀ c ∈ s, c ≠ 64) :
    userinfoSent s = hostportSent s := by
  simp [userinfoSent, IndexByte_none s h]

theorem userinfoSent_present (v s : Bytes) (hv : ∀ c ∈ v, isUserinfoByte c = true) :
    userinfoSent (v ++ 64 :: s) = Event.item ⟨Token.tUserinfo, v⟩ :: hostportSent s := by
  have h64 : ∀ c ∈ v, c ≠ 64 := fun c hc => isUserinfoByte_ne_64 c (hv c hc)
  simp [userinfoSent, IndexByte_at v s h64, userinfoErr_legal v _ hv]

/-- A host name that starts with a letter, followed by the end of the input or
by one of `:`, `;`, `?`. -/
theorem hostportSent_hostname (x : Nat) (t Y : Bytes) (hx : isLetter x = true)
    (ht : ∀ c ∈ t, isHostByte c = true)
    (hY : Y = [] ∨ ∃ y Y1, Y = y :: Y1 ∧ (y = 58 ∨ y = 59 ∨ y = 63)) :
    hostportSent (x :: t ++ Y) = Event.item ⟨Token.tHost, x :: t⟩ :: portSent (x :: t) Y := by
  have hxh : isHostByte x = true := by simp [isHostByte, hx]
  have hall : ∀ c ∈ x :: t, isHostByte c = true := by
    intro c hc
    rcases List.mem_cons.1 hc with h | h
    · rw [h]; exact hxh
    · exact ht c h
  have hx91 : x ≠ 91 := by
    intro h; subst h; revert hx; decide
  have hnd : ∀ a b, x :: (t ++ Y) = a :: b → isNum a = false := by
    intro a b hab
    simp only [List.cons.injEq] at hab
    rw [← hab.1]
    simp [isLetter, isNum] at hx ⊢
    omega
  have hlt := isHostByte_lt x hxh
  have han : isAlphaNum (byte x) = true := by
    rw [byte_of_lt x (by omega)]
    simp [isAlphaNum, isLetter] at hx ⊢
    tauto
  have hrunes : runes (x :: t ++ Y) = (x :: t) ++ runes Y :=
    runes_append_ascii (x :: t) Y (fun b hb => isHostByte_lt b (hall b hb))
  have hcons := hostnameLoop_consume (x :: t) (runes Y) [] Y hall
  simp only [List.nil_append] at hcons
  simp only [List.cons_append] at hrunes hcons ⊢
  simp only [hostportSent, hx91, if_false, parseIPv4_nondigit _ hnd, Option.getD_some,
    Bool.false_eq_true, han, if_true, hrunes, hcons]
  rcases hY with hY | ⟨y, Y1, hY, hy⟩
  · subst hY
    simp [runes, runesFrom, hostnameLoopSent, portSent]
  · subst hY
    have hy128 : y < 128 := by omega
    rw [runes_cons_lt y Y1 hy128]
    have hyb : byte y = y := byte_of_lt y (by omega)
    have hyn : ¬ (isAlphaNum (byte y) = true ∨ y = 45 ∨ y = 46) := by
      rw [hyb]
      rcases hy with h | h | h <;> subst h <;> decide
    simp only [hostnameLoopSent, hyn, if_false, portSent, paramsSent]
    rcases hy with h | h | h <;> subst h <;> simp

/-! ## C1: the inputs built from legal parts are accepted, without the timer -/

theorem B_at : B "@" = [64] := by decide
theorem B_semi : B ";" = [59] := by decide
theorem B_quest : B "?" = [63] := by decide

theorem accept_headers (data : Bytes) (u0 : URI) (q : Option Bytes)
    (hq : ∀ v, q = some v → ∀ c ∈ v, isHeaderByte c = true) :
    mainLoopInTime data u0 (headersSent (withPrefix (B "?") q))
      = (some ⟨u0.scheme, u0.userinfo, u0.hostport, u0.params, q.getD u0.headers⟩, none) := by
  cases q with
  | none => simp [withPrefix, headersSent, mainLoopInTime]
  | some v =>
    have hv := hq v rfl
    have hr : runes v = v := runes_ascii v (fun b hb => isHeaderByte_lt b (hv b hb))
    simp [withPrefix, B_quest, headersSent, hr, headerErrs_legal v v hv, mainLoopInTime,
      URI.setSegment]

theorem accept_params (data : Bytes) (u0 : URI) (p q : Option Bytes)
    (hp : ∀ v, p = some v → ∀ c ∈ v, isParamByte c = true)
    (hq : ∀ v, q = some v → ∀ c ∈ v, isHeaderByte c = true) :
    mainLoopInTime data u0 (paramsSent (withPrefix (B ";") p ++ withPrefix (B "?") q))
      = (some ⟨u0.scheme, u0.userinfo, u0.hostport, p.getD u0.params, q.getD u0.headers⟩,
          none) := by
  have hh := accept_headers data
  cases p with
  | none =>
    cases q with
    | none => simp [withPrefix, paramsSent, mainLoopInTime]
    | some v =>
      have := hh u0 (some v) hq
      simp only [withPrefix, B_quest, List.singleton_append] at this
      simp [withPrefix, B_quest, paramsSent, this]
  | some pv =>
    have hpv := hp pv rfl
    have hlt : ∀ b ∈ pv, b < 128 := fun b hb => isParamByte_lt b (hpv b hb)
    cases q with
    | none =>
      have hc := paramsLoop_consume pv [] [] [] hpv
      simp only [List.append_nil, List.nil_append] at hc
      simp [withPrefix, B_semi, paramsSent, runes_ascii pv hlt, hc, paramsLoopSent, mainLoopInTime,
        URI.setSegment]
    | some v =>
      have hv := hq v rfl
      have hvl : ∀ b ∈ v, b < 128 := fun b hb => isHeaderByte_lt b (hv b hb)
      have hr : runes (pv ++ 63 :: v) = pv ++ 63 :: v :=
        runes_ascii _ (by
          intro b hb
          rcases List.mem_append.1 hb with h | h
          · exact hlt b h
          · rcases List.mem_cons.1 h with h | h
            · omega
            · exact hvl b h)
      have hc := paramsLoop_consume pv (63 :: v) [] (63 :: v) hpv
      simp only [List.nil_append] at hc
      have := hh ⟨u0.scheme, u0.userinfo, u0.hostport, pv, u0.headers⟩ (some v) hq
      simp only [withPrefix, B_quest, List.singleton_append] at this
      simp [withPrefix, B_semi, B_quest, paramsSent, hr, hc, paramsLoopSent, mainLoopInTime,
        URI.setSegment, this]

theorem tail_shape (p q : Option Bytes) :
    withPrefix (B ";") p ++ withPrefix (B "?") q = [] ∨
    ∃ y Y1, withPrefix (B ";") p ++ withPrefix (B "?") q = y :: Y1 ∧ (y = 59 ∨ y = 63) := by
  cases p with
  | none =>
    cases q with
    | none => exact Or.inl rfl
    | some v => exact Or.inr ⟨63, v, by simp [withPrefix, B_quest], Or.inr rfl⟩
  | some pv => exact Or.inr ⟨59, _, by simp [withPrefix, B_semi]; rfl, Or.inl rfl⟩

theorem accept_port (data : Bytes) (u0 : URI) (h : Bytes) (d p q : Option Bytes)
    (hd : ∀ v, d = some v → v ≠ [] ∧ (∀ c ∈ v, isNum c = true) ∧ decVal v ≤ 65535)
    (hp : ∀ v, p = some v → ∀ c ∈ v, isParamByte c = true)
    (hq : ∀ v, q = some v → ∀ c ∈ v, isHeaderByte c = true) :
    mainLoopInTime data u0
        (portSent h (withPrefix (B ":") d ++ (withPrefix (B ";") p ++ withPrefix (B "?") q)))
      = (some ⟨u0.scheme, u0.userinfo, u0.hostport ++ withPrefix (B ":") d,
          p.getD u0.params, q.getD u0.headers⟩, none) := by
  have hpar := accept_params data
  cases d with
  | none =>
    rw [show withPrefix (B ":") none = [] from rfl]
    simp only [List.nil_append, List.append_nil]
    rcases tail_shape p q with hz | ⟨y, Y1, hz, hy⟩
    · have := hpar u0 p q hp hq
      rw [hz] at this ⊢
      simp only [paramsSent, mainLoopInTime, if_true] at this
      simp only [portSent, mainLoopInTime, if_true]
      exact this
    · have := hpar u0 p q hp hq
      rw [hz] at this ⊢
      have hy58 : y ≠ 58 := by omega
      simp only [portSent, hy58, ne_eq, not_false_eq_true, if_true]
      exact this
  | some dv =>
    obtain ⟨hne, hdig, hval⟩ := hd dv rfl
    have hnd : ∀ x t, withPrefix (B ";") p ++ withPrefix (B "?") q = x :: t → isNum x = false := by
      intro x t hxt
      rcases tail_shape p q with hz | ⟨y, Y1, hz, hy⟩
      · rw [hz] at hxt; simp at hxt
      · rw [hz] at hxt
        simp only [List.cons.injEq] at hxt
        rw [← hxt.1]
        rcases hy with h | h <;> subst h <;> decide
    have hdt := dtoi_digits dv _ hdig hne hnd (by omega)
    have := hpar ⟨u0.scheme, u0.userinfo, u0.hostport ++ B ":" ++ dv, u0.params, u0.headers⟩
      p q hp hq
    have hok : ¬ (65535 < decVal dv) := by omega
    simp only [B_colon, List.append_assoc, List.singleton_append] at this
    rw [show withPrefix (B ":") (some dv) = 58 :: dv from by simp [withPrefix, B_colon]]
    generalize withPrefix (B ";") p ++ withPrefix (B "?") q = Z at this hdt ⊢
    simp [portSent, hdt, hok, mainLoopInTime, URI.setSegment, this, B_colon]

theorem accept_hostport (data : Bytes) (u0 : URI) (x : Nat) (t : Bytes) (d p q : Option Bytes)
    (hx : isLetter x = true) (ht : ∀ c ∈ t, isHostByte c = true)
    (hd : ∀ v, d = some v → v ≠ [] ∧ (∀ c ∈ v, isNum c = true) ∧ decVal v ≤ 65535)
    (hp : ∀ v, p = some v → ∀ c ∈ v, isParamByte c = true)
    (hq : ∀ v, q = some v → ∀ c ∈ v, isHeaderByte c = true) :
    mainLoopInTime data u0
        (hostportSent (x :: t ++
          (withPrefix (B ":") d ++ (withPrefix (B ";") p ++ withPrefix (B "?") q))))
      = (some ⟨u0.scheme, u0.userinfo, x :: t ++ withPrefix (B ":") d,
          p.getD u0.params, q.getD u0.headers⟩, none) := by
  have hY : withPrefix (B ":") d ++ (withPrefix (B ";") p ++ withPrefix (B "?") q) = [] ∨
      ∃ y Y1, withPrefix (B ":") d ++ (withPrefix (B ";") p ++ withPrefix (B "?") q) = y :: Y1 ∧
        (y = 58 ∨ y = 59 ∨ y = 63) := by
    cases d with
    | none =>
      rcases tail_shape p q with hz | ⟨y, Y1, hz, hy⟩
      · exact Or.inl (by rw [hz]; rfl)
      · exact Or.inr ⟨y, Y1, by rw [hz]; rfl, Or.inr hy⟩
    | some dv => exact Or.inr ⟨58, _, by simp [withPrefix, B_colon]; rfl, Or.inl rfl⟩
  rw [hostportSent_hostname x t _ hx ht hY]
  simp only [mainLoopInTime, reduceCtorEq, if_false, URI.setSegment]
  exact accept_port data _ (x :: t) d p q hd hp hq

theorem parts_ne_64 (h : Bytes) (d p q : Option Bytes)
    (hh : ∀ c ∈ h, isHostByte c = true)
    (hd : ∀ v, d = some v → v ≠ [] ∧ (∀ c ∈ v, isNum c = true) ∧ decVal v ≤ 65535)
    (hp : ∀ v, p = some v → ∀ c ∈ v, isParamByte c = true)
    (hq : ∀ v, q = some v → ∀ c ∈ v, isHeaderByte c = true) :
    ∀ c ∈ h ++ (withPrefix (B ":") d ++ (withPrefix (B ";") p ++ withPrefix (B "?") q)),
      c ≠ 64 := by
  intro c hc
  rcases List.mem_append.1 hc with h1 | h1
  · exact isHostByte_ne_64 c (hh c h1)
  · rcases List.mem_append.1 h1 with h2 | h2
    · cases d with
      | none => simp [withPrefix] at h2
      | some dv =>
        simp only [withPrefix, B_colon, List.singleton_append, List.mem_cons] at h2
        rcases h2 with h3 | h3
        · omega
        · exact isNum_ne_64 c ((hd dv rfl).2.1 c h3)
    · rcases List.mem_append.1 h2 with h3 | h3
      · cases p with
        | none => simp [withPrefix] at h3
        | some pv =>
          simp only [withPrefix, B_semi, List.singleton_append, List.mem_cons] at h3
          rcases h3 with h4 | h4
          · omega
          · exact isParamByte_ne_64 c (hp pv rfl c h4)
      · cases q with
        | none => simp [withPrefix] at h3
        | some qv =>
          simp only [withPrefix, B_quest, List.singleton_append, List.mem_cons] at h3
          rcases h3 with h4 | h4
          · omega
          · exact isHeaderByte_ne_64 c (hq qv rfl c h4)

/-- Without the timer: a text `S ++ [u ++ "@"] ++ h ++ [":" ++ d] ++ [";" ++ p] ++ ["?" ++ q]` with
`S` one of `sip:`, `sips:`, legal userinfo bytes `u`, a host name `h` that starts
with a letter, a port `d` of digits of value at most 65535, legal param bytes `p`
and legal header bytes `q` is accepted, with the scheme of `S`, userinfo `u`,
hostport `h` (with `":" ++ d` when the port is present), params `p`, headers `q`,
and the empty string for every omitted part. -/
theorem LexerParseInTime_accepts (S : Bytes) (sch : Scheme) (u : Option Bytes) (x : Nat) (t : Bytes)
    (d p q : Option Bytes)
    (hS : (S = B "sip:" ∧ sch = Scheme.SIP) ∨ (S = B "sips:" ∧ sch = Scheme.SIPS))
    (hu : ∀ v, u = some v → ∀ c ∈ v, isUserinfoByte c = true)
    (hx : isLetter x = true) (ht : ∀ c ∈ t, isHostByte c = true)
    (hd : ∀ v, d = some v → v ≠ [] ∧ (∀ c ∈ v, isNum c = true) ∧ decVal v ≤ 65535)
    (hp : ∀ v, p = some v → ∀ c ∈ v, isParamByte c = true)
    (hq : ∀ v, q = some v → ∀ c ∈ v, isHeaderByte c = true) :
    LexerParseInTime (S ++ withSuffix u (B "@") ++ (x :: t) ++ withPrefix (B ":") d
        ++ withPrefix (B ";") p ++ withPrefix (B "?") q)
      = some (some ⟨sch, u.getD [], (x :: t) ++ withPrefix (B ":") d, p.getD [], q.getD []⟩,
          none) := by
  have hxh : isHostByte x = true := by simp [isHostByte, hx]
  have hall : ∀ c ∈ x :: t, isHostByte c = true := by
    intro c hc
    rcases List.mem_cons.1 hc with h | h
    · rw [h]; exact hxh
    · exact ht c h
  have h64 := parts_ne_64 (x :: t) d p q hall hd hp hq
  have hhost := accept_hostport
  rw [LexerParseInTime_eq]
  simp only [List.append_assoc]
  have key : ∀ u0 : URI, mainLoopInTime
      (S ++ (withSuffix u (B "@") ++ (x :: t ++ (withPrefix (B ":") d ++
        (withPrefix (B ";") p ++ withPrefix (B "?") q))))) u0
      (userinfoSent (withSuffix u (B "@") ++ (x :: t ++ (withPrefix (B ":") d ++
        (withPrefix (B ";") p ++ withPrefix (B "?") q)))))
      = (some ⟨u0.scheme, u.getD u0.userinfo, (x :: t) ++ withPrefix (B ":") d,
          p.getD u0.params, q.getD u0.headers⟩, none) := by
    intro u0
    cases u with
    | none =>
      rw [show withSuffix none (B "@") = [] from rfl, List.nil_append,
        userinfoSent_absent _ h64]
      exact hhost _ u0 x t d p q hx ht hd hp hq
    | some v =>
      rw [show withSuffix (some v) (B "@") = v ++ [64] from by simp [withSuffix, B_at]]
      simp only [List.append_assoc, List.singleton_append]
      rw [userinfoSent_present v _ (hu v rfl)]
      simp only [mainLoopInTime, reduceCtorEq, if_false, URI.setSegment]
      exact hhost _ _ x t d p q hx ht hd hp hq
  rcases hS with ⟨h1, h2⟩ | ⟨h1, h2⟩
  · subst h1 h2
    rw [schemeSent_sip]
    simp only [mainLoopInTime, reduceCtorEq, if_false, URI.setSegment]
    rw [key]
    rfl
  · subst h1 h2
    rw [schemeSent_sips]
    simp only [mainLoopInTime, reduceCtorEq, if_false, URI.setSegment]
    rw [key]
    rfl

theorem LexerParseInTime_accepts_witness :
    LexerParseInTime (B "sips:" ++ withSuffix (some (B "bob:pa55w0rd")) (B "@") ++ (101 :: B "xample.com")
        ++ withPrefix (B ":") (some (B "8080")) ++ withPrefix (B ";") (some (B "user=phone"))
        ++ withPrefix (B "?") (some (B "X-t=foo")))
      = some (some ⟨Scheme.SIPS, (some (B "bob:pa55w0rd")).getD [],
          (101 :: B "xample.com") ++ withPrefix (B ":") (some (B "8080")),
          (some (B "user=phone")).getD [], (some (B "X-t=foo")).getD []⟩, none) :=
  LexerParseInTime_accepts (B "sips:") Scheme.SIPS (some (B "bob:pa55w0rd")) 101 (B "xample.com")
    (some (B "8080")) (some (B "user=phone")) (some (B "X-t=foo"))
    (Or.inr ⟨rfl, rfl⟩) (by decide) (by decide) (by decide) (by decide) (by decide) (by decide)

/-! ## C8: inputs without a host, without the timer -/

/-- Without the timer: after a valid scheme and without `@`, an empty rest fails with `invalid
host/port`, and a rest whose first byte is neither `[` nor a letter or digit
fails with `invalid host part`. -/
theorem LexerParseInTime_invalid_host (S r : Bytes) (hS : S = B "sip:" ∨ S = B "sips:")
    (h64 : ∀ c ∈ r, c ≠ 64) :
    (r = [] → LexerParseInTime (S ++ r)
      = some (none, some (B "Invalid uri '" ++ (S ++ r) ++ B "': invalid host/port"))) ∧
    (∀ x t, r = x :: t → x < 256 → x ≠ 91 → isAlphaNum x = false → LexerParseInTime (S ++ r)
      = some (none, some (B "Invalid uri '" ++ (S ++ r) ++ B "': invalid host part"))) := by
  have hb1 : B "': " ++ B "invalid host/port" = B "': invalid host/port" := by decide
  have hb2 : B "': " ++ B "invalid host part" = B "': invalid host part" := by decide
  have key : mainLoopInTime (S ++ r) URI.zero (schemeSent (S ++ r))
      = mainLoopInTime (S ++ r) { URI.zero with scheme := Scheme.SIP } (hostportSent r) ∨
      mainLoopInTime (S ++ r) URI.zero (schemeSent (S ++ r))
      = mainLoopInTime (S ++ r) { URI.zero with scheme := Scheme.SIPS } (hostportSent r) := by
    rcases hS with h | h
    · subst h
      rw [schemeSent_sip, userinfoSent_absent r h64]
      exact Or.inl (by simp [mainLoopInTime, URI.setSegment])
    · subst h
      rw [schemeSent_sips, userinfoSent_absent r h64]
      exact Or.inr (by simp [mainLoopInTime, URI.setSegment])
  refine ⟨fun hr => ?_, fun x t hr hx hx91 hxa => ?_⟩
  · rw [LexerParseInTime_eq]
    rcases key with h | h <;> rw [h] <;> subst hr <;>
      simp [hostportSent, mainLoopInTime, errorf, List.append_assoc, hb1]
  · have hnd : ∀ a b, x :: t = a :: b → isNum a = false := by
      intro a b hab
      simp only [List.cons.injEq] at hab
      rw [← hab.1]
      simp [isAlphaNum, isNum] at hxa ⊢
      omega
    have hbx : isAlphaNum (byte x) = false := by rw [byte_of_lt x hx]; exact hxa
    rw [LexerParseInTime_eq]
    rcases key with h | h <;> rw [h] <;> subst hr <;>
      simp [hostportSent, hx91, parseIPv4_nondigit _ hnd, hbx, mainLoopInTime, errorf,
        List.append_assoc, hb2]

theorem LexerParseInTime_invalid_host_witness :
    LexerParseInTime (B "sips:" ++ [])
      = some (none, some (B "Invalid uri '" ++ (B "sips:" ++ []) ++ B "': invalid host/port")) ∧
    LexerParseInTime (B "sip:" ++ B ";foo?bar")
      = some (none,
          some (B "Invalid uri '" ++ (B "sip:" ++ B ";foo?bar") ++ B "': invalid host part")) :=
  ⟨(LexerParseInTime_invalid_host (B "sips:") [] (Or.inr rfl) (by decide)).1 rfl,
   (LexerParseInTime_invalid_host (B "sip:") (B ";foo?bar") (Or.inl rfl) (by decide)).2
      59 (B "foo?bar") (by decide) (by decide) (by decide) (by decide)⟩

/-! ## C9: the range of the port, without the timer -/

theorem portSent_digits_ok (done d : Bytes) (hne : d ≠ []) (hd : ∀ c ∈ d, isNum c = true)
    (hv : decVal d ≤ 65535) :
    portSent done (58 :: d)
      = [Event.item ⟨Token.tPort, d⟩, Event.item ⟨Token.tEOF, []⟩] := by
  have hdt := dtoi_digits d [] hd hne (by simp) (by omega)
  simp only [List.append_nil] at hdt
  have hok : ¬ (65535 < decVal d) := by omega
  simp [portSent, hdt, hok, paramsSent]

theorem portSent_digits_bad (done d : Bytes) (hd : ∀ c ∈ d, isNum c = true)
    (hv : 65535 < decVal d) :
    ∃ m evs, portSent done (58 :: d) = Event.err m :: evs := by
  have hbad : ¬ (dtoi d).2.2 = true ∨ (dtoi d).1 > 0xFFFF := by
    by_cases hbig : decVal d < 0xFFFFF
    · have hne : d ≠ [] := by
        intro h; subst h; simp [decVal] at hv
      have hdt := dtoi_digits d [] hd hne (by simp) hbig
      simp only [List.append_nil] at hdt
      right
      rw [hdt]
      simpa using hv
    · left
      have := (dtoiLoop_big d [] 0 0 hd (by simpa [decVal] using hbig) (by omega)).1
      simp only [List.append_nil] at this
      simp [dtoi, this]
  simp only [portSent, ne_eq, not_true_eq_false, if_false, hbad, if_true]
  exact ⟨_, _, rfl⟩

theorem B_atlanta : B "sip:atlanta.com:" = B "sip:" ++ (97 :: B "tlanta.com" ++ [58]) := by
  decide

theorem sent_atlanta (d : Bytes) (hd : ∀ c ∈ d, isNum c = true) :
    schemeSent (B "sip:atlanta.com:" ++ d)
      = Event.item ⟨Token.tSip, B "sip:"⟩ :: Event.item ⟨Token.tHost, B "atlanta.com"⟩ ::
          portSent (B "atlanta.com") (58 :: d) := by
  have h64 : ∀ c ∈ 97 :: B "tlanta.com" ++ 58 :: d, c ≠ 64 := by
    intro c hc
    rcases List.mem_append.1 hc with h | h
    · have hlit : ∀ c ∈ 97 :: B "tlanta.com", c ≠ 64 := by decide
      exact hlit c h
    · rcases List.mem_cons.1 h with h | h
      · omega
      · exact isNum_ne_64 c (hd c h)
  rw [B_atlanta]
  simp only [List.append_assoc, List.singleton_append]
  rw [schemeSent_sip, userinfoSent_absent _ h64,
    hostportSent_hostname 97 (B "tlanta.com") (58 :: d) (by decide) (by decide)
      (Or.inr ⟨58, d, rfl, Or.inl rfl⟩)]
  rfl

/-- Without the timer: for a non-empty string `d` of digits, `sip:atlanta.com:` followed by `d` is
accepted exactly when the value of `d` is at most 65535, and then the hostport is
`atlanta.com:` followed by `d`. -/
theorem LexerParseInTime_port_range (d : Bytes) (hne : d ≠ []) (hd : ∀ c ∈ d, isNum c = true) :
    ((∃ u, LexerParseInTime (B "sip:atlanta.com:" ++ d) = some (some u, none)) ↔ decVal d ≤ 65535) ∧
    (∀ u, LexerParseInTime (B "sip:atlanta.com:" ++ d) = some (some u, none) →
      u.hostport = B "atlanta.com:" ++ d) := by
  have hb : B "atlanta.com" ++ B ":" ++ d = B "atlanta.com:" ++ d := by
    have : B "atlanta.com" ++ B ":" = B "atlanta.com:" := by decide
    rw [this]
  by_cases hv : decVal d ≤ 65535
  · have hres : LexerParseInTime (B "sip:atlanta.com:" ++ d)
        = some (some ⟨Scheme.SIP, [], B "atlanta.com:" ++ d, [], []⟩, none) := by
      rw [LexerParseInTime_eq, sent_atlanta d hd, portSent_digits_ok _ d hne hd hv]
      simp [mainLoopInTime, URI.setSegment, URI.zero, hb]
    refine ⟨⟨fun _ => hv, fun _ => ⟨_, hres⟩⟩, fun u hu => ?_⟩
    rw [hres] at hu
    simp only [Option.some.injEq, Prod.mk.injEq, and_true] at hu
    rw [← hu]
  · have hfail : ∀ u, LexerParseInTime (B "sip:atlanta.com:" ++ d) ≠ some (some u, none) := by
      intro u hu
      obtain ⟨m, evs, he⟩ := portSent_digits_bad (B "atlanta.com") d hd (by omega)
      rw [LexerParseInTime_eq, sent_atlanta d hd, he] at hu
      simp [mainLoopInTime] at hu
    exact ⟨⟨fun ⟨u, hu⟩ => absurd hu (hfail u), fun h => absurd h hv⟩,
      fun u hu => absurd hu (hfail u)⟩

theorem LexerParseInTime_port_range_witness :
    (∃ u, LexerParseInTime (B "sip:atlanta.com:" ++ B "0") = some (some u, none)) ∧
    (∃ u, LexerParseInTime (B "sip:atlanta.com:" ++ B "65535") = some (some u, none)) ∧
    ¬ (∃ u, LexerParseInTime (B "sip:atlanta.com:" ++ B "65536") = some (some u, none)) :=
  ⟨(LexerParseInTime_port_range (B "0") (by decide) (by decide)).1.2 (by decide),
   (LexerParseInTime_port_range (B "65535") (by decide) (by decide)).1.2 (by decide),
   fun h => absurd ((LexerParseInTime_port_range (B "65536") (by decide) (by decide)).1.1 h)
     (by decide)⟩

/-! ## C10: a port without digits, without the timer -/

theorem parseIPv4Loop_octet_first (k : Nat) (d X : Bytes) (l : Nat) (hd : isOctet d)
    (hX : ∀ x t, X = x :: t → isNum x = false) :
    parseIPv4Loop (k + 1) true (d ++ X) l = parseIPv4Loop k false X (l + d.length) := by
  obtain ⟨hne, hdig, hval⟩ := hd
  have hdt := dtoi_digits d X hdig hne hX (by omega)
  match d, hne with
  | b :: d1, _ =>
    rw [List.cons_append, parseIPv4Loop_first]
    rw [List.cons_append] at hdt
    have hc : (dtoi (b :: (d1 ++ X))).2.2 = true ∧ (dtoi (b :: (d1 ++ X))).1 ≤ 255 := by
      rw [hdt]; exact ⟨rfl, hval⟩
    rw [if_pos hc, hdt]
    simp

theorem parseIPv4Loop_octet_next (k : Nat) (d X : Bytes) (l : Nat) (hd : isOctet d)
    (hX : ∀ x t, X = x :: t → isNum x = false) :
    parseIPv4Loop (k + 1) false (46 :: (d ++ X)) l
      = parseIPv4Loop k false X (l + 1 + d.length) := by
  obtain ⟨hne, hdig, hval⟩ := hd
  have hdt := dtoi_digits d X hdig hne hX (by omega)
  rw [parseIPv4Loop_next]
  have hc : 46 = 46 ∧ (dtoi (d ++ X)).2.2 = true ∧ (dtoi (d ++ X)).1 ≤ 255 := by
    rw [hdt]; exact ⟨rfl, rfl, hval⟩
  rw [if_pos hc, hdt]
  simp

/-- On an IPv4 literal followed by something that does not begin with a digit,
`parseIPv4` matches the whole literal. -/
theorem parseIPv4_literal (h X : Bytes) (hh : isIPv4Literal h)
    (hX : ∀ x t, X = x :: t → isNum x = false) :
    parseIPv4 (h ++ X) = some (h.length, true) := by
  obtain ⟨d1, d2, d3, d4, rfl, h1, h2, h3, h4⟩ := hh
  have hdot : ∀ (Y : Bytes) x t, 46 :: Y = x :: t → isNum x = false := by
    intro Y x t hxt
    simp only [List.cons.injEq] at hxt
    rw [← hxt.1]; decide
  simp only [List.append_assoc, List.cons_append]
  rw [parseIPv4, parseIPv4Loop_octet_first 3 d1 _ 0 h1 (hdot _),
    parseIPv4Loop_octet_next 2 d2 _ _ h2 (hdot _),
    parseIPv4Loop_octet_next 1 d3 _ _ h3 (hdot _),
    parseIPv4Loop_octet_next 0 d4 _ _ h4 hX]
  simp [parseIPv4Loop]
  omega

theorem ipv4_head (h : Bytes) (hh : isIPv4Literal h) :
    ∃ b t, h = b :: t ∧ isNum b = true := by
  obtain ⟨d1, d2, d3, d4, rfl, h1, _, _, _⟩ := hh
  obtain ⟨hne, hdig, _⟩ := h1
  match d1, hne, hdig with
  | b :: d1', _, hdig => exact ⟨b, _, rfl, hdig b (by simp)⟩

theorem hostportSent_ipv4 (h X : Bytes) (hh : isIPv4Literal h)
    (hX : ∀ x t, X = x :: t → isNum x = false) :
    hostportSent (h ++ X) = Event.item ⟨Token.tHost, h⟩ :: portSent h X := by
  have hp := parseIPv4_literal h X hh hX
  obtain ⟨b, t, rfl, hb⟩ := ipv4_head h hh
  have hb91 : b ≠ 91 := by
    simp [isNum] at hb; omega
  have htake : List.take (b :: t).length (b :: t ++ X) = b :: t := List.take_left _ _
  have hdrop : List.drop (b :: t).length (b :: t ++ X) = X := List.drop_left _ _
  rw [List.cons_append] at hp htake hdrop ⊢
  simp only [hostportSent, hb91, if_false, hp, Option.getD_some, if_true, htake, hdrop]

theorem hostname_ne_64 (h : Bytes) (hh : isHostName h) : ∀ c ∈ h, c ≠ 64 := by
  obtain ⟨x, t, rfl, hx, ht⟩ := hh
  intro c hc
  rcases List.mem_cons.1 hc with h1 | h1
  · subst h1
    exact isHostByte_ne_64 c (by simp [isHostByte, hx])
  · exact isHostByte_ne_64 c (ht c h1)

theorem octet_ne_64 (d : Bytes) (hd : isOctet d) : ∀ c ∈ d, c ≠ 64 :=
  fun c hc => isNum_ne_64 c (hd.2.1 c hc)

theorem ipv4_ne_64 (h : Bytes) (hh : isIPv4Literal h) : ∀ c ∈ h, c ≠ 64 := by
  obtain ⟨d1, d2, d3, d4, rfl, h1, h2, h3, h4⟩ := hh
  intro c hc
  simp only [List.mem_append, List.mem_cons] at hc
  rcases hc with h | h | h | h | h | h | h
  · exact octet_ne_64 d1 h1 c h
  · omega
  · exact octet_ne_64 d2 h2 c h
  · omega
  · exact octet_ne_64 d3 h3 c h
  · omega
  · exact octet_ne_64 d4 h4 c h

/-- Without the timer: after a host name or an IPv4 literal and `:`, a rest without `@` that does
not begin with a digit fails with a reason that begins `invalid port`. -/
theorem LexerParseInTime_invalid_port (h r : Bytes) (hh : isHostName h ∨ isIPv4Literal h)
    (h64 : ∀ c ∈ r, c ≠ 64) (hdig : isNum (r.headD 0) = false) :
    ∃ rest, LexerParseInTime (B "sip:" ++ h ++ B ":" ++ r)
      = some (none, some (B "Invalid uri '" ++ (B "sip:" ++ h ++ B ":" ++ r)
          ++ B "': invalid port" ++ rest)) := by
  have hb : B "': " ++ B "invalid port " = B "': invalid port" ++ [32] := by decide
  have hr : ∀ x t, r = x :: t → isNum x = false := by
    intro x t hxt
    subst hxt
    simpa using hdig
  have hh64 : ∀ c ∈ h, c ≠ 64 := by
    rcases hh with h1 | h1
    · exact hostname_ne_64 h h1
    · exact ipv4_ne_64 h h1
  have hall : ∀ c ∈ h ++ 58 :: r, c ≠ 64 := by
    intro c hc
    rcases List.mem_append.1 hc with h1 | h1
    · exact hh64 c h1
    · rcases List.mem_cons.1 h1 with h2 | h2
      · omega
      · exact h64 c h2
  have hhost : hostportSent (h ++ 58 :: r) = Event.item ⟨Token.tHost, h⟩ :: portSent h (58 :: r) := by
    rcases hh with h1 | h1
    · obtain ⟨x, t, rfl, hx, ht⟩ := h1
      exact hostportSent_hostname x t (58 :: r) hx ht (Or.inr ⟨58, r, rfl, Or.inl rfl⟩)
    · exact hostportSent_ipv4 h (58 :: r) h1 (by
        intro x t hxt
        simp only [List.cons.injEq] at hxt
        rw [← hxt.1]; decide)
  refine ⟨[32], ?_⟩
  rw [LexerParseInTime_eq]
  simp only [B_colon, List.append_assoc, List.singleton_append]
  rw [schemeSent_sip, userinfoSent_absent _ hall, hhost]
  simp only [portSent, ne_eq, not_true_eq_false, if_false, dtoi_nondigit r hr]
  simp [mainLoopInTime, errorf, hb]

theorem LexerParseInTime_invalid_port_witness :
    (∃ rest, LexerParseInTime (B "sip:" ++ B "1.1.1.1" ++ B ":" ++ B "a22")
      = some (none, some (B "Invalid uri '" ++ (B "sip:" ++ B "1.1.1.1" ++ B ":" ++ B "a22")
          ++ B "': invalid port" ++ rest))) ∧
    (∃ rest, LexerParseInTime (B "sip:" ++ B "atlanta.com" ++ B ":" ++ [])
      = some (none, some (B "Invalid uri '" ++ (B "sip:" ++ B "atlanta.com" ++ B ":" ++ [])
          ++ B "': invalid port" ++ rest))) :=
  ⟨LexerParseInTime_invalid_port (B "1.1.1.1") (B "a22")
      (Or.inr ⟨B "1", B "1", B "1", B "1", by decide, ⟨by decide, by decide, by decide⟩,
        ⟨by decide, by decide, by decide⟩, ⟨by decide, by decide, by decide⟩,
        ⟨by decide, by decide, by decide⟩⟩)
      (by decide) (by decide),
   LexerParseInTime_invalid_port (B "atlanta.com") []
      (Or.inl ⟨97, B "tlanta.com", by decide, by decide, by decide⟩)
      (by decide) (by decide)⟩

/-! ## The shape of an accepted ASCII input -/

theorem headerErrs_nil (q : Bytes) : ∀ rest, (∀ c ∈ q, c < 128) → headerErrs q rest = [] →
    ∀ c ∈ q, isHeaderByte c = true := by
  induction q with
  | nil => intro rest _ _ c hc; simp at hc
  | cons x q ih =>
    intro rest hlt h c hc
    have hx := hlt x (by simp)
    have hb := byte_of_lt x (by omega)
    simp only [headerErrs, hb] at h
    have hq : ∀ c ∈ q, c < 128 := fun c hc => hlt c (by simp [hc])
    split_ifs at h with h1 h2
    · rcases List.mem_cons.1 hc with h3 | h3
      · subst h3
        simp only [isHeaderByte, Bool.or_eq_true, decide_eq_true_eq]
        tauto
      · exact ih _ hq h c h3
    · rcases List.mem_cons.1 hc with h3 | h3
      · subst h3
        simp only [isHeaderByte, Bool.or_eq_true, decide_eq_true_eq]
        tauto
      · exact ih _ hq h c h3

theorem inv_headers (data : Bytes) (u0 u : URI) (suf : Bytes) (hs : ∀ c ∈ suf, c < 128)
    (h : mainLoopInTime data u0 (headersSent suf) = (some u, none)) : HeadersTail u0 u suf := by
  match suf with
  | [] =>
    simp [headersSent, mainLoopInTime] at h
    subst h
    exact ⟨rfl, rfl, rfl, rfl, Or.inl ⟨rfl, rfl⟩⟩
  | c :: hs1 =>
    have hlt : ∀ c ∈ hs1, c < 128 := fun x hx => hs x (by simp [hx])
    simp only [headersSent, runes_ascii hs1 hlt] at h
    split_ifs at h with hc
    · simp [mainLoopInTime, errorf] at h
    · obtain ⟨hnil, hm⟩ := mainLoopInTime_errs_append _ _ _ _ (headerErrs_err _ _) _ h
      simp [mainLoopInTime, URI.setSegment] at hm
      subst hm
      have hc63 : c = 63 := by simpa using hc
      subst hc63
      exact ⟨rfl, rfl, rfl, rfl, Or.inr ⟨rfl, headerErrs_nil _ _ hlt hnil⟩⟩

theorem inv_paramsLoop (data : Bytes) (rest : Bytes) : ∀ (done : Bytes) (u0 u : URI),
    (∀ c ∈ rest, c < 128) →
    mainLoopInTime data u0 (paramsLoopSent rest done rest) = (some u, none) →
    ∃ ps H, rest = ps ++ H ∧ (∀ c ∈ ps, isParamByte c = true) ∧
      u.scheme = u0.scheme ∧ u.userinfo = u0.userinfo ∧ u.hostport = u0.hostport ∧
      u.params = done ++ ps ∧ HeadersPart H u0.headers u.headers := by
  induction rest with
  | nil =>
    intro done u0 u _ h
    simp [paramsLoopSent, mainLoopInTime, URI.setSegment] at h
    subst h
    exact ⟨[], [], rfl, by simp, rfl, rfl, rfl, by simp, Or.inl ⟨rfl, rfl⟩⟩
  | cons x rest ih =>
    intro done u0 u hlt h
    have hx := hlt x (by simp)
    have hb := byte_of_lt x (by omega)
    have hrest : ∀ c ∈ rest, c < 128 := fun c hc => hlt c (by simp [hc])
    simp only [paramsLoopSent, hb, List.take_succ_cons, List.take_zero, List.drop_succ_cons,
      List.drop_zero] at h
    split_ifs at h with h1 h2 h3
    · simp only [mainLoopInTime, reduceCtorEq, if_false, URI.setSegment] at h
      obtain ⟨e1, e2, e3, e4, e5⟩ := inv_headers data _ u _ hlt h
      exact ⟨[], x :: rest, rfl, by simp, e1, e2, e3, by simpa using e4, e5⟩
    · obtain ⟨ps, H, e0, e1, e2, e3, e4, e5, e6⟩ := ih (done ++ [x]) u0 u hrest h
      refine ⟨x :: ps, H, by rw [e0]; rfl, ?_, e2, e3, e4, by simpa using e5, e6⟩
      intro c hc
      rcases List.mem_cons.1 hc with h4 | h4
      · subst h4
        simp only [isParamByte, Bool.or_eq_true, decide_eq_true_eq]
        tauto
      · exact e1 c h4
    · obtain ⟨ps, H, e0, e1, e2, e3, e4, e5, e6⟩ := ih (done ++ [x]) u0 u hrest h
      refine ⟨x :: ps, H, by rw [e0]; rfl, ?_, e2, e3, e4, by simpa using e5, e6⟩
      intro c hc
      rcases List.mem_cons.1 hc with h4 | h4
      · subst h4
        simp only [isParamByte, Bool.or_eq_true, decide_eq_true_eq]
        tauto
      · exact e1 c h4
    · simp [mainLoopInTime, errorf] at h

theorem inv_params (data : Bytes) (u0 u : URI) (suf : Bytes) (hs : ∀ c ∈ suf, c < 128)
    (h : mainLoopInTime data u0 (paramsSent suf) = (some u, none)) : ParamsTail u0 u suf := by
  match suf with
  | [] =>
    simp [paramsSent, mainLoopInTime] at h
    subst h
    exact ⟨[], [], rfl, rfl, rfl, rfl, Or.inl ⟨rfl, rfl⟩, Or.inl ⟨rfl, rfl⟩⟩
  | c :: ps1 =>
    have hlt : ∀ c ∈ ps1, c < 128 := fun x hx => hs x (by simp [hx])
    simp only [paramsSent, runes_ascii ps1 hlt] at h
    split_ifs at h with h1 h2
    · obtain ⟨e1, e2, e3, e4, e5⟩ := inv_headers data u0 u _ hs h
      exact ⟨[], c :: ps1, rfl, e1, e2, e3, Or.inl ⟨rfl, e4⟩, e5⟩
    · simp [mainLoopInTime, errorf] at h
    · have hc : c = 59 := by simpa using h2
      subst hc
      obtain ⟨ps, H, e0, e1, e2, e3, e4, e5, e6⟩ := inv_paramsLoop data ps1 [] u0 u hlt h
      simp only [List.nil_append] at e5
      refine ⟨59 :: ps, H, by rw [e0]; rfl, e2, e3, e4, Or.inr ⟨by rw [e5], ?_⟩, e6⟩
      rw [e5]; exact e1

theorem dtoiLoop_ok (s : Bytes) : ∀ n i, (dtoiLoop s n i).2.2 = true →
    ∃ k, (dtoiLoop s n i).2.1 = i + k ∧ k ≤ s.length ∧ (∀ c ∈ s.take k, isNum c = true) ∧
      (dtoiLoop s n i).1 = (s.take k).foldl (fun n b => n * 10 + (b - 48)) n ∧ 0 < i + k := by
  induction s with
  | nil =>
    intro n i h
    by_cases hi : i = 0
    · simp [dtoiLoop, hi] at h
    · exact ⟨0, by simp [dtoiLoop, hi], by simp, by simp, by simp [dtoiLoop, hi], by omega⟩
  | cons b s ih =>
    intro n i h
    by_cases hb : 48 ≤ b ∧ b ≤ 57
    · by_cases hbig : n * 10 + (b - 48) ≥ 0xFFFFF
      · simp [dtoiLoop, hb, hbig] at h
      · have hval : dtoiLoop (b :: s) n i = dtoiLoop s (n * 10 + (b - 48)) (i + 1) := by
          simp only [dtoiLoop, hb, and_self, if_true, hbig, if_false]
        rw [hval] at h ⊢
        obtain ⟨k, e1, e2, e3, e4, e5⟩ := ih _ _ h
        refine ⟨k + 1, by omega, by simp; omega, ?_, by simpa using e4, by omega⟩
        intro c hc
        simp only [List.take_succ_cons, List.mem_cons] at hc
        rcases hc with hc | hc
        · subst hc; simp [isNum, hb]
        · exact e3 c hc
    · by_cases hi : i = 0
      · simp [dtoiLoop, hb, hi] at h
      · have hval : dtoiLoop (b :: s) n i = (n, i, true) := by
          simp only [dtoiLoop, hb, if_false, hi]
        rw [hval]
        exact ⟨0, by simp, by simp, by simp, by simp, by omega⟩

theorem dtoi_ok (s : Bytes) (h : (dtoi s).2.2 = true) :
    (dtoi s).2.1 ≤ s.length ∧ 1 ≤ (dtoi s).2.1 ∧
    (∀ c ∈ s.take (dtoi s).2.1, isNum c = true) ∧
    decVal (s.take (dtoi s).2.1) = (dtoi s).1 := by
  obtain ⟨k, e1, e2, e3, e4, e5⟩ := dtoiLoop_ok s 0 0 h
  simp only [Nat.zero_add] at e1 e5
  simp only [dtoi, decVal]
  rw [e1]
  exact ⟨e2, e5, e3, e4.symm⟩

theorem inv_port (data : Bytes) (u0 u : URI) (done suf : Bytes) (hs : ∀ c ∈ suf, c < 128)
    (h : mainLoopInTime data u0 (portSent done suf) = (some u, none)) : PortTail u0 u suf := by
  match suf with
  | [] =>
    simp [portSent, mainLoopInTime] at h
    subst h
    exact ⟨[], [], [], rfl, rfl, rfl, Or.inl ⟨rfl, rfl⟩, Or.inl ⟨rfl, rfl⟩, Or.inl ⟨rfl, rfl⟩⟩
  | c :: r =>
    have hlt : ∀ c ∈ r, c < 128 := fun x hx => hs x (by simp [hx])
    simp only [portSent] at h
    split_ifs at h with h1 h2
    · obtain ⟨P, H, e0, e1, e2, e3, e4, e5⟩ := inv_params data u0 u _ hs h
      exact ⟨[], P, H, by rw [e0]; rfl, e1, e2, Or.inl ⟨rfl, e3⟩, e4, e5⟩
    · simp [mainLoopInTime, errorf] at h
    · have hc : c = 58 := by simpa using h1
      subst hc
      have hok : (dtoi r).2.2 = true ∧ (dtoi r).1 ≤ 0xFFFF := by
        constructor
        · by_contra hc; exact h2 (Or.inl hc)
        · by_contra hc; exact h2 (Or.inr (by omega))
      obtain ⟨d1, d2, d3, d4⟩ := dtoi_ok r hok.1
      simp only [List.nil_append, mainLoopInTime, reduceCtorEq, if_false, URI.setSegment] at h
      have hdrop : ∀ c ∈ r.drop (dtoi r).2.1, c < 128 :=
        fun x hx => hlt x (List.mem_of_mem_drop hx)
      obtain ⟨P, H, e0, e1, e2, e3, e4, e5⟩ := inv_params data _ u _ hdrop h
      refine ⟨58 :: r.take (dtoi r).2.1, P, H, ?_, e1, e2, Or.inr ⟨_, rfl, ?_, d3, ?_, ?_⟩,
        e4, e5⟩
      · rw [← e0]; simp
      · intro hnil
        have hl := List.length_take_of_le d1
        rw [hnil] at hl
        simp at hl
        omega
      · rw [d4]; exact hok.2
      · rw [e3]; simp [B_colon]

theorem inv_hostnameLoop (data : Bytes) (rest : Bytes) : ∀ (done : Bytes) (u0 u : URI),
    (∀ c ∈ rest, c < 128) →
    mainLoopInTime data u0 (hostnameLoopSent rest done rest) = (some u, none) →
    ∃ hs PT P H, rest = hs ++ (PT ++ (P ++ H)) ∧ (∀ c ∈ hs, isHostByte c = true) ∧
      u.scheme = u0.scheme ∧ u.userinfo = u0.userinfo ∧
      PortPart PT (done ++ hs) u.hostport ∧ ParamsPart P u0.params u.params ∧
      HeadersPart H u0.headers u.headers ∧
      ∃ evs, hostnameLoopSent rest done rest = Event.item ⟨Token.tHost, done ++ hs⟩ :: evs := by
  induction rest with
  | nil =>
    intro done u0 u _ h
    simp [hostnameLoopSent, mainLoopInTime, URI.setSegment] at h
    subst h
    exact ⟨[], [], [], [], rfl, by simp, rfl, rfl, Or.inl ⟨rfl, by simp⟩, Or.inl ⟨rfl, rfl⟩,
      Or.inl ⟨rfl, rfl⟩, _, by rw [List.append_nil]; rfl⟩
  | cons x rest ih =>
    intro done u0 u hlt h
    have hx := hlt x (by simp)
    have hb := byte_of_lt x (by omega)
    have hrest : ∀ c ∈ rest, c < 128 := fun c hc => hlt c (by simp [hc])
    simp only [hostnameLoopSent, hb, List.take_succ_cons, List.take_zero, List.drop_succ_cons,
      List.drop_zero] at h ⊢
    split_ifs at h ⊢ with h1 h2 h3 h4
    · obtain ⟨hs, PT, P, H, e0, e1, e2, e3, e4, e5, e6, evs, e7⟩ := ih (done ++ [x]) u0 u hrest h
      refine ⟨x :: hs, PT, P, H, by rw [e0]; rfl, ?_, e2, e3, by simpa using e4, e5, e6, evs,
        by simpa using e7⟩
      intro c hc
      rcases List.mem_cons.1 hc with h5 | h5
      · subst h5; exact (isHostByte_iff c).2 h1
      · exact e1 c h5
    · simp only [mainLoopInTime, reduceCtorEq, if_false, URI.setSegment] at h
      obtain ⟨PT, P, H, e0, e1, e2, e3, e4, e5⟩ := inv_port data _ u done _ hlt h
      exact ⟨[], PT, P, H, by rw [e0]; rfl, by simp, e1, e2, by simpa using e3, e4, e5, _,
        by rw [List.append_nil]⟩
    · simp only [mainLoopInTime, reduceCtorEq, if_false, URI.setSegment] at h
      obtain ⟨P, H, e0, e1, e2, e3, e4, e5⟩ := inv_params data _ u _ hlt h
      exact ⟨[], [], P, H, by rw [e0]; rfl, by simp, e1, e2, Or.inl ⟨rfl, by simpa using e3⟩,
        e4, e5, _, by rw [List.append_nil]⟩
    · simp only [mainLoopInTime, reduceCtorEq, if_false, URI.setSegment] at h
      obtain ⟨e1, e2, e3, e4, e5⟩ := inv_headers data _ u _ hlt h
      exact ⟨[], [], [], x :: rest, rfl, by simp, e1, e2, Or.inl ⟨rfl, by simpa using e3⟩,
        Or.inl ⟨rfl, e4⟩, e5, _, by rw [List.append_nil]⟩
    · simp [mainLoopInTime, errorf] at h

theorem inv_ipv6Loop (data : Bytes) (rest : Bytes) : ∀ (done : Bytes) (u0 u : URI),
    (∀ c ∈ rest, c < 128) →
    mainLoopInTime data u0 (ipv6LoopSent rest done rest) = (some u, none) →
    ∃ hs PT P H, rest = hs ++ 93 :: (PT ++ (P ++ H)) ∧
      (∀ c ∈ hs, isHex c = true ∨ c = 58 ∨ c = 46) ∧
      u.scheme = u0.scheme ∧ u.userinfo = u0.userinfo ∧
      PortPart PT (done ++ hs ++ [93]) u.hostport ∧ ParamsPart P u0.params u.params ∧
      HeadersPart H u0.headers u.headers ∧
      ∃ evs, ipv6LoopSent rest done rest
        = Event.item ⟨Token.tHost, done ++ hs ++ [93]⟩ :: evs := by
  induction rest with
  | nil =>
    intro done u0 u _ h
    simp [ipv6LoopSent, mainLoopInTime, errorf] at h
  | cons x rest ih =>
    intro done u0 u hlt h
    have hx := hlt x (by simp)
    have hb := byte_of_lt x (by omega)
    have hrest : ∀ c ∈ rest, c < 128 := fun c hc => hlt c (by simp [hc])
    simp only [ipv6LoopSent, hb, List.take_succ_cons, List.take_zero, List.drop_succ_cons,
      List.drop_zero] at h ⊢
    split_ifs at h ⊢ with h1 h2
    · subst h1
      simp only [mainLoopInTime, reduceCtorEq, if_false, URI.setSegment] at h
      obtain ⟨PT, P, H, e0, e1, e2, e3, e4, e5⟩ := inv_port data _ u _ _ hrest h
      exact ⟨[], PT, P, H, by rw [e0]; rfl, by simp, e1, e2, by simpa using e3, e4, e5, _,
        by rw [List.append_nil]⟩
    · obtain ⟨hs, PT, P, H, e0, e1, e2, e3, e4, e5, e6, evs, e7⟩ := ih (done ++ [x]) u0 u hrest h
      refine ⟨x :: hs, PT, P, H, by rw [e0]; rfl, ?_, e2, e3, by simpa using e4, e5, e6, evs,
        by simpa using e7⟩
      intro c hc
      rcases List.mem_cons.1 hc with h5 | h5
      · subst h5; exact h2
      · exact e1 c h5
    · simp [mainLoopInTime, errorf] at h

theorem inv_hostport (data : Bytes) (u0 u : URI) (suf : Bytes) (hs : ∀ c ∈ suf, c < 128)
    (h : mainLoopInTime data u0 (hostportSent suf) = (some u, none)) : HostTail u0 u suf := by
  have hne : ∀ v evs, hostportSent suf = Event.item ⟨Token.tHost, v⟩ :: evs → v ≠ [] := by
    intro v evs hv
    rcases hostOK_hostport suf with ⟨m, evs1, he⟩ | ⟨v1, evs1, he, hv1, _⟩
    · rw [he] at hv; simp at hv
    · rw [he] at hv
      simp only [List.cons.injEq, Event.item.injEq, Item.mk.injEq, true_and] at hv
      rw [← hv.1]; exact hv1
  match suf, hs, h, hne with
  | [], _, h, _ => simp [hostportSent, mainLoopInTime, errorf] at h
  | c :: r, hs, h, hne =>
    have hlt : ∀ c ∈ r, c < 128 := fun x hx => hs x (by simp [hx])
    have hrun : runes (c :: r) = c :: r := runes_ascii _ hs
    have hrunr : runes r = r := runes_ascii _ hlt
    have hstep : hostportSent (c :: r) =
        (if c = 91 then ipv6LoopSent r [91] r
        else if ((parseIPv4 (c :: r)).getD (0, false)).2 = true then
          Event.item ⟨Token.tHost, (c :: r).take ((parseIPv4 (c :: r)).getD (0, false)).1⟩ ::
            portSent ((c :: r).take ((parseIPv4 (c :: r)).getD (0, false)).1)
              ((c :: r).drop ((parseIPv4 (c :: r)).getD (0, false)).1)
        else if isAlphaNum (byte c) = true then hostnameLoopSent (c :: r) [] (c :: r)
        else [errorf (B "invalid host part")]) := by
      simp only [hostportSent, hrun, hrunr]
    rw [hstep] at h
    split_ifs at h with h1 h2 h3
    · subst h1
      obtain ⟨hs1, PT, P, H, e0, e1, e2, e3, e4, e5, e6, evs, e7⟩ :=
        inv_ipv6Loop data r [91] u0 u hlt h
      have hev : hostportSent (91 :: r) = Event.item ⟨Token.tHost, [91] ++ hs1 ++ [93]⟩ :: evs := by
        rw [hstep, if_pos rfl, e7]
      exact ⟨[91] ++ hs1 ++ [93], PT, P, H, by rw [e0]; simp, e2, e3, by simp, ⟨evs, hev⟩,
        e4, e5, e6⟩
    · simp only [mainLoopInTime, reduceCtorEq, if_false, URI.setSegment] at h
      have hdrop : ∀ x ∈ (c :: r).drop ((parseIPv4 (c :: r)).getD (0, false)).1, x < 128 :=
        fun x hx => hs x (List.mem_of_mem_drop hx)
      obtain ⟨PT, P, H, e0, e1, e2, e3, e4, e5⟩ := inv_port data _ u _ _ hdrop h
      have hev : hostportSent (c :: r) = Event.item
          ⟨Token.tHost, (c :: r).take ((parseIPv4 (c :: r)).getD (0, false)).1⟩ ::
            portSent ((c :: r).take ((parseIPv4 (c :: r)).getD (0, false)).1)
              ((c :: r).drop ((parseIPv4 (c :: r)).getD (0, false)).1) := by
        rw [hstep, if_neg h1, if_pos h2]
      refine ⟨(c :: r).take ((parseIPv4 (c :: r)).getD (0, false)).1, PT, P, H, ?_, e1, e2,
        hne _ _ hev, ⟨_, hev⟩, e3, e4, e5⟩
      rw [← e0, List.take_append_drop]
    · obtain ⟨hs1, PT, P, H, e0, e1, e2, e3, e4, e5, e6, evs, e7⟩ :=
        inv_hostnameLoop data (c :: r) [] u0 u hs h
      simp only [List.nil_append] at e4 e7
      have hev : hostportSent (c :: r) = Event.item ⟨Token.tHost, hs1⟩ :: evs := by
        rw [hstep, if_neg h1, if_neg h2, if_pos h3, e7]
      exact ⟨hs1, PT, P, H, e0, e2, e3, hne _ _ hev, ⟨evs, hev⟩, e4, e5, e6⟩
    · simp [mainLoopInTime, errorf] at h

theorem IndexByte_none_mem (s : Bytes) (c : Nat) (h : IndexByte s c = none) :
    ∀ x ∈ s, x ≠ c := by
  induction s with
  | nil => intro x hx; simp at hx
  | cons b s ih =>
    simp only [IndexByte] at h
    split_ifs at h with hb
    cases hs : IndexByte s c with
    | some j => simp [hs] at h
    | none =>
      intro x hx
      rcases List.mem_cons.1 hx with h1 | h1
      · rw [h1]; exact hb
      · exact ih hs x h1

theorem IndexByte_some_split (s : Bytes) (c : Nat) : ∀ k, IndexByte s c = some k →
    s = s.take k ++ c :: s.drop (k + 1) ∧ ∀ x ∈ s.take k, x ≠ c := by
  induction s with
  | nil => intro k h; simp [IndexByte] at h
  | cons b s ih =>
    intro k h
    simp only [IndexByte] at h
    split_ifs at h with hb
    · simp at h; subst h; subst hb; simp
    · cases hs : IndexByte s c with
      | none => simp [hs] at h
      | some j =>
        simp [hs] at h
        subst h
        obtain ⟨e1, e2⟩ := ih j hs
        refine ⟨by simp only [List.take_succ_cons, List.drop_succ_cons, List.cons_append]; rw [← e1], ?_⟩
        intro x hx
        simp only [List.take_succ_cons, List.mem_cons] at hx
        rcases hx with h1 | h1
        · rw [h1]; exact hb
        · exact e2 x h1

theorem userinfoErr_none (u : Bytes) : ∀ after, userinfoErr u after = none →
    ∀ c ∈ u, isUserinfoByte c = true := by
  induction u with
  | nil => intro after _ c hc; simp at hc
  | cons x u ih =>
    intro after h c hc
    simp only [userinfoErr] at h
    split_ifs at h with h1 h2
    · rcases List.mem_cons.1 hc with h3 | h3
      · subst h3; simp [isUserinfoByte, h1]
      · exact ih _ h c h3
    · rcases List.mem_cons.1 hc with h3 | h3
      · subst h3; simp [isUserinfoByte, h2]
      · exact ih _ h c h3

theorem inv_userinfo (data : Bytes) (u0 u : URI) (suf : Bytes) (hs : ∀ c ∈ suf, c < 128)
    (h : mainLoopInTime data u0 (userinfoSent suf) = (some u, none)) :
    ∃ U T, suf = U ++ T ∧ UserPart U u0.userinfo u.userinfo ∧ (U = [] → ∀ c ∈ T, c ≠ 64) ∧
      HostTail { u0 with userinfo := u.userinfo } u T := by
  simp only [userinfoSent] at h
  cases hi : IndexByte suf 64 with
  | none =>
    simp only [hi] at h
    obtain ⟨h1, PT, P, H, e0, e1, e2, e3, e4, e5, e6, e7⟩ := inv_hostport data u0 u suf hs h
    exact ⟨[], suf, rfl, Or.inl ⟨rfl, e2⟩, fun _ => IndexByte_none_mem suf 64 hi,
      h1, PT, P, H, e0, e1, rfl, e3, e4, e5, e6, e7⟩
  | some k =>
    simp only [hi] at h
    obtain ⟨hsplit, hno⟩ := IndexByte_some_split suf 64 k hi
    cases hu : userinfoErr (List.take k suf) (List.drop k suf) with
    | some ev =>
      simp only [hu] at h
      obtain ⟨m, hm⟩ := userinfoErr_err _ _ _ hu
      subst hm
      simp [mainLoopInTime] at h
    | none =>
      simp only [hu, mainLoopInTime, reduceCtorEq, if_false, URI.setSegment] at h
      have hdrop : ∀ x ∈ suf.drop (k + 1), x < 128 := fun x hx => hs x (List.mem_of_mem_drop hx)
      obtain ⟨h1, PT, P, H, e0, e1, e2, e3, e4, e5, e6, e7⟩ := inv_hostport data _ u _ hdrop h
      simp only [] at e1 e2 e6 e7
      refine ⟨suf.take k ++ [64], suf.drop (k + 1), by simpa using hsplit, Or.inr ⟨by rw [e2], ?_⟩,
        fun hc => by simp at hc, h1, PT, P, H, e0, e1, rfl, e3, e4, e5, e6, e7⟩
      rw [e2]
      exact userinfoErr_none _ _ hu

/-- The shape of an accepted ASCII input: scheme, userinfo piece, host, port
piece, params piece, headers piece. -/
theorem accepted_shape (data : Bytes) (u : URI) (hascii : ∀ b ∈ data, b < 128)
    (h : LexerParseInTime data = some (some u, none)) :
    ∃ S U hst PT P H, data = S ++ (U ++ (hst ++ (PT ++ (P ++ H)))) ∧
      ((S = B "sip:" ∧ u.scheme = Scheme.SIP) ∨ (S = B "sips:" ∧ u.scheme = Scheme.SIPS)) ∧
      UserPart U [] u.userinfo ∧ (U = [] → ∀ c ∈ hst ++ (PT ++ (P ++ H)), c ≠ 64) ∧
      hst ≠ [] ∧
      (∃ evs, hostportSent (hst ++ (PT ++ (P ++ H))) = Event.item ⟨Token.tHost, hst⟩ :: evs) ∧
      PortPart PT hst u.hostport ∧ ParamsPart P [] u.params ∧ HeadersPart H [] u.headers := by
  rw [LexerParseInTime_eq] at h
  simp only [Option.some.injEq] at h
  have key : ∀ (S r : Bytes) (sch : Scheme), data = S ++ r →
      mainLoopInTime data { URI.zero with scheme := sch } (userinfoSent r) = (some u, none) →
      ∃ U hst PT P H, data = S ++ (U ++ (hst ++ (PT ++ (P ++ H)))) ∧ u.scheme = sch ∧
        UserPart U [] u.userinfo ∧ (U = [] → ∀ c ∈ hst ++ (PT ++ (P ++ H)), c ≠ 64) ∧
        hst ≠ [] ∧
        (∃ evs, hostportSent (hst ++ (PT ++ (P ++ H))) = Event.item ⟨Token.tHost, hst⟩ :: evs) ∧
        PortPart PT hst u.hostport ∧ ParamsPart P [] u.params ∧ HeadersPart H [] u.headers := by
    intro S r sch hd hm
    have hr : ∀ c ∈ r, c < 128 := fun c hc => hascii c (by rw [hd]; simp [hc])
    obtain ⟨U, T, e0, e1, e2, hst, PT, P, H, f0, f1, f2, f3, f4, f5, f6, f7⟩ :=
      inv_userinfo data _ u r hr hm
    subst f0
    exact ⟨U, hst, PT, P, H, by rw [hd, e0], f1, e1, e2, f3, f4, f5, f6, f7⟩
  simp only [schemeSent] at h
  split_ifs at h with h1 h2
  · have hp : B "sip:" <+: data := by simpa [HasPrefix] using h1
    obtain ⟨r, hr⟩ := hp
    simp only [mainLoopInTime, reduceCtorEq, if_false, URI.setSegment] at h
    have hdrop : List.drop 4 data = r := by rw [← hr, B_sip]; rfl
    rw [hdrop] at h
    obtain ⟨U, hst, PT, P, H, e0, e1, e2⟩ := key (B "sip:") r Scheme.SIP hr.symm h
    exact ⟨B "sip:", U, hst, PT, P, H, e0, Or.inl ⟨rfl, e1⟩, e2⟩
  · have hp : B "sips:" <+: data := by simpa [HasPrefix] using h2
    obtain ⟨r, hr⟩ := hp
    simp only [mainLoopInTime, reduceCtorEq, if_false, URI.setSegment] at h
    have hdrop : List.drop 5 data = r := by rw [← hr, B_sips]; rfl
    rw [hdrop] at h
    obtain ⟨U, hst, PT, P, H, e0, e1, e2⟩ := key (B "sips:") r Scheme.SIPS hr.symm h
    exact ⟨B "sips:", U, hst, PT, P, H, e0, Or.inr ⟨rfl, e1⟩, e2⟩
  · simp [mainLoopInTime, errorf] at h

theorem PortPart_hostport (PT hst hp : Bytes) (h : PortPart PT hst hp) : hp = hst ++ PT := by
  rcases h with ⟨h1, h2⟩ | ⟨d, h1, _, _, _, h2⟩
  · rw [h1, h2]; simp
  · rw [h1, h2]

/-- Without the timer: the fields of an accepted ASCII input are contiguous pieces of the input
in the order scheme, userinfo, hostport, params, headers. -/
theorem LexerParseInTime_fields_in_order (data : Bytes) (u : URI) (hascii : ∀ b ∈ data, b < 128)
    (h : LexerParseInTime data = some (some u, none)) :
    ∃ S U P H, (S = B "sip:" ∨ S = B "sips:") ∧ (U = [] ∨ U = u.userinfo ++ B "@") ∧
      (P = [] ∨ P = B ";" ++ u.params) ∧ (H = [] ∨ H = B "?" ++ u.headers) ∧
      data = S ++ U ++ u.hostport ++ P ++ H := by
  obtain ⟨S, U, hst, PT, P, H, e0, e1, e2, _, _, _, e3, e4, e5⟩ := accepted_shape data u hascii h
  refine ⟨S, U, P, H, ?_, ?_, ?_, ?_, ?_⟩
  · rcases e1 with h1 | h1
    · exact Or.inl h1.1
    · exact Or.inr h1.1
  · rcases e2 with h1 | h1
    · exact Or.inl h1.1
    · exact Or.inr (by rw [h1.1, B_at])
  · rcases e4 with h1 | h1
    · exact Or.inl h1.1
    · exact Or.inr (by rw [h1.1, B_semi]; rfl)
  · rcases e5 with h1 | h1
    · exact Or.inl h1.1
    · exact Or.inr (by rw [h1.1, B_quest]; rfl)
  · rw [e0, PortPart_hostport PT hst _ e3]
    simp

theorem LexerParseInTime_fields_in_order_witness :
    ∃ S U P H, (S = B "sip:" ∨ S = B "sips:") ∧ (U = [] ∨ U = B "alice" ++ B "@") ∧
      (P = [] ∨ P = B ";" ++ B "x=1") ∧ (H = [] ∨ H = B "?" ++ B "y=2") ∧
      B "sip:alice@[::1]:5060;x=1?y=2" = S ++ U ++ B "[::1]:5060" ++ P ++ H :=
  LexerParseInTime_fields_in_order (B "sip:alice@[::1]:5060;x=1?y=2")
    ⟨Scheme.SIP, B "alice", B "[::1]:5060", B "x=1", B "y=2"⟩ (by decide) (by decide)

/-! ## C2: the round trip over the captured fields, without the timer -/

/-- Without the timer: `sip:@a`, `sip:a;` and `sip:a?` are accepted with an empty
userinfo, params and headers, and the re-concatenation gives `sip:a`. -/
theorem roundtrip_counterexample_in_time :
    (∀ b ∈ B "sip:a;", b < 128) ∧
    LexerParseInTime (B "sip:a;") = some (some ⟨Scheme.SIP, [], B "a", [], []⟩, none) ∧
    LexerParseInTime (B "sip:@a") = some (some ⟨Scheme.SIP, [], B "a", [], []⟩, none) ∧
    LexerParseInTime (B "sip:a?") = some (some ⟨Scheme.SIP, [], B "a", [], []⟩, none) ∧
    reassemble ⟨Scheme.SIP, [], B "a", [], []⟩ = B "sip:a" ∧
    B "sip:a;" ≠ reassemble ⟨Scheme.SIP, [], B "a", [], []⟩ := by
  decide

/-- Without the timer: an accepted ASCII input is the scheme text, `:`, a userinfo piece,
the hostport, a params piece and a headers piece; the piece of a non-empty field
is the field with its delimiter, the piece of an empty field is empty or the bare
delimiter; when no piece is a bare delimiter the re-concatenation of the fields
is the input. -/
theorem LexerParseInTime_roundtrip (data : Bytes) (u : URI) (hascii : ∀ b ∈ data, b < 128)
    (h : LexerParseInTime data = some (some u, none)) :
    ∃ U P H, data = schemeText u.scheme ++ B ":" ++ U ++ u.hostport ++ P ++ H ∧
      (if u.userinfo ≠ [] then U = u.userinfo ++ B "@" else U = [] ∨ U = B "@") ∧
      (if u.params ≠ [] then P = B ";" ++ u.params else P = [] ∨ P = B ";") ∧
      (if u.headers ≠ [] then H = B "?" ++ u.headers else H = [] ∨ H = B "?") ∧
      (U ≠ B "@" → P ≠ B ";" → H ≠ B "?" → data = reassemble u) := by
  obtain ⟨S, U, hst, PT, P, H, e0, e1, e2, _, _, _, e3, e4, e5⟩ := accepted_shape data u hascii h
  have hS : S = schemeText u.scheme ++ B ":" := by
    rcases e1 with ⟨h1, h2⟩ | ⟨h1, h2⟩
    · rw [h1, h2]; decide
    · rw [h1, h2]; decide
  have hU : if u.userinfo ≠ [] then U = u.userinfo ++ B "@" else U = [] ∨ U = B "@" := by
    rcases e2 with ⟨h1, h2⟩ | ⟨h1, _⟩
    · simp [h1, h2]
    · by_cases hn : u.userinfo = []
      · simp [hn, h1, B_at]
      · simp [hn, h1, B_at]
  have hP : if u.params ≠ [] then P = B ";" ++ u.params else P = [] ∨ P = B ";" := by
    rcases e4 with ⟨h1, h2⟩ | ⟨h1, _⟩
    · simp [h1, h2]
    · by_cases hn : u.params = []
      · simp [hn, h1, B_semi]
      · simp [hn, h1, B_semi]
  have hH : if u.headers ≠ [] then H = B "?" ++ u.headers else H = [] ∨ H = B "?" := by
    rcases e5 with ⟨h1, h2⟩ | ⟨h1, _⟩
    · simp [h1, h2]
    · by_cases hn : u.headers = []
      · simp [hn, h1, B_quest]
      · simp [hn, h1, B_quest]
  have hdata : data = schemeText u.scheme ++ B ":" ++ U ++ u.hostport ++ P ++ H := by
    rw [e0, PortPart_hostport PT hst _ e3, hS]
    simp
  refine ⟨U, P, H, hdata, hU, hP, hH, fun hu hp hh => ?_⟩
  have hU2 : U = if u.userinfo ≠ [] then u.userinfo ++ B "@" else [] := by
    split_ifs at hU ⊢ with hc
    · exact hU
    · rcases hU with h1 | h1
      · exact h1
      · exact absurd h1 hu
  have hP2 : P = if u.params ≠ [] then B ";" ++ u.params else [] := by
    split_ifs at hP ⊢ with hc
    · exact hP
    · rcases hP with h1 | h1
      · exact h1
      · exact absurd h1 hp
  have hH2 : H = if u.headers ≠ [] then B "?" ++ u.headers else [] := by
    split_ifs at hH ⊢ with hc
    · exact hH
    · rcases hH with h1 | h1
      · exact h1
      · exact absurd h1 hh
  rw [reassemble, ← hU2, ← hP2, ← hH2]
  exact hdata

theorem LexerParseInTime_roundtrip_witness :
    ∃ U P H, B "sips:bob@example.com:8080;user=phone?X-t=foo"
        = schemeText Scheme.SIPS ++ B ":" ++ U ++ B "example.com:8080" ++ P ++ H ∧
      (if B "bob" ≠ [] then U = B "bob" ++ B "@" else U = [] ∨ U = B "@") ∧
      (if B "user=phone" ≠ [] then P = B ";" ++ B "user=phone" else P = [] ∨ P = B ";") ∧
      (if B "X-t=foo" ≠ [] then H = B "?" ++ B "X-t=foo" else H = [] ∨ H = B "?") ∧
      (U ≠ B "@" → P ≠ B ";" → H ≠ B "?" →
        B "sips:bob@example.com:8080;user=phone?X-t=foo"
          = reassemble ⟨Scheme.SIPS, B "bob", B "example.com:8080", B "user=phone",
              B "X-t=foo"⟩) :=
  LexerParseInTime_roundtrip (B "sips:bob@example.com:8080;user=phone?X-t=foo")
    ⟨Scheme.SIPS, B "bob", B "example.com:8080", B "user=phone", B "X-t=foo"⟩
    (by decide) (by decide)

/-! ## `parseIPv4`: what a successful call has read -/

theorem dtoiLoop_stop (s : Bytes) : ∀ n i, (dtoiLoop s n i).2.2 = true →
    ∃ k, (dtoiLoop s n i).2.1 = i + k ∧ ∀ x t, s.drop k = x :: t → isNum x = false := by
  induction s with
  | nil =>
    intro n i h
    by_cases hi : i = 0
    · simp [dtoiLoop, hi] at h
    · exact ⟨0, by simp [dtoiLoop, hi], by simp⟩
  | cons b s ih =>
    intro n i h
    by_cases hb : 48 ≤ b ∧ b ≤ 57
    · by_cases hbig : n * 10 + (b - 48) ≥ 0xFFFFF
      · simp [dtoiLoop, hb, hbig] at h
      · have hval : dtoiLoop (b :: s) n i = dtoiLoop s (n * 10 + (b - 48)) (i + 1) := by
          simp only [dtoiLoop, hb, and_self, if_true, hbig, if_false]
        rw [hval] at h ⊢
        obtain ⟨k, e1, e2⟩ := ih _ _ h
        exact ⟨k + 1, by omega, by simpa using e2⟩
    · by_cases hi : i = 0
      · simp [dtoiLoop, hb, hi] at h
      · have hval : dtoiLoop (b :: s) n i = (n, i, true) := by
          simp only [dtoiLoop, hb, if_false, hi]
        rw [hval]
        refine ⟨0, by simp, ?_⟩
        intro x t hxt
        simp only [List.drop_zero, List.cons.injEq] at hxt
        rw [← hxt.1]
        simp only [isNum, decide_eq_false_iff_not]
        exact hb

theorem dtoi_stop (s : Bytes) (h : (dtoi s).2.2 = true) :
    ∀ x t, s.drop (dtoi s).2.1 = x :: t → isNum x = false := by
  obtain ⟨k, e1, e2⟩ := dtoiLoop_stop s 0 0 h
  simp only [Nat.zero_add] at e1
  simp only [dtoi]
  rw [e1]
  exact e2

/-- A successful `dtoi` of value at most 255 has read an octet. -/
theorem dtoi_octet (s : Bytes) (h : (dtoi s).2.2 = true) (hv : (dtoi s).1 ≤ 255) :
    isOctet (s.take (dtoi s).2.1) ∧ s = s.take (dtoi s).2.1 ++ s.drop (dtoi s).2.1 := by
  obtain ⟨e1, e2, e3, e4⟩ := dtoi_ok s h
  refine ⟨⟨?_, e3, by rw [e4]; exact hv⟩, (List.take_append_drop _ _).symm⟩
  intro hnil
  have hlen : (s.take (dtoi s).2.1).length = 0 := by rw [hnil]; rfl
  rw [List.length_take] at hlen
  omega

theorem parseIPv4Loop_zero (first : Bool) (input : Bytes) (l r : Nat) (b : Bool)
    (h : parseIPv4Loop 0 first input l = some (r, b)) : r = l ∧ b = true := by
  simp only [parseIPv4Loop, Option.some.injEq, Prod.mk.injEq] at h
  exact ⟨h.1.symm, h.2.symm⟩

theorem parseIPv4Loop_inv_first (k : Nat) (input : Bytes) (l r : Nat)
    (h : parseIPv4Loop (k + 1) true input l = some (r, true)) :
    ∃ d X, input = d ++ X ∧ isOctet d ∧ (∀ x t, X = x :: t → isNum x = false) ∧
      parseIPv4Loop k false X (l + d.length) = some (r, true) := by
  match input with
  | [] => simp [parseIPv4Loop] at h
  | b :: rest =>
    rw [parseIPv4Loop_first] at h
    by_cases hc : (dtoi (b :: rest)).2.2 = true ∧ (dtoi (b :: rest)).1 ≤ 255
    · rw [if_pos hc] at h
      obtain ⟨ho, hs⟩ := dtoi_octet (b :: rest) hc.1 hc.2
      refine ⟨_, _, hs, ho, dtoi_stop _ hc.1, ?_⟩
      have hlen : ((b :: rest).take (dtoi (b :: rest)).2.1).length = (dtoi (b :: rest)).2.1 := by
        rw [List.length_take]; exact Nat.min_eq_left (dtoi_le _)
      rw [hlen]; exact h
    · rw [if_neg hc] at h; simp at h

theorem parseIPv4Loop_inv_next (k : Nat) (input : Bytes) (l r : Nat)
    (h : parseIPv4Loop (k + 1) false input l = some (r, true)) :
    ∃ d X, input = 46 :: (d ++ X) ∧ isOctet d ∧ (∀ x t, X = x :: t → isNum x = false) ∧
      parseIPv4Loop k false X (l + 1 + d.length) = some (r, true) := by
  match input with
  | [] => simp [parseIPv4Loop] at h
  | b :: rest =>
    rw [parseIPv4Loop_next] at h
    by_cases hc : b = 46 ∧ (dtoi rest).2.2 = true ∧ (dtoi rest).1 ≤ 255
    · rw [if_pos hc] at h
      obtain ⟨ho, hs⟩ := dtoi_octet rest hc.2.1 hc.2.2
      refine ⟨_, _, by rw [hc.1, ← hs], ho, dtoi_stop _ hc.2.1, ?_⟩
      have hlen : (rest.take (dtoi rest).2.1).length = (dtoi rest).2.1 := by
        rw [List.length_take]; exact Nat.min_eq_left (dtoi_le _)
      rw [hlen]; exact h
    · rw [if_neg hc] at h; simp at h

/-- A successful `parseIPv4` has read a dotted-decimal literal that no digit follows. -/
theorem parseIPv4_inv (s : Bytes) (l : Nat) (h : parseIPv4 s = some (l, true)) :
    ∃ lit r, s = lit ++ r ∧ isIPv4Literal lit ∧ (∀ x t, r = x :: t → isNum x = false) ∧
      l = lit.length := by
  obtain ⟨d1, X1, e1, o1, _, h1⟩ := parseIPv4Loop_inv_first 3 s 0 l h
  obtain ⟨d2, X2, e2, o2, _, h2⟩ := parseIPv4Loop_inv_next 2 X1 _ l h1
  obtain ⟨d3, X3, e3, o3, _, h3⟩ := parseIPv4Loop_inv_next 1 X2 _ l h2
  obtain ⟨d4, X4, e4, o4, n4, h4⟩ := parseIPv4Loop_inv_next 0 X3 _ l h3
  obtain ⟨h5, _⟩ := parseIPv4Loop_zero _ _ _ _ _ h4
  refine ⟨d1 ++ 46 :: (d2 ++ 46 :: (d3 ++ 46 :: d4)), X4, ?_, ⟨d1, d2, d3, d4, rfl, o1, o2, o3, o4⟩,
    n4, ?_⟩
  · rw [e1, e2, e3, e4]; simp
  · rw [h5]; simp; omega

/-- A failed `parseIPv4` returns the length 0. -/
theorem parseIPv4Loop_false (k : Nat) : ∀ (first : Bool) (input : Bytes) (l r : Nat),
    parseIPv4Loop k first input l = some (r, false) → r = 0 := by
  induction k with
  | zero => intro first input l r h; simp [parseIPv4Loop] at h
  | succ k ih =>
    intro first input l r h
    match input with
    | [] => simp [parseIPv4Loop] at h; exact h.symm
    | b :: rest =>
      cases first with
      | true =>
        rw [parseIPv4Loop_first] at h
        split_ifs at h
        · exact ih _ _ _ _ h
        · simp at h; exact h.symm
      | false =>
        rw [parseIPv4Loop_next] at h
        split_ifs at h
        · exact ih _ _ _ _ h
        · simp at h; exact h.symm

/-- Claim C11: `parseIPv4 s` returns `(l, true)` exactly when `s` is four
non-empty strings of ASCII digits of value at most 255 separated by `.` and
followed by a rest `r` that is empty or begins with a byte that is not a digit,
and then `l = len(s) - len(r)`; for every other `s` it returns `(0, false)`. -/
theorem parseIPv4_exact (s : Bytes) :
    (∀ l, parseIPv4 s = some (l, true) ↔
      ∃ d1 d2 d3 d4 r, s = d1 ++ B "." ++ d2 ++ B "." ++ d3 ++ B "." ++ d4 ++ r ∧
        isOctet d1 ∧ isOctet d2 ∧ isOctet d3 ∧ isOctet d4 ∧
        (r = [] ∨ ∃ x t, r = x :: t ∧ isNum x = false) ∧ l = s.length - r.length) ∧
    ((∃ l, parseIPv4 s = some (l, true)) ∨ parseIPv4 s = some (0, false)) := by
  have hdot : B "." = [46] := by decide
  constructor
  · intro l
    constructor
    · intro h
      obtain ⟨lit, r, e, ⟨d1, d2, d3, d4, elit, o1, o2, o3, o4⟩, hr, hl⟩ := parseIPv4_inv s l h
      refine ⟨d1, d2, d3, d4, r, ?_, o1, o2, o3, o4, ?_, ?_⟩
      · rw [e, elit, hdot]; simp
      · match r, hr with
        | [], _ => exact Or.inl rfl
        | x :: t, hr => exact Or.inr ⟨x, t, rfl, hr x t rfl⟩
      · rw [hl, e]; simp
    · rintro ⟨d1, d2, d3, d4, r, e, o1, o2, o3, o4, hr, hl⟩
      have hlit : isIPv4Literal (d1 ++ 46 :: (d2 ++ 46 :: (d3 ++ 46 :: d4))) :=
        ⟨d1, d2, d3, d4, rfl, o1, o2, o3, o4⟩
      have hr2 : ∀ x t, r = x :: t → isNum x = false := by
        intro x t hxt
        rcases hr with hr | ⟨y, t2, hy, hn⟩
        · rw [hr] at hxt; cases hxt
        · rw [hy] at hxt; cases hxt; exact hn
      have es : s = (d1 ++ 46 :: (d2 ++ 46 :: (d3 ++ 46 :: d4))) ++ r := by
        rw [e, hdot]; simp
      have := parseIPv4_literal _ r hlit hr2
      rw [← es] at this
      rw [this, hl]
      congr 2
      rw [es]; simp; omega
  · obtain ⟨r, hr, _⟩ := parseIPv4_spec s
    obtain ⟨l, b⟩ := r
    cases b with
    | true => exact Or.inl ⟨l, hr⟩
    | false =>
      right
      have := parseIPv4Loop_false 4 true s 0 l hr
      rw [hr, this]

/-- Claim C12, on the code: `parseIPv4` puts no bound on the digits of an octet;
it matches the 19 bytes of `0000.0000.0000.0000`, whose octets have four digits. -/
theorem parseIPv4_leading_zeros :
    parseIPv4 (B "0000.0000.0000.0000") = some (19, true) ∧
    isIPv4Literal (B "0000.0000.0000.0000") ∧ 15 < 19 ∧
    LexerParseInTime (B "sip:0000.0000.0000.0000")
      = some (some ⟨Scheme.SIP, [], B "0000.0000.0000.0000", [], []⟩, none) := by
  refine ⟨by decide, ⟨B "0000", B "0000", B "0000", B "0000", by decide,
    ⟨by decide, by decide, by decide⟩, ⟨by decide, by decide, by decide⟩,
    ⟨by decide, by decide, by decide⟩, ⟨by decide, by decide, by decide⟩⟩, by decide, by decide⟩

/-! ## C13: dotted digits with an octet above 255, without the timer -/

theorem digits_split (d : Bytes) : ∀ (a X Y : Bytes), (∀ c ∈ d, isNum c = true) →
    (∀ c ∈ a, isNum c = true) → (∀ x t, X = x :: t → isNum x = false) →
    (∀ x t, Y = x :: t → isNum x = false) → d ++ X = a ++ Y → d = a ∧ X = Y := by
  induction d with
  | nil =>
    intro a X Y _ ha hX _ e
    match a, ha with
    | [], _ => exact ⟨rfl, by simpa using e⟩
    | x :: a1, ha =>
      have h1 := hX x (a1 ++ Y) (by simpa using e)
      have h2 := ha x (by simp)
      rw [h1] at h2; cases h2
  | cons c d ih =>
    intro a X Y hd ha hX hY e
    match a, ha with
    | [], _ =>
      have h1 := hY c (d ++ X) (by simpa using e.symm)
      have h2 := hd c (by simp)
      rw [h1] at h2; cases h2
    | x :: a1, ha =>
      simp only [List.cons_append, List.cons.injEq] at e
      obtain ⟨e1, e2⟩ := ih a1 X Y (fun y hy => hd y (by simp [hy]))
        (fun y hy => ha y (by simp [hy])) hX hY e.2
      exact ⟨by rw [e.1, e1], e2⟩

theorem dot_nondigit (Z : Bytes) : ∀ x t, 46 :: Z = x :: t → isNum x = false := by
  intro x t h
  simp only [List.cons.injEq] at h
  rw [← h.1]; decide

/-- Four non-empty digit strings separated by `.`, one of them of value above
255, are no IPv4 literal for `parseIPv4`. -/
theorem parseIPv4_over (a b c d : Bytes)
    (ha : ∀ x ∈ a, isNum x = true) (hb : ∀ x ∈ b, isNum x = true)
    (hc : ∀ x ∈ c, isNum x = true) (hd : ∀ x ∈ d, isNum x = true)
    (hbig : 255 < decVal a ∨ 255 < decVal b ∨ 255 < decVal c ∨ 255 < decVal d) :
    parseIPv4 (a ++ 46 :: (b ++ 46 :: (c ++ 46 :: d))) = some (0, false) := by
  obtain ⟨r, hr, _⟩ := parseIPv4_spec (a ++ 46 :: (b ++ 46 :: (c ++ 46 :: d)))
  obtain ⟨l, ok⟩ := r
  cases ok with
  | false =>
    have := parseIPv4Loop_false 4 true _ 0 l hr
    rw [hr, this]
  | true =>
    exfalso
    obtain ⟨lit, r, e, ⟨d1, d2, d3, d4, elit, o1, o2, o3, o4⟩, hrn, _⟩ := parseIPv4_inv _ l hr
    rw [elit] at e
    simp only [List.append_assoc, List.cons_append] at e
    obtain ⟨e1, f1⟩ := digits_split a d1 _ _ ha o1.2.1 (dot_nondigit _) (dot_nondigit _) e
    simp only [List.cons.injEq, true_and] at f1
    obtain ⟨e2, f2⟩ := digits_split b d2 _ _ hb o2.2.1 (dot_nondigit _) (dot_nondigit _) f1
    simp only [List.cons.injEq, true_and] at f2
    obtain ⟨e3, f3⟩ := digits_split c d3 _ _ hc o3.2.1 (dot_nondigit _) (dot_nondigit _) f2
    simp only [List.cons.injEq, true_and] at f3
    obtain ⟨e4, _⟩ := digits_split d d4 [] r hd o4.2.1 (by simp) hrn (by simpa using f3)
    have v1 := o1.2.2
    have v2 := o2.2.2
    have v3 := o3.2.2
    have v4 := o4.2.2
    rw [← e1] at v1; rw [← e2] at v2; rw [← e3] at v3; rw [← e4] at v4
    omega

/-- A text of host bytes that begins with a digit and is no IPv4 literal for
`parseIPv4` is sent as a host name. -/
theorem hostportSent_numeric (x : Nat) (t : Bytes) (hx : isNum x = true)
    (ht : ∀ c ∈ t, isHostByte c = true) (hp : parseIPv4 (x :: t) = some (0, false)) :
    hostportSent (x :: t)
      = [Event.item ⟨Token.tHost, x :: t⟩, Event.item ⟨Token.tEOF, x :: t⟩] := by
  have hxh : isHostByte x = true := by simp [isHostByte, hx]
  have hall : ∀ c ∈ x :: t, isHostByte c = true := by
    intro c hc
    rcases List.mem_cons.1 hc with h | h
    · rw [h]; exact hxh
    · exact ht c h
  have hx91 : x ≠ 91 := by
    intro h; subst h; revert hx; decide
  have hlt := isHostByte_lt x hxh
  have han : isAlphaNum (byte x) = true := by
    rw [byte_of_lt x (by omega)]
    simp [isAlphaNum, hx]
  have hrunes : runes (x :: t) = x :: t :=
    runes_ascii (x :: t) (fun b hb => isHostByte_lt b (hall b hb))
  have hcons := hostnameLoop_consume (x :: t) [] [] [] hall
  simp only [List.nil_append, List.append_nil] at hcons
  simp only [hostportSent, hx91, if_false, hp, Option.getD_some,
    Bool.false_eq_true, han, if_true, hrunes, hcons]
  simp only [hostnameLoopSent]

/-- Without the timer: `sip:256.0.0.1` is accepted, `256.0.0.1` being read as a
host name. -/
theorem octet_boundary_counterexample_in_time :
    (∀ x ∈ B "256", isNum x = true) ∧ 255 < decVal (B "256") ∧
    B "256.0.0.1" = B "256" ++ B "." ++ B "0" ++ B "." ++ B "0" ++ B "." ++ B "1" ∧
    LexerParseInTime (B "sip:256.0.0.1") = some (some ⟨Scheme.SIP, [], B "256.0.0.1", [], []⟩, none) := by
  decide

/-- Without the timer: `sip:255.255.255.255` is accepted with the hostport
`255.255.255.255`; four non-empty strings of ASCII digits separated by `.`, one
of them of value above 255, are rejected by `parseIPv4`, and `LexerParseInTime` of
`sip:` and that text succeeds with the text as hostport. -/
theorem LexerParseInTime_octet_boundary (a b c d : Bytes)
    (ha : a ≠ [] ∧ ∀ x ∈ a, isNum x = true) (hb : b ≠ [] ∧ ∀ x ∈ b, isNum x = true)
    (hc : c ≠ [] ∧ ∀ x ∈ c, isNum x = true) (hd : d ≠ [] ∧ ∀ x ∈ d, isNum x = true)
    (hbig : 255 < decVal a ∨ 255 < decVal b ∨ 255 < decVal c ∨ 255 < decVal d) :
    LexerParseInTime (B "sip:255.255.255.255")
      = some (some ⟨Scheme.SIP, [], B "255.255.255.255", [], []⟩, none) ∧
    parseIPv4 (a ++ B "." ++ b ++ B "." ++ c ++ B "." ++ d) = some (0, false) ∧
    LexerParseInTime (B "sip:" ++ (a ++ B "." ++ b ++ B "." ++ c ++ B "." ++ d))
      = some (some ⟨Scheme.SIP, [], a ++ B "." ++ b ++ B "." ++ c ++ B "." ++ d, [], []⟩,
          none) := by
  have hdot : B "." = [46] := by decide
  have es : a ++ B "." ++ b ++ B "." ++ c ++ B "." ++ d
      = a ++ 46 :: (b ++ 46 :: (c ++ 46 :: d)) := by
    rw [hdot]; simp
  have hp := parseIPv4_over a b c d ha.2 hb.2 hc.2 hd.2 hbig
  refine ⟨by decide, by rw [es]; exact hp, ?_⟩
  rw [es]
  generalize hs : a ++ 46 :: (b ++ 46 :: (c ++ 46 :: d)) = s at hp
  have hall : ∀ x ∈ s, isHostByte x = true := by
    intro x hx
    have hnum : ∀ y, isNum y = true → isHostByte y = true := by
      intro y hy; simp [isHostByte, hy]
    rw [← hs] at hx
    simp only [List.mem_append, List.mem_cons] at hx
    rcases hx with h | h | h | h | h | h | h
    · exact hnum x (ha.2 x h)
    · rw [h]; decide
    · exact hnum x (hb.2 x h)
    · rw [h]; decide
    · exact hnum x (hc.2 x h)
    · rw [h]; decide
    · exact hnum x (hd.2 x h)
  obtain ⟨x, t, hxt, hx⟩ : ∃ x t, s = x :: t ∧ isNum x = true := by
    match a, ha with
    | x :: a1, ha => exact ⟨x, _, by rw [← hs]; rfl, ha.2 x (by simp)⟩
  have h64 : ∀ y ∈ s, y ≠ 64 := fun y hy => isHostByte_ne_64 y (hall y hy)
  rw [LexerParseInTime_eq, schemeSent_sip, userinfoSent_absent s h64]
  rw [hxt] at hp hall ⊢
  rw [hostportSent_numeric x t hx (fun y hy => hall y (by simp [hy])) hp]
  simp [mainLoopInTime, URI.setSegment, URI.zero]

theorem LexerParseInTime_octet_boundary_witness :
    LexerParseInTime (B "sip:255.255.255.255")
      = some (some ⟨Scheme.SIP, [], B "255.255.255.255", [], []⟩, none) ∧
    parseIPv4 (B "256" ++ B "." ++ B "0" ++ B "." ++ B "0" ++ B "." ++ B "1") = some (0, false) ∧
    LexerParseInTime (B "sip:" ++ (B "256" ++ B "." ++ B "0" ++ B "." ++ B "0" ++ B "." ++ B "1"))
      = some (some ⟨Scheme.SIP, [],
          B "256" ++ B "." ++ B "0" ++ B "." ++ B "0" ++ B "." ++ B "1", [], []⟩, none) :=
  LexerParseInTime_octet_boundary (B "256") (B "0") (B "0") (B "1")
    ⟨by decide, by decide⟩ ⟨by decide, by decide⟩ ⟨by decide, by decide⟩
    ⟨by decide, by decide⟩ (Or.inl (by decide))

/-! ## C14, C15: the userinfo, without the timer -/

theorem mainLoopInTime_userinfo (data : Bytes) (evs : List Event) : ∀ (u0 u : URI),
    (∀ e ∈ evs, 3 ≤ e.rank) → mainLoopInTime data u0 evs = (some u, none) →
    u.userinfo = u0.userinfo := by
  induction evs with
  | nil => intro u0 u _ h; simp [mainLoopInTime] at h
  | cons e evs ih =>
    intro u0 u hr h
    have hr1 : ∀ e ∈ evs, 3 ≤ e.rank := fun x hx => hr x (by simp [hx])
    have he := hr e (by simp)
    cases e with
    | err m => simp [mainLoopInTime] at h
    | item it =>
      obtain ⟨tk, v⟩ := it
      simp only [mainLoopInTime] at h
      split_ifs at h with ht
      · simp at h; rw [h]
      · have := ih _ _ hr1 h
        rw [this]
        cases tk <;> simp [URI.setSegment, Event.rank] at he ⊢

/-- The userinfo of a result of the receive loop over the values sent from
`lexUserinfo` on. -/
theorem userinfoSent_userinfo (data : Bytes) (u0 u : URI) (r : Bytes)
    (h : mainLoopInTime data u0 (userinfoSent r) = (some u, none)) :
    (64 ∉ r → u.userinfo = u0.userinfo) ∧
    (64 ∈ r → ∃ rest, r = u.userinfo ++ 64 :: rest ∧ (∀ c ∈ u.userinfo, c ≠ 64) ∧
      ∀ c ∈ u.userinfo, isUserinfoByte c = true) := by
  simp only [userinfoSent] at h
  cases hi : IndexByte r 64 with
  | none =>
    rw [hi] at h
    simp only at h
    have hno := IndexByte_none_mem r 64 hi
    refine ⟨fun _ => mainLoopInTime_userinfo data _ u0 u (rank_hostport r) h, fun hin => ?_⟩
    exact absurd rfl (hno 64 hin)
  | some k =>
    rw [hi] at h
    simp only at h
    obtain ⟨hsplit, hne⟩ := IndexByte_some_split r 64 k hi
    cases he : userinfoErr (r.take k) (r.drop k) with
    | some e =>
      rw [he] at h
      obtain ⟨m, hm⟩ := userinfoErr_err _ _ e he
      subst hm
      simp [mainLoopInTime] at h
    | none =>
      rw [he] at h
      simp only [mainLoopInTime, reduceCtorEq, if_false, URI.setSegment] at h
      have hu := mainLoopInTime_userinfo data _ _ u (rank_hostport _) h
      simp only at hu
      have hleg := userinfoErr_none _ _ he
      refine ⟨fun hnin => ?_, fun _ => ⟨r.drop (k + 1), ?_, ?_, ?_⟩⟩
      · exfalso; apply hnin; rw [hsplit]; simp
      · rw [hu]; exact hsplit
      · rw [hu]; exact hne
      · rw [hu]; exact hleg

/-- Without the timer: for every accepted input, without `@` in the input the userinfo
is empty, and with `@` the userinfo is the bytes between the colon of the scheme
and the first `@`, each of them a legal userinfo byte. -/
theorem LexerParseInTime_userinfo (data : Bytes) (u : URI)
    (h : LexerParseInTime data = some (some u, none)) :
    (64 ∉ data → u.userinfo = []) ∧
    (64 ∈ data → ∃ S rest, (S = B "sip:" ∨ S = B "sips:") ∧
      data = S ++ u.userinfo ++ B "@" ++ rest ∧ (∀ c ∈ u.userinfo, c ≠ 64) ∧
      ∀ c ∈ u.userinfo, isUserinfoByte c = true) := by
  rw [LexerParseInTime_eq] at h
  simp only [Option.some.injEq] at h
  have key : ∀ (S r : Bytes) (sch : Scheme), (S = B "sip:" ∨ S = B "sips:") → data = S ++ r →
      mainLoopInTime data { URI.zero with scheme := sch } (userinfoSent r) = (some u, none) →
      (64 ∉ data → u.userinfo = []) ∧
      (64 ∈ data → ∃ S rest, (S = B "sip:" ∨ S = B "sips:") ∧
        data = S ++ u.userinfo ++ B "@" ++ rest ∧ (∀ c ∈ u.userinfo, c ≠ 64) ∧
        ∀ c ∈ u.userinfo, isUserinfoByte c = true) := by
    intro S r sch hS hd hm
    obtain ⟨h1, h2⟩ := userinfoSent_userinfo data _ u r hm
    have hS64 : 64 ∉ S := by
      rcases hS with hS | hS <;> rw [hS] <;> decide
    refine ⟨fun hn => ?_, fun hin => ?_⟩
    · have := h1 (fun hr => hn (by rw [hd]; simp [hr]))
      rw [this]; rfl
    · have hr : 64 ∈ r := by
        rw [hd] at hin
        rcases List.mem_append.1 hin with hh | hh
        · exact absurd hh hS64
        · exact hh
      obtain ⟨rest, e1, e2, e3⟩ := h2 hr
      refine ⟨S, rest, hS, ?_, e2, e3⟩
      rw [hd, B_at]
      conv_lhs => rw [e1]
      simp
  simp only [schemeSent] at h
  split_ifs at h with h1 h2
  · have hp : B "sip:" <+: data := by simpa [HasPrefix] using h1
    obtain ⟨r, hr⟩ := hp
    simp only [mainLoopInTime, reduceCtorEq, if_false, URI.setSegment] at h
    have hdrop : List.drop 4 data = r := by rw [← hr, B_sip]; rfl
    rw [hdrop] at h
    exact key (B "sip:") r Scheme.SIP (Or.inl rfl) hr.symm h
  · have hp : B "sips:" <+: data := by simpa [HasPrefix] using h2
    obtain ⟨r, hr⟩ := hp
    simp only [mainLoopInTime, reduceCtorEq, if_false, URI.setSegment] at h
    have hdrop : List.drop 5 data = r := by rw [← hr, B_sips]; rfl
    rw [hdrop] at h
    exact key (B "sips:") r Scheme.SIPS (Or.inr rfl) hr.symm h
  · simp [mainLoopInTime, errorf] at h

theorem LexerParseInTime_userinfo_witness :
    (64 ∉ B "sip:alice@atlanta.com" → B "alice" = []) ∧
    (64 ∈ B "sip:alice@atlanta.com" → ∃ S rest, (S = B "sip:" ∨ S = B "sips:") ∧
      B "sip:alice@atlanta.com" = S ++ B "alice" ++ B "@" ++ rest ∧
      (∀ c ∈ B "alice", c ≠ 64) ∧ ∀ c ∈ B "alice", isUserinfoByte c = true) :=
  LexerParseInTime_userinfo (B "sip:alice@atlanta.com")
    ⟨Scheme.SIP, B "alice", B "atlanta.com", [], []⟩ (by decide)

theorem userinfoErr_bad (u : Bytes) : ∀ after, (∃ c ∈ u, isUserinfoByte c = false) →
    ∃ m, userinfoErr u after = some (Event.err (B "invalid userinfo" ++ m)) := by
  have hlit : B "invalid userinfo ..." = B "invalid userinfo" ++ B " ..." := by decide
  induction u with
  | nil => intro after h; obtain ⟨c, hc, _⟩ := h; simp at hc
  | cons b u ih =>
    intro after h
    by_cases hb : isUserinfoByte b = true
    · have hrest : ∃ c ∈ u, isUserinfoByte c = false := by
        obtain ⟨c, hc, hcb⟩ := h
        rcases List.mem_cons.1 hc with e | e
        · rw [e, hb] at hcb; cases hcb
        · exact ⟨c, e, hcb⟩
      obtain ⟨m, hm⟩ := ih after hrest
      refine ⟨m, ?_⟩
      simp only [isUserinfoByte, Bool.or_eq_true] at hb
      rcases hb with hb | hb
      · simp only [userinfoErr, hb, if_true]; exact hm
      · by_cases hb1 : isUnreserved b = true
        · simp only [userinfoErr, hb1, if_true]; exact hm
        · simp only [userinfoErr, hb1, hb, if_true, if_false]; exact hm
    · simp only [isUserinfoByte, Bool.or_eq_true, not_or] at hb
      refine ⟨B " ..." ++ (b :: u ++ after), ?_⟩
      simp only [userinfoErr, hb.1, hb.2, if_false, errorf, hlit, List.append_assoc,
        Bool.false_eq_true]

/-- Without the timer: an input that begins with `sip:` or `sips:` and has, between the
colon and the first `@`, a byte that is no legal userinfo byte fails with a
reason that begins `invalid userinfo`. -/
theorem LexerParseInTime_invalid_userinfo (S v rest : Bytes) (hS : S = B "sip:" ∨ S = B "sips:")
    (hv : ∀ c ∈ v, c ≠ 64) (hbad : ∃ c ∈ v, isUserinfoByte c = false) :
    ∃ m, LexerParseInTime (S ++ v ++ B "@" ++ rest)
      = some (none, some (B "Invalid uri '" ++ (S ++ v ++ B "@" ++ rest)
          ++ B "': invalid userinfo" ++ m)) := by
  have hb : B "': " ++ B "invalid userinfo" = B "': invalid userinfo" := by decide
  have hi := IndexByte_at v rest hv
  obtain ⟨m, hm⟩ := userinfoErr_bad v (64 :: rest) hbad
  have hsent : userinfoSent (v ++ 64 :: rest) = [Event.err (B "invalid userinfo" ++ m)] := by
    simp only [userinfoSent, hi, List.take_left, List.drop_left, hm]
  have hdata : S ++ v ++ B "@" ++ rest = S ++ (v ++ 64 :: rest) := by
    rw [B_at]; simp
  refine ⟨m, ?_⟩
  rw [LexerParseInTime_eq, hdata]
  rcases hS with h | h
  · subst h
    rw [schemeSent_sip, hsent]
    simp only [mainLoopInTime, reduceCtorEq, if_false]
    rw [← hb]; simp only [List.append_assoc]
  · subst h
    rw [schemeSent_sips, hsent]
    simp only [mainLoopInTime, reduceCtorEq, if_false]
    rw [← hb]; simp only [List.append_assoc]

theorem LexerParseInTime_invalid_userinfo_witness :
    ∃ m, LexerParseInTime (B "sip:" ++ B "al ice" ++ B "@" ++ B "atlanta.com")
      = some (none, some (B "Invalid uri '" ++ (B "sip:" ++ B "al ice" ++ B "@" ++ B "atlanta.com")
          ++ B "': invalid userinfo" ++ m)) :=
  LexerParseInTime_invalid_userinfo (B "sip:") (B "al ice") (B "atlanta.com") (Or.inl rfl)
    (by decide) ⟨32, by decide, by decide⟩

/-! ## C16, C17: percent signs and multi-byte characters, without the timer -/

/-- The receive loop accepts what the lexer sends for `sip:`, an optional userinfo
of legal bytes, a host name and optional port, params and headers of legal
bytes. -/
theorem accept_sip (data : Bytes) (u : Option Bytes) (x : Nat) (t : Bytes)
    (d p q : Option Bytes)
    (hu : ∀ v, u = some v → ∀ c ∈ v, isUserinfoByte c = true)
    (hx : isLetter x = true) (ht : ∀ c ∈ t, isHostByte c = true)
    (hd : ∀ v, d = some v → v ≠ [] ∧ (∀ c ∈ v, isNum c = true) ∧ decVal v ≤ 65535)
    (hp : ∀ v, p = some v → ∀ c ∈ v, isParamByte c = true)
    (hq : ∀ v, q = some v → ∀ c ∈ v, isHeaderByte c = true) :
    mainLoopInTime data URI.zero
        (schemeSent (B "sip:" ++ (withSuffix u (B "@") ++ (x :: t ++ (withPrefix (B ":") d ++
          (withPrefix (B ";") p ++ withPrefix (B "?") q))))))
      = (some ⟨Scheme.SIP, u.getD [], (x :: t) ++ withPrefix (B ":") d, p.getD [], q.getD []⟩,
          none) := by
  have hxh : isHostByte x = true := by simp [isHostByte, hx]
  have hall : ∀ c ∈ x :: t, isHostByte c = true := by
    intro c hc
    rcases List.mem_cons.1 hc with h | h
    · rw [h]; exact hxh
    · exact ht c h
  have h64 := parts_ne_64 (x :: t) d p q hall hd hp hq
  rw [schemeSent_sip]
  simp only [mainLoopInTime, reduceCtorEq, if_false, URI.setSegment]
  cases u with
  | none =>
    rw [show withSuffix none (B "@") = [] from rfl, List.nil_append,
      userinfoSent_absent _ h64]
    exact accept_hostport _ _ x t d p q hx ht hd hp hq
  | some v =>
    rw [show withSuffix (some v) (B "@") = v ++ [64] from by simp [withSuffix, B_at]]
    simp only [List.append_assoc, List.singleton_append]
    rw [userinfoSent_present v _ (hu v rfl)]
    simp only [mainLoopInTime, reduceCtorEq, if_false, URI.setSegment]
    exact accept_hostport _ _ x t d p q hx ht hd hp hq

theorem B_atlanta_com : B "atlanta.com" = 97 :: B "tlanta.com" := by decide

/-- Without the timer: `sip:a%zz@atlanta.com` and `sip:atlanta.com;x=%` are
accepted, with a `%` that no two hexadecimal digits follow. -/
theorem percent_counterexample_in_time :
    LexerParseInTime (B "sip:a%zz@atlanta.com")
      = some (some ⟨Scheme.SIP, B "a%zz", B "atlanta.com", [], []⟩, none) ∧
    LexerParseInTime (B "sip:atlanta.com;x=%")
      = some (some ⟨Scheme.SIP, [], B "atlanta.com", B "x=%", []⟩, none) ∧
    isHex 122 = false := by
  decide

/-- Without the timer: `%` is a legal byte of the userinfo, the params and the
headers like any other, and nothing is asked of the bytes after it: for all
strings `v`, `p`, `q` of legal userinfo, param and header bytes, `LexerParseInTime` of
`sip:v@atlanta.com;p?q` succeeds with userinfo `v`, params `p` and headers `q`. -/
theorem LexerParseInTime_percent (v p q : Bytes) (hv : ∀ c ∈ v, isUserinfoByte c = true)
    (hp : ∀ c ∈ p, isParamByte c = true) (hq : ∀ c ∈ q, isHeaderByte c = true) :
    isUserinfoByte 37 = true ∧ isParamByte 37 = true ∧ isHeaderByte 37 = true ∧
    LexerParseInTime (B "sip:" ++ v ++ B "@" ++ B "atlanta.com" ++ B ";" ++ p ++ B "?" ++ q)
      = some (some ⟨Scheme.SIP, v, B "atlanta.com", p, q⟩, none) := by
  refine ⟨by decide, by decide, by decide, ?_⟩
  have h := accept_sip
    (B "sip:" ++ v ++ B "@" ++ B "atlanta.com" ++ B ";" ++ p ++ B "?" ++ q)
    (some v) 97 (B "tlanta.com") none (some p) (some q)
    (fun w hw => by cases hw; exact hv) (by decide) (by decide) (fun w hw => by cases hw)
    (fun w hw => by cases hw; exact hp) (fun w hw => by cases hw; exact hq)
  have e : B "sip:" ++ (withSuffix (some v) (B "@") ++ (97 :: B "tlanta.com" ++
      (withPrefix (B ":") none ++ (withPrefix (B ";") (some p) ++ withPrefix (B "?") (some q)))))
      = B "sip:" ++ v ++ B "@" ++ B "atlanta.com" ++ B ";" ++ p ++ B "?" ++ q := by
    rw [B_atlanta_com]
    simp [withSuffix, withPrefix]
  rw [e] at h
  rw [LexerParseInTime_eq, h, B_atlanta_com]
  simp [withPrefix]

theorem LexerParseInTime_percent_witness :
    isUserinfoByte 37 = true ∧ isParamByte 37 = true ∧ isHeaderByte 37 = true ∧
    LexerParseInTime (B "sip:" ++ B "a%zz" ++ B "@" ++ B "atlanta.com" ++ B ";" ++ B "x=%" ++ B "?"
        ++ B "h=%1")
      = some (some ⟨Scheme.SIP, B "a%zz", B "atlanta.com", B "x=%", B "h=%1"⟩, none) :=
  LexerParseInTime_percent (B "a%zz") (B "x=%") (B "h=%1") (by decide) (by decide) (by decide)

/-- Without the timer: the input `sip:a` followed by the two bytes of U+0141
is accepted; the loop of `lexHostname` reads the rune as `byte(0x141) = 'A'` and
moves the cursor by one byte, so the hostport is `a` and the byte 197. -/
theorem LexerParseInTime_multibyte_host :
    runes [97, 197, 129] = [97, 0x141] ∧ byte 0x141 = 65 ∧
    LexerParseInTime [115, 105, 112, 58, 97, 197, 129]
      = some (some ⟨Scheme.SIP, [], [97, 197], [], []⟩, none) ∧
    isHostByte 197 = false ∧ 197 ≠ 58 ∧ 197 ≠ 91 ∧ 197 ≠ 93 := by
  decide

/-! ## C18, C19: params and headers after `sip:atlanta.com`, without the timer -/

theorem first_bad (f : Nat → Bool) (p : Bytes) : (∃ c ∈ p, f c = false) →
    ∃ a c r, p = a ++ c :: r ∧ (∀ x ∈ a, f x = true) ∧ f c = false := by
  induction p with
  | nil => intro h; obtain ⟨c, hc, _⟩ := h; simp at hc
  | cons b p ih =>
    intro h
    by_cases hb : f b = true
    · have hrest : ∃ c ∈ p, f c = false := by
        obtain ⟨c, hc, hcb⟩ := h
        rcases List.mem_cons.1 hc with e | e
        · rw [e, hb] at hcb; cases hcb
        · exact ⟨c, e, hcb⟩
      obtain ⟨a, c, r, e1, e2, e3⟩ := ih hrest
      refine ⟨b :: a, c, r, by rw [e1]; rfl, ?_, e3⟩
      intro x hx
      rcases List.mem_cons.1 hx with e | e
      · rw [e]; exact hb
      · exact e2 x e
    · exact ⟨[], b, p, rfl, by simp, by simpa using hb⟩

/-- The values sent for `sip:atlanta.com` and a rest that begins with `;` or `?`
and has no `@`. -/
theorem sent_atlanta_tail (y : Nat) (Y : Bytes) (hy : y = 59 ∨ y = 63) (h64 : ∀ c ∈ Y, c ≠ 64) :
    schemeSent (B "sip:" ++ (B "atlanta.com" ++ y :: Y))
      = Event.item ⟨Token.tSip, B "sip:"⟩ :: Event.item ⟨Token.tHost, B "atlanta.com"⟩ ::
          paramsSent (y :: Y) := by
  have hall : ∀ c ∈ B "atlanta.com" ++ y :: Y, c ≠ 64 := by
    intro c hc
    rcases List.mem_append.1 hc with h | h
    · have hlit : ∀ c ∈ B "atlanta.com", c ≠ 64 := by decide
      exact hlit c h
    · rcases List.mem_cons.1 h with h | h
      · omega
      · exact h64 c h
  have hy58 : y ≠ 58 := by omega
  rw [schemeSent_sip, userinfoSent_absent _ hall, B_atlanta_com]
  rw [hostportSent_hostname 97 (B "tlanta.com") (y :: Y) (by decide) (by decide)
    (Or.inr ⟨y, Y, rfl, by omega⟩)]
  simp only [portSent, ne_eq, hy58, not_false_eq_true, if_true]

/-- Without the timer: for an ASCII string `p` without `@` and `?`, `LexerParseInTime` of
`sip:atlanta.com;` and `p` succeeds if and only if every byte of `p` is a legal
param byte; on success the params are `p`, and otherwise it fails with a reason
that begins `invalid param`. -/
theorem LexerParseInTime_params (p : Bytes) (hascii : ∀ c ∈ p, c < 128) (h64 : 64 ∉ p)
    (h63 : 63 ∉ p) :
    ((∃ u, LexerParseInTime (B "sip:atlanta.com;" ++ p) = some (some u, none)) ↔
      ∀ c ∈ p, isParamByte c = true) ∧
    ((∀ c ∈ p, isParamByte c = true) → LexerParseInTime (B "sip:atlanta.com;" ++ p)
      = some (some ⟨Scheme.SIP, [], B "atlanta.com", p, []⟩, none)) ∧
    ((∃ c ∈ p, isParamByte c = false) → ∃ m, LexerParseInTime (B "sip:atlanta.com;" ++ p)
      = some (none, some (B "Invalid uri '" ++ (B "sip:atlanta.com;" ++ p)
          ++ B "': invalid param" ++ m))) := by
  have hb : B "': " ++ B "invalid param ...>" = B "': invalid param" ++ B " ...>" := by decide
  have hdata : B "sip:atlanta.com;" ++ p = B "sip:" ++ (B "atlanta.com" ++ 59 :: p) := by
    rw [show B "sip:atlanta.com;" = B "sip:" ++ (B "atlanta.com" ++ [59]) from by decide]
    simp
  have hne : ∀ c ∈ p, c ≠ 64 := fun c hc e => h64 (e ▸ hc)
  have hok : (∀ c ∈ p, isParamByte c = true) → LexerParseInTime (B "sip:atlanta.com;" ++ p)
      = some (some ⟨Scheme.SIP, [], B "atlanta.com", p, []⟩, none) := by
    intro hp
    have h := accept_sip (B "sip:atlanta.com;" ++ p) none 97 (B "tlanta.com") none (some p) none
      (fun w hw => by cases hw) (by decide) (by decide) (fun w hw => by cases hw)
      (fun w hw => by cases hw; exact hp) (fun w hw => by cases hw)
    have e : B "sip:" ++ (withSuffix none (B "@") ++ (97 :: B "tlanta.com" ++
        (withPrefix (B ":") none ++ (withPrefix (B ";") (some p) ++ withPrefix (B "?") none))))
        = B "sip:atlanta.com;" ++ p := by
      rw [hdata, B_atlanta_com]
      simp [withSuffix, withPrefix, B_semi]
    rw [e] at h
    rw [LexerParseInTime_eq, h, B_atlanta_com]
    simp [withPrefix]
  have hbad : (∃ c ∈ p, isParamByte c = false) → ∃ m, LexerParseInTime (B "sip:atlanta.com;" ++ p)
      = some (none, some (B "Invalid uri '" ++ (B "sip:atlanta.com;" ++ p)
          ++ B "': invalid param" ++ m)) := by
    intro hex
    obtain ⟨a, c, r, e1, e2, e3⟩ := first_bad isParamByte p hex
    have hc128 : c < 128 := hascii c (by rw [e1]; simp)
    have hc63 : c ≠ 63 := fun e => h63 (by rw [e1, ← e]; simp)
    have hbyte : byte c = c := byte_of_lt c (by omega)
    simp only [isParamByte, Bool.or_eq_false_iff, decide_eq_false_iff_not] at e3
    obtain ⟨⟨⟨⟨f1, f2⟩, f3⟩, f4⟩, f5⟩ := e3
    have hcond : ¬ (isUnreserved (byte c) = true ∨ c = 61 ∨ c = 59 ∨ c = 37) := by
      rw [hbyte, f1]; simp [f2, f3, f4]
    have hsent : paramsSent (59 :: p) = [errorf (B "invalid param ...>" ++ r)] := by
      have hcons := paramsLoop_consume a (c :: r) [] (c :: r) e2
      simp only [paramsSent, ne_eq, not_true_eq_false, if_false,
        show (59 : Nat) = 63 ↔ False from by decide, runes_ascii p hascii]
      rw [e1, hcons]
      simp only [paramsLoopSent, hc63, if_false, hcond, f5, Bool.false_eq_true,
        List.drop_succ_cons, List.drop_zero]
    refine ⟨B " ...>" ++ r, ?_⟩
    rw [LexerParseInTime_eq]
    conv_lhs => rw [hdata]
    rw [sent_atlanta_tail 59 p (Or.inl rfl) hne, hsent]
    simp only [mainLoopInTime, reduceCtorEq, if_false, errorf, URI.setSegment]
    have hb2 : B "': " ++ (B "invalid param ...>" ++ r)
        = B "': invalid param" ++ (B " ...>" ++ r) := by
      rw [← List.append_assoc, hb, List.append_assoc]
    rw [← hdata]
    simp only [List.append_assoc, hb2]
  refine ⟨⟨fun hu => ?_, fun hp => ⟨_, hok hp⟩⟩, hok, hbad⟩
  by_contra hn
  have hex : ∃ c ∈ p, isParamByte c = false := by
    by_contra hne2
    apply hn
    intro c hc
    by_contra hcb
    exact hne2 ⟨c, hc, by simpa using hcb⟩
  obtain ⟨m, hm⟩ := hbad hex
  obtain ⟨u, hu⟩ := hu
  rw [hm] at hu
  cases hu

theorem LexerParseInTime_params_witness :
    ((∃ u, LexerParseInTime (B "sip:atlanta.com;" ++ B "transport=tcp") = some (some u, none)) ↔
      ∀ c ∈ B "transport=tcp", isParamByte c = true) ∧
    ((∀ c ∈ B "transport=tcp", isParamByte c = true) →
      LexerParseInTime (B "sip:atlanta.com;" ++ B "transport=tcp")
        = some (some ⟨Scheme.SIP, [], B "atlanta.com", B "transport=tcp", []⟩, none)) ∧
    ((∃ c ∈ B "transport=tcp", isParamByte c = false) →
      ∃ m, LexerParseInTime (B "sip:atlanta.com;" ++ B "transport=tcp")
        = some (none, some (B "Invalid uri '" ++ (B "sip:atlanta.com;" ++ B "transport=tcp")
            ++ B "': invalid param" ++ m))) :=
  LexerParseInTime_params (B "transport=tcp") (by decide) (by decide) (by decide)

/-- Without the timer: `sip:atlanta.com?a@b` is accepted although `@` is no
legal header byte, and its headers are empty: the text before `@` is the
userinfo. -/
theorem headers_counterexample_in_time :
    LexerParseInTime (B "sip:atlanta.com?" ++ B "a@b")
      = some (some ⟨Scheme.SIP, B "atlanta.com?a", B "b", [], []⟩, none) ∧
    isHeaderByte 64 = false ∧ 64 ∈ B "a@b" := by
  decide

/-- Without the timer: for an ASCII string `q` without `@`, `LexerParseInTime` of
`sip:atlanta.com?` and `q` succeeds if and only if every byte of `q` is a legal
header byte, and on success the headers are `q`. -/
theorem LexerParseInTime_headers (q : Bytes) (hascii : ∀ c ∈ q, c < 128) (h64 : 64 ∉ q) :
    ((∃ u, LexerParseInTime (B "sip:atlanta.com?" ++ q) = some (some u, none)) ↔
      ∀ c ∈ q, isHeaderByte c = true) ∧
    ((∀ c ∈ q, isHeaderByte c = true) → LexerParseInTime (B "sip:atlanta.com?" ++ q)
      = some (some ⟨Scheme.SIP, [], B "atlanta.com", [], q⟩, none)) := by
  have hdata : B "sip:atlanta.com?" ++ q = B "sip:" ++ (B "atlanta.com" ++ 63 :: q) := by
    rw [show B "sip:atlanta.com?" = B "sip:" ++ (B "atlanta.com" ++ [63]) from by decide]
    simp
  have hne : ∀ c ∈ q, c ≠ 64 := fun c hc e => h64 (e ▸ hc)
  have hok : (∀ c ∈ q, isHeaderByte c = true) → LexerParseInTime (B "sip:atlanta.com?" ++ q)
      = some (some ⟨Scheme.SIP, [], B "atlanta.com", [], q⟩, none) := by
    intro hq
    have h := accept_sip (B "sip:atlanta.com?" ++ q) none 97 (B "tlanta.com") none none (some q)
      (fun w hw => by cases hw) (by decide) (by decide) (fun w hw => by cases hw)
      (fun w hw => by cases hw) (fun w hw => by cases hw; exact hq)
    have e : B "sip:" ++ (withSuffix none (B "@") ++ (97 :: B "tlanta.com" ++
        (withPrefix (B ":") none ++ (withPrefix (B ";") none ++ withPrefix (B "?") (some q)))))
        = B "sip:atlanta.com?" ++ q := by
      rw [hdata, B_atlanta_com]
      simp [withSuffix, withPrefix, B_quest]
    rw [e] at h
    rw [LexerParseInTime_eq, h, B_atlanta_com]
    simp [withPrefix]
  refine ⟨⟨fun hu => ?_, fun hq => ⟨_, hok hq⟩⟩, hok⟩
  obtain ⟨u, hu⟩ := hu
  rw [LexerParseInTime_eq] at hu
  simp only [Option.some.injEq] at hu
  rw [hdata, sent_atlanta_tail 63 q (Or.inr rfl) hne] at hu
  simp only [mainLoopInTime, reduceCtorEq, if_false, URI.setSegment, paramsSent, if_true,
    headersSent, ne_eq, not_true_eq_false, runes_ascii q hascii] at hu
  have herr := headerErrs_err q q
  obtain ⟨hnil, _⟩ := mainLoopInTime_errs_append _ _ _ _ herr u hu
  exact headerErrs_nil q q hascii hnil

theorem LexerParseInTime_headers_witness :
    ((∃ u, LexerParseInTime (B "sip:atlanta.com?" ++ B "subject=project%20x") = some (some u, none)) ↔
      ∀ c ∈ B "subject=project%20x", isHeaderByte c = true) ∧
    ((∀ c ∈ B "subject=project%20x", isHeaderByte c = true) →
      LexerParseInTime (B "sip:atlanta.com?" ++ B "subject=project%20x")
        = some (some ⟨Scheme.SIP, [], B "atlanta.com", [], B "subject=project%20x"⟩, none)) :=
  LexerParseInTime_headers (B "subject=project%20x") (by decide) (by decide)

/-! ## C20: the lexer against the generated recognizer, without the timer -/

/-- The embedding of `RagelParse` gives the results that `TestRagelParseURISuccess`
and `TestRagelParseURIFail` expect. -/
theorem RagelParse_tests :
    RagelParse (B "sip:alice@atlanta.com")
      = some (some ⟨Scheme.SIP, B "alice", B "atlanta.com", [], []⟩, none) ∧
    RagelParse (B "sip:alice:secretword@atlanta.com;transport=tcp")
      = some (some ⟨Scheme.SIP, B "alice:secretword", B "atlanta.com", B ";transport=tcp", []⟩,
          none) ∧
    RagelParse (B "sips:alice@atlanta.com?subject=project%20x&priority=urgent")
      = some (some ⟨Scheme.SIPS, B "alice", B "atlanta.com", [],
          B "subject=project%20x&priority=urgent"⟩, none) ∧
    RagelParse (B "sip:+1-212-555-1212:1234@gateway.com;user=phone")
      = some (some ⟨Scheme.SIP, B "+1-212-555-1212:1234", B "gateway.com", B ";user=phone", []⟩,
          none) ∧
    RagelParse (B "sips:gateway.com")
      = some (some ⟨Scheme.SIPS, [], B "gateway.com", [], []⟩, none) ∧
    RagelParse (B "sip:alice@192.0.2.4:8899")
      = some (some ⟨Scheme.SIP, B "alice", B "192.0.2.4:8899", [], []⟩, none) ∧
    RagelParse (B "sip:atlanta.com;method=REGISTER?to=alice%40atlanta.com")
      = some (some ⟨Scheme.SIP, [], B "atlanta.com", B ";method=REGISTER",
          B "to=alice%40atlanta.com"⟩, none) ∧
    RagelParse [] = some (none, some (B "Invalid URI ''.")) ∧
    RagelParse (B "foo") = some (none, some (B "Invalid URI 'foo'.")) ∧
    RagelParse (B "sip:1.1.1.1:a22") = some (none, some (B "Invalid URI 'sip:1.1.1.1:a22'.")) ∧
    (RagelParse (B "sip:atlanta.com;foo" ++ [34])).map Prod.fst = some none ∧
    RagelParse (B "sip:;foo?bar") = some (none, some (B "Invalid URI 'sip:;foo?bar'.")) ∧
    RagelParse (B "sip:?foo") = some (none, some (B "Invalid URI 'sip:?foo'.")) := by
  refine ⟨by decide, by decide, by decide, by decide, by decide, by decide, by decide,
    by decide, by decide, by decide, by decide, by decide, by decide⟩

/-- Without the timer: `LexerParseInTime` returns a URI for
`sip:atlanta.com;foo?bar`, with params `foo` and headers `bar`, and `RagelParse`
returns the error `Invalid URI` for it. -/
theorem LexerParseInTime_RagelParse_differ :
    LexerParseInTime (B "sip:atlanta.com;foo?bar")
      = some (some ⟨Scheme.SIP, [], B "atlanta.com", B "foo", B "bar"⟩, none) ∧
    RagelParse (B "sip:atlanta.com;foo?bar")
      = some (none, some (B "Invalid URI 'sip:atlanta.com;foo?bar'.")) := by
  decide

/-! ## C21: an unterminated bracket, without the timer -/

theorem acceptHi_le (s0 : Nat) : acceptHi s0 ≤ 0xBF := by
  simp only [acceptHi]; split_ifs <;> omega

theorem decodeRune_two (s0 : Nat) (t : Bytes) (h : runeSize s0 = 2) :
    128 ≤ (decodeRune s0 t).1 := by
  have hs : 0xC2 ≤ s0 ∧ s0 ≤ 0xDF := by
    simp only [runeSize] at h
    split_ifs at h <;> omega
  have e : decodeRune s0 t =
      if t.length + 1 < 2 then (RuneError, 1)
      else if t.getD 0 0 < acceptLo s0 ∨ acceptHi s0 < t.getD 0 0 then (RuneError, 1)
      else ((s0 % 32) * 64 + t.getD 0 0 % 64, 2) := by
    simp [decodeRune, h]
  rw [e]
  generalize t.getD 0 0 = s1 at *
  generalize acceptLo s0 = lo at *
  generalize acceptHi s0 = hi at *
  simp only [RuneError]
  split_ifs with c1 c2
  · show 128 ≤ 65533; omega
  · show 128 ≤ 65533; omega
  · show 128 ≤ s0 % 32 * 64 + s1 % 64; omega

theorem decodeRune_three (s0 : Nat) (t : Bytes) (h : runeSize s0 = 3) :
    128 ≤ (decodeRune s0 t).1 := by
  have hs : 0xE0 ≤ s0 ∧ s0 ≤ 0xEF := by
    simp only [runeSize] at h
    split_ifs at h <;> omega
  have e : decodeRune s0 t =
      if t.length + 1 < 3 then (RuneError, 1)
      else if t.getD 0 0 < acceptLo s0 ∨ acceptHi s0 < t.getD 0 0 then (RuneError, 1)
      else if ¬ isCont (t.getD 1 0) then (RuneError, 1)
      else ((s0 % 16) * 4096 + (t.getD 0 0 % 64) * 64 + t.getD 1 0 % 64, 3) := by
    simp [decodeRune, h]
  rw [e]
  have hlo : s0 = 0xE0 → acceptLo s0 = 0xA0 := fun h0 => by simp [acceptLo, h0]
  have hhi := acceptHi_le s0
  generalize t.getD 0 0 = s1 at *
  generalize t.getD 1 0 = s2 at *
  generalize acceptLo s0 = lo at *
  generalize acceptHi s0 = hi at *
  simp only [RuneError]
  split_ifs with c1 c2 c3
  · show 128 ≤ 65533; omega
  · show 128 ≤ 65533; omega
  · show 128 ≤ s0 % 16 * 4096 + s1 % 64 * 64 + s2 % 64
    by_cases h0 : s0 = 0xE0
    · have := hlo h0
      omega
    · omega
  · show 128 ≤ 65533; omega

theorem decodeRune_four (s0 : Nat) (t : Bytes) (h : runeSize s0 = 4) :
    128 ≤ (decodeRune s0 t).1 := by
  have hs : 0xF0 ≤ s0 ∧ s0 ≤ 0xF4 := by
    simp only [runeSize] at h
    split_ifs at h <;> omega
  have e : decodeRune s0 t =
      if t.length + 1 < 4 then (RuneError, 1)
      else if t.getD 0 0 < acceptLo s0 ∨ acceptHi s0 < t.getD 0 0 then (RuneError, 1)
      else if ¬ isCont (t.getD 1 0) then (RuneError, 1)
      else if ¬ isCont (t.getD 2 0) then (RuneError, 1)
      else ((s0 % 8) * 262144 + (t.getD 0 0 % 64) * 4096 + (t.getD 1 0 % 64) * 64
        + t.getD 2 0 % 64, 4) := by
    simp [decodeRune, h]
  rw [e]
  have hlo : s0 = 0xF0 → acceptLo s0 = 0x90 := fun h0 => by simp [acceptLo, h0]
  have hhi := acceptHi_le s0
  generalize t.getD 0 0 = s1 at *
  generalize t.getD 1 0 = s2 at *
  generalize t.getD 2 0 = s3 at *
  generalize acceptLo s0 = lo at *
  generalize acceptHi s0 = hi at *
  simp only [RuneError]
  split_ifs with c1 c2 c3 c4
  · show 128 ≤ 65533; omega
  · show 128 ≤ 65533; omega
  · show 128 ≤ s0 % 8 * 262144 + s1 % 64 * 4096 + s2 % 64 * 64 + s3 % 64
    by_cases h0 : s0 = 0xF0
    · have := hlo h0
      omega
    · omega
  · show 128 ≤ 65533; omega
  · show 128 ≤ 65533; omega

theorem runeSize_cases (s0 : Nat) :
    (runeSize s0 = 1 ∧ s0 < 128) ∨ runeSize s0 = 0 ∨ runeSize s0 = 2 ∨ runeSize s0 = 3 ∨
      runeSize s0 = 4 := by
  simp only [runeSize]
  split_ifs
  all_goals simp
  all_goals omega

/-- A rune of a string is an ASCII byte of the string or is above 127. -/
theorem decodeRune_class (s0 : Nat) (t : Bytes) :
    ((decodeRune s0 t).1 = s0 ∧ s0 < 128) ∨ 128 ≤ (decodeRune s0 t).1 := by
  rcases runeSize_cases s0 with ⟨h, hlt⟩ | h | h | h | h
  · left
    simp [decodeRune, h, hlt]
  · right
    simp [decodeRune, h, RuneError]
  · exact Or.inr (decodeRune_two s0 t h)
  · exact Or.inr (decodeRune_three s0 t h)
  · exact Or.inr (decodeRune_four s0 t h)

theorem runesFrom_ne (b : Nat) (hb : b < 128) (s : Bytes) : ∀ skip, (∀ x ∈ s, x ≠ b) →
    ∀ c ∈ runesFrom skip s, c ≠ b := by
  induction s with
  | nil => intro skip _ c hc; simp [runesFrom] at hc
  | cons s0 t ih =>
    intro skip hs c hc
    have ht : ∀ x ∈ t, x ≠ b := fun x hx => hs x (by simp [hx])
    cases skip with
    | zero =>
      simp only [runesFrom, List.mem_cons] at hc
      rcases hc with hc | hc
      · rcases decodeRune_class s0 t with ⟨h1, _⟩ | h1
        · rw [hc, h1]; exact hs s0 (by simp)
        · omega
      · exact ih _ ht c hc
    | succ k =>
      simp only [runesFrom] at hc
      exact ih _ ht c hc

theorem ipv6Loop_unterminated (cs : List Nat) : ∀ (done rest : Bytes), (∀ c ∈ cs, c ≠ 93) →
    ∃ m, ipv6LoopSent cs done rest = [Event.err (B "invalid host part ipv6" ++ m)] := by
  have hlit : B "invalid host part ipv6 >" = B "invalid host part ipv6" ++ B " >" := by decide
  induction cs with
  | nil => intro done rest _; exact ⟨[], by simp [ipv6LoopSent, errorf]⟩
  | cons c cs ih =>
    intro done rest h
    have hc : c ≠ 93 := h c (by simp)
    have hcs : ∀ x ∈ cs, x ≠ 93 := fun x hx => h x (by simp [hx])
    by_cases hleg : isHex (byte c) = true ∨ c = 58 ∨ c = 46
    · obtain ⟨m, hm⟩ := ih (done ++ rest.take 1) (rest.drop 1) hcs
      exact ⟨m, by simp only [ipv6LoopSent, hc, if_false, hleg, if_true]; exact hm⟩
    · refine ⟨B " >" ++ encodeRune c ++ B "<", ?_⟩
      simp only [ipv6LoopSent, hc, if_false, hleg, errorf, hlit, List.append_assoc]

/-- Without the timer: an input with a valid scheme and no `@` whose host begins with `[`
and has no `]` after it fails with a reason that begins `invalid host part
ipv6`. -/
theorem LexerParseInTime_unterminated_ipv6 (S r : Bytes) (hS : S = B "sip:" ∨ S = B "sips:")
    (h64 : 64 ∉ r) (h93 : 93 ∉ r) :
    ∃ m, LexerParseInTime (S ++ B "[" ++ r)
      = some (none, some (B "Invalid uri '" ++ (S ++ B "[" ++ r)
          ++ B "': invalid host part ipv6" ++ m)) := by
  have hb : B "': " ++ B "invalid host part ipv6" = B "': invalid host part ipv6" := by decide
  have hbr : B "[" = [91] := by decide
  have hall : ∀ c ∈ 91 :: r, c ≠ 64 := by
    intro c hc
    rcases List.mem_cons.1 hc with h | h
    · omega
    · exact fun e => h64 (e ▸ h)
  have hrunes : ∀ c ∈ runes r, c ≠ 93 :=
    runesFrom_ne 93 (by decide) r 0 (fun x hx e => h93 (e ▸ hx))
  obtain ⟨m, hm⟩ := ipv6Loop_unterminated (runes r) [91] r hrunes
  have hsent : hostportSent (91 :: r) = [Event.err (B "invalid host part ipv6" ++ m)] := by
    simp only [hostportSent, if_true]; exact hm
  have hdata : S ++ B "[" ++ r = S ++ (91 :: r) := by rw [hbr]; simp
  refine ⟨m, ?_⟩
  rw [LexerParseInTime_eq, hdata]
  rcases hS with h | h
  · subst h
    rw [schemeSent_sip, userinfoSent_absent _ hall, hsent]
    simp only [mainLoopInTime, reduceCtorEq, if_false]
    rw [← hb]; simp only [List.append_assoc]
  · subst h
    rw [schemeSent_sips, userinfoSent_absent _ hall, hsent]
    simp only [mainLoopInTime, reduceCtorEq, if_false]
    rw [← hb]; simp only [List.append_assoc]

theorem LexerParseInTime_unterminated_ipv6_witness :
    (∃ m, LexerParseInTime (B "sip:" ++ B "[" ++ B "::1")
      = some (none, some (B "Invalid uri '" ++ (B "sip:" ++ B "[" ++ B "::1")
          ++ B "': invalid host part ipv6" ++ m))) ∧
    (∃ m, LexerParseInTime (B "sips:" ++ B "[" ++ B "::1;x")
      = some (none, some (B "Invalid uri '" ++ (B "sips:" ++ B "[" ++ B "::1;x")
          ++ B "': invalid host part ipv6" ++ m))) :=
  ⟨LexerParseInTime_unterminated_ipv6 (B "sip:") (B "::1") (Or.inl rfl) (by decide) (by decide),
   LexerParseInTime_unterminated_ipv6 (B "sips:") (B "::1;x") (Or.inr rfl) (by decide) (by decide)⟩

/-! ## C22 to C26, C30: the lexer against the grammars quoted in its comments, without the timer -/

/-- Without the timer: `lexIPv6` only tests each rune against the class of
hexadecimal digits, `:` and `.`; the empty bracket pair and a content made of
dots are accepted as hosts. -/
theorem LexerParseInTime_empty_brackets :
    LexerParseInTime (B "sip:[]") = some (some ⟨Scheme.SIP, [], B "[]", [], []⟩, none) ∧
    LexerParseInTime (B "sip:[...]") = some (some ⟨Scheme.SIP, [], B "[...]", [], []⟩, none) ∧
    LexerParseInTime (B "sip:[:::::]") = some (some ⟨Scheme.SIP, [], B "[:::::]", [], []⟩, none) := by
  decide

/-- Without the timer: for the host `1.2.3.4.com`, of digits, letters and
dots, `parseIPv4` matches the seven bytes `1.2.3.4`, `lexHostport` sends them as
the host without looking at what follows, and `lexParams` fails on `.com`;
`RagelParse` accepts the input with the whole text as hostport. -/
theorem LexerParseInTime_ipv4_prefix_host :
    (∀ c ∈ B "1.2.3.4.com", isHostByte c = true) ∧ isNum ((B "1.2.3.4.com").headD 0) = true ∧
    parseIPv4 (B "1.2.3.4.com") = some (7, true) ∧
    LexerParseInTime (B "sip:1.2.3.4.com")
      = some (none, some (B "Invalid uri 'sip:1.2.3.4.com': invalid params")) ∧
    RagelParse (B "sip:1.2.3.4.com")
      = some (some ⟨Scheme.SIP, [], B "1.2.3.4.com", [], []⟩, none) := by
  refine ⟨by decide, by decide, by decide, by decide, by decide⟩

/-- Without the timer: `lexHeaders` only tests each rune against the class of
header bytes; `sip:atlanta.com;foo?bar`, whose header has no `=`, and
`sip:atlanta.com?=v`, whose header has an empty name, are accepted. -/
theorem LexerParseInTime_header_without_eq :
    61 ∉ B "bar" ∧
    LexerParseInTime (B "sip:atlanta.com;foo?bar")
      = some (some ⟨Scheme.SIP, [], B "atlanta.com", B "foo", B "bar"⟩, none) ∧
    LexerParseInTime (B "sip:atlanta.com?=v")
      = some (some ⟨Scheme.SIP, [], B "atlanta.com", [], B "=v"⟩, none) := by
  decide

/-- Without the timer: `lexParams` asks nothing of what follows a `;`;
`sip:atlanta.com;` is accepted with empty params and `sip:atlanta.com;;a` with
the params `;a`. -/
theorem LexerParseInTime_empty_param :
    LexerParseInTime (B "sip:atlanta.com;")
      = some (some ⟨Scheme.SIP, [], B "atlanta.com", [], []⟩, none) ∧
    LexerParseInTime (B "sip:atlanta.com;;a")
      = some (some ⟨Scheme.SIP, [], B "atlanta.com", B ";a", []⟩, none) := by
  decide

/-- Without the timer: `sip:@atlanta.com`, whose `@` directly follows the
colon of the scheme, is accepted with an empty userinfo. -/
theorem LexerParseInTime_empty_userinfo :
    64 ∈ B "sip:@atlanta.com" ∧
    LexerParseInTime (B "sip:@atlanta.com")
      = some (some ⟨Scheme.SIP, [], B "atlanta.com", [], []⟩, none) := by
  decide

/-- Without the timer and in program order: `lexPort` and `lexHeaders` do not
return after `errorf`.  For `sip:a:x` the state functions go to send the error
`invalid port`, then the item `tPort` and a second error from `lexParams`; for
`sip:a?b c` the error `invalid header` and then the items `tHeader` and `tEOF`.
A send after the error completes only while a receiver is left: see `received`. -/
theorem run_sends_after_error_in_time :
    (newLexer (B "sip:a:x")).run
      = some [Event.item ⟨Token.tSip, B "sip:"⟩, Event.item ⟨Token.tHost, B "a"⟩,
          Event.err (B "invalid port "), Event.item ⟨Token.tPort, []⟩,
          Event.err (B "invalid params")] ∧
    (newLexer (B "sip:a?b c")).run
      = some [Event.item ⟨Token.tSip, B "sip:"⟩, Event.item ⟨Token.tHost, B "a"⟩,
          Event.err (B "invalid header ...>c"), Event.item ⟨Token.tHeader, B "b c"⟩,
          Event.item ⟨Token.tEOF, B "b c"⟩] := by
  decide

/-! ## C28: `DummyParser` on what `LexerParseInTime` accepts, without the timer -/

theorem IndexByte_absent (s : Bytes) (c : Nat) (h : ∀ x ∈ s, x ≠ c) : IndexByte s c = none := by
  induction s with
  | nil => rfl
  | cons b s ih =>
    have hb : b ≠ c := h b (by simp)
    simp [IndexByte, hb, ih (fun x hx => h x (by simp [hx]))]

theorem IndexByte_first (a r : Bytes) (c : Nat) (h : ∀ x ∈ a, x ≠ c) :
    IndexByte (a ++ c :: r) c = some a.length := by
  induction a with
  | nil => simp [IndexByte]
  | cons b a ih =>
    have hb : b ≠ c := h b (by simp)
    simp [IndexByte, hb, ih (fun x hx => h x (by simp [hx]))]

/-- A host that the loop of `lexIPv6` sends over ASCII input has no `;`, `?`, `@`. -/
theorem hostChars_ipv6Loop (cs : Bytes) : ∀ (done : Bytes) (v : Bytes) (evs : List Event),
    (∀ c ∈ cs, c < 128) → (∀ c ∈ done, c ≠ 59 ∧ c ≠ 63 ∧ c ≠ 64) →
    ipv6LoopSent cs done cs = Event.item ⟨Token.tHost, v⟩ :: evs →
    ∀ c ∈ v, c ≠ 59 ∧ c ≠ 63 ∧ c ≠ 64 := by
  induction cs with
  | nil => intro done v evs _ _ h; simp [ipv6LoopSent, errorf] at h
  | cons c cs ih =>
    intro done v evs hlt hdone h
    have hc : c < 128 := hlt c (by simp)
    have hbyte : byte c = c := byte_of_lt c (by omega)
    simp only [ipv6LoopSent, List.take_succ_cons, List.take_zero, List.drop_succ_cons,
      List.drop_zero, hbyte] at h
    split_ifs at h with h1 h2
    · simp only [List.cons.injEq, Event.item.injEq, Item.mk.injEq, true_and] at h
      intro x hx
      rw [← h.1] at hx
      rcases List.mem_append.1 hx with hx | hx
      · exact hdone x hx
      · simp only [List.mem_singleton] at hx; omega
    · apply ih (done ++ [c]) v evs (fun x hx => hlt x (by simp [hx])) _ h
      intro x hx
      rcases List.mem_append.1 hx with hx | hx
      · exact hdone x hx
      · simp only [List.mem_singleton] at hx
        subst hx
        simp only [isHex, isNum, Bool.or_eq_true, decide_eq_true_eq] at h2
        omega
    · simp [errorf] at h

/-- A host that the loop of `lexHostname` sends over ASCII input has no `;`, `?`,
`@`. -/
theorem hostChars_hostnameLoop (cs : Bytes) : ∀ (done : Bytes) (v : Bytes) (evs : List Event),
    (∀ c ∈ cs, c < 128) → (∀ c ∈ done, c ≠ 59 ∧ c ≠ 63 ∧ c ≠ 64) →
    hostnameLoopSent cs done cs = Event.item ⟨Token.tHost, v⟩ :: evs →
    ∀ c ∈ v, c ≠ 59 ∧ c ≠ 63 ∧ c ≠ 64 := by
  induction cs with
  | nil =>
    intro done v evs _ hdone h
    simp only [hostnameLoopSent, List.cons.injEq, Event.item.injEq, Item.mk.injEq,
      true_and] at h
    rw [← h.1]; exact hdone
  | cons c cs ih =>
    intro done v evs hlt hdone h
    have hc : c < 128 := hlt c (by simp)
    have hbyte : byte c = c := byte_of_lt c (by omega)
    simp only [hostnameLoopSent, List.take_succ_cons, List.take_zero, List.drop_succ_cons,
      List.drop_zero, hbyte] at h
    split_ifs at h with h1 h2 h3 h4
    · apply ih (done ++ [c]) v evs (fun x hx => hlt x (by simp [hx])) _ h
      intro x hx
      rcases List.mem_append.1 hx with hx | hx
      · exact hdone x hx
      · simp only [List.mem_singleton] at hx
        subst hx
        simp only [isAlphaNum, isNum, Bool.or_eq_true, decide_eq_true_eq] at h1
        omega
    all_goals first
      | (simp only [List.cons.injEq, Event.item.injEq, Item.mk.injEq, true_and] at h
         rw [← h.1]; exact hdone)
      | simp [errorf] at h

/-- The host that `lexHostport` sends over ASCII input has no `;`, `?`, `@`. -/
theorem hostportSent_chars (T : Bytes) (hT : ∀ c ∈ T, c < 128) (v : Bytes) (evs : List Event)
    (h : hostportSent T = Event.item ⟨Token.tHost, v⟩ :: evs) :
    ∀ c ∈ v, c ≠ 59 ∧ c ≠ 63 ∧ c ≠ 64 := by
  match T, hT, h with
  | [], _, h => simp [hostportSent, errorf] at h
  | c :: r, hT, h =>
    have hlt : ∀ c ∈ r, c < 128 := fun x hx => hT x (by simp [hx])
    have hrun : runes (c :: r) = c :: r := runes_ascii _ hT
    have hrunr : runes r = r := runes_ascii _ hlt
    simp only [hostportSent, hrun, hrunr] at h
    split_ifs at h with h1 h2 h3
    · exact hostChars_ipv6Loop r [91] v evs hlt (by decide) h
    · simp only [List.cons.injEq, Event.item.injEq, Item.mk.injEq, true_and] at h
      obtain ⟨q, hq, _⟩ := parseIPv4_spec (c :: r)
      obtain ⟨n, ok⟩ := q
      rw [hq] at h2 h
      simp only [Option.getD_some] at h2 h
      subst h2
      obtain ⟨lit, rest, e, ⟨d1, d2, d3, d4, elit, o1, o2, o3, o4⟩, _, hn⟩ :=
        parseIPv4_inv (c :: r) n hq
      have hv : v = lit := by
        rw [← h.1, e, hn, List.take_left]
      intro x hx
      rw [hv, elit] at hx
      simp only [List.mem_append, List.mem_cons] at hx
      have hnum : ∀ y, isNum y = true → y ≠ 59 ∧ y ≠ 63 ∧ y ≠ 64 := by
        intro y hy
        simp only [isNum, decide_eq_true_eq] at hy
        omega
      rcases hx with hx | hx | hx | hx | hx | hx | hx
      · exact hnum x (o1.2.1 x hx)
      · omega
      · exact hnum x (o2.2.1 x hx)
      · omega
      · exact hnum x (o3.2.1 x hx)
      · omega
      · exact hnum x (o4.2.1 x hx)
    · exact hostChars_hostnameLoop (c :: r) [] v evs hT (by simp) h
    · simp [errorf] at h

theorem slice_prefix (a r : Bytes) : slice (a ++ r) 0 a.length = some a := by
  simp [slice]

theorem sliceFrom_prefix (a r : Bytes) : sliceFrom (a ++ r) a.length = some r := by
  simp [sliceFrom]

theorem parseHostport_semi (A X : Bytes) (uri : URI) (hA : ∀ c ∈ A, c ≠ 59) :
    URIRegex.parseHostport ⟨A ++ 59 :: X, uri⟩
      = some (⟨59 :: X, { uri with hostport := A }⟩, none) := by
  have i1 := IndexByte_first A X 59 hA
  simp only [URIRegex.parseHostport, i1, slice_prefix, sliceFrom_prefix]

theorem parseHostport_quest (A X : Bytes) (uri : URI) (hA : ∀ c ∈ A, c ≠ 59 ∧ c ≠ 63)
    (hX : ∀ c ∈ X, c ≠ 59) :
    URIRegex.parseHostport ⟨A ++ 63 :: X, uri⟩
      = some (⟨63 :: X, { uri with hostport := A }⟩, none) := by
  have i1 : IndexByte (A ++ 63 :: X) 59 = none := by
    apply IndexByte_absent
    intro c hc
    rcases List.mem_append.1 hc with h | h
    · exact (hA c h).1
    · rcases List.mem_cons.1 h with h | h
      · omega
      · exact hX c h
  have i2 := IndexByte_first A X 63 (fun c hc => (hA c hc).2)
  simp only [URIRegex.parseHostport, i1, i2, slice_prefix, sliceFrom_prefix]

theorem parseHostport_plain (A : Bytes) (uri : URI) (hA : ∀ c ∈ A, c ≠ 59 ∧ c ≠ 63) :
    URIRegex.parseHostport ⟨A, uri⟩ = some (⟨A, { uri with hostport := A }⟩, none) := by
  have i1 : IndexByte A 59 = none := IndexByte_absent _ _ (fun c hc => (hA c hc).1)
  have i2 : IndexByte A 63 = none := IndexByte_absent _ _ (fun c hc => (hA c hc).2)
  simp only [URIRegex.parseHostport, i1, i2]

theorem parseParams_other (c : Nat) (X : Bytes) (uri : URI) (hc : c ≠ 59) :
    URIRegex.parseParams ⟨c :: X, uri⟩ = some (⟨c :: X, uri⟩, none) := by
  simp only [URIRegex.parseParams, List.get?_cons_zero, ne_eq, hc, not_false_eq_true, if_true]

theorem parseParams_quest (ps hs : Bytes) (uri : URI) (hps : ∀ c ∈ ps, c ≠ 63) :
    URIRegex.parseParams ⟨59 :: (ps ++ 63 :: hs), uri⟩
      = some (⟨63 :: hs, { uri with params := ps }⟩, none) := by
  have i1 : IndexByte (59 :: (ps ++ 63 :: hs)) 63 = some (ps.length + 1) := by
    have := IndexByte_first (59 :: ps) hs 63 (by
      intro c hc
      rcases List.mem_cons.1 hc with h | h
      · omega
      · exact hps c h)
    simpa using this
  have s1 : slice (59 :: (ps ++ 63 :: hs)) 1 (ps.length + 1) = some ps := by simp [slice]
  have s2 : sliceFrom (59 :: (ps ++ 63 :: hs)) (ps.length + 1) = some (63 :: hs) := by
    simp [sliceFrom]
  simp only [URIRegex.parseParams, List.get?_cons_zero, ne_eq, not_true_eq_false, if_false,
    i1, s1, s2]

theorem parseParams_end (ps : Bytes) (uri : URI) (hps : ∀ c ∈ ps, c ≠ 63) :
    URIRegex.parseParams ⟨59 :: ps, uri⟩
      = some (⟨59 :: ps, { uri with params := ps }⟩, none) := by
  have i1 : IndexByte (59 :: ps) 63 = none := by
    apply IndexByte_absent
    intro c hc
    rcases List.mem_cons.1 hc with h | h
    · omega
    · exact hps c h
  have s1 : sliceFrom (59 :: ps) 1 = some ps := by simp [sliceFrom]
  simp only [URIRegex.parseParams, List.get?_cons_zero, ne_eq, not_true_eq_false, if_false,
    i1, s1, Option.map_some']

theorem parseHeaders_other (c : Nat) (X : Bytes) (uri : URI) (hc : c ≠ 63) :
    URIRegex.parseHeaders ⟨c :: X, uri⟩ = some (⟨c :: X, uri⟩, none) := by
  simp only [URIRegex.parseHeaders, List.get?_cons_zero, ne_eq, hc, not_false_eq_true, if_true]

theorem parseHeaders_quest (hs : Bytes) (uri : URI) :
    URIRegex.parseHeaders ⟨63 :: hs, uri⟩
      = some (⟨63 :: hs, { uri with headers := hs }⟩, none) := by
  have s1 : sliceFrom (63 :: hs) 1 = some hs := by simp [sliceFrom]
  simp only [URIRegex.parseHeaders, List.get?_cons_zero, ne_eq, not_true_eq_false, if_false,
    s1, Option.map_some']

/-- The last three methods of `DummyParser` on a hostport `A` without `;` and `?`,
optional params without `?` and optional headers without `;`. -/
theorem dummy_tail (A : Bytes) (p q : Option Bytes) (uri : URI) (hne : A ≠ [])
    (hA : ∀ c ∈ A, c ≠ 59 ∧ c ≠ 63)
    (hp : ∀ v, p = some v → ∀ c ∈ v, c ≠ 63) (hq : ∀ v, q = some v → ∀ c ∈ v, c ≠ 59) :
    ∃ inp, URIRegex.andThen (URIRegex.andThen
        (URIRegex.parseHostport ⟨A ++ (withPrefix (B ";") p ++ withPrefix (B "?") q), uri⟩)
        URIRegex.parseParams) URIRegex.parseHeaders
      = some (⟨inp, ⟨uri.scheme, uri.userinfo, A, p.getD uri.params, q.getD uri.headers⟩⟩,
          none) := by
  have hA59 : ∀ c ∈ A, c ≠ 59 := fun c hc => (hA c hc).1
  cases p with
  | some ps =>
    have hps : ∀ c ∈ ps, c ≠ 63 := hp ps rfl
    have e1 : withPrefix (B ";") (some ps) = 59 :: ps := by simp [withPrefix, B_semi]
    rw [e1, List.cons_append, parseHostport_semi A _ uri hA59]
    cases q with
    | some hs =>
      have e2 : withPrefix (B "?") (some hs) = 63 :: hs := by simp [withPrefix, B_quest]
      rw [e2]
      refine ⟨63 :: hs, ?_⟩
      simp only [URIRegex.andThen]
      rw [parseParams_quest ps hs _ hps]
      simp only [parseHeaders_quest, Option.getD_some]
    | none =>
      rw [show withPrefix (B "?") none = [] from rfl, List.append_nil]
      refine ⟨59 :: ps, ?_⟩
      simp only [URIRegex.andThen]
      rw [parseParams_end ps _ hps]
      simp only [parseHeaders_other 59 ps _ (by decide), Option.getD_some, Option.getD_none]
  | none =>
    rw [show withPrefix (B ";") none = [] from rfl, List.nil_append]
    cases q with
    | some hs =>
      have e2 : withPrefix (B "?") (some hs) = 63 :: hs := by simp [withPrefix, B_quest]
      rw [e2, parseHostport_quest A hs uri hA (hq hs rfl)]
      refine ⟨63 :: hs, ?_⟩
      simp only [URIRegex.andThen]
      rw [parseParams_other 63 hs _ (by decide)]
      simp only [parseHeaders_quest, Option.getD_some, Option.getD_none]
    | none =>
      rw [show withPrefix (B "?") none = [] from rfl, List.append_nil,
        parseHostport_plain A uri hA]
      obtain ⟨a, A1, rfl⟩ : ∃ a A1, A = a :: A1 := by
        cases A with
        | nil => exact absurd rfl hne
        | cons a A1 => exact ⟨a, A1, rfl⟩
      refine ⟨a :: A1, ?_⟩
      simp only [URIRegex.andThen]
      rw [parseParams_other a A1 _ (hA a (by simp)).1]
      simp only [parseHeaders_other a A1 _ (hA a (by simp)).2, Option.getD_none]

theorem isHeaderByte_ne_59 (c : Nat) (h : isHeaderByte c = true) : c ≠ 59 := by
  intro hc
  subst hc
  revert h
  decide

theorem parseScheme_sip (r : Bytes) (uri : URI) :
    URIRegex.parseScheme ⟨B "sip:" ++ r, uri⟩
      = some (⟨r, { uri with scheme := Scheme.SIP }⟩, none) := by
  simp [URIRegex.parseScheme, HasPrefix, B_sip, sliceFrom]

theorem parseScheme_sips (r : Bytes) (uri : URI) :
    URIRegex.parseScheme ⟨B "sips:" ++ r, uri⟩
      = some (⟨r, { uri with scheme := Scheme.SIPS }⟩, none) := by
  simp [URIRegex.parseScheme, HasPrefix, B_sip, B_sips, sliceFrom, List.isPrefixOf]

theorem parseUserinfo_absent (T : Bytes) (uri : URI) (h : ∀ c ∈ T, c ≠ 64) :
    URIRegex.parseUserinfo ⟨T, uri⟩ = some (⟨T, uri⟩, none) := by
  simp only [URIRegex.parseUserinfo, IndexByte_none T h]

theorem parseUserinfo_present (v T : Bytes) (uri : URI) (h : ∀ c ∈ v, c ≠ 64) :
    URIRegex.parseUserinfo ⟨v ++ 64 :: T, uri⟩
      = some (⟨T, { uri with userinfo := v }⟩, none) := by
  have s2 : sliceFrom (v ++ 64 :: T) (v.length + 1) = some T := by simp [sliceFrom]
  simp only [URIRegex.parseUserinfo, IndexByte_at v T h, slice_prefix, s2]

theorem URIRegex_andThen_ok (u : URIRegex) (f : URIRegex → Option (URIRegex × Option Bytes)) :
    URIRegex.andThen (some (u, none)) f = f u := rfl

/-- Without the timer: on every input made only of ASCII bytes that `LexerParseInTime` accepts,
`DummyParser` succeeds and returns a URI with the same scheme, userinfo,
hostport, params and headers. -/
theorem DummyParser_agrees_in_time (data : Bytes) (u : URI) (hascii : ∀ b ∈ data, b < 128)
    (h : LexerParseInTime data = some (some u, none)) :
    DummyParser data = some (some u, none) := by
  obtain ⟨S, U, hst, PT, P, H, e0, e1, e2, e3, e4, ⟨evs, e5⟩, e6, e7, e8⟩ :=
    accepted_shape data u hascii h
  obtain ⟨us, uu, uh, up, uhd⟩ := u
  simp only at e1 e2 e6 e7 e8
  have hT : ∀ c ∈ hst ++ (PT ++ (P ++ H)), c < 128 := by
    intro c hc
    apply hascii c
    rw [e0]
    simp only [List.mem_append] at hc ⊢
    tauto
  have hhst := hostportSent_chars _ hT hst evs e5
  have huh : uh = hst ++ PT := PortPart_hostport PT hst uh e6
  have hA : ∀ c ∈ hst ++ PT, c ≠ 59 ∧ c ≠ 63 := by
    intro c hc
    rcases List.mem_append.1 hc with hc | hc
    · exact ⟨(hhst c hc).1, (hhst c hc).2.1⟩
    · rcases e6 with ⟨h1, _⟩ | ⟨d, h1, _, hd, _, _⟩
      · rw [h1] at hc; simp at hc
      · rw [h1] at hc
        rcases List.mem_cons.1 hc with hc | hc
        · omega
        · have := hd c hc
          simp only [isNum, decide_eq_true_eq] at this
          omega
  have hne : hst ++ PT ≠ [] := by
    intro hnil
    exact e4 (List.append_eq_nil.1 hnil).1
  obtain ⟨p, hP, hpv, hp⟩ : ∃ p : Option Bytes, P = withPrefix (B ";") p ∧ p.getD [] = up ∧
      ∀ v, p = some v → ∀ c ∈ v, c ≠ 63 := by
    rcases e7 with ⟨h1, h2⟩ | ⟨h1, h2⟩
    · exact ⟨none, by rw [h1]; rfl, by rw [h2]; rfl, fun v hv => by cases hv⟩
    · refine ⟨some up, by rw [h1]; simp [withPrefix, B_semi], rfl, fun v hv => ?_⟩
      cases hv
      exact fun c hc => isParamByte_ne_63 c (h2 c hc)
  obtain ⟨q, hH, hqv, hq⟩ : ∃ q : Option Bytes, H = withPrefix (B "?") q ∧ q.getD [] = uhd ∧
      ∀ v, q = some v → ∀ c ∈ v, c ≠ 59 := by
    rcases e8 with ⟨h1, h2⟩ | ⟨h1, h2⟩
    · exact ⟨none, by rw [h1]; rfl, by rw [h2]; rfl, fun v hv => by cases hv⟩
    · refine ⟨some uhd, by rw [h1]; simp [withPrefix, B_quest], rfl, fun v hv => ?_⟩
      cases hv
      exact fun c hc => isHeaderByte_ne_59 c (h2 c hc)
  have hd : data = S ++ (U ++ (hst ++ PT ++ (withPrefix (B ";") p ++ withPrefix (B "?") q))) := by
    rw [e0, hP, hH]; simp only [List.append_assoc]
  have huser : ∀ sch : Scheme, URIRegex.parseUserinfo
      ⟨U ++ (hst ++ PT ++ (withPrefix (B ";") p ++ withPrefix (B "?") q)),
        ⟨sch, [], [], [], []⟩⟩
      = some (⟨hst ++ PT ++ (withPrefix (B ";") p ++ withPrefix (B "?") q),
          ⟨sch, uu, [], [], []⟩⟩, none) := by
    intro sch
    rcases e2 with ⟨h1, h2⟩ | ⟨h1, h2⟩
    · have h64 := e3 h1
      rw [hP, hH, ← List.append_assoc] at h64
      rw [h1, h2, List.nil_append, parseUserinfo_absent _ _ h64]
    · rw [h1]
      simp only [List.append_assoc, List.singleton_append]
      have := parseUserinfo_present uu (hst ++ (PT ++ (withPrefix (B ";") p ++
        withPrefix (B "?") q))) ⟨sch, [], [], [], []⟩
        (fun c hc => isUserinfoByte_ne_64 c (h2 c hc))
      rw [this]
  have htail : ∀ sch : Scheme, ∃ inp, URIRegex.andThen (URIRegex.andThen
      (URIRegex.parseHostport ⟨hst ++ PT ++ (withPrefix (B ";") p ++ withPrefix (B "?") q),
        ⟨sch, uu, [], [], []⟩⟩) URIRegex.parseParams) URIRegex.parseHeaders
      = some (⟨inp, ⟨sch, uu, uh, up, uhd⟩⟩, none) := by
    intro sch
    obtain ⟨inp, hi⟩ := dummy_tail (hst ++ PT) p q ⟨sch, uu, [], [], []⟩ hne hA hp hq
    refine ⟨inp, ?_⟩
    rw [hi, huh, hpv, hqv]
  rw [hd]
  simp only [DummyParser, URI.zero]
  rcases e1 with ⟨h1, h2⟩ | ⟨h1, h2⟩
  · obtain ⟨inp, hi⟩ := htail Scheme.SIP
    rw [h1, parseScheme_sip]
    simp only [URIRegex_andThen_ok, huser]
    rw [hi, h2]
  · obtain ⟨inp, hi⟩ := htail Scheme.SIPS
    rw [h1, parseScheme_sips]
    simp only [URIRegex_andThen_ok, huser]
    rw [hi, h2]

theorem DummyParser_agrees_witness_in_time :
    DummyParser (B "sip:alice:secretword@atlanta.com;transport=tcp")
      = some (some ⟨Scheme.SIP, B "alice:secretword", B "atlanta.com", B "transport=tcp", []⟩,
          none) :=
  DummyParser_agrees_in_time (B "sip:alice:secretword@atlanta.com;transport=tcp")
    ⟨Scheme.SIP, B "alice:secretword", B "atlanta.com", B "transport=tcp", []⟩
    (by decide) (by decide)

/-! ## C29: the userinfo of `RegexParse` -/

theorem Caps_text_cons_ne (i j : Nat) (v : Bytes) (caps : Caps) (h : j ≠ i) :
    Caps.text ((j, v) :: caps) i = Caps.text caps i := by
  have hb : (j == i) = false := by simpa using h
  simp only [Caps.text, List.find?, hb]

theorem Caps_text_cons_eq (i : Nat) (v : Bytes) (caps : Caps) :
    Caps.text ((i, v) :: caps) i = v := by
  simp [Caps.text, List.find?]

theorem starRun_inv (k : Cls) (s : Bytes) : ∀ (kont : Bytes → Option Caps) (res : Caps),
    starRun k s kont = some res →
    ∃ a b, s = a ++ b ∧ (∀ c ∈ a, k.test c = true) ∧ kont b = some res := by
  induction s with
  | nil =>
    intro kont res h
    exact ⟨[], [], rfl, by simp, by simpa [starRun] using h⟩
  | cons c s ih =>
    intro kont res h
    simp only [starRun] at h
    split_ifs at h with hc
    · cases hr : starRun k s kont with
      | some r =>
        rw [hr] at h
        simp only [Option.some.injEq] at h
        subst h
        obtain ⟨a, b, e1, e2, e3⟩ := ih kont r hr
        refine ⟨c :: a, b, by rw [e1]; rfl, ?_, e3⟩
        intro x hx
        rcases List.mem_cons.1 hx with hx | hx
        · rw [hx]; exact hc
        · exact e2 x hx
      | none =>
        rw [hr] at h
        exact ⟨[], c :: s, rfl, by simp, h⟩
    · exact ⟨[], c :: s, rfl, by simp, h⟩

theorem run_chr_inv (c : Nat) (s : Bytes) (caps : Caps) (kont : Bytes → Caps → Option Caps)
    (res : Caps) (h : (Regex.chr c).run s caps kont = some res) :
    ∃ s1, s = c :: s1 ∧ kont s1 caps = some res := by
  match s, h with
  | [], h => simp [Regex.run] at h
  | x :: s1, h =>
    simp only [Regex.run] at h
    split_ifs at h with hx
    exact ⟨s1, by rw [hx], h⟩

theorem run_plus_inv (k : Cls) (s : Bytes) (caps : Caps) (kont : Bytes → Caps → Option Caps)
    (res : Caps) (h : (Regex.plus k).run s caps kont = some res) :
    ∃ a b, s = a ++ b ∧ a ≠ [] ∧ (∀ c ∈ a, k.test c = true) ∧ kont b caps = some res := by
  match s, h with
  | [], h => simp [Regex.run] at h
  | x :: s1, h =>
    simp only [Regex.run] at h
    split_ifs at h with hx
    obtain ⟨a, b, e1, e2, e3⟩ := starRun_inv k s1 _ res h
    refine ⟨x :: a, b, by rw [e1]; rfl, by simp, ?_, e3⟩
    intro c hc
    rcases List.mem_cons.1 hc with hc | hc
    · rw [hc]; exact hx
    · exact e2 c hc

theorem run_opt_inv (r : Regex) (s : Bytes) (caps : Caps) (kont : Bytes → Caps → Option Caps)
    (res : Caps) (h : (Regex.opt r).run s caps kont = some res) :
    r.run s caps kont = some res ∨ kont s caps = some res := by
  simp only [Regex.run] at h
  cases hr : r.run s caps kont with
  | some r1 =>
    rw [hr] at h
    exact Or.inl h
  | none =>
    rw [hr] at h
    exact Or.inr h

/-- A successful search has called its continuation, and the groups that the
expression does not contain are then as before. -/
theorem run_text (r : Regex) : ∀ (s : Bytes) (caps : Caps)
    (kont : Bytes → Caps → Option Caps) (res : Caps), r.run s caps kont = some res →
    ∃ s1 caps1, kont s1 caps1 = some res ∧ ∀ i, i ∉ r.groups → caps1.text i = caps.text i := by
  induction r with
  | chr c =>
    intro s caps kont res h
    obtain ⟨s1, _, h1⟩ := run_chr_inv c s caps kont res h
    exact ⟨s1, caps, h1, fun _ _ => rfl⟩
  | plus k =>
    intro s caps kont res h
    obtain ⟨a, b, _, _, _, h1⟩ := run_plus_inv k s caps kont res h
    exact ⟨b, caps, h1, fun _ _ => rfl⟩
  | star k =>
    intro s caps kont res h
    simp only [Regex.run] at h
    obtain ⟨a, b, _, _, h1⟩ := starRun_inv k s _ res h
    exact ⟨b, caps, h1, fun _ _ => rfl⟩
  | opt r ih =>
    intro s caps kont res h
    rcases run_opt_inv r s caps kont res h with h1 | h1
    · obtain ⟨s1, caps1, e1, e2⟩ := ih s caps kont res h1
      exact ⟨s1, caps1, e1, fun i hi => e2 i (by simpa [Regex.groups] using hi)⟩
    · exact ⟨s, caps, h1, fun _ _ => rfl⟩
  | seq a b iha ihb =>
    intro s caps kont res h
    simp only [Regex.run] at h
    obtain ⟨s1, caps1, e1, e2⟩ := iha s caps _ res h
    obtain ⟨s2, caps2, f1, f2⟩ := ihb s1 caps1 kont res e1
    refine ⟨s2, caps2, f1, fun i hi => ?_⟩
    simp only [Regex.groups, List.mem_append, not_or] at hi
    rw [f2 i hi.2, e2 i hi.1]
  | cap j r ih =>
    intro s caps kont res h
    simp only [Regex.run] at h
    obtain ⟨s1, caps1, e1, e2⟩ := ih s caps _ res h
    refine ⟨s1, _, e1, fun i hi => ?_⟩
    simp only [Regex.groups, List.mem_cons, not_or] at hi
    rw [Caps_text_cons_ne i j _ caps1 (fun e => hi.1 e.symm), e2 i hi.2]

theorem run_seq (a b : Regex) (s : Bytes) (caps : Caps) (kont : Bytes → Caps → Option Caps) :
    (Regex.seq a b).run s caps kont = a.run s caps (fun s1 caps1 => b.run s1 caps1 kont) := by
  simp only [Regex.run]

theorem run_cap (i : Nat) (r : Regex) (s : Bytes) (caps : Caps)
    (kont : Bytes → Caps → Option Caps) :
    (Regex.cap i r).run s caps kont
      = r.run s caps (fun s1 caps1 => kont s1 ((i, s.take (s.length - s1.length)) :: caps1)) := by
  simp only [Regex.run]

/-- The scheme group matches `sip` or `sips`. -/
theorem run_scheme_inv (input : Bytes) (caps : Caps) (kont : Bytes → Caps → Option Caps)
    (res : Caps) (h : expScheme.run input caps kont = some res) :
    ∃ S0 r v, (S0 = B "sip" ∨ S0 = B "sips") ∧ input = S0 ++ r ∧
      kont r ((1, v) :: caps) = some res := by
  rw [expScheme] at h
  simp only [run_cap, run_seq] at h
  obtain ⟨s1, e1, h⟩ := run_chr_inv 115 _ _ _ _ h
  obtain ⟨s2, e2, h⟩ := run_chr_inv 105 _ _ _ _ h
  obtain ⟨s3, e3, h⟩ := run_chr_inv 112 _ _ _ _ h
  rcases run_opt_inv _ _ _ _ _ h with h | h
  · obtain ⟨s4, e4, h⟩ := run_chr_inv 115 _ _ _ _ h
    exact ⟨B "sips", s4, _, Or.inr rfl, by rw [e1, e2, e3, e4]; rfl, h⟩
  · exact ⟨B "sip", s3, _, Or.inl rfl, by rw [e1, e2, e3]; rfl, h⟩

/-- The end of the pattern returns the groups. -/
theorem fin_inv (s : Bytes) (caps res : Caps)
    (h : (fun (rest : Bytes) (c : Caps) => if rest = [] then some c else none) s caps
      = some res) : caps = res := by
  simp only at h
  split_ifs at h
  simpa using h

/-- C29 as stated fails: for `sip:a;b@` the search backs out of the userinfo group,
no hostport being left after `@`, and succeeds with an empty userinfo, hostport
`a` and params `b@`. -/
theorem regex_userinfo_counterexample :
    64 ∈ B "sip:a;b@" ∧
    RegexParse (B "sip:a;b@") = some (some ⟨Scheme.SIP, [], B "a", B "b@", []⟩, none) ∧
    B "sip:a;b@" = B "sip:" ++ B "a;b" ++ B "@" ∧ 64 ∉ B "a;b" := by
  decide

/-- Claim C29, amended: when `RegexParse` succeeds with a non-empty userinfo on an
input whose scheme colon is not directly followed by a second colon, the userinfo
is the text between the colon of the scheme and the first `@`. -/
theorem RegexParse_userinfo (input : Bytes) (u : URI)
    (h : RegexParse input = some (some u, none)) (hne : u.userinfo ≠ [])
    (h1 : HasPrefix input (B "sip::") = false) (h2 : HasPrefix input (B "sips::") = false) :
    ∃ S rest, (S = B "sip:" ∨ S = B "sips:") ∧ input = S ++ u.userinfo ++ B "@" ++ rest ∧
      64 ∉ u.userinfo := by
  simp only [RegexParse] at h
  cases hf : FindStringSubmatch input with
  | none => rw [hf] at h; simp at h
  | some found =>
    rw [hf] at h
    simp only [Option.some.injEq, Prod.mk.injEq, and_true] at h
    have hu : u.userinfo = found.text 3 := by rw [← h]
    rw [hu] at hne ⊢
    simp only [FindStringSubmatch, exp, run_seq] at hf
    obtain ⟨S0, r, v, hS0, e0, hf⟩ := run_scheme_inv _ _ _ _ hf
    obtain ⟨r2, e1, hf⟩ := run_chr_inv 58 _ _ _ _ hf
    have h3 : (3 : Nat) ∉ expTail.groups := by decide
    rcases run_opt_inv _ _ _ _ _ hf with hf | hf
    · rw [expUserinfo] at hf
      simp only [run_cap, run_seq] at hf
      rcases run_opt_inv _ _ _ _ _ hf with hf | hf
      · exfalso
        obtain ⟨r3, e2, _⟩ := run_chr_inv 58 _ _ _ _ hf
        rcases hS0 with hS | hS
        · rw [e0, e1, e2, hS] at h1
          revert h1
          simp [HasPrefix, B, List.isPrefixOf]
        · rw [e0, e1, e2, hS] at h2
          revert h2
          simp [HasPrefix, B, List.isPrefixOf]
      · obtain ⟨a, b, e2, hane, hat, hf⟩ := run_plus_inv _ _ _ _ _ hf
        obtain ⟨rest, e3, hf⟩ := run_chr_inv 64 _ _ _ _ hf
        obtain ⟨s1, caps1, g1, g2⟩ := run_text expTail _ _ _ _ hf
        have hres := fin_inv _ _ _ g1
        have htext : found.text 3 = a := by
          rw [← hres, g2 3 h3, Caps_text_cons_ne 3 2 _ _ (by decide), Caps_text_cons_eq, e2]
          simp
        rw [htext]
        have hS : ∃ S, (S = B "sip:" ∨ S = B "sips:") ∧ input = S ++ r2 := by
          rcases hS0 with hS | hS
          · exact ⟨B "sip:", Or.inl rfl, by rw [e0, e1, hS]; rfl⟩
          · exact ⟨B "sips:", Or.inr rfl, by rw [e0, e1, hS]; rfl⟩
        obtain ⟨S, hS, einp⟩ := hS
        refine ⟨S, rest, hS, by rw [einp, e2, e3, B_at]; simp, ?_⟩
        intro h64
        have := hat 64 h64
        revert this
        decide
    · exfalso
      obtain ⟨s1, caps1, g1, g2⟩ := run_text expTail _ _ _ _ hf
      have hres := fin_inv _ _ _ g1
      apply hne
      rw [← hres, g2 3 h3, Caps_text_cons_ne 3 1 _ _ (by decide)]
      rfl

theorem RegexParse_userinfo_witness :
    ∃ S rest, (S = B "sip:" ∨ S = B "sips:") ∧
      B "sip:alice:secretword@atlanta.com;transport=tcp"
        = S ++ B "alice:secretword" ++ B "@" ++ rest ∧ 64 ∉ B "alice:secretword" :=
  RegexParse_userinfo (B "sip:alice:secretword@atlanta.com;transport=tcp")
    ⟨Scheme.SIP, B "alice:secretword", B "atlanta.com", B "transport=tcp", []⟩
    (by decide) (by decide) (by decide) (by decide)

/-! ## C27: the fields of `RagelParse` and their delimiters -/

theorem mem_slice (s : Bytes) (m k x : Nat) (h : x ∈ (s.drop m).take k) :
    ∃ i, m ≤ i ∧ i < m + k ∧ s.get? i = some x := by
  obtain ⟨j, hj, hx⟩ := List.getElem_of_mem h
  have hj2 : j < k ∧ j < (s.drop m).length := by
    rw [List.length_take] at hj; omega
  refine ⟨m + j, by omega, by omega, ?_⟩
  rw [List.getElem_take, List.getElem_drop] at hx
  rw [← hx, List.get?_eq_getElem?]
  exact List.getElem?_eq_getElem _

theorem slice_ok (s : Bytes) (m p : Nat) (h1 : m ≤ p) (h2 : p ≤ s.length) :
    slice s m p = some ((s.drop m).take (p - m)) := by
  simp [slice, h1, h2]

theorem drop_of_get (s : Bytes) (m c : Nat) (h : s.get? m = some c) :
    s.drop m = c :: s.drop (m + 1) := by
  induction s generalizing m with
  | nil => simp at h
  | cons b s ih =>
    cases m with
    | zero => simp at h; simp [h]
    | succ m =>
      simp only [List.get?_cons_succ] at h
      simpa using ih m h

theorem Facts.le_holds (f g : Facts) (str : Bytes) (m p : Nat) (hle : f.le g = true)
    (h : f.Holds str m p) : g.Holds str m p := by
  simp only [Facts.le, Bool.and_eq_true, Bool.or_eq_true, Bool.not_eq_true'] at hle
  obtain ⟨⟨⟨⟨l1, l2⟩, l3⟩, l4⟩, l5⟩ := hle
  obtain ⟨h1, h2, h3, h4, h5, h6, h7⟩ := h
  refine ⟨h1, h2, fun e => h3 ?_, fun e => h4 ?_, fun e => h5 ?_, fun e => h6 ?_,
    fun e => h7 ?_⟩
  · rcases l1 with l | l
    · rw [l] at e; cases e
    · exact l
  · rcases l2 with l | l
    · rw [l] at e; cases e
    · exact l
  · rcases l3 with l | l
    · rw [l] at e; cases e
    · exact l
  · rcases l4 with l | l
    · rw [l] at e; cases e
    · exact l
  · rcases l5 with l | l
    · rw [l] at e; cases e
    · exact l

theorem Facts.act_sound (atEof : Bool) (str : Bytes) (w w1 : Facts × Bool) (a : Act)
    (r : ragel) (hH : w.1.Holds str r.m r.p) (hj : w.2 = true → r.m = r.p)
    (hU : UriOK str r.uri) (hE : atEof = true → r.p = str.length)
    (ha : Facts.act atEof w a = some w1) :
    ∃ r1, a.exec str r = some r1 ∧ r1.p = r.p ∧ r1.cs = r.cs ∧ w1.1.Holds str r1.m r1.p ∧
      (w1.2 = true → r1.m = r1.p) ∧ UriOK str r1.uri := by
  obtain ⟨h1, h2, h3, h4, h5, h6, h7⟩ := hH
  obtain ⟨u1, u2, u3, u4⟩ := hU
  have hs := slice_ok str r.m r.p h1 h2
  cases a with
  | mark =>
    simp only [Facts.act, Option.some.injEq] at ha
    subst ha
    refine ⟨{ r with m := r.p }, rfl, rfl, rfl, ?_, fun _ => rfl, ⟨u1, u2, u3, u4⟩⟩
    refine ⟨Nat.le_refl _, h2, h3, ?_, h3, ?_, ?_⟩
    · intro e; cases e
    · intro _ i hi1 hi2
      dsimp only at hi1 hi2
      omega
    · intro _ i hi1 hi2
      dsimp only at hi1 hi2
      omega
  | setSip =>
    simp only [Facts.act, Option.some.injEq] at ha
    subst ha
    exact ⟨{ r with uri := { r.uri with scheme := Scheme.SIP } }, rfl, rfl, rfl,
      ⟨h1, h2, h3, h4, h5, h6, h7⟩, hj, ⟨u1, u2, u3, u4⟩⟩
  | setSips =>
    simp only [Facts.act, Option.some.injEq] at ha
    subst ha
    exact ⟨{ r with uri := { r.uri with scheme := Scheme.SIPS } }, rfl, rfl, rfl,
      ⟨h1, h2, h3, h4, h5, h6, h7⟩, hj, ⟨u1, u2, u3, u4⟩⟩
  | setUserinfo =>
    simp only [Facts.act] at ha
    split_ifs at ha with hna
    simp only [Option.some.injEq] at ha
    subst ha
    refine ⟨{ r with uri := { r.uri with userinfo := (str.drop r.m).take (r.p - r.m) } },
      by simp only [Act.exec, hs, Option.map_some'], rfl, rfl,
      ⟨h1, h2, h3, h4, h5, h6, h7⟩, hj, ⟨u1, ?_, u3, u4⟩⟩
    intro hmem
    obtain ⟨i, i1, i2, i3⟩ := mem_slice str r.m (r.p - r.m) 64 hmem
    exact h6 hna i i1 (by omega) i3
  | setHostport =>
    simp only [Facts.act] at ha
    split_ifs at ha with hnd
    simp only [Option.some.injEq] at ha
    subst ha
    refine ⟨{ r with uri := { r.uri with hostport := (str.drop r.m).take (r.p - r.m) } },
      by simp only [Act.exec, hs, Option.map_some'], rfl, rfl,
      ⟨h1, h2, h3, h4, h5, h6, h7⟩, hj, ⟨u1, u2, ?_, u4⟩⟩
    intro c hmem
    obtain ⟨i, i1, i2, i3⟩ := mem_slice str r.m (r.p - r.m) c hmem
    have := h7 hnd i i1 (by omega)
    rw [i3] at this
    simp only [ne_eq, Option.some.injEq] at this
    exact this
  | setParams =>
    simp only [Facts.act] at ha
    split_ifs at ha with hpm
    simp only [Option.some.injEq] at ha
    subst ha
    refine ⟨{ r with uri := { r.uri with params := (str.drop r.m).take (r.p - r.m) } },
      by simp only [Act.exec, hs, Option.map_some'], rfl, rfl,
      ⟨h1, h2, h3, h4, h5, h6, h7⟩, hj, ⟨?_, u2, u3, u4⟩⟩
    simp only [Bool.or_eq_true] at hpm
    rcases hpm with hpm | hpm
    · right
      obtain ⟨g1, g2⟩ := h4 hpm
      show ∃ t, List.take (r.p - r.m) (List.drop r.m str) = 59 :: t
      rw [drop_of_get str r.m 59 g2]
      obtain ⟨k, hk⟩ : ∃ k, r.p - r.m = k + 1 := ⟨r.p - r.m - 1, by omega⟩
      rw [hk]
      exact ⟨_, rfl⟩
    · left
      have := hj hpm
      show List.take (r.p - r.m) (List.drop r.m str) = []
      rw [this, Nat.sub_self]
      rfl
  | setHeaders =>
    simp only [Facts.act] at ha
    split_ifs at ha with hhm
    simp only [Option.some.injEq] at ha
    subst ha
    simp only [Bool.and_eq_true] at hhm
    have hp := hE hhm.1
    obtain ⟨g1, g2⟩ := h5 hhm.2
    refine ⟨{ r with uri := { r.uri with headers := (str.drop r.m).take (r.p - r.m) } },
      by simp only [Act.exec, hs, Option.map_some'], rfl, rfl,
      ⟨h1, h2, h3, h4, h5, h6, h7⟩, hj, ⟨u1, u2, u3, ?_⟩⟩
    right
    refine ⟨str.take (r.m - 1), ?_⟩
    show str = List.take (r.m - 1) str ++ 63 :: List.take (r.p - r.m) (List.drop r.m str)
    have e1 : List.take (r.p - r.m) (List.drop r.m str) = List.drop r.m str := by
      apply List.take_of_length_le
      rw [List.length_drop]; omega
    have e2 := drop_of_get str (r.m - 1) 63 g2
    have e3 : r.m - 1 + 1 = r.m := by omega
    rw [e3] at e2
    rw [e1, ← e2, List.take_append_drop]

theorem Facts.acts_sound (atEof : Bool) (str : Bytes) (acts : List Act) :
    ∀ (w w1 : Facts × Bool) (r : ragel), w.1.Holds str r.m r.p → (w.2 = true → r.m = r.p) →
    UriOK str r.uri → (atEof = true → r.p = str.length) →
    Facts.acts atEof acts w = some w1 →
    ∃ r1, execAll str acts r = some r1 ∧ r1.p = r.p ∧ r1.cs = r.cs ∧
      w1.1.Holds str r1.m r1.p ∧ (w1.2 = true → r1.m = r1.p) ∧ UriOK str r1.uri := by
  induction acts with
  | nil =>
    intro w w1 r hH hj hU _ ha
    simp only [Facts.acts, Option.some.injEq] at ha
    subst ha
    exact ⟨r, rfl, rfl, rfl, hH, hj, hU⟩
  | cons a acts ih =>
    intro w w1 r hH hj hU hE ha
    simp only [Facts.acts] at ha
    cases h1 : Facts.act atEof w a with
    | none => rw [h1] at ha; cases ha
    | some w2 =>
      rw [h1] at ha
      obtain ⟨r2, e1, e2, e3, e4, e5, e6⟩ := Facts.act_sound atEof str w w2 a r hH hj hU hE h1
      obtain ⟨r1, f1, f2, f3, f4, f5, f6⟩ :=
        ih w2 w1 r2 e4 e5 e6 (fun h => by rw [e2]; exact hE h) ha
      exact ⟨r1, by simp only [execAll, e1, f1], by rw [f2, e2], by rw [f3, e3], f4, f5, f6⟩

theorem Facts.consume_sound (str : Bytes) (w : Facts × Bool) (m p c : Nat)
    (hH : w.1.Holds str m p) (hj : w.2 = true → m = p) (hc : str.get? p = some c) :
    (Facts.consume w (c == 59) (c == 63) (c == 64)).Holds str m (p + 1) := by
  obtain ⟨h1, h2, h3, h4, h5, h6, h7⟩ := hH
  have hlt : p < str.length := by
    rw [List.get?_eq_getElem?] at hc
    exact (List.getElem?_eq_some.1 hc).1
  refine ⟨by omega, by omega, ?_, ?_, ?_, ?_, ?_⟩
  · intro e
    simp only [Facts.consume, beq_iff_eq] at e
    exact ⟨by omega, by rw [Nat.add_sub_cancel, hc, e]⟩
  · intro e
    simp only [Facts.consume, Bool.or_eq_true, Bool.and_eq_true, beq_iff_eq] at e
    rcases e with e | ⟨e1, e2⟩
    · exact ⟨by have := (h4 e).1; omega, (h4 e).2⟩
    · have := hj e1
      exact ⟨by omega, by rw [this, hc, e2]⟩
  · intro e
    exact h5 e
  · intro e i i1 i2
    simp only [Facts.consume, Bool.and_eq_true, Bool.not_eq_true', beq_eq_false_iff_ne,
      ne_eq] at e
    by_cases hip : i = p
    · rw [hip, hc]
      simp only [ne_eq, Option.some.injEq]
      exact e.2
    · exact h6 e.1 i i1 (by omega)
  · intro e i i1 i2
    simp only [Facts.consume, Bool.and_eq_true, Bool.not_eq_true', beq_eq_false_iff_ne,
      ne_eq] at e
    by_cases hip : i = p
    · rw [hip, hc]
      simp only [ne_eq, Option.some.injEq]
      exact ⟨e.1.1.2, e.1.2, e.2⟩
    · exact h7 e.1.1.1 i i1 (by omega)

/-! The check `okGoto` of every state, by cases along the tests of its
`st_case` label. -/

theorem okGoto_of_cases (f : Facts) (g : Nat → Goto) (h59 : okGoto f 59 (g 59) = true)
    (h63 : okGoto f 63 (g 63) = true) (h64 : okGoto f 64 (g 64) = true)
    (hrest : ∀ c, c ≠ 59 → c ≠ 63 → c ≠ 64 → okGotoB f false false false (g c) = true) :
    ∀ c, okGoto f c (g c) = true := by
  intro c
  by_cases e1 : c = 59
  · rw [e1]; exact h59
  by_cases e2 : c = 63
  · rw [e2]; exact h63
  by_cases e3 : c = 64
  · rw [e3]; exact h64
  have b1 : (c == 59) = false := by simpa using e1
  have b2 : (c == 63) = false := by simpa using e2
  have b3 : (c == 64) = false := by simpa using e3
  simp only [okGoto, b1, b2, b3]
  exact hrest c e1 e2 e3

theorem okGotoB_ite (f : Facts) (cond : Prop) [Decidable cond] (a b : Goto)
    (ha : cond → okGotoB f false false false a = true)
    (hb : ¬ cond → okGotoB f false false false b = true) :
    okGotoB f false false false (if cond then a else b) = true := by
  by_cases h : cond
  · rw [if_pos h]; exact ha h
  · rw [if_neg h]; exact hb h

theorem step_0 (c : Nat) : okGoto (facts 0) c (st_case 0 c) = true := by
  have e : st_case 0 c = st_case_0 c := rfl
  rw [e]
  refine okGoto_of_cases (facts 0) st_case_0 (by decide) (by decide) (by decide) ?_ c
  intro c _ _ _
  unfold st_case_0
  decide

theorem step_1 (c : Nat) : okGoto (facts 1) c (st_case 1 c) = true := by
  have e : st_case 1 c = st_case_1 c := rfl
  rw [e]
  refine okGoto_of_cases (facts 1) st_case_1 (by decide) (by decide) (by decide) ?_ c
  intro c _ _ _
  unfold st_case_1
  exact okGotoB_ite _ (c = 115) _ _ (fun _ => by decide) (fun _ => by decide)

theorem step_2 (c : Nat) : okGoto (facts 2) c (st_case 2 c) = true := by
  have e : st_case 2 c = st_case_2 c := rfl
  rw [e]
  refine okGoto_of_cases (facts 2) st_case_2 (by decide) (by decide) (by decide) ?_ c
  intro c _ _ _
  unfold st_case_2
  exact okGotoB_ite _ (c = 105) _ _ (fun _ => by decide) (fun _ => by decide)

theorem step_3 (c : Nat) : okGoto (facts 3) c (st_case 3 c) = true := by
  have e : st_case 3 c = st_case_3 c := rfl
  rw [e]
  refine okGoto_of_cases (facts 3) st_case_3 (by decide) (by decide) (by decide) ?_ c
  intro c _ _ _
  unfold st_case_3
  exact okGotoB_ite _ (c = 112) _ _ (fun _ => by decide) (fun _ => by decide)

theorem step_4 (c : Nat) : okGoto (facts 4) c (st_case 4 c) = true := by
  have e : st_case 4 c = st_case_4 c := rfl
  rw [e]
  refine okGoto_of_cases (facts 4) st_case_4 (by decide) (by decide) (by decide) ?_ c
  intro c _ _ _
  unfold st_case_4
  exact okGotoB_ite _ (c = 58) _ _ (fun _ => by decide) (fun _ =>
    okGotoB_ite _ (c = 115) _ _ (fun _ => by decide) (fun _ => by decide))

theorem step_5 (c : Nat) : okGoto (facts 5) c (st_case 5 c) = true := by
  have e : st_case 5 c = st_case_5 c := rfl
  rw [e]
  refine okGoto_of_cases (facts 5) st_case_5 (by decide) (by decide) (by decide) ?_ c
  intro c _ _ _
  unfold st_case_5
  exact okGotoB_ite _ (c = 33) _ _ (fun _ => by decide) (fun _ =>
    okGotoB_ite _ (c = 37) _ _ (fun _ => by decide) (fun _ =>
    okGotoB_ite _ (c = 59) _ _ (fun _ => by exfalso; omega) (fun _ =>
    okGotoB_ite _ (c = 61) _ _ (fun _ => by decide) (fun _ =>
    okGotoB_ite _ (c = 63) _ _ (fun _ => by exfalso; omega) (fun _ =>
    okGotoB_ite _ (c = 91) _ _ (fun _ => by decide) (fun _ =>
    okGotoB_ite _ (c = 95) _ _ (fun _ => by decide) (fun _ =>
    okGotoB_ite _ (c = 126) _ _ (fun _ => by decide) (fun _ =>
    okGotoB_ite _ (c < 48) _ _ (fun _ =>
      okGotoB_ite _ (36 ≤ c ∧ c ≤ 47) _ _ (fun _ => by decide) (fun _ => by decide)) (fun _ =>
    okGotoB_ite _ (c > 57) _ _ (fun _ =>
      okGotoB_ite _ (c > 90) _ _ (fun _ =>
        okGotoB_ite _ (97 ≤ c ∧ c ≤ 122) _ _ (fun _ => by decide) (fun _ => by decide)) (fun _ =>
      okGotoB_ite _ (c ≥ 65) _ _ (fun _ => by decide) (fun _ => by decide))) (fun _ =>
    by decide))))))))))

theorem step_6 (c : Nat) : okGoto (facts 6) c (st_case 6 c) = true := by
  have e : st_case 6 c = st_case_6 c := rfl
  rw [e]
  refine okGoto_of_cases (facts 6) st_case_6 (by decide) (by decide) (by decide) ?_ c
  intro c _ _ _
  unfold st_case_6
  exact okGotoB_ite _ (c = 33) _ _ (fun _ => by decide) (fun _ =>
    okGotoB_ite _ (c = 37) _ _ (fun _ => by decide) (fun _ =>
    okGotoB_ite _ (c = 58) _ _ (fun _ => by decide) (fun _ =>
    okGotoB_ite _ (c = 61) _ _ (fun _ => by decide) (fun _ =>
    okGotoB_ite _ (c = 64) _ _ (fun _ => by exfalso; omega) (fun _ =>
    okGotoB_ite _ (c = 95) _ _ (fun _ => by decide) (fun _ =>
    okGotoB_ite _ (c = 126) _ _ (fun _ => by decide) (fun _ =>
    okGotoB_ite _ (c < 63) _ _ (fun _ =>
      okGotoB_ite _ (36 ≤ c ∧ c ≤ 59) _ _ (fun _ => by decide) (fun _ => by decide)) (fun _ =>
    okGotoB_ite _ (c > 90) _ _ (fun _ =>
      okGotoB_ite _ (97 ≤ c ∧ c ≤ 122) _ _ (fun _ => by decide) (fun _ => by decide)) (fun _ =>
    by decide)))))))))

theorem step_7 (c : Nat) : okGoto (facts 7) c (st_case 7 c) = true := by
  have e : st_case 7 c = st_case_7 c := rfl
  rw [e]
  refine okGoto_of_cases (facts 7) st_case_7 (by decide) (by decide) (by decide) ?_ c
  intro c _ _ _
  unfold st_case_7
  exact okGotoB_ite _ (c < 65) _ _ (fun _ =>
      okGotoB_ite _ (48 ≤ c ∧ c ≤ 57) _ _ (fun _ => by decide) (fun _ => by decide)) (fun _ =>
    okGotoB_ite _ (c > 70) _ _ (fun _ =>
      okGotoB_ite _ (97 ≤ c ∧ c ≤ 102) _ _ (fun _ => by decide) (fun _ => by decide)) (fun _ =>
    by decide))

theorem step_8 (c : Nat) : okGoto (facts 8) c (st_case 8 c) = true := by
  have e : st_case 8 c = st_case_8 c := rfl
  rw [e]
  refine okGoto_of_cases (facts 8) st_case_8 (by decide) (by decide) (by decide) ?_ c
  intro c _ _ _
  unfold st_case_8
  exact okGotoB_ite _ (c < 65) _ _ (fun _ =>
      okGotoB_ite _ (48 ≤ c ∧ c ≤ 57) _ _ (fun _ => by decide) (fun _ => by decide)) (fun _ =>
    okGotoB_ite _ (c > 70) _ _ (fun _ =>
      okGotoB_ite _ (97 ≤ c ∧ c ≤ 102) _ _ (fun _ => by decide) (fun _ => by decide)) (fun _ =>
    by decide))

theorem step_9 (c : Nat) : okGoto (facts 9) c (st_case 9 c) = true := by
  have e : st_case 9 c = st_case_9 c := rfl
  rw [e]
  refine okGoto_of_cases (facts 9) st_case_9 (by decide) (by decide) (by decide) ?_ c
  intro c _ _ _
  unfold st_case_9
  exact okGotoB_ite _ (c = 33) _ _ (fun _ => by decide) (fun _ =>
    okGotoB_ite _ (c = 37) _ _ (fun _ => by decide) (fun _ =>
    okGotoB_ite _ (c = 61) _ _ (fun _ => by decide) (fun _ =>
    okGotoB_ite _ (c = 64) _ _ (fun _ => by exfalso; omega) (fun _ =>
    okGotoB_ite _ (c = 95) _ _ (fun _ => by decide) (fun _ =>
    okGotoB_ite _ (c = 126) _ _ (fun _ => by decide) (fun _ =>
    okGotoB_ite _ (c < 48) _ _ (fun _ =>
      okGotoB_ite _ (36 ≤ c ∧ c ≤ 46) _ _ (fun _ => by decide) (fun _ => by decide)) (fun _ =>
    okGotoB_ite _ (c > 57) _ _ (fun _ =>
      okGotoB_ite _ (c > 90) _ _ (fun _ =>
        okGotoB_ite _ (97 ≤ c ∧ c ≤ 122) _ _ (fun _ => by decide) (fun _ => by decide)) (fun _ =>
      okGotoB_ite _ (c ≥ 65) _ _ (fun _ => by decide) (fun _ => by decide))) (fun _ =>
    by decide))))))))

theorem step_10 (c : Nat) : okGoto (facts 10) c (st_case 10 c) = true := by
  have e : st_case 10 c = st_case_10 c := rfl
  rw [e]
  refine okGoto_of_cases (facts 10) st_case_10 (by decide) (by decide) (by decide) ?_ c
  intro c _ _ _
  unfold st_case_10
  exact okGotoB_ite _ (c < 65) _ _ (fun _ =>
      okGotoB_ite _ (48 ≤ c ∧ c ≤ 57) _ _ (fun _ => by decide) (fun _ => by decide)) (fun _ =>
    okGotoB_ite _ (c > 70) _ _ (fun _ =>
      okGotoB_ite _ (97 ≤ c ∧ c ≤ 102) _ _ (fun _ => by decide) (fun _ => by decide)) (fun _ =>
    by decide))

theorem step_11 (c : Nat) : okGoto (facts 11) c (st_case 11 c) = true := by
  have e : st_case 11 c = st_case_11 c := rfl
  rw [e]
  refine okGoto_of_cases (facts 11) st_case_11 (by decide) (by decide) (by decide) ?_ c
  intro c _ _ _
  unfold st_case_11
  exact okGotoB_ite _ (c < 65) _ _ (fun _ =>
      okGotoB_ite _ (48 ≤ c ∧ c ≤ 57) _ _ (fun _ => by decide) (fun _ => by decide)) (fun _ =>
    okGotoB_ite _ (c > 70) _ _ (fun _ =>
      okGotoB_ite _ (97 ≤ c ∧ c ≤ 102) _ _ (fun _ => by decide) (fun _ => by decide)) (fun _ =>
    by decide))

theorem step_12 (c : Nat) : okGoto (facts 12) c (st_case 12 c) = true := by
  have e : st_case 12 c = st_case_12 c := rfl
  rw [e]
  refine okGoto_of_cases (facts 12) st_case_12 (by decide) (by decide) (by decide) ?_ c
  intro c _ _ _
  unfold st_case_12
  exact okGotoB_ite _ (c = 91) _ _ (fun _ => by decide) (fun _ =>
    okGotoB_ite _ (c < 65) _ _ (fun _ =>
      okGotoB_ite _ (48 ≤ c ∧ c ≤ 57) _ _ (fun _ => by decide) (fun _ => by decide)) (fun _ =>
    okGotoB_ite _ (c > 90) _ _ (fun _ =>
      okGotoB_ite _ (97 ≤ c ∧ c ≤ 122) _ _ (fun _ => by decide) (fun _ => by decide)) (fun _ =>
    by decide)))

theorem step_13 (c : Nat) : okGoto (facts 13) c (st_case 13 c) = true := by
  have e : st_case 13 c = st_case_13 c := rfl
  rw [e]
  refine okGoto_of_cases (facts 13) st_case_13 (by decide) (by decide) (by decide) ?_ c
  intro c _ _ _
  unfold st_case_13
  exact okGotoB_ite _ (c = 45) _ _ (fun _ => by decide) (fun _ =>
    okGotoB_ite _ (c = 46) _ _ (fun _ => by decide) (fun _ =>
    okGotoB_ite _ (c < 65) _ _ (fun _ =>
      okGotoB_ite _ (48 ≤ c ∧ c ≤ 57) _ _ (fun _ => by decide) (fun _ => by decide)) (fun _ =>
    okGotoB_ite _ (c > 90) _ _ (fun _ =>
      okGotoB_ite _ (97 ≤ c ∧ c ≤ 122) _ _ (fun _ => by decide) (fun _ => by decide)) (fun _ =>
    by decide))))

theorem step_14 (c : Nat) : okGoto (facts 14) c (st_case 14 c) = true := by
  have e : st_case 14 c = st_case_14 c := rfl
  rw [e]
  refine okGoto_of_cases (facts 14) st_case_14 (by decide) (by decide) (by decide) ?_ c
  intro c _ _ _
  unfold st_case_14
  exact okGotoB_ite _ (c = 45) _ _ (fun _ => by decide) (fun _ =>
    okGotoB_ite _ (c < 65) _ _ (fun _ =>
      okGotoB_ite _ (48 ≤ c ∧ c ≤ 57) _ _ (fun _ => by decide) (fun _ => by decide)) (fun _ =>
    okGotoB_ite _ (c > 90) _ _ (fun _ =>
      okGotoB_ite _ (97 ≤ c ∧ c ≤ 122) _ _ (fun _ => by decide) (fun _ => by decide)) (fun _ =>
    by decide)))

theorem step_15 (c : Nat) : okGoto (facts 15) c (st_case 15 c) = true := by
  have e : st_case 15 c = st_case_15 c := rfl
  rw [e]
  refine okGoto_of_cases (facts 15) st_case_15 (by decide) (by decide) (by decide) ?_ c
  intro c _ _ _
  unfold st_case_15
  exact okGotoB_ite _ (c = 45) _ _ (fun _ => by decide) (fun _ =>
    okGotoB_ite _ (c = 46) _ _ (fun _ => by decide) (fun _ =>
    okGotoB_ite _ (c < 65) _ _ (fun _ =>
      okGotoB_ite _ (48 ≤ c ∧ c ≤ 57) _ _ (fun _ => by decide) (fun _ => by decide)) (fun _ =>
    okGotoB_ite _ (c > 90) _ _ (fun _ =>
      okGotoB_ite _ (97 ≤ c ∧ c ≤ 122) _ _ (fun _ => by decide) (fun _ => by decide)) (fun _ =>
    by decide))))

theorem step_16 (c : Nat) : okGoto (facts 16) c (st_case 16 c) = true := by
  have e : st_case 16 c = st_case_16 c := rfl
  rw [e]
  refine okGoto_of_cases (facts 16) st_case_16 (by decide) (by decide) (by decide) ?_ c
  intro c _ _ _
  unfold st_case_16
  exact okGotoB_ite _ (c < 65) _ _ (fun _ =>
      okGotoB_ite _ (48 ≤ c ∧ c ≤ 57) _ _ (fun _ => by decide) (fun _ => by decide)) (fun _ =>
    okGotoB_ite _ (c > 90) _ _ (fun _ =>
      okGotoB_ite _ (97 ≤ c ∧ c ≤ 122) _ _ (fun _ => by decide) (fun _ => by decide)) (fun _ =>
    by decide))

theorem step_17 (c : Nat) : okGoto (facts 17) c (st_case 17 c) = true := by
  have e : st_case 17 c = st_case_17 c := rfl
  rw [e]
  refine okGoto_of_cases (facts 17) st_case_17 (by decide) (by decide) (by decide) ?_ c
  intro c _ _ _
  unfold st_case_17
  exact okGotoB_ite _ (c = 45) _ _ (fun _ => by decide) (fun _ =>
    okGotoB_ite _ (c < 65) _ _ (fun _ =>
      okGotoB_ite _ (48 ≤ c ∧ c ≤ 57) _ _ (fun _ => by decide) (fun _ => by decide)) (fun _ =>
    okGotoB_ite _ (c > 90) _ _ (fun _ =>
      okGotoB_ite _ (97 ≤ c ∧ c ≤ 122) _ _ (fun _ => by decide) (fun _ => by decide)) (fun _ =>
    by decide)))

theorem step_18 (c : Nat) : okGoto (facts 18) c (st_case 18 c) = true := by
  have e : st_case 18 c = st_case_18 c := rfl
  rw [e]
  refine okGoto_of_cases (facts 18) st_case_18 (by decide) (by decide) (by decide) ?_ c
  intro c _ _ _
  unfold st_case_18
  exact okGotoB_ite _ (48 ≤ c ∧ c ≤ 57) _ _ (fun _ => by decide) (fun _ => by decide)

theorem step_19 (c : Nat) : okGoto (facts 19) c (st_case 19 c) = true := by
  have e : st_case 19 c = st_case_19 c := rfl
  rw [e]
  refine okGoto_of_cases (facts 19) st_case_19 (by decide) (by decide) (by decide) ?_ c
  intro c _ _ _
  unfold st_case_19
  exact okGotoB_ite _ (c = 33) _ _ (fun _ => by decide) (fun _ =>
    okGotoB_ite _ (c = 37) _ _ (fun _ => by decide) (fun _ =>
    okGotoB_ite _ (c = 93) _ _ (fun _ => by decide) (fun _ =>
    okGotoB_ite _ (c = 95) _ _ (fun _ => by decide) (fun _ =>
    okGotoB_ite _ (c = 126) _ _ (fun _ => by decide) (fun _ =>
    okGotoB_ite _ (c < 45) _ _ (fun _ =>
      okGotoB_ite _ (36 ≤ c ∧ c ≤ 43) _ _ (fun _ => by decide) (fun _ => by decide)) (fun _ =>
    okGotoB_ite _ (c > 58) _ _ (fun _ =>
      okGotoB_ite _ (c > 91) _ _ (fun _ =>
        okGotoB_ite _ (97 ≤ c ∧ c ≤ 122) _ _ (fun _ => by decide) (fun _ => by decide)) (fun _ =>
      okGotoB_ite _ (c ≥ 65) _ _ (fun _ => by decide) (fun _ => by decide))) (fun _ =>
    by decide)))))))

theorem step_20 (c : Nat) : okGoto (facts 20) c (st_case 20 c) = true := by
  have e : st_case 20 c = st_case_20 c := rfl
  rw [e]
  refine okGoto_of_cases (facts 20) st_case_20 (by decide) (by decide) (by decide) ?_ c
  intro c _ _ _
  unfold st_case_20
  exact okGotoB_ite _ (c < 65) _ _ (fun _ =>
      okGotoB_ite _ (48 ≤ c ∧ c ≤ 57) _ _ (fun _ => by decide) (fun _ => by decide)) (fun _ =>
    okGotoB_ite _ (c > 70) _ _ (fun _ =>
      okGotoB_ite _ (97 ≤ c ∧ c ≤ 102) _ _ (fun _ => by decide) (fun _ => by decide)) (fun _ =>
    by decide))

theorem step_21 (c : Nat) : okGoto (facts 21) c (st_case 21 c) = true := by
  have e : st_case 21 c = st_case_21 c := rfl
  rw [e]
  refine okGoto_of_cases (facts 21) st_case_21 (by decide) (by decide) (by decide) ?_ c
  intro c _ _ _
  unfold st_case_21
  exact okGotoB_ite _ (c < 65) _ _ (fun _ =>
      okGotoB_ite _ (48 ≤ c ∧ c ≤ 57) _ _ (fun _ => by decide) (fun _ => by decide)) (fun _ =>
    okGotoB_ite _ (c > 70) _ _ (fun _ =>
      okGotoB_ite _ (97 ≤ c ∧ c ≤ 102) _ _ (fun _ => by decide) (fun _ => by decide)) (fun _ =>
    by decide))

theorem step_22 (c : Nat) : okGoto (facts 22) c (st_case 22 c) = true := by
  have e : st_case 22 c = st_case_22 c := rfl
  rw [e]
  refine okGoto_of_cases (facts 22) st_case_22 (by decide) (by decide) (by decide) ?_ c
  intro c _ _ _
  unfold st_case_22
  exact okGotoB_ite _ (c = 33) _ _ (fun _ => by decide) (fun _ =>
    okGotoB_ite _ (c = 37) _ _ (fun _ => by decide) (fun _ =>
    okGotoB_ite _ (c = 93) _ _ (fun _ => by decide) (fun _ =>
    okGotoB_ite _ (c = 95) _ _ (fun _ => by decide) (fun _ =>
    okGotoB_ite _ (c = 126) _ _ (fun _ => by decide) (fun _ =>
    okGotoB_ite _ (c < 45) _ _ (fun _ =>
      okGotoB_ite _ (36 ≤ c ∧ c ≤ 43) _ _ (fun _ => by decide) (fun _ => by decide)) (fun _ =>
    okGotoB_ite _ (c > 58) _ _ (fun _ =>
      okGotoB_ite _ (c > 91) _ _ (fun _ =>
        okGotoB_ite _ (97 ≤ c ∧ c ≤ 122) _ _ (fun _ => by decide) (fun _ => by decide)) (fun _ =>
      okGotoB_ite _ (c ≥ 65) _ _ (fun _ => by decide) (fun _ => by decide))) (fun _ =>
    by decide)))))))

theorem step_23 (c : Nat) : okGoto (facts 23) c (st_case 23 c) = true := by
  have e : st_case 23 c = st_case_23 c := rfl
  rw [e]
  refine okGoto_of_cases (facts 23) st_case_23 (by decide) (by decide) (by decide) ?_ c
  intro c _ _ _
  unfold st_case_23
  exact okGotoB_ite _ (c < 65) _ _ (fun _ =>
      okGotoB_ite _ (48 ≤ c ∧ c ≤ 57) _ _ (fun _ => by decide) (fun _ => by decide)) (fun _ =>
    okGotoB_ite _ (c > 70) _ _ (fun _ =>
      okGotoB_ite _ (97 ≤ c ∧ c ≤ 102) _ _ (fun _ => by decide) (fun _ => by decide)) (fun _ =>
    by decide))

theorem step_24 (c : Nat) : okGoto (facts 24) c (st_case 24 c) = true := by
  have e : st_case 24 c = st_case_24 c := rfl
  rw [e]
  refine okGoto_of_cases (facts 24) st_case_24 (by decide) (by decide) (by decide) ?_ c
  intro c _ _ _
  unfold st_case_24
  exact okGotoB_ite _ (c < 65) _ _ (fun _ =>
      okGotoB_ite _ (48 ≤ c ∧ c ≤ 57) _ _ (fun _ => by decide) (fun _ => by decide)) (fun _ =>
    okGotoB_ite _ (c > 70) _ _ (fun _ =>
      okGotoB_ite _ (97 ≤ c ∧ c ≤ 102) _ _ (fun _ => by decide) (fun _ => by decide)) (fun _ =>
    by decide))

theorem step_25 (c : Nat) : okGoto (facts 25) c (st_case 25 c) = true := by
  have e : st_case 25 c = st_case_25 c := rfl
  rw [e]
  refine okGoto_of_cases (facts 25) st_case_25 (by decide) (by decide) (by decide) ?_ c
  intro c _ _ _
  unfold st_case_25
  exact okGotoB_ite _ (c = 33) _ _ (fun _ => by decide) (fun _ =>
    okGotoB_ite _ (c = 36) _ _ (fun _ => by decide) (fun _ =>
    okGotoB_ite _ (c = 37) _ _ (fun _ => by decide) (fun _ =>
    okGotoB_ite _ (c = 63) _ _ (fun _ => by exfalso; omega) (fun _ =>
    okGotoB_ite _ (c = 93) _ _ (fun _ => by decide) (fun _ =>
    okGotoB_ite _ (c = 95) _ _ (fun _ => by decide) (fun _ =>
    okGotoB_ite _ (c = 126) _ _ (fun _ => by decide) (fun _ =>
    okGotoB_ite _ (c < 45) _ _ (fun _ =>
      okGotoB_ite _ (39 ≤ c ∧ c ≤ 43) _ _ (fun _ => by decide) (fun _ => by decide)) (fun _ =>
    okGotoB_ite _ (c > 58) _ _ (fun _ =>
      okGotoB_ite _ (c > 91) _ _ (fun _ =>
        okGotoB_ite _ (97 ≤ c ∧ c ≤ 122) _ _ (fun _ => by decide) (fun _ => by decide)) (fun _ =>
      okGotoB_ite _ (c ≥ 65) _ _ (fun _ => by decide) (fun _ => by decide))) (fun _ =>
    by decide)))))))))

theorem step_26 (c : Nat) : okGoto (facts 26) c (st_case 26 c) = true := by
  have e : st_case 26 c = st_case_26 c := rfl
  rw [e]
  refine okGoto_of_cases (facts 26) st_case_26 (by decide) (by decide) (by decide) ?_ c
  intro c _ _ _
  unfold st_case_26
  exact okGotoB_ite _ (c = 33) _ _ (fun _ => by decide) (fun _ =>
    okGotoB_ite _ (c = 36) _ _ (fun _ => by decide) (fun _ =>
    okGotoB_ite _ (c = 37) _ _ (fun _ => by decide) (fun _ =>
    okGotoB_ite _ (c = 61) _ _ (fun _ => by decide) (fun _ =>
    okGotoB_ite _ (c = 63) _ _ (fun _ => by exfalso; omega) (fun _ =>
    okGotoB_ite _ (c = 93) _ _ (fun _ => by decide) (fun _ =>
    okGotoB_ite _ (c = 95) _ _ (fun _ => by decide) (fun _ =>
    okGotoB_ite _ (c = 126) _ _ (fun _ => by decide) (fun _ =>
    okGotoB_ite _ (c < 45) _ _ (fun _ =>
      okGotoB_ite _ (39 ≤ c ∧ c ≤ 43) _ _ (fun _ => by decide) (fun _ => by decide)) (fun _ =>
    okGotoB_ite _ (c > 58) _ _ (fun _ =>
      okGotoB_ite _ (c > 91) _ _ (fun _ =>
        okGotoB_ite _ (97 ≤ c ∧ c ≤ 122) _ _ (fun _ => by decide) (fun _ => by decide)) (fun _ =>
      okGotoB_ite _ (c ≥ 65) _ _ (fun _ => by decide) (fun _ => by decide))) (fun _ =>
    by decide))))))))))

theorem step_27 (c : Nat) : okGoto (facts 27) c (st_case 27 c) = true := by
  have e : st_case 27 c = st_case_27 c := rfl
  rw [e]
  refine okGoto_of_cases (facts 27) st_case_27 (by decide) (by decide) (by decide) ?_ c
  intro c _ _ _
  unfold st_case_27
  exact okGotoB_ite _ (c < 65) _ _ (fun _ =>
      okGotoB_ite _ (48 ≤ c ∧ c ≤ 57) _ _ (fun _ => by decide) (fun _ => by decide)) (fun _ =>
    okGotoB_ite _ (c > 70) _ _ (fun _ =>
      okGotoB_ite _ (97 ≤ c ∧ c ≤ 102) _ _ (fun _ => by decide) (fun _ => by decide)) (fun _ =>
    by decide))

theorem step_28 (c : Nat) : okGoto (facts 28) c (st_case 28 c) = true := by
  have e : st_case 28 c = st_case_28 c := rfl
  rw [e]
  refine okGoto_of_cases (facts 28) st_case_28 (by decide) (by decide) (by decide) ?_ c
  intro c _ _ _
  unfold st_case_28
  exact okGotoB_ite _ (c < 65) _ _ (fun _ =>
      okGotoB_ite _ (48 ≤ c ∧ c ≤ 57) _ _ (fun _ => by decide) (fun _ => by decide)) (fun _ =>
    okGotoB_ite _ (c > 70) _ _ (fun _ =>
      okGotoB_ite _ (97 ≤ c ∧ c ≤ 102) _ _ (fun _ => by decide) (fun _ => by decide)) (fun _ =>
    by decide))

theorem step_29 (c : Nat) : okGoto (facts 29) c (st_case 29 c) = true := by
  have e : st_case 29 c = st_case_29 c := rfl
  rw [e]
  refine okGoto_of_cases (facts 29) st_case_29 (by decide) (by decide) (by decide) ?_ c
  intro c _ _ _
  unfold st_case_29
  exact okGotoB_ite _ (c < 65) _ _ (fun _ =>
      okGotoB_ite _ (48 ≤ c ∧ c ≤ 57) _ _ (fun _ => by decide) (fun _ => by decide)) (fun _ =>
    okGotoB_ite _ (c > 70) _ _ (fun _ =>
      okGotoB_ite _ (97 ≤ c ∧ c ≤ 102) _ _ (fun _ => by decide) (fun _ => by decide)) (fun _ =>
    by decide))

theorem step_30 (c : Nat) : okGoto (facts 30) c (st_case 30 c) = true := by
  have e : st_case 30 c = st_case_30 c := rfl
  rw [e]
  refine okGoto_of_cases (facts 30) st_case_30 (by decide) (by decide) (by decide) ?_ c
  intro c _ _ _
  unfold st_case_30
  exact okGotoB_ite _ (c < 65) _ _ (fun _ =>
      okGotoB_ite _ (48 ≤ c ∧ c ≤ 57) _ _ (fun _ => by decide) (fun _ => by decide)) (fun _ =>
    okGotoB_ite _ (c > 70) _ _ (fun _ =>
      okGotoB_ite _ (97 ≤ c ∧ c ≤ 102) _ _ (fun _ => by decide) (fun _ => by decide)) (fun _ =>
    by decide))

theorem step_31 (c : Nat) : okGoto (facts 31) c (st_case 31 c) = true := by
  have e : st_case 31 c = st_case_31 c := rfl
  rw [e]
  refine okGoto_of_cases (facts 31) st_case_31 (by decide) (by decide) (by decide) ?_ c
  intro c _ _ _
  unfold st_case_31
  exact okGotoB_ite _ (c = 33) _ _ (fun _ => by decide) (fun _ =>
    okGotoB_ite _ (c = 36) _ _ (fun _ => by decide) (fun _ =>
    okGotoB_ite _ (c = 37) _ _ (fun _ => by decide) (fun _ =>
    okGotoB_ite _ (c = 63) _ _ (fun _ => by exfalso; omega) (fun _ =>
    okGotoB_ite _ (c = 93) _ _ (fun _ => by decide) (fun _ =>
    okGotoB_ite _ (c = 95) _ _ (fun _ => by decide) (fun _ =>
    okGotoB_ite _ (c = 126) _ _ (fun _ => by decide) (fun _ =>
    okGotoB_ite _ (c < 45) _ _ (fun _ =>
      okGotoB_ite _ (39 ≤ c ∧ c ≤ 43) _ _ (fun _ => by decide) (fun _ => by decide)) (fun _ =>
    okGotoB_ite _ (c > 58) _ _ (fun _ =>
      okGotoB_ite _ (c > 91) _ _ (fun _ =>
        okGotoB_ite _ (97 ≤ c ∧ c ≤ 122) _ _ (fun _ => by decide) (fun _ => by decide)) (fun _ =>
      okGotoB_ite _ (c ≥ 65) _ _ (fun _ => by decide) (fun _ => by decide))) (fun _ =>
    by decide)))))))))

theorem step_32 (c : Nat) : okGoto (facts 32) c (st_case 32 c) = true := by
  have e : st_case 32 c = st_case_32 c := rfl
  rw [e]
  refine okGoto_of_cases (facts 32) st_case_32 (by decide) (by decide) (by decide) ?_ c
  intro c _ _ _
  unfold st_case_32
  exact okGotoB_ite _ (c < 65) _ _ (fun _ =>
      okGotoB_ite _ (48 ≤ c ∧ c ≤ 57) _ _ (fun _ => by decide) (fun _ => by decide)) (fun _ =>
    okGotoB_ite _ (c > 90) _ _ (fun _ =>
      okGotoB_ite _ (97 ≤ c ∧ c ≤ 122) _ _ (fun _ => by decide) (fun _ => by decide)) (fun _ =>
    by decide))

theorem step_33 (c : Nat) : okGoto (facts 33) c (st_case 33 c) = true := by
  have e : st_case 33 c = st_case_33 c := rfl
  rw [e]
  refine okGoto_of_cases (facts 33) st_case_33 (by decide) (by decide) (by decide) ?_ c
  intro c _ _ _
  unfold st_case_33
  exact okGotoB_ite _ (c = 45) _ _ (fun _ => by decide) (fun _ =>
    okGotoB_ite _ (c = 46) _ _ (fun _ => by decide) (fun _ =>
    okGotoB_ite _ (c < 65) _ _ (fun _ =>
      okGotoB_ite _ (48 ≤ c ∧ c ≤ 57) _ _ (fun _ => by decide) (fun _ => by decide)) (fun _ =>
    okGotoB_ite _ (c > 90) _ _ (fun _ =>
      okGotoB_ite _ (97 ≤ c ∧ c ≤ 122) _ _ (fun _ => by decide) (fun _ => by decide)) (fun _ =>
    by decide))))

theorem step_34 (c : Nat) : okGoto (facts 34) c (st_case 34 c) = true := by
  have e : st_case 34 c = st_case_34 c := rfl
  rw [e]
  refine okGoto_of_cases (facts 34) st_case_34 (by decide) (by decide) (by decide) ?_ c
  intro c _ _ _
  unfold st_case_34
  exact okGotoB_ite _ (c < 65) _ _ (fun _ =>
      okGotoB_ite _ (48 ≤ c ∧ c ≤ 57) _ _ (fun _ => by decide) (fun _ => by decide)) (fun _ =>
    okGotoB_ite _ (c > 90) _ _ (fun _ =>
      okGotoB_ite _ (97 ≤ c ∧ c ≤ 122) _ _ (fun _ => by decide) (fun _ => by decide)) (fun _ =>
    by decide))

theorem step_35 (c : Nat) : okGoto (facts 35) c (st_case 35 c) = true := by
  have e : st_case 35 c = st_case_35 c := rfl
  rw [e]
  refine okGoto_of_cases (facts 35) st_case_35 (by decide) (by decide) (by decide) ?_ c
  intro c _ _ _
  unfold st_case_35
  exact okGotoB_ite _ (c = 45) _ _ (fun _ => by decide) (fun _ =>
    okGotoB_ite _ (c = 46) _ _ (fun _ => by decide) (fun _ =>
    okGotoB_ite _ (c < 65) _ _ (fun _ =>
      okGotoB_ite _ (48 ≤ c ∧ c ≤ 57) _ _ (fun _ => by decide) (fun _ => by decide)) (fun _ =>
    okGotoB_ite _ (c > 90) _ _ (fun _ =>
      okGotoB_ite _ (97 ≤ c ∧ c ≤ 122) _ _ (fun _ => by decide) (fun _ => by decide)) (fun _ =>
    by decide))))

theorem step_36 (c : Nat) : okGoto (facts 36) c (st_case 36 c) = true := by
  have e : st_case 36 c = st_case_36 c := rfl
  rw [e]
  refine okGoto_of_cases (facts 36) st_case_36 (by decide) (by decide) (by decide) ?_ c
  intro c _ _ _
  unfold st_case_36
  exact okGotoB_ite _ (c < 65) _ _ (fun _ =>
      okGotoB_ite _ (48 ≤ c ∧ c ≤ 57) _ _ (fun _ => by decide) (fun _ => by decide)) (fun _ =>
    okGotoB_ite _ (c > 90) _ _ (fun _ =>
      okGotoB_ite _ (97 ≤ c ∧ c ≤ 122) _ _ (fun _ => by decide) (fun _ => by decide)) (fun _ =>
    by decide))

theorem step_37 (c : Nat) : okGoto (facts 37) c (st_case 37 c) = true := by
  have e : st_case 37 c = st_case_37 c := rfl
  rw [e]
  refine okGoto_of_cases (facts 37) st_case_37 (by decide) (by decide) (by decide) ?_ c
  intro c _ _ _
  unfold st_case_37
  exact okGotoB_ite _ (c = 45) _ _ (fun _ => by decide) (fun _ =>
    okGotoB_ite _ (c = 46) _ _ (fun _ => by decide) (fun _ =>
    okGotoB_ite _ (c < 65) _ _ (fun _ =>
      okGotoB_ite _ (48 ≤ c ∧ c ≤ 57) _ _ (fun _ => by decide) (fun _ => by decide)) (fun _ =>
    okGotoB_ite _ (c > 90) _ _ (fun _ =>
      okGotoB_ite _ (97 ≤ c ∧ c ≤ 122) _ _ (fun _ => by decide) (fun _ => by decide)) (fun _ =>
    by decide))))

theorem step_38 (c : Nat) : okGoto (facts 38) c (st_case 38 c) = true := by
  have e : st_case 38 c = st_case_38 c := rfl
  rw [e]
  refine okGoto_of_cases (facts 38) st_case_38 (by decide) (by decide) (by decide) ?_ c
  intro c _ _ _
  unfold st_case_38
  exact okGotoB_ite _ (c = 45) _ _ (fun _ => by decide) (fun _ =>
    okGotoB_ite _ (c = 46) _ _ (fun _ => by decide) (fun _ =>
    okGotoB_ite _ (c < 65) _ _ (fun _ =>
      okGotoB_ite _ (48 ≤ c ∧ c ≤ 57) _ _ (fun _ => by decide) (fun _ => by decide)) (fun _ =>
    okGotoB_ite _ (c > 90) _ _ (fun _ =>
      okGotoB_ite _ (97 ≤ c ∧ c ≤ 122) _ _ (fun _ => by decide) (fun _ => by decide)) (fun _ =>
    by decide))))

theorem step_39 (c : Nat) : okGoto (facts 39) c (st_case 39 c) = true := by
  have e : st_case 39 c = st_case_39 c := rfl
  rw [e]
  refine okGoto_of_cases (facts 39) st_case_39 (by decide) (by decide) (by decide) ?_ c
  intro c _ _ _
  unfold st_case_39
  exact okGotoB_ite _ (c = 45) _ _ (fun _ => by decide) (fun _ =>
    okGotoB_ite _ (c = 46) _ _ (fun _ => by decide) (fun _ =>
    okGotoB_ite _ (c < 65) _ _ (fun _ =>
      okGotoB_ite _ (48 ≤ c ∧ c ≤ 57) _ _ (fun _ => by decide) (fun _ => by decide)) (fun _ =>
    okGotoB_ite _ (c > 90) _ _ (fun _ =>
      okGotoB_ite _ (97 ≤ c ∧ c ≤ 122) _ _ (fun _ => by decide) (fun _ => by decide)) (fun _ =>
    by decide))))

theorem step_40 (c : Nat) : okGoto (facts 40) c (st_case 40 c) = true := by
  have e : st_case 40 c = st_case_40 c := rfl
  rw [e]
  refine okGoto_of_cases (facts 40) st_case_40 (by decide) (by decide) (by decide) ?_ c
  intro c _ _ _
  unfold st_case_40
  exact okGotoB_ite _ (c = 45) _ _ (fun _ => by decide) (fun _ =>
    okGotoB_ite _ (c = 46) _ _ (fun _ => by decide) (fun _ =>
    okGotoB_ite _ (c < 65) _ _ (fun _ =>
      okGotoB_ite _ (48 ≤ c ∧ c ≤ 57) _ _ (fun _ => by decide) (fun _ => by decide)) (fun _ =>
    okGotoB_ite _ (c > 90) _ _ (fun _ =>
      okGotoB_ite _ (97 ≤ c ∧ c ≤ 122) _ _ (fun _ => by decide) (fun _ => by decide)) (fun _ =>
    by decide))))

theorem step_41 (c : Nat) : okGoto (facts 41) c (st_case 41 c) = true := by
  have e : st_case 41 c = st_case_41 c := rfl
  rw [e]
  refine okGoto_of_cases (facts 41) st_case_41 (by decide) (by decide) (by decide) ?_ c
  intro c _ _ _
  unfold st_case_41
  exact okGotoB_ite _ (c = 45) _ _ (fun _ => by decide) (fun _ =>
    okGotoB_ite _ (c = 46) _ _ (fun _ => by decide) (fun _ =>
    okGotoB_ite _ (c < 65) _ _ (fun _ =>
      okGotoB_ite _ (48 ≤ c ∧ c ≤ 57) _ _ (fun _ => by decide) (fun _ => by decide)) (fun _ =>
    okGotoB_ite _ (c > 90) _ _ (fun _ =>
      okGotoB_ite _ (97 ≤ c ∧ c ≤ 122) _ _ (fun _ => by decide) (fun _ => by decide)) (fun _ =>
    by decide))))

theorem step_42 (c : Nat) : okGoto (facts 42) c (st_case 42 c) = true := by
  have e : st_case 42 c = st_case_42 c := rfl
  rw [e]
  refine okGoto_of_cases (facts 42) st_case_42 (by decide) (by decide) (by decide) ?_ c
  intro c _ _ _
  unfold st_case_42
  exact okGotoB_ite _ (c = 45) _ _ (fun _ => by decide) (fun _ =>
    okGotoB_ite _ (c = 46) _ _ (fun _ => by decide) (fun _ =>
    okGotoB_ite _ (c < 65) _ _ (fun _ =>
      okGotoB_ite _ (48 ≤ c ∧ c ≤ 57) _ _ (fun _ => by decide) (fun _ => by decide)) (fun _ =>
    okGotoB_ite _ (c > 90) _ _ (fun _ =>
      okGotoB_ite _ (97 ≤ c ∧ c ≤ 122) _ _ (fun _ => by decide) (fun _ => by decide)) (fun _ =>
    by decide))))

theorem step_43 (c : Nat) : okGoto (facts 43) c (st_case 43 c) = true := by
  have e : st_case 43 c = st_case_43 c := rfl
  rw [e]
  refine okGoto_of_cases (facts 43) st_case_43 (by decide) (by decide) (by decide) ?_ c
  intro c _ _ _
  unfold st_case_43
  exact okGotoB_ite _ (c = 58) _ _ (fun _ => by decide) (fun _ =>
    okGotoB_ite _ (c < 65) _ _ (fun _ =>
      okGotoB_ite _ (48 ≤ c ∧ c ≤ 57) _ _ (fun _ => by decide) (fun _ => by decide)) (fun _ =>
    okGotoB_ite _ (c > 70) _ _ (fun _ =>
      okGotoB_ite _ (97 ≤ c ∧ c ≤ 102) _ _ (fun _ => by decide) (fun _ => by decide)) (fun _ =>
    by decide)))

theorem step_44 (c : Nat) : okGoto (facts 44) c (st_case 44 c) = true := by
  have e : st_case 44 c = st_case_44 c := rfl
  rw [e]
  refine okGoto_of_cases (facts 44) st_case_44 (by decide) (by decide) (by decide) ?_ c
  intro c _ _ _
  unfold st_case_44
  exact okGotoB_ite _ (c = 58) _ _ (fun _ => by decide) (fun _ =>
    okGotoB_ite _ (c = 93) _ _ (fun _ => by decide) (fun _ =>
    okGotoB_ite _ (c < 65) _ _ (fun _ =>
      okGotoB_ite _ (48 ≤ c ∧ c ≤ 57) _ _ (fun _ => by decide) (fun _ => by decide)) (fun _ =>
    okGotoB_ite _ (c > 70) _ _ (fun _ =>
      okGotoB_ite _ (97 ≤ c ∧ c ≤ 102) _ _ (fun _ => by decide) (fun _ => by decide)) (fun _ =>
    by decide))))

theorem step_45 (c : Nat) : okGoto (facts 45) c (st_case 45 c) = true := by
  have e : st_case 45 c = st_case_45 c := rfl
  rw [e]
  refine okGoto_of_cases (facts 45) st_case_45 (by decide) (by decide) (by decide) ?_ c
  intro c _ _ _
  unfold st_case_45
  exact okGotoB_ite _ (c = 58) _ _ (fun _ => by decide) (fun _ =>
    okGotoB_ite _ (c = 93) _ _ (fun _ => by decide) (fun _ =>
    okGotoB_ite _ (c < 65) _ _ (fun _ =>
      okGotoB_ite _ (48 ≤ c ∧ c ≤ 57) _ _ (fun _ => by decide) (fun _ => by decide)) (fun _ =>
    okGotoB_ite _ (c > 70) _ _ (fun _ =>
      okGotoB_ite _ (97 ≤ c ∧ c ≤ 102) _ _ (fun _ => by decide) (fun _ => by decide)) (fun _ =>
    by decide))))

theorem step_46 (c : Nat) : okGoto (facts 46) c (st_case 46 c) = true := by
  have e : st_case 46 c = st_case_46 c := rfl
  rw [e]
  refine okGoto_of_cases (facts 46) st_case_46 (by decide) (by decide) (by decide) ?_ c
  intro c _ _ _
  unfold st_case_46
  exact okGotoB_ite _ (c = 58) _ _ (fun _ => by decide) (fun _ =>
    okGotoB_ite _ (c = 93) _ _ (fun _ => by decide) (fun _ =>
    okGotoB_ite _ (c < 65) _ _ (fun _ =>
      okGotoB_ite _ (48 ≤ c ∧ c ≤ 57) _ _ (fun _ => by decide) (fun _ => by decide)) (fun _ =>
    okGotoB_ite _ (c > 70) _ _ (fun _ =>
      okGotoB_ite _ (97 ≤ c ∧ c ≤ 102) _ _ (fun _ => by decide) (fun _ => by decide)) (fun _ =>
    by decide))))

theorem step_47 (c : Nat) : okGoto (facts 47) c (st_case 47 c) = true := by
  have e : st_case 47 c = st_case_47 c := rfl
  rw [e]
  refine okGoto_of_cases (facts 47) st_case_47 (by decide) (by decide) (by decide) ?_ c
  intro c _ _ _
  unfold st_case_47
  exact okGotoB_ite _ (c = 58) _ _ (fun _ => by decide) (fun _ =>
    okGotoB_ite _ (c = 93) _ _ (fun _ => by decide) (fun _ => by decide))

theorem step_48 (c : Nat) : okGoto (facts 48) c (st_case 48 c) = true := by
  have e : st_case 48 c = st_case_48 c := rfl
  rw [e]
  refine okGoto_of_cases (facts 48) st_case_48 (by decide) (by decide) (by decide) ?_ c
  intro c _ _ _
  unfold st_case_48
  exact okGotoB_ite _ (c = 58) _ _ (fun _ => by decide) (fun _ =>
    okGotoB_ite _ (c < 65) _ _ (fun _ =>
      okGotoB_ite _ (48 ≤ c ∧ c ≤ 57) _ _ (fun _ => by decide) (fun _ => by decide)) (fun _ =>
    okGotoB_ite _ (c > 70) _ _ (fun _ =>
      okGotoB_ite _ (97 ≤ c ∧ c ≤ 102) _ _ (fun _ => by decide) (fun _ => by decide)) (fun _ =>
    by decide)))

theorem step_49 (c : Nat) : okGoto (facts 49) c (st_case 49 c) = true := by
  have e : st_case 49 c = st_case_49 c := rfl
  rw [e]
  refine okGoto_of_cases (facts 49) st_case_49 (by decide) (by decide) (by decide) ?_ c
  intro c _ _ _
  unfold st_case_49
  exact okGotoB_ite _ (c = 46) _ _ (fun _ => by decide) (fun _ =>
    okGotoB_ite _ (c = 58) _ _ (fun _ => by decide) (fun _ =>
    okGotoB_ite _ (c = 93) _ _ (fun _ => by decide) (fun _ =>
    okGotoB_ite _ (c < 65) _ _ (fun _ =>
      okGotoB_ite _ (48 ≤ c ∧ c ≤ 57) _ _ (fun _ => by decide) (fun _ => by decide)) (fun _ =>
    okGotoB_ite _ (c > 70) _ _ (fun _ =>
      okGotoB_ite _ (97 ≤ c ∧ c ≤ 102) _ _ (fun _ => by decide) (fun _ => by decide)) (fun _ =>
    by decide)))))

theorem step_50 (c : Nat) : okGoto (facts 50) c (st_case 50 c) = true := by
  have e : st_case 50 c = st_case_50 c := rfl
  rw [e]
  refine okGoto_of_cases (facts 50) st_case_50 (by decide) (by decide) (by decide) ?_ c
  intro c _ _ _
  unfold st_case_50
  exact okGotoB_ite _ (48 ≤ c ∧ c ≤ 57) _ _ (fun _ => by decide) (fun _ => by decide)

theorem step_51 (c : Nat) : okGoto (facts 51) c (st_case 51 c) = true := by
  have e : st_case 51 c = st_case_51 c := rfl
  rw [e]
  refine okGoto_of_cases (facts 51) st_case_51 (by decide) (by decide) (by decide) ?_ c
  intro c _ _ _
  unfold st_case_51
  exact okGotoB_ite _ (c = 46) _ _ (fun _ => by decide) (fun _ =>
    okGotoB_ite _ (48 ≤ c ∧ c ≤ 57) _ _ (fun _ => by decide) (fun _ => by decide))

theorem step_52 (c : Nat) : okGoto (facts 52) c (st_case 52 c) = true := by
  have e : st_case 52 c = st_case_52 c := rfl
  rw [e]
  refine okGoto_of_cases (facts 52) st_case_52 (by decide) (by decide) (by decide) ?_ c
  intro c _ _ _
  unfold st_case_52
  exact okGotoB_ite _ (48 ≤ c ∧ c ≤ 57) _ _ (fun _ => by decide) (fun _ => by decide)

theorem step_53 (c : Nat) : okGoto (facts 53) c (st_case 53 c) = true := by
  have e : st_case 53 c = st_case_53 c := rfl
  rw [e]
  refine okGoto_of_cases (facts 53) st_case_53 (by decide) (by decide) (by decide) ?_ c
  intro c _ _ _
  unfold st_case_53
  exact okGotoB_ite _ (c = 46) _ _ (fun _ => by decide) (fun _ =>
    okGotoB_ite _ (48 ≤ c ∧ c ≤ 57) _ _ (fun _ => by decide) (fun _ => by decide))

theorem step_54 (c : Nat) : okGoto (facts 54) c (st_case 54 c) = true := by
  have e : st_case 54 c = st_case_54 c := rfl
  rw [e]
  refine okGoto_of_cases (facts 54) st_case_54 (by decide) (by decide) (by decide) ?_ c
  intro c _ _ _
  unfold st_case_54
  exact okGotoB_ite _ (48 ≤ c ∧ c ≤ 57) _ _ (fun _ => by decide) (fun _ => by decide)

theorem step_55 (c : Nat) : okGoto (facts 55) c (st_case 55 c) = true := by
  have e : st_case 55 c = st_case_55 c := rfl
  rw [e]
  refine okGoto_of_cases (facts 55) st_case_55 (by decide) (by decide) (by decide) ?_ c
  intro c _ _ _
  unfold st_case_55
  exact okGotoB_ite _ (c = 93) _ _ (fun _ => by decide) (fun _ =>
    okGotoB_ite _ (48 ≤ c ∧ c ≤ 57) _ _ (fun _ => by decide) (fun _ => by decide))

theorem step_56 (c : Nat) : okGoto (facts 56) c (st_case 56 c) = true := by
  have e : st_case 56 c = st_case_56 c := rfl
  rw [e]
  refine okGoto_of_cases (facts 56) st_case_56 (by decide) (by decide) (by decide) ?_ c
  intro c _ _ _
  unfold st_case_56
  exact okGotoB_ite _ (c = 93) _ _ (fun _ => by decide) (fun _ =>
    okGotoB_ite _ (48 ≤ c ∧ c ≤ 57) _ _ (fun _ => by decide) (fun _ => by decide))

theorem step_57 (c : Nat) : okGoto (facts 57) c (st_case 57 c) = true := by
  have e : st_case 57 c = st_case_57 c := rfl
  rw [e]
  refine okGoto_of_cases (facts 57) st_case_57 (by decide) (by decide) (by decide) ?_ c
  intro c _ _ _
  unfold st_case_57
  exact okGotoB_ite _ (c = 93) _ _ (fun _ => by decide) (fun _ => by decide)

theorem step_58 (c : Nat) : okGoto (facts 58) c (st_case 58 c) = true := by
  have e : st_case 58 c = st_case_58 c := rfl
  rw [e]
  refine okGoto_of_cases (facts 58) st_case_58 (by decide) (by decide) (by decide) ?_ c
  intro c _ _ _
  unfold st_case_58
  exact okGotoB_ite _ (c = 46) _ _ (fun _ => by decide) (fun _ =>
    okGotoB_ite _ (48 ≤ c ∧ c ≤ 57) _ _ (fun _ => by decide) (fun _ => by decide))

theorem step_59 (c : Nat) : okGoto (facts 59) c (st_case 59 c) = true := by
  have e : st_case 59 c = st_case_59 c := rfl
  rw [e]
  refine okGoto_of_cases (facts 59) st_case_59 (by decide) (by decide) (by decide) ?_ c
  intro c _ _ _
  unfold st_case_59
  exact okGotoB_ite _ (c = 46) _ _ (fun _ => by decide) (fun _ => by decide)

theorem step_60 (c : Nat) : okGoto (facts 60) c (st_case 60 c) = true := by
  have e : st_case 60 c = st_case_60 c := rfl
  rw [e]
  refine okGoto_of_cases (facts 60) st_case_60 (by decide) (by decide) (by decide) ?_ c
  intro c _ _ _
  unfold st_case_60
  exact okGotoB_ite _ (c = 46) _ _ (fun _ => by decide) (fun _ =>
    okGotoB_ite _ (48 ≤ c ∧ c ≤ 57) _ _ (fun _ => by decide) (fun _ => by decide))

theorem step_61 (c : Nat) : okGoto (facts 61) c (st_case 61 c) = true := by
  have e : st_case 61 c = st_case_61 c := rfl
  rw [e]
  refine okGoto_of_cases (facts 61) st_case_61 (by decide) (by decide) (by decide) ?_ c
  intro c _ _ _
  unfold st_case_61
  exact okGotoB_ite _ (c = 46) _ _ (fun _ => by decide) (fun _ => by decide)

theorem step_62 (c : Nat) : okGoto (facts 62) c (st_case 62 c) = true := by
  have e : st_case 62 c = st_case_62 c := rfl
  rw [e]
  refine okGoto_of_cases (facts 62) st_case_62 (by decide) (by decide) (by decide) ?_ c
  intro c _ _ _
  unfold st_case_62
  exact okGotoB_ite _ (c = 46) _ _ (fun _ => by decide) (fun _ =>
    okGotoB_ite _ (c = 58) _ _ (fun _ => by decide) (fun _ =>
    okGotoB_ite _ (c = 93) _ _ (fun _ => by decide) (fun _ =>
    okGotoB_ite _ (c < 65) _ _ (fun _ =>
      okGotoB_ite _ (48 ≤ c ∧ c ≤ 57) _ _ (fun _ => by decide) (fun _ => by decide)) (fun _ =>
    okGotoB_ite _ (c > 70) _ _ (fun _ =>
      okGotoB_ite _ (97 ≤ c ∧ c ≤ 102) _ _ (fun _ => by decide) (fun _ => by decide)) (fun _ =>
    by decide)))))

theorem step_63 (c : Nat) : okGoto (facts 63) c (st_case 63 c) = true := by
  have e : st_case 63 c = st_case_63 c := rfl
  rw [e]
  refine okGoto_of_cases (facts 63) st_case_63 (by decide) (by decide) (by decide) ?_ c
  intro c _ _ _
  unfold st_case_63
  exact okGotoB_ite _ (c = 46) _ _ (fun _ => by decide) (fun _ =>
    okGotoB_ite _ (c = 58) _ _ (fun _ => by decide) (fun _ =>
    okGotoB_ite _ (c = 93) _ _ (fun _ => by decide) (fun _ =>
    okGotoB_ite _ (c < 65) _ _ (fun _ =>
      okGotoB_ite _ (48 ≤ c ∧ c ≤ 57) _ _ (fun _ => by decide) (fun _ => by decide)) (fun _ =>
    okGotoB_ite _ (c > 70) _ _ (fun _ =>
      okGotoB_ite _ (97 ≤ c ∧ c ≤ 102) _ _ (fun _ => by decide) (fun _ => by decide)) (fun _ =>
    by decide)))))

theorem step_64 (c : Nat) : okGoto (facts 64) c (st_case 64 c) = true := by
  have e : st_case 64 c = st_case_64 c := rfl
  rw [e]
  refine okGoto_of_cases (facts 64) st_case_64 (by decide) (by decide) (by decide) ?_ c
  intro c _ _ _
  unfold st_case_64
  exact okGotoB_ite _ (c = 58) _ _ (fun _ => by decide) (fun _ =>
    okGotoB_ite _ (c = 93) _ _ (fun _ => by decide) (fun _ =>
    okGotoB_ite _ (c < 65) _ _ (fun _ =>
      okGotoB_ite _ (48 ≤ c ∧ c ≤ 57) _ _ (fun _ => by decide) (fun _ => by decide)) (fun _ =>
    okGotoB_ite _ (c > 70) _ _ (fun _ =>
      okGotoB_ite _ (97 ≤ c ∧ c ≤ 102) _ _ (fun _ => by decide) (fun _ => by decide)) (fun _ =>
    by decide))))

theorem step_65 (c : Nat) : okGoto (facts 65) c (st_case 65 c) = true := by
  have e : st_case 65 c = st_case_65 c := rfl
  rw [e]
  refine okGoto_of_cases (facts 65) st_case_65 (by decide) (by decide) (by decide) ?_ c
  intro c _ _ _
  unfold st_case_65
  exact okGotoB_ite _ (c = 58) _ _ (fun _ => by decide) (fun _ =>
    okGotoB_ite _ (c = 93) _ _ (fun _ => by decide) (fun _ =>
    okGotoB_ite _ (c < 65) _ _ (fun _ =>
      okGotoB_ite _ (48 ≤ c ∧ c ≤ 57) _ _ (fun _ => by decide) (fun _ => by decide)) (fun _ =>
    okGotoB_ite _ (c > 70) _ _ (fun _ =>
      okGotoB_ite _ (97 ≤ c ∧ c ≤ 102) _ _ (fun _ => by decide) (fun _ => by decide)) (fun _ =>
    by decide))))

theorem step_66 (c : Nat) : okGoto (facts 66) c (st_case 66 c) = true := by
  have e : st_case 66 c = st_case_66 c := rfl
  rw [e]
  refine okGoto_of_cases (facts 66) st_case_66 (by decide) (by decide) (by decide) ?_ c
  intro c _ _ _
  unfold st_case_66
  exact okGotoB_ite _ (c = 58) _ _ (fun _ => by decide) (fun _ =>
    okGotoB_ite _ (c = 93) _ _ (fun _ => by decide) (fun _ =>
    okGotoB_ite _ (c < 65) _ _ (fun _ =>
      okGotoB_ite _ (48 ≤ c ∧ c ≤ 57) _ _ (fun _ => by decide) (fun _ => by decide)) (fun _ =>
    okGotoB_ite _ (c > 70) _ _ (fun _ =>
      okGotoB_ite _ (97 ≤ c ∧ c ≤ 102) _ _ (fun _ => by decide) (fun _ => by decide)) (fun _ =>
    by decide))))

theorem step_67 (c : Nat) : okGoto (facts 67) c (st_case 67 c) = true := by
  have e : st_case 67 c = st_case_67 c := rfl
  rw [e]
  refine okGoto_of_cases (facts 67) st_case_67 (by decide) (by decide) (by decide) ?_ c
  intro c _ _ _
  unfold st_case_67
  exact okGotoB_ite _ (c = 58) _ _ (fun _ => by decide) (fun _ =>
    okGotoB_ite _ (c = 93) _ _ (fun _ => by decide) (fun _ =>
    okGotoB_ite _ (c < 65) _ _ (fun _ =>
      okGotoB_ite _ (48 ≤ c ∧ c ≤ 57) _ _ (fun _ => by decide) (fun _ => by decide)) (fun _ =>
    okGotoB_ite _ (c > 70) _ _ (fun _ =>
      okGotoB_ite _ (97 ≤ c ∧ c ≤ 102) _ _ (fun _ => by decide) (fun _ => by decide)) (fun _ =>
    by decide))))

theorem step_68 (c : Nat) : okGoto (facts 68) c (st_case 68 c) = true := by
  have e : st_case 68 c = st_case_68 c := rfl
  rw [e]
  refine okGoto_of_cases (facts 68) st_case_68 (by decide) (by decide) (by decide) ?_ c
  intro c _ _ _
  unfold st_case_68
  exact okGotoB_ite _ (c = 58) _ _ (fun _ => by decide) (fun _ =>
    okGotoB_ite _ (c = 93) _ _ (fun _ => by decide) (fun _ => by decide))

theorem step_69 (c : Nat) : okGoto (facts 69) c (st_case 69 c) = true := by
  have e : st_case 69 c = st_case_69 c := rfl
  rw [e]
  refine okGoto_of_cases (facts 69) st_case_69 (by decide) (by decide) (by decide) ?_ c
  intro c _ _ _
  unfold st_case_69
  exact okGotoB_ite _ (c < 65) _ _ (fun _ =>
      okGotoB_ite _ (48 ≤ c ∧ c ≤ 57) _ _ (fun _ => by decide) (fun _ => by decide)) (fun _ =>
    okGotoB_ite _ (c > 70) _ _ (fun _ =>
      okGotoB_ite _ (97 ≤ c ∧ c ≤ 102) _ _ (fun _ => by decide) (fun _ => by decide)) (fun _ =>
    by decide))

theorem step_70 (c : Nat) : okGoto (facts 70) c (st_case 70 c) = true := by
  have e : st_case 70 c = st_case_70 c := rfl
  rw [e]
  refine okGoto_of_cases (facts 70) st_case_70 (by decide) (by decide) (by decide) ?_ c
  intro c _ _ _
  unfold st_case_70
  exact okGotoB_ite _ (c = 46) _ _ (fun _ => by decide) (fun _ =>
    okGotoB_ite _ (c = 58) _ _ (fun _ => by decide) (fun _ =>
    okGotoB_ite _ (c = 93) _ _ (fun _ => by decide) (fun _ =>
    okGotoB_ite _ (c < 65) _ _ (fun _ =>
      okGotoB_ite _ (48 ≤ c ∧ c ≤ 57) _ _ (fun _ => by decide) (fun _ => by decide)) (fun _ =>
    okGotoB_ite _ (c > 70) _ _ (fun _ =>
      okGotoB_ite _ (97 ≤ c ∧ c ≤ 102) _ _ (fun _ => by decide) (fun _ => by decide)) (fun _ =>
    by decide)))))

theorem step_71 (c : Nat) : okGoto (facts 71) c (st_case 71 c) = true := by
  have e : st_case 71 c = st_case_71 c := rfl
  rw [e]
  refine okGoto_of_cases (facts 71) st_case_71 (by decide) (by decide) (by decide) ?_ c
  intro c _ _ _
  unfold st_case_71
  exact okGotoB_ite _ (c = 46) _ _ (fun _ => by decide) (fun _ =>
    okGotoB_ite _ (c = 58) _ _ (fun _ => by decide) (fun _ =>
    okGotoB_ite _ (c = 93) _ _ (fun _ => by decide) (fun _ =>
    okGotoB_ite _ (c < 65) _ _ (fun _ =>
      okGotoB_ite _ (48 ≤ c ∧ c ≤ 57) _ _ (fun _ => by decide) (fun _ => by decide)) (fun _ =>
    okGotoB_ite _ (c > 70) _ _ (fun _ =>
      okGotoB_ite _ (97 ≤ c ∧ c ≤ 102) _ _ (fun _ => by decide) (fun _ => by decide)) (fun _ =>
    by decide)))))

theorem step_72 (c : Nat) : okGoto (facts 72) c (st_case 72 c) = true := by
  have e : st_case 72 c = st_case_72 c := rfl
  rw [e]
  refine okGoto_of_cases (facts 72) st_case_72 (by decide) (by decide) (by decide) ?_ c
  intro c _ _ _
  unfold st_case_72
  exact okGotoB_ite _ (c = 46) _ _ (fun _ => by decide) (fun _ =>
    okGotoB_ite _ (c = 58) _ _ (fun _ => by decide) (fun _ =>
    okGotoB_ite _ (c = 93) _ _ (fun _ => by decide) (fun _ =>
    okGotoB_ite _ (c < 65) _ _ (fun _ =>
      okGotoB_ite _ (48 ≤ c ∧ c ≤ 57) _ _ (fun _ => by decide) (fun _ => by decide)) (fun _ =>
    okGotoB_ite _ (c > 70) _ _ (fun _ =>
      okGotoB_ite _ (97 ≤ c ∧ c ≤ 102) _ _ (fun _ => by decide) (fun _ => by decide)) (fun _ =>
    by decide)))))

theorem step_73 (c : Nat) : okGoto (facts 73) c (st_case 73 c) = true := by
  have e : st_case 73 c = st_case_73 c := rfl
  rw [e]
  refine okGoto_of_cases (facts 73) st_case_73 (by decide) (by decide) (by decide) ?_ c
  intro c _ _ _
  unfold st_case_73
  exact okGotoB_ite _ (48 ≤ c ∧ c ≤ 57) _ _ (fun _ => by decide) (fun _ => by decide)

theorem step_74 (c : Nat) : okGoto (facts 74) c (st_case 74 c) = true := by
  have e : st_case 74 c = st_case_74 c := rfl
  rw [e]
  refine okGoto_of_cases (facts 74) st_case_74 (by decide) (by decide) (by decide) ?_ c
  intro c _ _ _
  unfold st_case_74
  exact okGotoB_ite _ (c = 46) _ _ (fun _ => by decide) (fun _ =>
    okGotoB_ite _ (48 ≤ c ∧ c ≤ 57) _ _ (fun _ => by decide) (fun _ => by decide))

theorem step_75 (c : Nat) : okGoto (facts 75) c (st_case 75 c) = true := by
  have e : st_case 75 c = st_case_75 c := rfl
  rw [e]
  refine okGoto_of_cases (facts 75) st_case_75 (by decide) (by decide) (by decide) ?_ c
  intro c _ _ _
  unfold st_case_75
  exact okGotoB_ite _ (c = 46) _ _ (fun _ => by decide) (fun _ =>
    okGotoB_ite _ (48 ≤ c ∧ c ≤ 57) _ _ (fun _ => by decide) (fun _ => by decide))

theorem step_76 (c : Nat) : okGoto (facts 76) c (st_case 76 c) = true := by
  have e : st_case 76 c = st_case_76 c := rfl
  rw [e]
  refine okGoto_of_cases (facts 76) st_case_76 (by decide) (by decide) (by decide) ?_ c
  intro c _ _ _
  unfold st_case_76
  exact okGotoB_ite _ (c = 46) _ _ (fun _ => by decide) (fun _ => by decide)

theorem step_77 (c : Nat) : okGoto (facts 77) c (st_case 77 c) = true := by
  have e : st_case 77 c = st_case_77 c := rfl
  rw [e]
  refine okGoto_of_cases (facts 77) st_case_77 (by decide) (by decide) (by decide) ?_ c
  intro c _ _ _
  unfold st_case_77
  exact okGotoB_ite _ (c = 58) _ _ (fun _ => by decide) (fun _ => by decide)

theorem step_78 (c : Nat) : okGoto (facts 78) c (st_case 78 c) = true := by
  have e : st_case 78 c = st_case_78 c := rfl
  rw [e]
  refine okGoto_of_cases (facts 78) st_case_78 (by decide) (by decide) (by decide) ?_ c
  intro c _ _ _
  unfold st_case_78
  exact okGotoB_ite _ (c = 33) _ _ (fun _ => by decide) (fun _ =>
    okGotoB_ite _ (c = 37) _ _ (fun _ => by decide) (fun _ =>
    okGotoB_ite _ (c = 45) _ _ (fun _ => by decide) (fun _ =>
    okGotoB_ite _ (c = 46) _ _ (fun _ => by decide) (fun _ =>
    okGotoB_ite _ (c = 58) _ _ (fun _ => by decide) (fun _ =>
    okGotoB_ite _ (c = 59) _ _ (fun _ => by exfalso; omega) (fun _ =>
    okGotoB_ite _ (c = 61) _ _ (fun _ => by decide) (fun _ =>
    okGotoB_ite _ (c = 63) _ _ (fun _ => by exfalso; omega) (fun _ =>
    okGotoB_ite _ (c = 64) _ _ (fun _ => by exfalso; omega) (fun _ =>
    okGotoB_ite _ (c = 95) _ _ (fun _ => by decide) (fun _ =>
    okGotoB_ite _ (c = 126) _ _ (fun _ => by decide) (fun _ =>
    okGotoB_ite _ (c < 48) _ _ (fun _ =>
      okGotoB_ite _ (36 ≤ c ∧ c ≤ 47) _ _ (fun _ => by decide) (fun _ => by decide)) (fun _ =>
    okGotoB_ite _ (c > 57) _ _ (fun _ =>
      okGotoB_ite _ (c > 90) _ _ (fun _ =>
        okGotoB_ite _ (97 ≤ c ∧ c ≤ 122) _ _ (fun _ => by decide) (fun _ => by decide)) (fun _ =>
      okGotoB_ite _ (c ≥ 65) _ _ (fun _ => by decide) (fun _ => by decide))) (fun _ =>
    by decide)))))))))))))

theorem step_79 (c : Nat) : okGoto (facts 79) c (st_case 79 c) = true := by
  have e : st_case 79 c = st_case_79 c := rfl
  rw [e]
  refine okGoto_of_cases (facts 79) st_case_79 (by decide) (by decide) (by decide) ?_ c
  intro c _ _ _
  unfold st_case_79
  exact okGotoB_ite _ (c = 33) _ _ (fun _ => by decide) (fun _ =>
    okGotoB_ite _ (c = 37) _ _ (fun _ => by decide) (fun _ =>
    okGotoB_ite _ (c = 45) _ _ (fun _ => by decide) (fun _ =>
    okGotoB_ite _ (c = 58) _ _ (fun _ => by decide) (fun _ =>
    okGotoB_ite _ (c = 59) _ _ (fun _ => by exfalso; omega) (fun _ =>
    okGotoB_ite _ (c = 61) _ _ (fun _ => by decide) (fun _ =>
    okGotoB_ite _ (c = 63) _ _ (fun _ => by exfalso; omega) (fun _ =>
    okGotoB_ite _ (c = 64) _ _ (fun _ => by exfalso; omega) (fun _ =>
    okGotoB_ite _ (c = 95) _ _ (fun _ => by decide) (fun _ =>
    okGotoB_ite _ (c = 126) _ _ (fun _ => by decide) (fun _ =>
    okGotoB_ite _ (c < 48) _ _ (fun _ =>
      okGotoB_ite _ (36 ≤ c ∧ c ≤ 47) _ _ (fun _ => by decide) (fun _ => by decide)) (fun _ =>
    okGotoB_ite _ (c > 57) _ _ (fun _ =>
      okGotoB_ite _ (c > 90) _ _ (fun _ =>
        okGotoB_ite _ (97 ≤ c ∧ c ≤ 122) _ _ (fun _ => by decide) (fun _ => by decide)) (fun _ =>
      okGotoB_ite _ (c ≥ 65) _ _ (fun _ => by decide) (fun _ => by decide))) (fun _ =>
    by decide))))))))))))

theorem step_80 (c : Nat) : okGoto (facts 80) c (st_case 80 c) = true := by
  have e : st_case 80 c = st_case_80 c := rfl
  rw [e]
  refine okGoto_of_cases (facts 80) st_case_80 (by decide) (by decide) (by decide) ?_ c
  intro c _ _ _
  unfold st_case_80
  exact okGotoB_ite _ (c = 33) _ _ (fun _ => by decide) (fun _ =>
    okGotoB_ite _ (c = 37) _ _ (fun _ => by decide) (fun _ =>
    okGotoB_ite _ (c = 45) _ _ (fun _ => by decide) (fun _ =>
    okGotoB_ite _ (c = 46) _ _ (fun _ => by decide) (fun _ =>
    okGotoB_ite _ (c = 58) _ _ (fun _ => by decide) (fun _ =>
    okGotoB_ite _ (c = 59) _ _ (fun _ => by exfalso; omega) (fun _ =>
    okGotoB_ite _ (c = 61) _ _ (fun _ => by decide) (fun _ =>
    okGotoB_ite _ (c = 63) _ _ (fun _ => by exfalso; omega) (fun _ =>
    okGotoB_ite _ (c = 64) _ _ (fun _ => by exfalso; omega) (fun _ =>
    okGotoB_ite _ (c = 95) _ _ (fun _ => by decide) (fun _ =>
    okGotoB_ite _ (c = 126) _ _ (fun _ => by decide) (fun _ =>
    okGotoB_ite _ (c < 48) _ _ (fun _ =>
      okGotoB_ite _ (36 ≤ c ∧ c ≤ 47) _ _ (fun _ => by decide) (fun _ => by decide)) (fun _ =>
    okGotoB_ite _ (c > 57) _ _ (fun _ =>
      okGotoB_ite _ (c > 90) _ _ (fun _ =>
        okGotoB_ite _ (97 ≤ c ∧ c ≤ 122) _ _ (fun _ => by decide) (fun _ => by decide)) (fun _ =>
      okGotoB_ite _ (c ≥ 65) _ _ (fun _ => by decide) (fun _ => by decide))) (fun _ =>
    by decide)))))))))))))

theorem step_81 (c : Nat) : okGoto (facts 81) c (st_case 81 c) = true := by
  have e : st_case 81 c = st_case_81 c := rfl
  rw [e]
  refine okGoto_of_cases (facts 81) st_case_81 (by decide) (by decide) (by decide) ?_ c
  intro c _ _ _
  unfold st_case_81
  exact okGotoB_ite _ (c = 33) _ _ (fun _ => by decide) (fun _ =>
    okGotoB_ite _ (c = 37) _ _ (fun _ => by decide) (fun _ =>
    okGotoB_ite _ (c = 58) _ _ (fun _ => by decide) (fun _ =>
    okGotoB_ite _ (c = 59) _ _ (fun _ => by exfalso; omega) (fun _ =>
    okGotoB_ite _ (c = 61) _ _ (fun _ => by decide) (fun _ =>
    okGotoB_ite _ (c = 63) _ _ (fun _ => by exfalso; omega) (fun _ =>
    okGotoB_ite _ (c = 64) _ _ (fun _ => by exfalso; omega) (fun _ =>
    okGotoB_ite _ (c = 95) _ _ (fun _ => by decide) (fun _ =>
    okGotoB_ite _ (c = 126) _ _ (fun _ => by decide) (fun _ =>
    okGotoB_ite _ (c < 48) _ _ (fun _ =>
      okGotoB_ite _ (36 ≤ c ∧ c ≤ 47) _ _ (fun _ => by decide) (fun _ => by decide)) (fun _ =>
    okGotoB_ite _ (c > 57) _ _ (fun _ =>
      okGotoB_ite _ (c > 90) _ _ (fun _ =>
        okGotoB_ite _ (97 ≤ c ∧ c ≤ 122) _ _ (fun _ => by decide) (fun _ => by decide)) (fun _ =>
      okGotoB_ite _ (c ≥ 65) _ _ (fun _ => by decide) (fun _ => by decide))) (fun _ =>
    by decide)))))))))))

theorem step_82 (c : Nat) : okGoto (facts 82) c (st_case 82 c) = true := by
  have e : st_case 82 c = st_case_82 c := rfl
  rw [e]
  refine okGoto_of_cases (facts 82) st_case_82 (by decide) (by decide) (by decide) ?_ c
  intro c _ _ _
  unfold st_case_82
  exact okGotoB_ite _ (c = 33) _ _ (fun _ => by decide) (fun _ =>
    okGotoB_ite _ (c = 37) _ _ (fun _ => by decide) (fun _ =>
    okGotoB_ite _ (c = 45) _ _ (fun _ => by decide) (fun _ =>
    okGotoB_ite _ (c = 58) _ _ (fun _ => by decide) (fun _ =>
    okGotoB_ite _ (c = 59) _ _ (fun _ => by exfalso; omega) (fun _ =>
    okGotoB_ite _ (c = 61) _ _ (fun _ => by decide) (fun _ =>
    okGotoB_ite _ (c = 63) _ _ (fun _ => by exfalso; omega) (fun _ =>
    okGotoB_ite _ (c = 64) _ _ (fun _ => by exfalso; omega) (fun _ =>
    okGotoB_ite _ (c = 95) _ _ (fun _ => by decide) (fun _ =>
    okGotoB_ite _ (c = 126) _ _ (fun _ => by decide) (fun _ =>
    okGotoB_ite _ (c < 48) _ _ (fun _ =>
      okGotoB_ite _ (36 ≤ c ∧ c ≤ 47) _ _ (fun _ => by decide) (fun _ => by decide)) (fun _ =>
    okGotoB_ite _ (c > 57) _ _ (fun _ =>
      okGotoB_ite _ (c > 90) _ _ (fun _ =>
        okGotoB_ite _ (97 ≤ c ∧ c ≤ 122) _ _ (fun _ => by decide) (fun _ => by decide)) (fun _ =>
      okGotoB_ite _ (c ≥ 65) _ _ (fun _ => by decide) (fun _ => by decide))) (fun _ =>
    by decide))))))))))))

theorem step_83 (c : Nat) : okGoto (facts 83) c (st_case 83 c) = true := by
  have e : st_case 83 c = st_case_83 c := rfl
  rw [e]
  refine okGoto_of_cases (facts 83) st_case_83 (by decide) (by decide) (by decide) ?_ c
  intro c _ _ _
  unfold st_case_83
  exact okGotoB_ite _ (c = 33) _ _ (fun _ => by decide) (fun _ =>
    okGotoB_ite _ (c = 37) _ _ (fun _ => by decide) (fun _ =>
    okGotoB_ite _ (c = 61) _ _ (fun _ => by decide) (fun _ =>
    okGotoB_ite _ (c = 64) _ _ (fun _ => by exfalso; omega) (fun _ =>
    okGotoB_ite _ (c = 95) _ _ (fun _ => by decide) (fun _ =>
    okGotoB_ite _ (c = 126) _ _ (fun _ => by decide) (fun _ =>
    okGotoB_ite _ (c < 48) _ _ (fun _ =>
      okGotoB_ite _ (36 ≤ c ∧ c ≤ 46) _ _ (fun _ => by decide) (fun _ => by decide)) (fun _ =>
    okGotoB_ite _ (c > 57) _ _ (fun _ =>
      okGotoB_ite _ (c > 90) _ _ (fun _ =>
        okGotoB_ite _ (97 ≤ c ∧ c ≤ 122) _ _ (fun _ => by decide) (fun _ => by decide)) (fun _ =>
      okGotoB_ite _ (c ≥ 65) _ _ (fun _ => by decide) (fun _ => by decide))) (fun _ =>
    by decide))))))))

theorem step_84 (c : Nat) : okGoto (facts 84) c (st_case 84 c) = true := by
  have e : st_case 84 c = st_case_84 c := rfl
  rw [e]
  refine okGoto_of_cases (facts 84) st_case_84 (by decide) (by decide) (by decide) ?_ c
  intro c _ _ _
  unfold st_case_84
  exact okGotoB_ite _ (c = 33) _ _ (fun _ => by decide) (fun _ =>
    okGotoB_ite _ (c = 37) _ _ (fun _ => by decide) (fun _ =>
    okGotoB_ite _ (c = 44) _ _ (fun _ => by decide) (fun _ =>
    okGotoB_ite _ (c = 58) _ _ (fun _ => by decide) (fun _ =>
    okGotoB_ite _ (c = 59) _ _ (fun _ => by exfalso; omega) (fun _ =>
    okGotoB_ite _ (c = 61) _ _ (fun _ => by decide) (fun _ =>
    okGotoB_ite _ (c = 63) _ _ (fun _ => by exfalso; omega) (fun _ =>
    okGotoB_ite _ (c = 64) _ _ (fun _ => by exfalso; omega) (fun _ =>
    okGotoB_ite _ (c = 91) _ _ (fun _ => by decide) (fun _ =>
    okGotoB_ite _ (c = 93) _ _ (fun _ => by decide) (fun _ =>
    okGotoB_ite _ (c = 95) _ _ (fun _ => by decide) (fun _ =>
    okGotoB_ite _ (c = 126) _ _ (fun _ => by decide) (fun _ =>
    okGotoB_ite _ (c < 65) _ _ (fun _ =>
      okGotoB_ite _ (36 ≤ c ∧ c ≤ 57) _ _ (fun _ => by decide) (fun _ => by decide)) (fun _ =>
    okGotoB_ite _ (c > 90) _ _ (fun _ =>
      okGotoB_ite _ (97 ≤ c ∧ c ≤ 122) _ _ (fun _ => by decide) (fun _ => by decide)) (fun _ =>
    by decide))))))))))))))

theorem step_85 (c : Nat) : okGoto (facts 85) c (st_case 85 c) = true := by
  have e : st_case 85 c = st_case_85 c := rfl
  rw [e]
  refine okGoto_of_cases (facts 85) st_case_85 (by decide) (by decide) (by decide) ?_ c
  intro c _ _ _
  unfold st_case_85
  exact okGotoB_ite _ (c < 65) _ _ (fun _ =>
      okGotoB_ite _ (48 ≤ c ∧ c ≤ 57) _ _ (fun _ => by decide) (fun _ => by decide)) (fun _ =>
    okGotoB_ite _ (c > 70) _ _ (fun _ =>
      okGotoB_ite _ (97 ≤ c ∧ c ≤ 102) _ _ (fun _ => by decide) (fun _ => by decide)) (fun _ =>
    by decide))

theorem step_86 (c : Nat) : okGoto (facts 86) c (st_case 86 c) = true := by
  have e : st_case 86 c = st_case_86 c := rfl
  rw [e]
  refine okGoto_of_cases (facts 86) st_case_86 (by decide) (by decide) (by decide) ?_ c
  intro c _ _ _
  unfold st_case_86
  exact okGotoB_ite _ (c < 65) _ _ (fun _ =>
      okGotoB_ite _ (48 ≤ c ∧ c ≤ 57) _ _ (fun _ => by decide) (fun _ => by decide)) (fun _ =>
    okGotoB_ite _ (c > 70) _ _ (fun _ =>
      okGotoB_ite _ (97 ≤ c ∧ c ≤ 102) _ _ (fun _ => by decide) (fun _ => by decide)) (fun _ =>
    by decide))

theorem step_87 (c : Nat) : okGoto (facts 87) c (st_case 87 c) = true := by
  have e : st_case 87 c = st_case_87 c := rfl
  rw [e]
  refine okGoto_of_cases (facts 87) st_case_87 (by decide) (by decide) (by decide) ?_ c
  intro c _ _ _
  unfold st_case_87
  exact okGotoB_ite _ (c < 65) _ _ (fun _ =>
      okGotoB_ite _ (48 ≤ c ∧ c ≤ 57) _ _ (fun _ => by decide) (fun _ => by decide)) (fun _ =>
    okGotoB_ite _ (c > 70) _ _ (fun _ =>
      okGotoB_ite _ (97 ≤ c ∧ c ≤ 102) _ _ (fun _ => by decide) (fun _ => by decide)) (fun _ =>
    by decide))

theorem step_88 (c : Nat) : okGoto (facts 88) c (st_case 88 c) = true := by
  have e : st_case 88 c = st_case_88 c := rfl
  rw [e]
  refine okGoto_of_cases (facts 88) st_case_88 (by decide) (by decide) (by decide) ?_ c
  intro c _ _ _
  unfold st_case_88
  exact okGotoB_ite _ (c < 65) _ _ (fun _ =>
      okGotoB_ite _ (48 ≤ c ∧ c ≤ 57) _ _ (fun _ => by decide) (fun _ => by decide)) (fun _ =>
    okGotoB_ite _ (c > 70) _ _ (fun _ =>
      okGotoB_ite _ (97 ≤ c ∧ c ≤ 102) _ _ (fun _ => by decide) (fun _ => by decide)) (fun _ =>
    by decide))

theorem step_89 (c : Nat) : okGoto (facts 89) c (st_case 89 c) = true := by
  have e : st_case 89 c = st_case_89 c := rfl
  rw [e]
  refine okGoto_of_cases (facts 89) st_case_89 (by decide) (by decide) (by decide) ?_ c
  intro c _ _ _
  unfold st_case_89
  exact okGotoB_ite _ (c = 33) _ _ (fun _ => by decide) (fun _ =>
    okGotoB_ite _ (c = 37) _ _ (fun _ => by decide) (fun _ =>
    okGotoB_ite _ (c = 44) _ _ (fun _ => by decide) (fun _ =>
    okGotoB_ite _ (c = 47) _ _ (fun _ => by decide) (fun _ =>
    okGotoB_ite _ (c = 58) _ _ (fun _ => by decide) (fun _ =>
    okGotoB_ite _ (c = 61) _ _ (fun _ => by decide) (fun _ =>
    okGotoB_ite _ (c = 64) _ _ (fun _ => by exfalso; omega) (fun _ =>
    okGotoB_ite _ (c = 91) _ _ (fun _ => by decide) (fun _ =>
    okGotoB_ite _ (c = 93) _ _ (fun _ => by decide) (fun _ =>
    okGotoB_ite _ (c = 95) _ _ (fun _ => by decide) (fun _ =>
    okGotoB_ite _ (c = 126) _ _ (fun _ => by decide) (fun _ =>
    okGotoB_ite _ (c < 65) _ _ (fun _ =>
      okGotoB_ite _ (36 ≤ c ∧ c ≤ 57) _ _ (fun _ => by decide) (fun _ => by decide)) (fun _ =>
    okGotoB_ite _ (c > 90) _ _ (fun _ =>
      okGotoB_ite _ (97 ≤ c ∧ c ≤ 122) _ _ (fun _ => by decide) (fun _ => by decide)) (fun _ =>
    by decide)))))))))))))

theorem step_90 (c : Nat) : okGoto (facts 90) c (st_case 90 c) = true := by
  have e : st_case 90 c = st_case_90 c := rfl
  rw [e]
  refine okGoto_of_cases (facts 90) st_case_90 (by decide) (by decide) (by decide) ?_ c
  intro c _ _ _
  unfold st_case_90
  exact okGotoB_ite _ (c < 65) _ _ (fun _ =>
      okGotoB_ite _ (48 ≤ c ∧ c ≤ 57) _ _ (fun _ => by decide) (fun _ => by decide)) (fun _ =>
    okGotoB_ite _ (c > 70) _ _ (fun _ =>
      okGotoB_ite _ (97 ≤ c ∧ c ≤ 102) _ _ (fun _ => by decide) (fun _ => by decide)) (fun _ =>
    by decide))

theorem step_91 (c : Nat) : okGoto (facts 91) c (st_case 91 c) = true := by
  have e : st_case 91 c = st_case_91 c := rfl
  rw [e]
  refine okGoto_of_cases (facts 91) st_case_91 (by decide) (by decide) (by decide) ?_ c
  intro c _ _ _
  unfold st_case_91
  exact okGotoB_ite _ (c < 65) _ _ (fun _ =>
      okGotoB_ite _ (48 ≤ c ∧ c ≤ 57) _ _ (fun _ => by decide) (fun _ => by decide)) (fun _ =>
    okGotoB_ite _ (c > 70) _ _ (fun _ =>
      okGotoB_ite _ (97 ≤ c ∧ c ≤ 102) _ _ (fun _ => by decide) (fun _ => by decide)) (fun _ =>
    by decide))

theorem step_92 (c : Nat) : okGoto (facts 92) c (st_case 92 c) = true := by
  have e : st_case 92 c = st_case_92 c := rfl
  rw [e]
  refine okGoto_of_cases (facts 92) st_case_92 (by decide) (by decide) (by decide) ?_ c
  intro c _ _ _
  unfold st_case_92
  exact okGotoB_ite _ (c = 33) _ _ (fun _ => by decide) (fun _ =>
    okGotoB_ite _ (c = 37) _ _ (fun _ => by decide) (fun _ =>
    okGotoB_ite _ (c = 44) _ _ (fun _ => by decide) (fun _ =>
    okGotoB_ite _ (c = 58) _ _ (fun _ => by decide) (fun _ =>
    okGotoB_ite _ (c = 59) _ _ (fun _ => by exfalso; omega) (fun _ =>
    okGotoB_ite _ (c = 61) _ _ (fun _ => by decide) (fun _ =>
    okGotoB_ite _ (c = 63) _ _ (fun _ => by exfalso; omega) (fun _ =>
    okGotoB_ite _ (c = 64) _ _ (fun _ => by exfalso; omega) (fun _ =>
    okGotoB_ite _ (c = 91) _ _ (fun _ => by decide) (fun _ =>
    okGotoB_ite _ (c = 93) _ _ (fun _ => by decide) (fun _ =>
    okGotoB_ite _ (c = 95) _ _ (fun _ => by decide) (fun _ =>
    okGotoB_ite _ (c = 126) _ _ (fun _ => by decide) (fun _ =>
    okGotoB_ite _ (c < 65) _ _ (fun _ =>
      okGotoB_ite _ (36 ≤ c ∧ c ≤ 57) _ _ (fun _ => by decide) (fun _ => by decide)) (fun _ =>
    okGotoB_ite _ (c > 90) _ _ (fun _ =>
      okGotoB_ite _ (97 ≤ c ∧ c ≤ 122) _ _ (fun _ => by decide) (fun _ => by decide)) (fun _ =>
    by decide))))))))))))))

theorem step_93 (c : Nat) : okGoto (facts 93) c (st_case 93 c) = true := by
  have e : st_case 93 c = st_case_93 c := rfl
  rw [e]
  refine okGoto_of_cases (facts 93) st_case_93 (by decide) (by decide) (by decide) ?_ c
  intro c _ _ _
  unfold st_case_93
  exact okGotoB_ite _ (c < 65) _ _ (fun _ =>
      okGotoB_ite _ (48 ≤ c ∧ c ≤ 57) _ _ (fun _ => by decide) (fun _ => by decide)) (fun _ =>
    okGotoB_ite _ (c > 70) _ _ (fun _ =>
      okGotoB_ite _ (97 ≤ c ∧ c ≤ 102) _ _ (fun _ => by decide) (fun _ => by decide)) (fun _ =>
    by decide))

theorem step_94 (c : Nat) : okGoto (facts 94) c (st_case 94 c) = true := by
  have e : st_case 94 c = st_case_94 c := rfl
  rw [e]
  refine okGoto_of_cases (facts 94) st_case_94 (by decide) (by decide) (by decide) ?_ c
  intro c _ _ _
  unfold st_case_94
  exact okGotoB_ite _ (c < 65) _ _ (fun _ =>
      okGotoB_ite _ (48 ≤ c ∧ c ≤ 57) _ _ (fun _ => by decide) (fun _ => by decide)) (fun _ =>
    okGotoB_ite _ (c > 70) _ _ (fun _ =>
      okGotoB_ite _ (97 ≤ c ∧ c ≤ 102) _ _ (fun _ => by decide) (fun _ => by decide)) (fun _ =>
    by decide))

theorem step_95 (c : Nat) : okGoto (facts 95) c (st_case 95 c) = true := by
  have e : st_case 95 c = st_case_95 c := rfl
  rw [e]
  refine okGoto_of_cases (facts 95) st_case_95 (by decide) (by decide) (by decide) ?_ c
  intro c _ _ _
  unfold st_case_95
  exact okGotoB_ite _ (c = 33) _ _ (fun _ => by decide) (fun _ =>
    okGotoB_ite _ (c = 37) _ _ (fun _ => by decide) (fun _ =>
    okGotoB_ite _ (c = 38) _ _ (fun _ => by decide) (fun _ =>
    okGotoB_ite _ (c = 44) _ _ (fun _ => by decide) (fun _ =>
    okGotoB_ite _ (c = 58) _ _ (fun _ => by decide) (fun _ =>
    okGotoB_ite _ (c = 59) _ _ (fun _ => by exfalso; omega) (fun _ =>
    okGotoB_ite _ (c = 61) _ _ (fun _ => by decide) (fun _ =>
    okGotoB_ite _ (c = 64) _ _ (fun _ => by exfalso; omega) (fun _ =>
    okGotoB_ite _ (c = 91) _ _ (fun _ => by decide) (fun _ =>
    okGotoB_ite _ (c = 93) _ _ (fun _ => by decide) (fun _ =>
    okGotoB_ite _ (c = 95) _ _ (fun _ => by decide) (fun _ =>
    okGotoB_ite _ (c = 126) _ _ (fun _ => by decide) (fun _ =>
    okGotoB_ite _ (c < 63) _ _ (fun _ =>
      okGotoB_ite _ (36 ≤ c ∧ c ≤ 57) _ _ (fun _ => by decide) (fun _ => by decide)) (fun _ =>
    okGotoB_ite _ (c > 90) _ _ (fun _ =>
      okGotoB_ite _ (97 ≤ c ∧ c ≤ 122) _ _ (fun _ => by decide) (fun _ => by decide)) (fun _ =>
    by decide))))))))))))))

theorem step_96 (c : Nat) : okGoto (facts 96) c (st_case 96 c) = true := by
  have e : st_case 96 c = st_case_96 c := rfl
  rw [e]
  refine okGoto_of_cases (facts 96) st_case_96 (by decide) (by decide) (by decide) ?_ c
  intro c _ _ _
  unfold st_case_96
  exact okGotoB_ite _ (c = 33) _ _ (fun _ => by decide) (fun _ =>
    okGotoB_ite _ (c = 37) _ _ (fun _ => by decide) (fun _ =>
    okGotoB_ite _ (c = 38) _ _ (fun _ => by decide) (fun _ =>
    okGotoB_ite _ (c = 44) _ _ (fun _ => by decide) (fun _ =>
    okGotoB_ite _ (c = 58) _ _ (fun _ => by decide) (fun _ =>
    okGotoB_ite _ (c = 59) _ _ (fun _ => by exfalso; omega) (fun _ =>
    okGotoB_ite _ (c = 61) _ _ (fun _ => by decide) (fun _ =>
    okGotoB_ite _ (c = 64) _ _ (fun _ => by exfalso; omega) (fun _ =>
    okGotoB_ite _ (c = 91) _ _ (fun _ => by decide) (fun _ =>
    okGotoB_ite _ (c = 93) _ _ (fun _ => by decide) (fun _ =>
    okGotoB_ite _ (c = 95) _ _ (fun _ => by decide) (fun _ =>
    okGotoB_ite _ (c = 126) _ _ (fun _ => by decide) (fun _ =>
    okGotoB_ite _ (c < 63) _ _ (fun _ =>
      okGotoB_ite _ (36 ≤ c ∧ c ≤ 57) _ _ (fun _ => by decide) (fun _ => by decide)) (fun _ =>
    okGotoB_ite _ (c > 90) _ _ (fun _ =>
      okGotoB_ite _ (97 ≤ c ∧ c ≤ 122) _ _ (fun _ => by decide) (fun _ => by decide)) (fun _ =>
    by decide))))))))))))))

theorem step_97 (c : Nat) : okGoto (facts 97) c (st_case 97 c) = true := by
  have e : st_case 97 c = st_case_97 c := rfl
  rw [e]
  refine okGoto_of_cases (facts 97) st_case_97 (by decide) (by decide) (by decide) ?_ c
  intro c _ _ _
  unfold st_case_97
  exact okGotoB_ite _ (c < 65) _ _ (fun _ =>
      okGotoB_ite _ (48 ≤ c ∧ c ≤ 57) _ _ (fun _ => by decide) (fun _ => by decide)) (fun _ =>
    okGotoB_ite _ (c > 70) _ _ (fun _ =>
      okGotoB_ite _ (97 ≤ c ∧ c ≤ 102) _ _ (fun _ => by decide) (fun _ => by decide)) (fun _ =>
    by decide))

theorem step_98 (c : Nat) : okGoto (facts 98) c (st_case 98 c) = true := by
  have e : st_case 98 c = st_case_98 c := rfl
  rw [e]
  refine okGoto_of_cases (facts 98) st_case_98 (by decide) (by decide) (by decide) ?_ c
  intro c _ _ _
  unfold st_case_98
  exact okGotoB_ite _ (c < 65) _ _ (fun _ =>
      okGotoB_ite _ (48 ≤ c ∧ c ≤ 57) _ _ (fun _ => by decide) (fun _ => by decide)) (fun _ =>
    okGotoB_ite _ (c > 70) _ _ (fun _ =>
      okGotoB_ite _ (97 ≤ c ∧ c ≤ 102) _ _ (fun _ => by decide) (fun _ => by decide)) (fun _ =>
    by decide))

theorem step_99 (c : Nat) : okGoto (facts 99) c (st_case 99 c) = true := by
  have e : st_case 99 c = st_case_99 c := rfl
  rw [e]
  refine okGoto_of_cases (facts 99) st_case_99 (by decide) (by decide) (by decide) ?_ c
  intro c _ _ _
  unfold st_case_99
  exact okGotoB_ite _ (c = 33) _ _ (fun _ => by decide) (fun _ =>
    okGotoB_ite _ (c = 37) _ _ (fun _ => by decide) (fun _ =>
    okGotoB_ite _ (c = 38) _ _ (fun _ => by decide) (fun _ =>
    okGotoB_ite _ (c = 44) _ _ (fun _ => by decide) (fun _ =>
    okGotoB_ite _ (c = 47) _ _ (fun _ => by decide) (fun _ =>
    okGotoB_ite _ (c = 58) _ _ (fun _ => by decide) (fun _ =>
    okGotoB_ite _ (c = 61) _ _ (fun _ => by decide) (fun _ =>
    okGotoB_ite _ (c = 63) _ _ (fun _ => by exfalso; omega) (fun _ =>
    okGotoB_ite _ (c = 64) _ _ (fun _ => by exfalso; omega) (fun _ =>
    okGotoB_ite _ (c = 91) _ _ (fun _ => by decide) (fun _ =>
    okGotoB_ite _ (c = 93) _ _ (fun _ => by decide) (fun _ =>
    okGotoB_ite _ (c = 95) _ _ (fun _ => by decide) (fun _ =>
    okGotoB_ite _ (c = 126) _ _ (fun _ => by decide) (fun _ =>
    okGotoB_ite _ (c < 65) _ _ (fun _ =>
      okGotoB_ite _ (36 ≤ c ∧ c ≤ 57) _ _ (fun _ => by decide) (fun _ => by decide)) (fun _ =>
    okGotoB_ite _ (c > 90) _ _ (fun _ =>
      okGotoB_ite _ (97 ≤ c ∧ c ≤ 122) _ _ (fun _ => by decide) (fun _ => by decide)) (fun _ =>
    by decide)))))))))))))))

theorem step_100 (c : Nat) : okGoto (facts 100) c (st_case 100 c) = true := by
  have e : st_case 100 c = st_case_100 c := rfl
  rw [e]
  refine okGoto_of_cases (facts 100) st_case_100 (by decide) (by decide) (by decide) ?_ c
  intro c _ _ _
  unfold st_case_100
  exact okGotoB_ite _ (c < 65) _ _ (fun _ =>
      okGotoB_ite _ (48 ≤ c ∧ c ≤ 57) _ _ (fun _ => by decide) (fun _ => by decide)) (fun _ =>
    okGotoB_ite _ (c > 70) _ _ (fun _ =>
      okGotoB_ite _ (97 ≤ c ∧ c ≤ 102) _ _ (fun _ => by decide) (fun _ => by decide)) (fun _ =>
    by decide))

theorem step_101 (c : Nat) : okGoto (facts 101) c (st_case 101 c) = true := by
  have e : st_case 101 c = st_case_101 c := rfl
  rw [e]
  refine okGoto_of_cases (facts 101) st_case_101 (by decide) (by decide) (by decide) ?_ c
  intro c _ _ _
  unfold st_case_101
  exact okGotoB_ite _ (c < 65) _ _ (fun _ =>
      okGotoB_ite _ (48 ≤ c ∧ c ≤ 57) _ _ (fun _ => by decide) (fun _ => by decide)) (fun _ =>
    okGotoB_ite _ (c > 70) _ _ (fun _ =>
      okGotoB_ite _ (97 ≤ c ∧ c ≤ 102) _ _ (fun _ => by decide) (fun _ => by decide)) (fun _ =>
    by decide))

theorem step_102 (c : Nat) : okGoto (facts 102) c (st_case 102 c) = true := by
  have e : st_case 102 c = st_case_102 c := rfl
  rw [e]
  refine okGoto_of_cases (facts 102) st_case_102 (by decide) (by decide) (by decide) ?_ c
  intro c _ _ _
  unfold st_case_102
  exact okGotoB_ite _ (c < 65) _ _ (fun _ =>
      okGotoB_ite _ (48 ≤ c ∧ c ≤ 57) _ _ (fun _ => by decide) (fun _ => by decide)) (fun _ =>
    okGotoB_ite _ (c > 70) _ _ (fun _ =>
      okGotoB_ite _ (97 ≤ c ∧ c ≤ 102) _ _ (fun _ => by decide) (fun _ => by decide)) (fun _ =>
    by decide))

theorem step_103 (c : Nat) : okGoto (facts 103) c (st_case 103 c) = true := by
  have e : st_case 103 c = st_case_103 c := rfl
  rw [e]
  refine okGoto_of_cases (facts 103) st_case_103 (by decide) (by decide) (by decide) ?_ c
  intro c _ _ _
  unfold st_case_103
  exact okGotoB_ite _ (c < 65) _ _ (fun _ =>
      okGotoB_ite _ (48 ≤ c ∧ c ≤ 57) _ _ (fun _ => by decide) (fun _ => by decide)) (fun _ =>
    okGotoB_ite _ (c > 70) _ _ (fun _ =>
      okGotoB_ite _ (97 ≤ c ∧ c ≤ 102) _ _ (fun _ => by decide) (fun _ => by decide)) (fun _ =>
    by decide))

theorem step_104 (c : Nat) : okGoto (facts 104) c (st_case 104 c) = true := by
  have e : st_case 104 c = st_case_104 c := rfl
  rw [e]
  refine okGoto_of_cases (facts 104) st_case_104 (by decide) (by decide) (by decide) ?_ c
  intro c _ _ _
  unfold st_case_104
  exact okGotoB_ite _ (c = 33) _ _ (fun _ => by decide) (fun _ =>
    okGotoB_ite _ (c = 37) _ _ (fun _ => by decide) (fun _ =>
    okGotoB_ite _ (c = 38) _ _ (fun _ => by decide) (fun _ =>
    okGotoB_ite _ (c = 44) _ _ (fun _ => by decide) (fun _ =>
    okGotoB_ite _ (c = 47) _ _ (fun _ => by decide) (fun _ =>
    okGotoB_ite _ (c = 58) _ _ (fun _ => by decide) (fun _ =>
    okGotoB_ite _ (c = 61) _ _ (fun _ => by decide) (fun _ =>
    okGotoB_ite _ (c = 63) _ _ (fun _ => by exfalso; omega) (fun _ =>
    okGotoB_ite _ (c = 64) _ _ (fun _ => by exfalso; omega) (fun _ =>
    okGotoB_ite _ (c = 91) _ _ (fun _ => by decide) (fun _ =>
    okGotoB_ite _ (c = 93) _ _ (fun _ => by decide) (fun _ =>
    okGotoB_ite _ (c = 95) _ _ (fun _ => by decide) (fun _ =>
    okGotoB_ite _ (c = 126) _ _ (fun _ => by decide) (fun _ =>
    okGotoB_ite _ (c < 65) _ _ (fun _ =>
      okGotoB_ite _ (36 ≤ c ∧ c ≤ 57) _ _ (fun _ => by decide) (fun _ => by decide)) (fun _ =>
    okGotoB_ite _ (c > 90) _ _ (fun _ =>
      okGotoB_ite _ (97 ≤ c ∧ c ≤ 122) _ _ (fun _ => by decide) (fun _ => by decide)) (fun _ =>
    by decide)))))))))))))))

theorem step_105 (c : Nat) : okGoto (facts 105) c (st_case 105 c) = true := by
  have e : st_case 105 c = st_case_105 c := rfl
  rw [e]
  refine okGoto_of_cases (facts 105) st_case_105 (by decide) (by decide) (by decide) ?_ c
  intro c _ _ _
  unfold st_case_105
  exact okGotoB_ite _ (c < 65) _ _ (fun _ =>
      okGotoB_ite _ (48 ≤ c ∧ c ≤ 57) _ _ (fun _ => by decide) (fun _ => by decide)) (fun _ =>
    okGotoB_ite _ (c > 70) _ _ (fun _ =>
      okGotoB_ite _ (97 ≤ c ∧ c ≤ 102) _ _ (fun _ => by decide) (fun _ => by decide)) (fun _ =>
    by decide))

theorem step_106 (c : Nat) : okGoto (facts 106) c (st_case 106 c) = true := by
  have e : st_case 106 c = st_case_106 c := rfl
  rw [e]
  refine okGoto_of_cases (facts 106) st_case_106 (by decide) (by decide) (by decide) ?_ c
  intro c _ _ _
  unfold st_case_106
  exact okGotoB_ite _ (c < 65) _ _ (fun _ =>
      okGotoB_ite _ (48 ≤ c ∧ c ≤ 57) _ _ (fun _ => by decide) (fun _ => by decide)) (fun _ =>
    okGotoB_ite _ (c > 70) _ _ (fun _ =>
      okGotoB_ite _ (97 ≤ c ∧ c ≤ 102) _ _ (fun _ => by decide) (fun _ => by decide)) (fun _ =>
    by decide))

theorem step_107 (c : Nat) : okGoto (facts 107) c (st_case 107 c) = true := by
  have e : st_case 107 c = st_case_107 c := rfl
  rw [e]
  refine okGoto_of_cases (facts 107) st_case_107 (by decide) (by decide) (by decide) ?_ c
  intro c _ _ _
  unfold st_case_107
  exact okGotoB_ite _ (c = 33) _ _ (fun _ => by decide) (fun _ =>
    okGotoB_ite _ (c = 37) _ _ (fun _ => by decide) (fun _ =>
    okGotoB_ite _ (c = 38) _ _ (fun _ => by decide) (fun _ =>
    okGotoB_ite _ (c = 44) _ _ (fun _ => by decide) (fun _ =>
    okGotoB_ite _ (c = 58) _ _ (fun _ => by decide) (fun _ =>
    okGotoB_ite _ (c = 59) _ _ (fun _ => by exfalso; omega) (fun _ =>
    okGotoB_ite _ (c = 61) _ _ (fun _ => by decide) (fun _ =>
    okGotoB_ite _ (c = 64) _ _ (fun _ => by exfalso; omega) (fun _ =>
    okGotoB_ite _ (c = 91) _ _ (fun _ => by decide) (fun _ =>
    okGotoB_ite _ (c = 93) _ _ (fun _ => by decide) (fun _ =>
    okGotoB_ite _ (c = 95) _ _ (fun _ => by decide) (fun _ =>
    okGotoB_ite _ (c = 126) _ _ (fun _ => by decide) (fun _ =>
    okGotoB_ite _ (c < 63) _ _ (fun _ =>
      okGotoB_ite _ (36 ≤ c ∧ c ≤ 57) _ _ (fun _ => by decide) (fun _ => by decide)) (fun _ =>
    okGotoB_ite _ (c > 90) _ _ (fun _ =>
      okGotoB_ite _ (97 ≤ c ∧ c ≤ 122) _ _ (fun _ => by decide) (fun _ => by decide)) (fun _ =>
    by decide))))))))))))))

theorem step_108 (c : Nat) : okGoto (facts 108) c (st_case 108 c) = true := by
  have e : st_case 108 c = st_case_108 c := rfl
  rw [e]
  refine okGoto_of_cases (facts 108) st_case_108 (by decide) (by decide) (by decide) ?_ c
  intro c _ _ _
  unfold st_case_108
  exact okGotoB_ite _ (c = 33) _ _ (fun _ => by decide) (fun _ =>
    okGotoB_ite _ (c = 37) _ _ (fun _ => by decide) (fun _ =>
    okGotoB_ite _ (c = 58) _ _ (fun _ => by decide) (fun _ =>
    okGotoB_ite _ (c = 59) _ _ (fun _ => by exfalso; omega) (fun _ =>
    okGotoB_ite _ (c = 61) _ _ (fun _ => by decide) (fun _ =>
    okGotoB_ite _ (c = 63) _ _ (fun _ => by exfalso; omega) (fun _ =>
    okGotoB_ite _ (c = 64) _ _ (fun _ => by exfalso; omega) (fun _ =>
    okGotoB_ite _ (c = 95) _ _ (fun _ => by decide) (fun _ =>
    okGotoB_ite _ (c = 126) _ _ (fun _ => by decide) (fun _ =>
    okGotoB_ite _ (c < 48) _ _ (fun _ =>
      okGotoB_ite _ (36 ≤ c ∧ c ≤ 47) _ _ (fun _ => by decide) (fun _ => by decide)) (fun _ =>
    okGotoB_ite _ (c > 57) _ _ (fun _ =>
      okGotoB_ite _ (c > 90) _ _ (fun _ =>
        okGotoB_ite _ (97 ≤ c ∧ c ≤ 122) _ _ (fun _ => by decide) (fun _ => by decide)) (fun _ =>
      okGotoB_ite _ (c ≥ 65) _ _ (fun _ => by decide) (fun _ => by decide))) (fun _ =>
    by decide)))))))))))

theorem step_109 (c : Nat) : okGoto (facts 109) c (st_case 109 c) = true := by
  have e : st_case 109 c = st_case_109 c := rfl
  rw [e]
  refine okGoto_of_cases (facts 109) st_case_109 (by decide) (by decide) (by decide) ?_ c
  intro c _ _ _
  unfold st_case_109
  exact okGotoB_ite _ (c = 33) _ _ (fun _ => by decide) (fun _ =>
    okGotoB_ite _ (c = 37) _ _ (fun _ => by decide) (fun _ =>
    okGotoB_ite _ (c = 45) _ _ (fun _ => by decide) (fun _ =>
    okGotoB_ite _ (c = 46) _ _ (fun _ => by decide) (fun _ =>
    okGotoB_ite _ (c = 58) _ _ (fun _ => by decide) (fun _ =>
    okGotoB_ite _ (c = 59) _ _ (fun _ => by exfalso; omega) (fun _ =>
    okGotoB_ite _ (c = 61) _ _ (fun _ => by decide) (fun _ =>
    okGotoB_ite _ (c = 63) _ _ (fun _ => by exfalso; omega) (fun _ =>
    okGotoB_ite _ (c = 64) _ _ (fun _ => by exfalso; omega) (fun _ =>
    okGotoB_ite _ (c = 95) _ _ (fun _ => by decide) (fun _ =>
    okGotoB_ite _ (c = 126) _ _ (fun _ => by decide) (fun _ =>
    okGotoB_ite _ (c < 48) _ _ (fun _ =>
      okGotoB_ite _ (36 ≤ c ∧ c ≤ 47) _ _ (fun _ => by decide) (fun _ => by decide)) (fun _ =>
    okGotoB_ite _ (c > 57) _ _ (fun _ =>
      okGotoB_ite _ (c > 90) _ _ (fun _ =>
        okGotoB_ite _ (97 ≤ c ∧ c ≤ 122) _ _ (fun _ => by decide) (fun _ => by decide)) (fun _ =>
      okGotoB_ite _ (c ≥ 65) _ _ (fun _ => by decide) (fun _ => by decide))) (fun _ =>
    by decide)))))))))))))

theorem step_110 (c : Nat) : okGoto (facts 110) c (st_case 110 c) = true := by
  have e : st_case 110 c = st_case_110 c := rfl
  rw [e]
  refine okGoto_of_cases (facts 110) st_case_110 (by decide) (by decide) (by decide) ?_ c
  intro c _ _ _
  unfold st_case_110
  exact okGotoB_ite _ (c = 33) _ _ (fun _ => by decide) (fun _ =>
    okGotoB_ite _ (c = 37) _ _ (fun _ => by decide) (fun _ =>
    okGotoB_ite _ (c = 58) _ _ (fun _ => by decide) (fun _ =>
    okGotoB_ite _ (c = 59) _ _ (fun _ => by exfalso; omega) (fun _ =>
    okGotoB_ite _ (c = 61) _ _ (fun _ => by decide) (fun _ =>
    okGotoB_ite _ (c = 63) _ _ (fun _ => by exfalso; omega) (fun _ =>
    okGotoB_ite _ (c = 64) _ _ (fun _ => by exfalso; omega) (fun _ =>
    okGotoB_ite _ (c = 95) _ _ (fun _ => by decide) (fun _ =>
    okGotoB_ite _ (c = 126) _ _ (fun _ => by decide) (fun _ =>
    okGotoB_ite _ (c < 48) _ _ (fun _ =>
      okGotoB_ite _ (36 ≤ c ∧ c ≤ 47) _ _ (fun _ => by decide) (fun _ => by decide)) (fun _ =>
    okGotoB_ite _ (c > 57) _ _ (fun _ =>
      okGotoB_ite _ (c > 90) _ _ (fun _ =>
        okGotoB_ite _ (97 ≤ c ∧ c ≤ 122) _ _ (fun _ => by decide) (fun _ => by decide)) (fun _ =>
      okGotoB_ite _ (c ≥ 65) _ _ (fun _ => by decide) (fun _ => by decide))) (fun _ =>
    by decide)))))))))))

theorem step_111 (c : Nat) : okGoto (facts 111) c (st_case 111 c) = true := by
  have e : st_case 111 c = st_case_111 c := rfl
  rw [e]
  refine okGoto_of_cases (facts 111) st_case_111 (by decide) (by decide) (by decide) ?_ c
  intro c _ _ _
  unfold st_case_111
  exact okGotoB_ite _ (c = 33) _ _ (fun _ => by decide) (fun _ =>
    okGotoB_ite _ (c = 37) _ _ (fun _ => by decide) (fun _ =>
    okGotoB_ite _ (c = 45) _ _ (fun _ => by decide) (fun _ =>
    okGotoB_ite _ (c = 46) _ _ (fun _ => by decide) (fun _ =>
    okGotoB_ite _ (c = 58) _ _ (fun _ => by decide) (fun _ =>
    okGotoB_ite _ (c = 59) _ _ (fun _ => by exfalso; omega) (fun _ =>
    okGotoB_ite _ (c = 61) _ _ (fun _ => by decide) (fun _ =>
    okGotoB_ite _ (c = 63) _ _ (fun _ => by exfalso; omega) (fun _ =>
    okGotoB_ite _ (c = 64) _ _ (fun _ => by exfalso; omega) (fun _ =>
    okGotoB_ite _ (c = 95) _ _ (fun _ => by decide) (fun _ =>
    okGotoB_ite _ (c = 126) _ _ (fun _ => by decide) (fun _ =>
    okGotoB_ite _ (c < 48) _ _ (fun _ =>
      okGotoB_ite _ (36 ≤ c ∧ c ≤ 47) _ _ (fun _ => by decide) (fun _ => by decide)) (fun _ =>
    okGotoB_ite _ (c > 57) _ _ (fun _ =>
      okGotoB_ite _ (c > 90) _ _ (fun _ =>
        okGotoB_ite _ (97 ≤ c ∧ c ≤ 122) _ _ (fun _ => by decide) (fun _ => by decide)) (fun _ =>
      okGotoB_ite _ (c ≥ 65) _ _ (fun _ => by decide) (fun _ => by decide))) (fun _ =>
    by decide)))))))))))))

theorem step_112 (c : Nat) : okGoto (facts 112) c (st_case 112 c) = true := by
  have e : st_case 112 c = st_case_112 c := rfl
  rw [e]
  refine okGoto_of_cases (facts 112) st_case_112 (by decide) (by decide) (by decide) ?_ c
  intro c _ _ _
  unfold st_case_112
  exact okGotoB_ite _ (c = 33) _ _ (fun _ => by decide) (fun _ =>
    okGotoB_ite _ (c = 37) _ _ (fun _ => by decide) (fun _ =>
    okGotoB_ite _ (c = 58) _ _ (fun _ => by decide) (fun _ =>
    okGotoB_ite _ (c = 59) _ _ (fun _ => by exfalso; omega) (fun _ =>
    okGotoB_ite _ (c = 61) _ _ (fun _ => by decide) (fun _ =>
    okGotoB_ite _ (c = 63) _ _ (fun _ => by exfalso; omega) (fun _ =>
    okGotoB_ite _ (c = 64) _ _ (fun _ => by exfalso; omega) (fun _ =>
    okGotoB_ite _ (c = 95) _ _ (fun _ => by decide) (fun _ =>
    okGotoB_ite _ (c = 126) _ _ (fun _ => by decide) (fun _ =>
    okGotoB_ite _ (c < 48) _ _ (fun _ =>
      okGotoB_ite _ (36 ≤ c ∧ c ≤ 47) _ _ (fun _ => by decide) (fun _ => by decide)) (fun _ =>
    okGotoB_ite _ (c > 57) _ _ (fun _ =>
      okGotoB_ite _ (c > 90) _ _ (fun _ =>
        okGotoB_ite _ (97 ≤ c ∧ c ≤ 122) _ _ (fun _ => by decide) (fun _ => by decide)) (fun _ =>
      okGotoB_ite _ (c ≥ 65) _ _ (fun _ => by decide) (fun _ => by decide))) (fun _ =>
    by decide)))))))))))

theorem step_113 (c : Nat) : okGoto (facts 113) c (st_case 113 c) = true := by
  have e : st_case 113 c = st_case_113 c := rfl
  rw [e]
  refine okGoto_of_cases (facts 113) st_case_113 (by decide) (by decide) (by decide) ?_ c
  intro c _ _ _
  unfold st_case_113
  exact okGotoB_ite _ (c = 33) _ _ (fun _ => by decide) (fun _ =>
    okGotoB_ite _ (c = 37) _ _ (fun _ => by decide) (fun _ =>
    okGotoB_ite _ (c = 45) _ _ (fun _ => by decide) (fun _ =>
    okGotoB_ite _ (c = 46) _ _ (fun _ => by decide) (fun _ =>
    okGotoB_ite _ (c = 58) _ _ (fun _ => by decide) (fun _ =>
    okGotoB_ite _ (c = 59) _ _ (fun _ => by exfalso; omega) (fun _ =>
    okGotoB_ite _ (c = 61) _ _ (fun _ => by decide) (fun _ =>
    okGotoB_ite _ (c = 63) _ _ (fun _ => by exfalso; omega) (fun _ =>
    okGotoB_ite _ (c = 64) _ _ (fun _ => by exfalso; omega) (fun _ =>
    okGotoB_ite _ (c = 95) _ _ (fun _ => by decide) (fun _ =>
    okGotoB_ite _ (c = 126) _ _ (fun _ => by decide) (fun _ =>
    okGotoB_ite _ (c < 48) _ _ (fun _ =>
      okGotoB_ite _ (36 ≤ c ∧ c ≤ 47) _ _ (fun _ => by decide) (fun _ => by decide)) (fun _ =>
    okGotoB_ite _ (c > 57) _ _ (fun _ =>
      okGotoB_ite _ (c > 90) _ _ (fun _ =>
        okGotoB_ite _ (97 ≤ c ∧ c ≤ 122) _ _ (fun _ => by decide) (fun _ => by decide)) (fun _ =>
      okGotoB_ite _ (c ≥ 65) _ _ (fun _ => by decide) (fun _ => by decide))) (fun _ =>
    by decide)))))))))))))

theorem step_114 (c : Nat) : okGoto (facts 114) c (st_case 114 c) = true := by
  have e : st_case 114 c = st_case_114 c := rfl
  rw [e]
  refine okGoto_of_cases (facts 114) st_case_114 (by decide) (by decide) (by decide) ?_ c
  intro c _ _ _
  unfold st_case_114
  exact okGotoB_ite _ (c = 33) _ _ (fun _ => by decide) (fun _ =>
    okGotoB_ite _ (c = 37) _ _ (fun _ => by decide) (fun _ =>
    okGotoB_ite _ (c = 45) _ _ (fun _ => by decide) (fun _ =>
    okGotoB_ite _ (c = 46) _ _ (fun _ => by decide) (fun _ =>
    okGotoB_ite _ (c = 58) _ _ (fun _ => by decide) (fun _ =>
    okGotoB_ite _ (c = 59) _ _ (fun _ => by exfalso; omega) (fun _ =>
    okGotoB_ite _ (c = 61) _ _ (fun _ => by decide) (fun _ =>
    okGotoB_ite _ (c = 63) _ _ (fun _ => by exfalso; omega) (fun _ =>
    okGotoB_ite _ (c = 64) _ _ (fun _ => by exfalso; omega) (fun _ =>
    okGotoB_ite _ (c = 95) _ _ (fun _ => by decide) (fun _ =>
    okGotoB_ite _ (c = 126) _ _ (fun _ => by decide) (fun _ =>
    okGotoB_ite _ (c < 48) _ _ (fun _ =>
      okGotoB_ite _ (36 ≤ c ∧ c ≤ 47) _ _ (fun _ => by decide) (fun _ => by decide)) (fun _ =>
    okGotoB_ite _ (c > 57) _ _ (fun _ =>
      okGotoB_ite _ (c > 90) _ _ (fun _ =>
        okGotoB_ite _ (97 ≤ c ∧ c ≤ 122) _ _ (fun _ => by decide) (fun _ => by decide)) (fun _ =>
      okGotoB_ite _ (c ≥ 65) _ _ (fun _ => by decide) (fun _ => by decide))) (fun _ =>
    by decide)))))))))))))

theorem step_115 (c : Nat) : okGoto (facts 115) c (st_case 115 c) = true := by
  have e : st_case 115 c = st_case_115 c := rfl
  rw [e]
  refine okGoto_of_cases (facts 115) st_case_115 (by decide) (by decide) (by decide) ?_ c
  intro c _ _ _
  unfold st_case_115
  exact okGotoB_ite _ (c = 33) _ _ (fun _ => by decide) (fun _ =>
    okGotoB_ite _ (c = 37) _ _ (fun _ => by decide) (fun _ =>
    okGotoB_ite _ (c = 45) _ _ (fun _ => by decide) (fun _ =>
    okGotoB_ite _ (c = 46) _ _ (fun _ => by decide) (fun _ =>
    okGotoB_ite _ (c = 58) _ _ (fun _ => by decide) (fun _ =>
    okGotoB_ite _ (c = 59) _ _ (fun _ => by exfalso; omega) (fun _ =>
    okGotoB_ite _ (c = 61) _ _ (fun _ => by decide) (fun _ =>
    okGotoB_ite _ (c = 63) _ _ (fun _ => by exfalso; omega) (fun _ =>
    okGotoB_ite _ (c = 64) _ _ (fun _ => by exfalso; omega) (fun _ =>
    okGotoB_ite _ (c = 95) _ _ (fun _ => by decide) (fun _ =>
    okGotoB_ite _ (c = 126) _ _ (fun _ => by decide) (fun _ =>
    okGotoB_ite _ (c < 48) _ _ (fun _ =>
      okGotoB_ite _ (36 ≤ c ∧ c ≤ 47) _ _ (fun _ => by decide) (fun _ => by decide)) (fun _ =>
    okGotoB_ite _ (c > 57) _ _ (fun _ =>
      okGotoB_ite _ (c > 90) _ _ (fun _ =>
        okGotoB_ite _ (97 ≤ c ∧ c ≤ 122) _ _ (fun _ => by decide) (fun _ => by decide)) (fun _ =>
      okGotoB_ite _ (c ≥ 65) _ _ (fun _ => by decide) (fun _ => by decide))) (fun _ =>
    by decide)))))))))))))

theorem step_116 (c : Nat) : okGoto (facts 116) c (st_case 116 c) = true := by
  have e : st_case 116 c = st_case_116 c := rfl
  rw [e]
  refine okGoto_of_cases (facts 116) st_case_116 (by decide) (by decide) (by decide) ?_ c
  intro c _ _ _
  unfold st_case_116
  exact okGotoB_ite _ (c = 33) _ _ (fun _ => by decide) (fun _ =>
    okGotoB_ite _ (c = 37) _ _ (fun _ => by decide) (fun _ =>
    okGotoB_ite _ (c = 45) _ _ (fun _ => by decide) (fun _ =>
    okGotoB_ite _ (c = 46) _ _ (fun _ => by decide) (fun _ =>
    okGotoB_ite _ (c = 58) _ _ (fun _ => by decide) (fun _ =>
    okGotoB_ite _ (c = 59) _ _ (fun _ => by exfalso; omega) (fun _ =>
    okGotoB_ite _ (c = 61) _ _ (fun _ => by decide) (fun _ =>
    okGotoB_ite _ (c = 63) _ _ (fun _ => by exfalso; omega) (fun _ =>
    okGotoB_ite _ (c = 64) _ _ (fun _ => by exfalso; omega) (fun _ =>
    okGotoB_ite _ (c = 95) _ _ (fun _ => by decide) (fun _ =>
    okGotoB_ite _ (c = 126) _ _ (fun _ => by decide) (fun _ =>
    okGotoB_ite _ (c < 48) _ _ (fun _ =>
      okGotoB_ite _ (36 ≤ c ∧ c ≤ 47) _ _ (fun _ => by decide) (fun _ => by decide)) (fun _ =>
    okGotoB_ite _ (c > 57) _ _ (fun _ =>
      okGotoB_ite _ (c > 90) _ _ (fun _ =>
        okGotoB_ite _ (97 ≤ c ∧ c ≤ 122) _ _ (fun _ => by decide) (fun _ => by decide)) (fun _ =>
      okGotoB_ite _ (c ≥ 65) _ _ (fun _ => by decide) (fun _ => by decide))) (fun _ =>
    by decide)))))))))))))

theorem step_117 (c : Nat) : okGoto (facts 117) c (st_case 117 c) = true := by
  have e : st_case 117 c = st_case_117 c := rfl
  rw [e]
  refine okGoto_of_cases (facts 117) st_case_117 (by decide) (by decide) (by decide) ?_ c
  intro c _ _ _
  unfold st_case_117
  exact okGotoB_ite _ (c = 33) _ _ (fun _ => by decide) (fun _ =>
    okGotoB_ite _ (c = 37) _ _ (fun _ => by decide) (fun _ =>
    okGotoB_ite _ (c = 45) _ _ (fun _ => by decide) (fun _ =>
    okGotoB_ite _ (c = 46) _ _ (fun _ => by decide) (fun _ =>
    okGotoB_ite _ (c = 58) _ _ (fun _ => by decide) (fun _ =>
    okGotoB_ite _ (c = 59) _ _ (fun _ => by exfalso; omega) (fun _ =>
    okGotoB_ite _ (c = 61) _ _ (fun _ => by decide) (fun _ =>
    okGotoB_ite _ (c = 63) _ _ (fun _ => by exfalso; omega) (fun _ =>
    okGotoB_ite _ (c = 64) _ _ (fun _ => by exfalso; omega) (fun _ =>
    okGotoB_ite _ (c = 95) _ _ (fun _ => by decide) (fun _ =>
    okGotoB_ite _ (c = 126) _ _ (fun _ => by decide) (fun _ =>
    okGotoB_ite _ (c < 48) _ _ (fun _ =>
      okGotoB_ite _ (36 ≤ c ∧ c ≤ 47) _ _ (fun _ => by decide) (fun _ => by decide)) (fun _ =>
    okGotoB_ite _ (c > 57) _ _ (fun _ =>
      okGotoB_ite _ (c > 90) _ _ (fun _ =>
        okGotoB_ite _ (97 ≤ c ∧ c ≤ 122) _ _ (fun _ => by decide) (fun _ => by decide)) (fun _ =>
      okGotoB_ite _ (c ≥ 65) _ _ (fun _ => by decide) (fun _ => by decide))) (fun _ =>
    by decide)))))))))))))

theorem step_118 (c : Nat) : okGoto (facts 118) c (st_case 118 c) = true := by
  have e : st_case 118 c = st_case_118 c := rfl
  rw [e]
  refine okGoto_of_cases (facts 118) st_case_118 (by decide) (by decide) (by decide) ?_ c
  intro c _ _ _
  unfold st_case_118
  exact okGotoB_ite _ (c = 33) _ _ (fun _ => by decide) (fun _ =>
    okGotoB_ite _ (c = 37) _ _ (fun _ => by decide) (fun _ =>
    okGotoB_ite _ (c = 45) _ _ (fun _ => by decide) (fun _ =>
    okGotoB_ite _ (c = 46) _ _ (fun _ => by decide) (fun _ =>
    okGotoB_ite _ (c = 58) _ _ (fun _ => by decide) (fun _ =>
    okGotoB_ite _ (c = 59) _ _ (fun _ => by exfalso; omega) (fun _ =>
    okGotoB_ite _ (c = 61) _ _ (fun _ => by decide) (fun _ =>
    okGotoB_ite _ (c = 63) _ _ (fun _ => by exfalso; omega) (fun _ =>
    okGotoB_ite _ (c = 64) _ _ (fun _ => by exfalso; omega) (fun _ =>
    okGotoB_ite _ (c = 95) _ _ (fun _ => by decide) (fun _ =>
    okGotoB_ite _ (c = 126) _ _ (fun _ => by decide) (fun _ =>
    okGotoB_ite _ (c < 48) _ _ (fun _ =>
      okGotoB_ite _ (36 ≤ c ∧ c ≤ 47) _ _ (fun _ => by decide) (fun _ => by decide)) (fun _ =>
    okGotoB_ite _ (c > 57) _ _ (fun _ =>
      okGotoB_ite _ (c > 90) _ _ (fun _ =>
        okGotoB_ite _ (97 ≤ c ∧ c ≤ 122) _ _ (fun _ => by decide) (fun _ => by decide)) (fun _ =>
      okGotoB_ite _ (c ≥ 65) _ _ (fun _ => by decide) (fun _ => by decide))) (fun _ =>
    by decide)))))))))))))

theorem step_119 (c : Nat) : okGoto (facts 119) c (st_case 119 c) = true := by
  have e : st_case 119 c = st_case_119 c := rfl
  rw [e]
  refine okGoto_of_cases (facts 119) st_case_119 (by decide) (by decide) (by decide) ?_ c
  intro c _ _ _
  unfold st_case_119
  exact okGotoB_ite _ (c = 58) _ _ (fun _ => by decide) (fun _ => by decide)

theorem step_120 (c : Nat) : okGoto (facts 120) c (st_case 120 c) = true := by
  have e : st_case 120 c = st_case_120 c := rfl
  rw [e]
  refine okGoto_of_cases (facts 120) st_case_120 (by decide) (by decide) (by decide) ?_ c
  intro c _ _ _
  unfold st_case_120
  exact okGotoB_ite _ (c = 45) _ _ (fun _ => by decide) (fun _ =>
    okGotoB_ite _ (c = 46) _ _ (fun _ => by decide) (fun _ =>
    okGotoB_ite _ (c = 58) _ _ (fun _ => by decide) (fun _ =>
    okGotoB_ite _ (c = 59) _ _ (fun _ => by exfalso; omega) (fun _ =>
    okGotoB_ite _ (c = 63) _ _ (fun _ => by exfalso; omega) (fun _ =>
    okGotoB_ite _ (c < 65) _ _ (fun _ =>
      okGotoB_ite _ (48 ≤ c ∧ c ≤ 57) _ _ (fun _ => by decide) (fun _ => by decide)) (fun _ =>
    okGotoB_ite _ (c > 90) _ _ (fun _ =>
      okGotoB_ite _ (97 ≤ c ∧ c ≤ 122) _ _ (fun _ => by decide) (fun _ => by decide)) (fun _ =>
    by decide)))))))

theorem step_121 (c : Nat) : okGoto (facts 121) c (st_case 121 c) = true := by
  have e : st_case 121 c = st_case_121 c := rfl
  rw [e]
  refine okGoto_of_cases (facts 121) st_case_121 (by decide) (by decide) (by decide) ?_ c
  intro c _ _ _
  unfold st_case_121
  exact okGotoB_ite _ (c = 58) _ _ (fun _ => by decide) (fun _ =>
    okGotoB_ite _ (c = 59) _ _ (fun _ => by exfalso; omega) (fun _ =>
    okGotoB_ite _ (c = 63) _ _ (fun _ => by exfalso; omega) (fun _ =>
    okGotoB_ite _ (c < 65) _ _ (fun _ =>
      okGotoB_ite _ (48 ≤ c ∧ c ≤ 57) _ _ (fun _ => by decide) (fun _ => by decide)) (fun _ =>
    okGotoB_ite _ (c > 90) _ _ (fun _ =>
      okGotoB_ite _ (97 ≤ c ∧ c ≤ 122) _ _ (fun _ => by decide) (fun _ => by decide)) (fun _ =>
    by decide)))))

theorem step_122 (c : Nat) : okGoto (facts 122) c (st_case 122 c) = true := by
  have e : st_case 122 c = st_case_122 c := rfl
  rw [e]
  refine okGoto_of_cases (facts 122) st_case_122 (by decide) (by decide) (by decide) ?_ c
  intro c _ _ _
  unfold st_case_122
  exact okGotoB_ite _ (c = 59) _ _ (fun _ => by exfalso; omega) (fun _ =>
    okGotoB_ite _ (c = 63) _ _ (fun _ => by exfalso; omega) (fun _ =>
    okGotoB_ite _ (48 ≤ c ∧ c ≤ 57) _ _ (fun _ => by decide) (fun _ => by decide)))

theorem step_123 (c : Nat) : okGoto (facts 123) c (st_case 123 c) = true := by
  have e : st_case 123 c = st_case_123 c := rfl
  rw [e]
  refine okGoto_of_cases (facts 123) st_case_123 (by decide) (by decide) (by decide) ?_ c
  intro c _ _ _
  unfold st_case_123
  exact okGotoB_ite _ (c = 59) _ _ (fun _ => by exfalso; omega) (fun _ =>
    okGotoB_ite _ (c = 63) _ _ (fun _ => by exfalso; omega) (fun _ =>
    okGotoB_ite _ (48 ≤ c ∧ c ≤ 57) _ _ (fun _ => by decide) (fun _ => by decide)))

theorem step_124 (c : Nat) : okGoto (facts 124) c (st_case 124 c) = true := by
  have e : st_case 124 c = st_case_124 c := rfl
  rw [e]
  refine okGoto_of_cases (facts 124) st_case_124 (by decide) (by decide) (by decide) ?_ c
  intro c _ _ _
  unfold st_case_124
  exact okGotoB_ite _ (c = 59) _ _ (fun _ => by exfalso; omega) (fun _ =>
    okGotoB_ite _ (c = 63) _ _ (fun _ => by exfalso; omega) (fun _ =>
    okGotoB_ite _ (48 ≤ c ∧ c ≤ 57) _ _ (fun _ => by decide) (fun _ => by decide)))

theorem step_125 (c : Nat) : okGoto (facts 125) c (st_case 125 c) = true := by
  have e : st_case 125 c = st_case_125 c := rfl
  rw [e]
  refine okGoto_of_cases (facts 125) st_case_125 (by decide) (by decide) (by decide) ?_ c
  intro c _ _ _
  unfold st_case_125
  exact okGotoB_ite _ (c = 59) _ _ (fun _ => by exfalso; omega) (fun _ =>
    okGotoB_ite _ (c = 63) _ _ (fun _ => by exfalso; omega) (fun _ =>
    okGotoB_ite _ (48 ≤ c ∧ c ≤ 57) _ _ (fun _ => by decide) (fun _ => by decide)))

theorem step_126 (c : Nat) : okGoto (facts 126) c (st_case 126 c) = true := by
  have e : st_case 126 c = st_case_126 c := rfl
  rw [e]
  refine okGoto_of_cases (facts 126) st_case_126 (by decide) (by decide) (by decide) ?_ c
  intro c _ _ _
  unfold st_case_126
  exact okGotoB_ite _ (c = 59) _ _ (fun _ => by exfalso; omega) (fun _ =>
    okGotoB_ite _ (c = 63) _ _ (fun _ => by exfalso; omega) (fun _ => by decide))

theorem step_127 (c : Nat) : okGoto (facts 127) c (st_case 127 c) = true := by
  have e : st_case 127 c = st_case_127 c := rfl
  rw [e]
  refine okGoto_of_cases (facts 127) st_case_127 (by decide) (by decide) (by decide) ?_ c
  intro c _ _ _
  unfold st_case_127
  exact okGotoB_ite _ (c = 33) _ _ (fun _ => by decide) (fun _ =>
    okGotoB_ite _ (c = 37) _ _ (fun _ => by decide) (fun _ =>
    okGotoB_ite _ (c = 59) _ _ (fun _ => by exfalso; omega) (fun _ =>
    okGotoB_ite _ (c = 61) _ _ (fun _ => by decide) (fun _ =>
    okGotoB_ite _ (c = 63) _ _ (fun _ => by exfalso; omega) (fun _ =>
    okGotoB_ite _ (c = 93) _ _ (fun _ => by decide) (fun _ =>
    okGotoB_ite _ (c = 95) _ _ (fun _ => by decide) (fun _ =>
    okGotoB_ite _ (c = 126) _ _ (fun _ => by decide) (fun _ =>
    okGotoB_ite _ (c < 45) _ _ (fun _ =>
      okGotoB_ite _ (36 ≤ c ∧ c ≤ 43) _ _ (fun _ => by decide) (fun _ => by decide)) (fun _ =>
    okGotoB_ite _ (c > 58) _ _ (fun _ =>
      okGotoB_ite _ (c > 91) _ _ (fun _ =>
        okGotoB_ite _ (97 ≤ c ∧ c ≤ 122) _ _ (fun _ => by decide) (fun _ => by decide)) (fun _ =>
      okGotoB_ite _ (c ≥ 65) _ _ (fun _ => by decide) (fun _ => by decide))) (fun _ =>
    by decide))))))))))

theorem step_128 (c : Nat) : okGoto (facts 128) c (st_case 128 c) = true := by
  have e : st_case 128 c = st_case_128 c := rfl
  rw [e]
  refine okGoto_of_cases (facts 128) st_case_128 (by decide) (by decide) (by decide) ?_ c
  intro c _ _ _
  unfold st_case_128
  exact okGotoB_ite _ (c = 33) _ _ (fun _ => by decide) (fun _ =>
    okGotoB_ite _ (c = 37) _ _ (fun _ => by decide) (fun _ =>
    okGotoB_ite _ (c = 59) _ _ (fun _ => by exfalso; omega) (fun _ =>
    okGotoB_ite _ (c = 63) _ _ (fun _ => by exfalso; omega) (fun _ =>
    okGotoB_ite _ (c = 93) _ _ (fun _ => by decide) (fun _ =>
    okGotoB_ite _ (c = 95) _ _ (fun _ => by decide) (fun _ =>
    okGotoB_ite _ (c = 126) _ _ (fun _ => by decide) (fun _ =>
    okGotoB_ite _ (c < 45) _ _ (fun _ =>
      okGotoB_ite _ (36 ≤ c ∧ c ≤ 43) _ _ (fun _ => by decide) (fun _ => by decide)) (fun _ =>
    okGotoB_ite _ (c > 58) _ _ (fun _ =>
      okGotoB_ite _ (c > 91) _ _ (fun _ =>
        okGotoB_ite _ (97 ≤ c ∧ c ≤ 122) _ _ (fun _ => by decide) (fun _ => by decide)) (fun _ =>
      okGotoB_ite _ (c ≥ 65) _ _ (fun _ => by decide) (fun _ => by decide))) (fun _ =>
    by decide)))))))))

theorem step_129 (c : Nat) : okGoto (facts 129) c (st_case 129 c) = true := by
  have e : st_case 129 c = st_case_129 c := rfl
  rw [e]
  refine okGoto_of_cases (facts 129) st_case_129 (by decide) (by decide) (by decide) ?_ c
  intro c _ _ _
  unfold st_case_129
  exact okGotoB_ite _ (c = 33) _ _ (fun _ => by decide) (fun _ =>
    okGotoB_ite _ (c = 37) _ _ (fun _ => by decide) (fun _ =>
    okGotoB_ite _ (c = 38) _ _ (fun _ => by decide) (fun _ =>
    okGotoB_ite _ (c = 63) _ _ (fun _ => by exfalso; omega) (fun _ =>
    okGotoB_ite _ (c = 93) _ _ (fun _ => by decide) (fun _ =>
    okGotoB_ite _ (c = 95) _ _ (fun _ => by decide) (fun _ =>
    okGotoB_ite _ (c = 126) _ _ (fun _ => by decide) (fun _ =>
    okGotoB_ite _ (c < 45) _ _ (fun _ =>
      okGotoB_ite _ (36 ≤ c ∧ c ≤ 43) _ _ (fun _ => by decide) (fun _ => by decide)) (fun _ =>
    okGotoB_ite _ (c > 58) _ _ (fun _ =>
      okGotoB_ite _ (c > 91) _ _ (fun _ =>
        okGotoB_ite _ (97 ≤ c ∧ c ≤ 122) _ _ (fun _ => by decide) (fun _ => by decide)) (fun _ =>
      okGotoB_ite _ (c ≥ 65) _ _ (fun _ => by decide) (fun _ => by decide))) (fun _ =>
    by decide)))))))))

theorem step_130 (c : Nat) : okGoto (facts 130) c (st_case 130 c) = true := by
  have e : st_case 130 c = st_case_130 c := rfl
  rw [e]
  refine okGoto_of_cases (facts 130) st_case_130 (by decide) (by decide) (by decide) ?_ c
  intro c _ _ _
  unfold st_case_130
  exact okGotoB_ite _ (c = 45) _ _ (fun _ => by decide) (fun _ =>
    okGotoB_ite _ (c = 46) _ _ (fun _ => by decide) (fun _ =>
    okGotoB_ite _ (c = 58) _ _ (fun _ => by decide) (fun _ =>
    okGotoB_ite _ (c = 59) _ _ (fun _ => by exfalso; omega) (fun _ =>
    okGotoB_ite _ (c = 63) _ _ (fun _ => by exfalso; omega) (fun _ =>
    okGotoB_ite _ (c < 65) _ _ (fun _ =>
      okGotoB_ite _ (48 ≤ c ∧ c ≤ 57) _ _ (fun _ => by decide) (fun _ => by decide)) (fun _ =>
    okGotoB_ite _ (c > 90) _ _ (fun _ =>
      okGotoB_ite _ (97 ≤ c ∧ c ≤ 122) _ _ (fun _ => by decide) (fun _ => by decide)) (fun _ =>
    by decide)))))))

theorem step_131 (c : Nat) : okGoto (facts 131) c (st_case 131 c) = true := by
  have e : st_case 131 c = st_case_131 c := rfl
  rw [e]
  refine okGoto_of_cases (facts 131) st_case_131 (by decide) (by decide) (by decide) ?_ c
  intro c _ _ _
  unfold st_case_131
  exact okGotoB_ite _ (c = 45) _ _ (fun _ => by decide) (fun _ =>
    okGotoB_ite _ (c = 46) _ _ (fun _ => by decide) (fun _ =>
    okGotoB_ite _ (c = 58) _ _ (fun _ => by decide) (fun _ =>
    okGotoB_ite _ (c = 59) _ _ (fun _ => by exfalso; omega) (fun _ =>
    okGotoB_ite _ (c = 63) _ _ (fun _ => by exfalso; omega) (fun _ =>
    okGotoB_ite _ (c < 65) _ _ (fun _ =>
      okGotoB_ite _ (48 ≤ c ∧ c ≤ 57) _ _ (fun _ => by decide) (fun _ => by decide)) (fun _ =>
    okGotoB_ite _ (c > 90) _ _ (fun _ =>
      okGotoB_ite _ (97 ≤ c ∧ c ≤ 122) _ _ (fun _ => by decide) (fun _ => by decide)) (fun _ =>
    by decide)))))))

theorem step_132 (c : Nat) : okGoto (facts 132) c (st_case 132 c) = true := by
  have e : st_case 132 c = st_case_132 c := rfl
  rw [e]
  refine okGoto_of_cases (facts 132) st_case_132 (by decide) (by decide) (by decide) ?_ c
  intro c _ _ _
  unfold st_case_132
  exact okGotoB_ite _ (c = 45) _ _ (fun _ => by decide) (fun _ =>
    okGotoB_ite _ (c = 46) _ _ (fun _ => by decide) (fun _ =>
    okGotoB_ite _ (c = 58) _ _ (fun _ => by decide) (fun _ =>
    okGotoB_ite _ (c = 59) _ _ (fun _ => by exfalso; omega) (fun _ =>
    okGotoB_ite _ (c = 63) _ _ (fun _ => by exfalso; omega) (fun _ =>
    okGotoB_ite _ (c < 65) _ _ (fun _ =>
      okGotoB_ite _ (48 ≤ c ∧ c ≤ 57) _ _ (fun _ => by decide) (fun _ => by decide)) (fun _ =>
    okGotoB_ite _ (c > 90) _ _ (fun _ =>
      okGotoB_ite _ (97 ≤ c ∧ c ≤ 122) _ _ (fun _ => by decide) (fun _ => by decide)) (fun _ =>
    by decide)))))))

theorem step_133 (c : Nat) : okGoto (facts 133) c (st_case 133 c) = true := by
  have e : st_case 133 c = st_case_133 c := rfl
  rw [e]
  refine okGoto_of_cases (facts 133) st_case_133 (by decide) (by decide) (by decide) ?_ c
  intro c _ _ _
  unfold st_case_133
  exact okGotoB_ite _ (c = 58) _ _ (fun _ => by decide) (fun _ =>
    okGotoB_ite _ (c = 59) _ _ (fun _ => by exfalso; omega) (fun _ =>
    okGotoB_ite _ (c = 63) _ _ (fun _ => by exfalso; omega) (fun _ => by decide)))

theorem step_134 (c : Nat) : okGoto (facts 134) c (st_case 134 c) = true := by
  have e : st_case 134 c = st_case_134 c := rfl
  rw [e]
  refine okGoto_of_cases (facts 134) st_case_134 (by decide) (by decide) (by decide) ?_ c
  intro c _ _ _
  unfold st_case_134
  exact okGotoB_ite _ (c = 33) _ _ (fun _ => by decide) (fun _ =>
    okGotoB_ite _ (c = 37) _ _ (fun _ => by decide) (fun _ =>
    okGotoB_ite _ (c = 45) _ _ (fun _ => by decide) (fun _ =>
    okGotoB_ite _ (c = 46) _ _ (fun _ => by decide) (fun _ =>
    okGotoB_ite _ (c = 58) _ _ (fun _ => by decide) (fun _ =>
    okGotoB_ite _ (c = 59) _ _ (fun _ => by exfalso; omega) (fun _ =>
    okGotoB_ite _ (c = 61) _ _ (fun _ => by decide) (fun _ =>
    okGotoB_ite _ (c = 63) _ _ (fun _ => by exfalso; omega) (fun _ =>
    okGotoB_ite _ (c = 64) _ _ (fun _ => by exfalso; omega) (fun _ =>
    okGotoB_ite _ (c = 95) _ _ (fun _ => by decide) (fun _ =>
    okGotoB_ite _ (c = 126) _ _ (fun _ => by decide) (fun _ =>
    okGotoB_ite _ (c < 48) _ _ (fun _ =>
      okGotoB_ite _ (36 ≤ c ∧ c ≤ 47) _ _ (fun _ => by decide) (fun _ => by decide)) (fun _ =>
    okGotoB_ite _ (c > 57) _ _ (fun _ =>
      okGotoB_ite _ (c > 90) _ _ (fun _ =>
        okGotoB_ite _ (97 ≤ c ∧ c ≤ 122) _ _ (fun _ => by decide) (fun _ => by decide)) (fun _ =>
      okGotoB_ite _ (c ≥ 65) _ _ (fun _ => by decide) (fun _ => by decide))) (fun _ =>
    by decide)))))))))))))

theorem step_135 (c : Nat) : okGoto (facts 135) c (st_case 135 c) = true := by
  have e : st_case 135 c = st_case_135 c := rfl
  rw [e]
  refine okGoto_of_cases (facts 135) st_case_135 (by decide) (by decide) (by decide) ?_ c
  intro c _ _ _
  unfold st_case_135
  exact okGotoB_ite _ (c = 33) _ _ (fun _ => by decide) (fun _ =>
    okGotoB_ite _ (c = 37) _ _ (fun _ => by decide) (fun _ =>
    okGotoB_ite _ (c = 58) _ _ (fun _ => by decide) (fun _ =>
    okGotoB_ite _ (c = 59) _ _ (fun _ => by exfalso; omega) (fun _ =>
    okGotoB_ite _ (c = 61) _ _ (fun _ => by decide) (fun _ =>
    okGotoB_ite _ (c = 63) _ _ (fun _ => by exfalso; omega) (fun _ =>
    okGotoB_ite _ (c = 64) _ _ (fun _ => by exfalso; omega) (fun _ =>
    okGotoB_ite _ (c = 95) _ _ (fun _ => by decide) (fun _ =>
    okGotoB_ite _ (c = 126) _ _ (fun _ => by decide) (fun _ =>
    okGotoB_ite _ (c < 48) _ _ (fun _ =>
      okGotoB_ite _ (36 ≤ c ∧ c ≤ 47) _ _ (fun _ => by decide) (fun _ => by decide)) (fun _ =>
    okGotoB_ite _ (c > 57) _ _ (fun _ =>
      okGotoB_ite _ (c > 90) _ _ (fun _ =>
        okGotoB_ite _ (97 ≤ c ∧ c ≤ 122) _ _ (fun _ => by decide) (fun _ => by decide)) (fun _ =>
      okGotoB_ite _ (c ≥ 65) _ _ (fun _ => by decide) (fun _ => by decide))) (fun _ =>
    by decide)))))))))))

theorem step_136 (c : Nat) : okGoto (facts 136) c (st_case 136 c) = true := by
  have e : st_case 136 c = st_case_136 c := rfl
  rw [e]
  refine okGoto_of_cases (facts 136) st_case_136 (by decide) (by decide) (by decide) ?_ c
  intro c _ _ _
  unfold st_case_136
  exact okGotoB_ite _ (c = 33) _ _ (fun _ => by decide) (fun _ =>
    okGotoB_ite _ (c = 37) _ _ (fun _ => by decide) (fun _ =>
    okGotoB_ite _ (c = 59) _ _ (fun _ => by exfalso; omega) (fun _ =>
    okGotoB_ite _ (c = 61) _ _ (fun _ => by decide) (fun _ =>
    okGotoB_ite _ (c = 63) _ _ (fun _ => by exfalso; omega) (fun _ =>
    okGotoB_ite _ (c = 64) _ _ (fun _ => by exfalso; omega) (fun _ =>
    okGotoB_ite _ (c = 95) _ _ (fun _ => by decide) (fun _ =>
    okGotoB_ite _ (c = 126) _ _ (fun _ => by decide) (fun _ =>
    okGotoB_ite _ (c < 48) _ _ (fun _ =>
      okGotoB_ite _ (36 ≤ c ∧ c ≤ 46) _ _ (fun _ => by decide) (fun _ => by decide)) (fun _ =>
    okGotoB_ite _ (c > 57) _ _ (fun _ =>
      okGotoB_ite _ (c > 90) _ _ (fun _ =>
        okGotoB_ite _ (97 ≤ c ∧ c ≤ 122) _ _ (fun _ => by decide) (fun _ => by decide)) (fun _ =>
      okGotoB_ite _ (c ≥ 65) _ _ (fun _ => by decide) (fun _ => by decide))) (fun _ =>
    by decide))))))))))

theorem step_137 (c : Nat) : okGoto (facts 137) c (st_case 137 c) = true := by
  have e : st_case 137 c = st_case_137 c := rfl
  rw [e]
  refine okGoto_of_cases (facts 137) st_case_137 (by decide) (by decide) (by decide) ?_ c
  intro c _ _ _
  unfold st_case_137
  exact okGotoB_ite _ (c = 33) _ _ (fun _ => by decide) (fun _ =>
    okGotoB_ite _ (c = 37) _ _ (fun _ => by decide) (fun _ =>
    okGotoB_ite _ (c = 59) _ _ (fun _ => by exfalso; omega) (fun _ =>
    okGotoB_ite _ (c = 61) _ _ (fun _ => by decide) (fun _ =>
    okGotoB_ite _ (c = 63) _ _ (fun _ => by exfalso; omega) (fun _ =>
    okGotoB_ite _ (c = 64) _ _ (fun _ => by exfalso; omega) (fun _ =>
    okGotoB_ite _ (c = 95) _ _ (fun _ => by decide) (fun _ =>
    okGotoB_ite _ (c = 126) _ _ (fun _ => by decide) (fun _ =>
    okGotoB_ite _ (c < 48) _ _ (fun _ =>
      okGotoB_ite _ (36 ≤ c ∧ c ≤ 46) _ _ (fun _ => by decide) (fun _ => by decide)) (fun _ =>
    okGotoB_ite _ (c > 57) _ _ (fun _ =>
      okGotoB_ite _ (c > 90) _ _ (fun _ =>
        okGotoB_ite _ (97 ≤ c ∧ c ≤ 122) _ _ (fun _ => by decide) (fun _ => by decide)) (fun _ =>
      okGotoB_ite _ (c ≥ 65) _ _ (fun _ => by decide) (fun _ => by decide))) (fun _ =>
    by decide))))))))))

theorem step_138 (c : Nat) : okGoto (facts 138) c (st_case 138 c) = true := by
  have e : st_case 138 c = st_case_138 c := rfl
  rw [e]
  refine okGoto_of_cases (facts 138) st_case_138 (by decide) (by decide) (by decide) ?_ c
  intro c _ _ _
  unfold st_case_138
  exact okGotoB_ite _ (c = 33) _ _ (fun _ => by decide) (fun _ =>
    okGotoB_ite _ (c = 37) _ _ (fun _ => by decide) (fun _ =>
    okGotoB_ite _ (c = 59) _ _ (fun _ => by exfalso; omega) (fun _ =>
    okGotoB_ite _ (c = 61) _ _ (fun _ => by decide) (fun _ =>
    okGotoB_ite _ (c = 63) _ _ (fun _ => by exfalso; omega) (fun _ =>
    okGotoB_ite _ (c = 64) _ _ (fun _ => by exfalso; omega) (fun _ =>
    okGotoB_ite _ (c = 95) _ _ (fun _ => by decide) (fun _ =>
    okGotoB_ite _ (c = 126) _ _ (fun _ => by decide) (fun _ =>
    okGotoB_ite _ (c < 48) _ _ (fun _ =>
      okGotoB_ite _ (36 ≤ c ∧ c ≤ 46) _ _ (fun _ => by decide) (fun _ => by decide)) (fun _ =>
    okGotoB_ite _ (c > 57) _ _ (fun _ =>
      okGotoB_ite _ (c > 90) _ _ (fun _ =>
        okGotoB_ite _ (97 ≤ c ∧ c ≤ 122) _ _ (fun _ => by decide) (fun _ => by decide)) (fun _ =>
      okGotoB_ite _ (c ≥ 65) _ _ (fun _ => by decide) (fun _ => by decide))) (fun _ =>
    by decide))))))))))

theorem step_139 (c : Nat) : okGoto (facts 139) c (st_case 139 c) = true := by
  have e : st_case 139 c = st_case_139 c := rfl
  rw [e]
  refine okGoto_of_cases (facts 139) st_case_139 (by decide) (by decide) (by decide) ?_ c
  intro c _ _ _
  unfold st_case_139
  exact okGotoB_ite _ (c = 33) _ _ (fun _ => by decide) (fun _ =>
    okGotoB_ite _ (c = 37) _ _ (fun _ => by decide) (fun _ =>
    okGotoB_ite _ (c = 59) _ _ (fun _ => by exfalso; omega) (fun _ =>
    okGotoB_ite _ (c = 61) _ _ (fun _ => by decide) (fun _ =>
    okGotoB_ite _ (c = 63) _ _ (fun _ => by exfalso; omega) (fun _ =>
    okGotoB_ite _ (c = 64) _ _ (fun _ => by exfalso; omega) (fun _ =>
    okGotoB_ite _ (c = 95) _ _ (fun _ => by decide) (fun _ =>
    okGotoB_ite _ (c = 126) _ _ (fun _ => by decide) (fun _ =>
    okGotoB_ite _ (c < 48) _ _ (fun _ =>
      okGotoB_ite _ (36 ≤ c ∧ c ≤ 46) _ _ (fun _ => by decide) (fun _ => by decide)) (fun _ =>
    okGotoB_ite _ (c > 57) _ _ (fun _ =>
      okGotoB_ite _ (c > 90) _ _ (fun _ =>
        okGotoB_ite _ (97 ≤ c ∧ c ≤ 122) _ _ (fun _ => by decide) (fun _ => by decide)) (fun _ =>
      okGotoB_ite _ (c ≥ 65) _ _ (fun _ => by decide) (fun _ => by decide))) (fun _ =>
    by decide))))))))))

theorem step_140 (c : Nat) : okGoto (facts 140) c (st_case 140 c) = true := by
  have e : st_case 140 c = st_case_140 c := rfl
  rw [e]
  refine okGoto_of_cases (facts 140) st_case_140 (by decide) (by decide) (by decide) ?_ c
  intro c _ _ _
  unfold st_case_140
  exact okGotoB_ite _ (c = 33) _ _ (fun _ => by decide) (fun _ =>
    okGotoB_ite _ (c = 37) _ _ (fun _ => by decide) (fun _ =>
    okGotoB_ite _ (c = 59) _ _ (fun _ => by exfalso; omega) (fun _ =>
    okGotoB_ite _ (c = 61) _ _ (fun _ => by decide) (fun _ =>
    okGotoB_ite _ (c = 63) _ _ (fun _ => by exfalso; omega) (fun _ =>
    okGotoB_ite _ (c = 64) _ _ (fun _ => by exfalso; omega) (fun _ =>
    okGotoB_ite _ (c = 95) _ _ (fun _ => by decide) (fun _ =>
    okGotoB_ite _ (c = 126) _ _ (fun _ => by decide) (fun _ =>
    okGotoB_ite _ (c < 48) _ _ (fun _ =>
      okGotoB_ite _ (36 ≤ c ∧ c ≤ 46) _ _ (fun _ => by decide) (fun _ => by decide)) (fun _ =>
    okGotoB_ite _ (c > 57) _ _ (fun _ =>
      okGotoB_ite _ (c > 90) _ _ (fun _ =>
        okGotoB_ite _ (97 ≤ c ∧ c ≤ 122) _ _ (fun _ => by decide) (fun _ => by decide)) (fun _ =>
      okGotoB_ite _ (c ≥ 65) _ _ (fun _ => by decide) (fun _ => by decide))) (fun _ =>
    by decide))))))))))

theorem step_141 (c : Nat) : okGoto (facts 141) c (st_case 141 c) = true := by
  have e : st_case 141 c = st_case_141 c := rfl
  rw [e]
  refine okGoto_of_cases (facts 141) st_case_141 (by decide) (by decide) (by decide) ?_ c
  intro c _ _ _
  unfold st_case_141
  exact okGotoB_ite _ (c = 33) _ _ (fun _ => by decide) (fun _ =>
    okGotoB_ite _ (c = 37) _ _ (fun _ => by decide) (fun _ =>
    okGotoB_ite _ (c = 44) _ _ (fun _ => by decide) (fun _ =>
    okGotoB_ite _ (c = 58) _ _ (fun _ => by decide) (fun _ =>
    okGotoB_ite _ (c = 59) _ _ (fun _ => by exfalso; omega) (fun _ =>
    okGotoB_ite _ (c = 61) _ _ (fun _ => by decide) (fun _ =>
    okGotoB_ite _ (c = 63) _ _ (fun _ => by exfalso; omega) (fun _ =>
    okGotoB_ite _ (c = 64) _ _ (fun _ => by exfalso; omega) (fun _ =>
    okGotoB_ite _ (c = 91) _ _ (fun _ => by decide) (fun _ =>
    okGotoB_ite _ (c = 93) _ _ (fun _ => by decide) (fun _ =>
    okGotoB_ite _ (c = 95) _ _ (fun _ => by decide) (fun _ =>
    okGotoB_ite _ (c = 126) _ _ (fun _ => by decide) (fun _ =>
    okGotoB_ite _ (c < 65) _ _ (fun _ =>
      okGotoB_ite _ (36 ≤ c ∧ c ≤ 57) _ _ (fun _ => by decide) (fun _ => by decide)) (fun _ =>
    okGotoB_ite _ (c > 90) _ _ (fun _ =>
      okGotoB_ite _ (97 ≤ c ∧ c ≤ 122) _ _ (fun _ => by decide) (fun _ => by decide)) (fun _ =>
    by decide))))))))))))))

theorem step_142 (c : Nat) : okGoto (facts 142) c (st_case 142 c) = true := by
  have e : st_case 142 c = st_case_142 c := rfl
  rw [e]
  refine okGoto_of_cases (facts 142) st_case_142 (by decide) (by decide) (by decide) ?_ c
  intro c _ _ _
  unfold st_case_142
  exact okGotoB_ite _ (c = 33) _ _ (fun _ => by decide) (fun _ =>
    okGotoB_ite _ (c = 37) _ _ (fun _ => by decide) (fun _ =>
    okGotoB_ite _ (c = 44) _ _ (fun _ => by decide) (fun _ =>
    okGotoB_ite _ (c = 47) _ _ (fun _ => by decide) (fun _ =>
    okGotoB_ite _ (c = 58) _ _ (fun _ => by decide) (fun _ =>
    okGotoB_ite _ (c = 59) _ _ (fun _ => by exfalso; omega) (fun _ =>
    okGotoB_ite _ (c = 61) _ _ (fun _ => by decide) (fun _ =>
    okGotoB_ite _ (c = 63) _ _ (fun _ => by exfalso; omega) (fun _ =>
    okGotoB_ite _ (c = 64) _ _ (fun _ => by exfalso; omega) (fun _ =>
    okGotoB_ite _ (c = 91) _ _ (fun _ => by decide) (fun _ =>
    okGotoB_ite _ (c = 93) _ _ (fun _ => by decide) (fun _ =>
    okGotoB_ite _ (c = 95) _ _ (fun _ => by decide) (fun _ =>
    okGotoB_ite _ (c = 126) _ _ (fun _ => by decide) (fun _ =>
    okGotoB_ite _ (c < 65) _ _ (fun _ =>
      okGotoB_ite _ (36 ≤ c ∧ c ≤ 57) _ _ (fun _ => by decide) (fun _ => by decide)) (fun _ =>
    okGotoB_ite _ (c > 90) _ _ (fun _ =>
      okGotoB_ite _ (97 ≤ c ∧ c ≤ 122) _ _ (fun _ => by decide) (fun _ => by decide)) (fun _ =>
    by decide)))))))))))))))

theorem step_143 (c : Nat) : okGoto (facts 143) c (st_case 143 c) = true := by
  have e : st_case 143 c = st_case_143 c := rfl
  rw [e]
  refine okGoto_of_cases (facts 143) st_case_143 (by decide) (by decide) (by decide) ?_ c
  intro c _ _ _
  unfold st_case_143
  exact okGotoB_ite _ (c = 33) _ _ (fun _ => by decide) (fun _ =>
    okGotoB_ite _ (c = 37) _ _ (fun _ => by decide) (fun _ =>
    okGotoB_ite _ (c = 44) _ _ (fun _ => by decide) (fun _ =>
    okGotoB_ite _ (c = 47) _ _ (fun _ => by decide) (fun _ =>
    okGotoB_ite _ (c = 58) _ _ (fun _ => by decide) (fun _ =>
    okGotoB_ite _ (c = 59) _ _ (fun _ => by exfalso; omega) (fun _ =>
    okGotoB_ite _ (c = 61) _ _ (fun _ => by decide) (fun _ =>
    okGotoB_ite _ (c = 63) _ _ (fun _ => by exfalso; omega) (fun _ =>
    okGotoB_ite _ (c = 64) _ _ (fun _ => by exfalso; omega) (fun _ =>
    okGotoB_ite _ (c = 91) _ _ (fun _ => by decide) (fun _ =>
    okGotoB_ite _ (c = 93) _ _ (fun _ => by decide) (fun _ =>
    okGotoB_ite _ (c = 95) _ _ (fun _ => by decide) (fun _ =>
    okGotoB_ite _ (c = 126) _ _ (fun _ => by decide) (fun _ =>
    okGotoB_ite _ (c < 65) _ _ (fun _ =>
      okGotoB_ite _ (36 ≤ c ∧ c ≤ 57) _ _ (fun _ => by decide) (fun _ => by decide)) (fun _ =>
    okGotoB_ite _ (c > 90) _ _ (fun _ =>
      okGotoB_ite _ (97 ≤ c ∧ c ≤ 122) _ _ (fun _ => by decide) (fun _ => by decide)) (fun _ =>
    by decide)))))))))))))))

theorem step_144 (c : Nat) : okGoto (facts 144) c (st_case 144 c) = true := by
  have e : st_case 144 c = st_case_144 c := rfl
  rw [e]
  refine okGoto_of_cases (facts 144) st_case_144 (by decide) (by decide) (by decide) ?_ c
  intro c _ _ _
  unfold st_case_144
  exact okGotoB_ite _ (c = 33) _ _ (fun _ => by decide) (fun _ =>
    okGotoB_ite _ (c = 37) _ _ (fun _ => by decide) (fun _ =>
    okGotoB_ite _ (c = 44) _ _ (fun _ => by decide) (fun _ =>
    okGotoB_ite _ (c = 58) _ _ (fun _ => by decide) (fun _ =>
    okGotoB_ite _ (c = 59) _ _ (fun _ => by exfalso; omega) (fun _ =>
    okGotoB_ite _ (c = 61) _ _ (fun _ => by decide) (fun _ =>
    okGotoB_ite _ (c = 63) _ _ (fun _ => by exfalso; omega) (fun _ =>
    okGotoB_ite _ (c = 64) _ _ (fun _ => by exfalso; omega) (fun _ =>
    okGotoB_ite _ (c = 91) _ _ (fun _ => by decide) (fun _ =>
    okGotoB_ite _ (c = 93) _ _ (fun _ => by decide) (fun _ =>
    okGotoB_ite _ (c = 95) _ _ (fun _ => by decide) (fun _ =>
    okGotoB_ite _ (c = 126) _ _ (fun _ => by decide) (fun _ =>
    okGotoB_ite _ (c < 65) _ _ (fun _ =>
      okGotoB_ite _ (36 ≤ c ∧ c ≤ 57) _ _ (fun _ => by decide) (fun _ => by decide)) (fun _ =>
    okGotoB_ite _ (c > 90) _ _ (fun _ =>
      okGotoB_ite _ (97 ≤ c ∧ c ≤ 122) _ _ (fun _ => by decide) (fun _ => by decide)) (fun _ =>
    by decide))))))))))))))

theorem step_145 (c : Nat) : okGoto (facts 145) c (st_case 145 c) = true := by
  have e : st_case 145 c = st_case_145 c := rfl
  rw [e]
  refine okGoto_of_cases (facts 145) st_case_145 (by decide) (by decide) (by decide) ?_ c
  intro c _ _ _
  unfold st_case_145
  exact okGotoB_ite _ (c = 33) _ _ (fun _ => by decide) (fun _ =>
    okGotoB_ite _ (c = 37) _ _ (fun _ => by decide) (fun _ =>
    okGotoB_ite _ (c = 38) _ _ (fun _ => by decide) (fun _ =>
    okGotoB_ite _ (c = 44) _ _ (fun _ => by decide) (fun _ =>
    okGotoB_ite _ (c = 47) _ _ (fun _ => by decide) (fun _ =>
    okGotoB_ite _ (c = 58) _ _ (fun _ => by decide) (fun _ =>
    okGotoB_ite _ (c = 61) _ _ (fun _ => by decide) (fun _ =>
    okGotoB_ite _ (c = 63) _ _ (fun _ => by exfalso; omega) (fun _ =>
    okGotoB_ite _ (c = 64) _ _ (fun _ => by exfalso; omega) (fun _ =>
    okGotoB_ite _ (c = 91) _ _ (fun _ => by decide) (fun _ =>
    okGotoB_ite _ (c = 93) _ _ (fun _ => by decide) (fun _ =>
    okGotoB_ite _ (c = 95) _ _ (fun _ => by decide) (fun _ =>
    okGotoB_ite _ (c = 126) _ _ (fun _ => by decide) (fun _ =>
    okGotoB_ite _ (c < 65) _ _ (fun _ =>
      okGotoB_ite _ (36 ≤ c ∧ c ≤ 57) _ _ (fun _ => by decide) (fun _ => by decide)) (fun _ =>
    okGotoB_ite _ (c > 90) _ _ (fun _ =>
      okGotoB_ite _ (97 ≤ c ∧ c ≤ 122) _ _ (fun _ => by decide) (fun _ => by decide)) (fun _ =>
    by decide)))))))))))))))

theorem step_146 (c : Nat) : okGoto (facts 146) c (st_case 146 c) = true := by
  have e : st_case 146 c = st_case_146 c := rfl
  rw [e]
  refine okGoto_of_cases (facts 146) st_case_146 (by decide) (by decide) (by decide) ?_ c
  intro c _ _ _
  unfold st_case_146
  exact okGotoB_ite _ (c = 33) _ _ (fun _ => by decide) (fun _ =>
    okGotoB_ite _ (c = 37) _ _ (fun _ => by decide) (fun _ =>
    okGotoB_ite _ (c = 38) _ _ (fun _ => by decide) (fun _ =>
    okGotoB_ite _ (c = 44) _ _ (fun _ => by decide) (fun _ =>
    okGotoB_ite _ (c = 58) _ _ (fun _ => by decide) (fun _ =>
    okGotoB_ite _ (c = 59) _ _ (fun _ => by exfalso; omega) (fun _ =>
    okGotoB_ite _ (c = 61) _ _ (fun _ => by decide) (fun _ =>
    okGotoB_ite _ (c = 64) _ _ (fun _ => by exfalso; omega) (fun _ =>
    okGotoB_ite _ (c = 91) _ _ (fun _ => by decide) (fun _ =>
    okGotoB_ite _ (c = 93) _ _ (fun _ => by decide) (fun _ =>
    okGotoB_ite _ (c = 95) _ _ (fun _ => by decide) (fun _ =>
    okGotoB_ite _ (c = 126) _ _ (fun _ => by decide) (fun _ =>
    okGotoB_ite _ (c < 63) _ _ (fun _ =>
      okGotoB_ite _ (36 ≤ c ∧ c ≤ 57) _ _ (fun _ => by decide) (fun _ => by decide)) (fun _ =>
    okGotoB_ite _ (c > 90) _ _ (fun _ =>
      okGotoB_ite _ (97 ≤ c ∧ c ≤ 122) _ _ (fun _ => by decide) (fun _ => by decide)) (fun _ =>
    by decide))))))))))))))

theorem step_147 (c : Nat) : okGoto (facts 147) c (st_case 147 c) = true := by
  have e : st_case 147 c = st_case_147 c := rfl
  rw [e]
  refine okGoto_of_cases (facts 147) st_case_147 (by decide) (by decide) (by decide) ?_ c
  intro c _ _ _
  unfold st_case_147
  exact okGotoB_ite _ (c = 33) _ _ (fun _ => by decide) (fun _ =>
    okGotoB_ite _ (c = 37) _ _ (fun _ => by decide) (fun _ =>
    okGotoB_ite _ (c = 45) _ _ (fun _ => by decide) (fun _ =>
    okGotoB_ite _ (c = 46) _ _ (fun _ => by decide) (fun _ =>
    okGotoB_ite _ (c = 58) _ _ (fun _ => by decide) (fun _ =>
    okGotoB_ite _ (c = 59) _ _ (fun _ => by exfalso; omega) (fun _ =>
    okGotoB_ite _ (c = 61) _ _ (fun _ => by decide) (fun _ =>
    okGotoB_ite _ (c = 63) _ _ (fun _ => by exfalso; omega) (fun _ =>
    okGotoB_ite _ (c = 64) _ _ (fun _ => by exfalso; omega) (fun _ =>
    okGotoB_ite _ (c = 95) _ _ (fun _ => by decide) (fun _ =>
    okGotoB_ite _ (c = 126) _ _ (fun _ => by decide) (fun _ =>
    okGotoB_ite _ (c < 48) _ _ (fun _ =>
      okGotoB_ite _ (36 ≤ c ∧ c ≤ 47) _ _ (fun _ => by decide) (fun _ => by decide)) (fun _ =>
    okGotoB_ite _ (c > 57) _ _ (fun _ =>
      okGotoB_ite _ (c > 90) _ _ (fun _ =>
        okGotoB_ite _ (97 ≤ c ∧ c ≤ 122) _ _ (fun _ => by decide) (fun _ => by decide)) (fun _ =>
      okGotoB_ite _ (c ≥ 65) _ _ (fun _ => by decide) (fun _ => by decide))) (fun _ =>
    by decide)))))))))))))

theorem step_148 (c : Nat) : okGoto (facts 148) c (st_case 148 c) = true := by
  have e : st_case 148 c = st_case_148 c := rfl
  rw [e]
  refine okGoto_of_cases (facts 148) st_case_148 (by decide) (by decide) (by decide) ?_ c
  intro c _ _ _
  unfold st_case_148
  exact okGotoB_ite _ (c = 33) _ _ (fun _ => by decide) (fun _ =>
    okGotoB_ite _ (c = 37) _ _ (fun _ => by decide) (fun _ =>
    okGotoB_ite _ (c = 45) _ _ (fun _ => by decide) (fun _ =>
    okGotoB_ite _ (c = 46) _ _ (fun _ => by decide) (fun _ =>
    okGotoB_ite _ (c = 58) _ _ (fun _ => by decide) (fun _ =>
    okGotoB_ite _ (c = 59) _ _ (fun _ => by exfalso; omega) (fun _ =>
    okGotoB_ite _ (c = 61) _ _ (fun _ => by decide) (fun _ =>
    okGotoB_ite _ (c = 63) _ _ (fun _ => by exfalso; omega) (fun _ =>
    okGotoB_ite _ (c = 64) _ _ (fun _ => by exfalso; omega) (fun _ =>
    okGotoB_ite _ (c = 95) _ _ (fun _ => by decide) (fun _ =>
    okGotoB_ite _ (c = 126) _ _ (fun _ => by decide) (fun _ =>
    okGotoB_ite _ (c < 48) _ _ (fun _ =>
      okGotoB_ite _ (36 ≤ c ∧ c ≤ 47) _ _ (fun _ => by decide) (fun _ => by decide)) (fun _ =>
    okGotoB_ite _ (c > 57) _ _ (fun _ =>
      okGotoB_ite _ (c > 90) _ _ (fun _ =>
        okGotoB_ite _ (97 ≤ c ∧ c ≤ 122) _ _ (fun _ => by decide) (fun _ => by decide)) (fun _ =>
      okGotoB_ite _ (c ≥ 65) _ _ (fun _ => by decide) (fun _ => by decide))) (fun _ =>
    by decide)))))))))))))

theorem step_149 (c : Nat) : okGoto (facts 149) c (st_case 149 c) = true := by
  have e : st_case 149 c = st_case_149 c := rfl
  rw [e]
  refine okGoto_of_cases (facts 149) st_case_149 (by decide) (by decide) (by decide) ?_ c
  intro c _ _ _
  unfold st_case_149
  exact okGotoB_ite _ (c = 33) _ _ (fun _ => by decide) (fun _ =>
    okGotoB_ite _ (c = 37) _ _ (fun _ => by decide) (fun _ =>
    okGotoB_ite _ (c = 45) _ _ (fun _ => by decide) (fun _ =>
    okGotoB_ite _ (c = 46) _ _ (fun _ => by decide) (fun _ =>
    okGotoB_ite _ (c = 58) _ _ (fun _ => by decide) (fun _ =>
    okGotoB_ite _ (c = 59) _ _ (fun _ => by exfalso; omega) (fun _ =>
    okGotoB_ite _ (c = 61) _ _ (fun _ => by decide) (fun _ =>
    okGotoB_ite _ (c = 63) _ _ (fun _ => by exfalso; omega) (fun _ =>
    okGotoB_ite _ (c = 64) _ _ (fun _ => by exfalso; omega) (fun _ =>
    okGotoB_ite _ (c = 95) _ _ (fun _ => by decide) (fun _ =>
    okGotoB_ite _ (c = 126) _ _ (fun _ => by decide) (fun _ =>
    okGotoB_ite _ (c < 48) _ _ (fun _ =>
      okGotoB_ite _ (36 ≤ c ∧ c ≤ 47) _ _ (fun _ => by decide) (fun _ => by decide)) (fun _ =>
    okGotoB_ite _ (c > 57) _ _ (fun _ =>
      okGotoB_ite _ (c > 90) _ _ (fun _ =>
        okGotoB_ite _ (97 ≤ c ∧ c ≤ 122) _ _ (fun _ => by decide) (fun _ => by decide)) (fun _ =>
      okGotoB_ite _ (c ≥ 65) _ _ (fun _ => by decide) (fun _ => by decide))) (fun _ =>
    by decide)))))))))))))

theorem step_block_0 (cs c : Nat) (h1 : 0 ≤ cs) (h2 : cs < 10) :
    okGoto (facts cs) c (st_case cs c) = true := by
  interval_cases cs
  all_goals first | exact step_0 c | exact step_1 c | exact step_2 c | exact step_3 c | exact step_4 c | exact step_5 c | exact step_6 c | exact step_7 c | exact step_8 c | exact step_9 c

theorem step_block_1 (cs c : Nat) (h1 : 10 ≤ cs) (h2 : cs < 20) :
    okGoto (facts cs) c (st_case cs c) = true := by
  interval_cases cs
  all_goals first | exact step_10 c | exact step_11 c | exact step_12 c | exact step_13 c | exact step_14 c | exact step_15 c | exact step_16 c | exact step_17 c | exact step_18 c | exact step_19 c

theorem step_block_2 (cs c : Nat) (h1 : 20 ≤ cs) (h2 : cs < 30) :
    okGoto (facts cs) c (st_case cs c) = true := by
  interval_cases cs
  all_goals first | exact step_20 c | exact step_21 c | exact step_22 c | exact step_23 c | exact step_24 c | exact step_25 c | exact step_26 c | exact step_27 c | exact step_28 c | exact step_29 c

theorem step_block_3 (cs c : Nat) (h1 : 30 ≤ cs) (h2 : cs < 40) :
    okGoto (facts cs) c (st_case cs c) = true := by
  interval_cases cs
  all_goals first | exact step_30 c | exact step_31 c | exact step_32 c | exact step_33 c | exact step_34 c | exact step_35 c | exact step_36 c | exact step_37 c | exact step_38 c | exact step_39 c

theorem step_block_4 (cs c : Nat) (h1 : 40 ≤ cs) (h2 : cs < 50) :
    okGoto (facts cs) c (st_case cs c) = true := by
  interval_cases cs
  all_goals first | exact step_40 c | exact step_41 c | exact step_42 c | exact step_43 c | exact step_44 c | exact step_45 c | exact step_46 c | exact step_47 c | exact step_48 c | exact step_49 c

theorem step_block_5 (cs c : Nat) (h1 : 50 ≤ cs) (h2 : cs < 60) :
    okGoto (facts cs) c (st_case cs c) = true := by
  interval_cases cs
  all_goals first | exact step_50 c | exact step_51 c | exact step_52 c | exact step_53 c | exact step_54 c | exact step_55 c | exact step_56 c | exact step_57 c | exact step_58 c | exact step_59 c

theorem step_block_6 (cs c : Nat) (h1 : 60 ≤ cs) (h2 : cs < 70) :
    okGoto (facts cs) c (st_case cs c) = true := by
  interval_cases cs
  all_goals first | exact step_60 c | exact step_61 c | exact step_62 c | exact step_63 c | exact step_64 c | exact step_65 c | exact step_66 c | exact step_67 c | exact step_68 c | exact step_69 c

theorem step_block_7 (cs c : Nat) (h1 : 70 ≤ cs) (h2 : cs < 80) :
    okGoto (facts cs) c (st_case cs c) = true := by
  interval_cases cs
  all_goals first | exact step_70 c | exact step_71 c | exact step_72 c | exact step_73 c | exact step_74 c | exact step_75 c | exact step_76 c | exact step_77 c | exact step_78 c | exact step_79 c

theorem step_block_8 (cs c : Nat) (h1 : 80 ≤ cs) (h2 : cs < 90) :
    okGoto (facts cs) c (st_case cs c) = true := by
  interval_cases cs
  all_goals first | exact step_80 c | exact step_81 c | exact step_82 c | exact step_83 c | exact step_84 c | exact step_85 c | exact step_86 c | exact step_87 c | exact step_88 c | exact step_89 c

theorem step_block_9 (cs c : Nat) (h1 : 90 ≤ cs) (h2 : cs < 100) :
    okGoto (facts cs) c (st_case cs c) = true := by
  interval_cases cs
  all_goals first | exact step_90 c | exact step_91 c | exact step_92 c | exact step_93 c | exact step_94 c | exact step_95 c | exact step_96 c | exact step_97 c | exact step_98 c | exact step_99 c

theorem step_block_10 (cs c : Nat) (h1 : 100 ≤ cs) (h2 : cs < 110) :
    okGoto (facts cs) c (st_case cs c) = true := by
  interval_cases cs
  all_goals first | exact step_100 c | exact step_101 c | exact step_102 c | exact step_103 c | exact step_104 c | exact step_105 c | exact step_106 c | exact step_107 c | exact step_108 c | exact step_109 c

theorem step_block_11 (cs c : Nat) (h1 : 110 ≤ cs) (h2 : cs < 120) :
    okGoto (facts cs) c (st_case cs c) = true := by
  interval_cases cs
  all_goals first | exact step_110 c | exact step_111 c | exact step_112 c | exact step_113 c | exact step_114 c | exact step_115 c | exact step_116 c | exact step_117 c | exact step_118 c | exact step_119 c

theorem step_block_12 (cs c : Nat) (h1 : 120 ≤ cs) (h2 : cs < 130) :
    okGoto (facts cs) c (st_case cs c) = true := by
  interval_cases cs
  all_goals first | exact step_120 c | exact step_121 c | exact step_122 c | exact step_123 c | exact step_124 c | exact step_125 c | exact step_126 c | exact step_127 c | exact step_128 c | exact step_129 c

theorem step_block_13 (cs c : Nat) (h1 : 130 ≤ cs) (h2 : cs < 140) :
    okGoto (facts cs) c (st_case cs c) = true := by
  interval_cases cs
  all_goals first | exact step_130 c | exact step_131 c | exact step_132 c | exact step_133 c | exact step_134 c | exact step_135 c | exact step_136 c | exact step_137 c | exact step_138 c | exact step_139 c

theorem step_block_14 (cs c : Nat) (h1 : 140 ≤ cs) (h2 : cs < 150) :
    okGoto (facts cs) c (st_case cs c) = true := by
  interval_cases cs
  all_goals first | exact step_140 c | exact step_141 c | exact step_142 c | exact step_143 c | exact step_144 c | exact step_145 c | exact step_146 c | exact step_147 c | exact step_148 c | exact step_149 c

/-- Every jump of the generated code keeps the table of facts. -/
theorem st_case_ok (cs c : Nat) : okGoto (facts cs) c (st_case cs c) = true := by
  by_cases h : cs < 150
  · rcases Nat.lt_or_ge cs 10 with h0 | h0
    · exact step_block_0 cs c (Nat.zero_le _) h0
    rcases Nat.lt_or_ge cs 20 with h1 | h1
    · exact step_block_1 cs c h0 h1
    rcases Nat.lt_or_ge cs 30 with h2 | h2
    · exact step_block_2 cs c h1 h2
    rcases Nat.lt_or_ge cs 40 with h3 | h3
    · exact step_block_3 cs c h2 h3
    rcases Nat.lt_or_ge cs 50 with h4 | h4
    · exact step_block_4 cs c h3 h4
    rcases Nat.lt_or_ge cs 60 with h5 | h5
    · exact step_block_5 cs c h4 h5
    rcases Nat.lt_or_ge cs 70 with h6 | h6
    · exact step_block_6 cs c h5 h6
    rcases Nat.lt_or_ge cs 80 with h7 | h7
    · exact step_block_7 cs c h6 h7
    rcases Nat.lt_or_ge cs 90 with h8 | h8
    · exact step_block_8 cs c h7 h8
    rcases Nat.lt_or_ge cs 100 with h9 | h9
    · exact step_block_9 cs c h8 h9
    rcases Nat.lt_or_ge cs 110 with h10 | h10
    · exact step_block_10 cs c h9 h10
    rcases Nat.lt_or_ge cs 120 with h11 | h11
    · exact step_block_11 cs c h10 h11
    rcases Nat.lt_or_ge cs 130 with h12 | h12
    · exact step_block_12 cs c h11 h12
    rcases Nat.lt_or_ge cs 140 with h13 | h13
    · exact step_block_13 cs c h12 h13
    exact step_block_14 cs c h13 h
  · have e : st_cases.get? cs = none := by
      apply List.get?_eq_none.2
      have : st_cases.length = 150 := rfl
      omega
    simp only [st_case, e, st0, okGoto, okGotoB]

theorem okEof_all (cs : Nat) : okEof cs = true := by
  by_cases h : cs ∈ [127, 128, 141, 142, 143, 144, 129, 145, 146, 120, 121, 122, 123, 124,
      125, 126, 130, 131, 132, 133, 134, 135, 136, 137, 138, 139, 140, 147, 148, 149]
  · simp only [List.mem_cons, List.mem_singleton, List.not_mem_nil, or_false] at h
    rcases h with h | h | h | h | h | h | h | h | h | h | h | h | h | h | h | h | h | h | h
      | h | h | h | h | h | h | h | h | h | h | h
    all_goals (subst h; decide)
  · simp only [List.mem_cons, List.mem_singleton, List.not_mem_nil, or_false, not_or] at h
    have e : eofActions cs = [] := by
      simp only [eofActions, List.mem_cons, List.mem_singleton, List.not_mem_nil, or_false]
      rw [if_neg (by omega), if_neg (by omega), if_neg (by omega)]
    simp only [okEof, e, Facts.acts, Option.isSome_some]

/-- The loop of the generated code keeps the facts of its state and the shape of
the fields. -/
theorem execLoop_inv (str : Bytes) (rest : Bytes) : ∀ (pre : Bytes) (r r1 : ragel),
    str = pre ++ rest → r.p = pre.length → (facts r.cs).Holds str r.m r.p → UriOK str r.uri →
    execLoop str rest r = some r1 →
    r1.cs = 0 ∨ (r1.p = str.length ∧ (facts r1.cs).Holds str r1.m r1.p ∧ UriOK str r1.uri) := by
  induction rest with
  | nil =>
    intro pre r r1 hs hp hH hU h
    simp only [execLoop, Option.some.injEq] at h
    subst h
    right
    exact ⟨by rw [hp, hs]; simp, hH, hU⟩
  | cons c rest ih =>
    intro pre r r1 hs hp hH hU h
    simp only [execLoop] at h
    have hok := st_case_ok r.cs c
    cases hg : st_case r.cs c with
    | none =>
      rw [hg] at h
      simp only [Option.some.injEq] at h
      subst h
      exact Or.inl rfl
    | some g =>
      obtain ⟨acts, n⟩ := g
      rw [hg] at h hok
      simp only [okGoto, okGotoB] at hok
      cases hw : Facts.acts false acts (facts r.cs, false) with
      | none => rw [hw] at hok; cases hok
      | some w =>
        rw [hw] at hok
        simp only at hok
        obtain ⟨r2, e1, e2, e3, e4, e5, e6⟩ := Facts.acts_sound false str acts (facts r.cs, false)
          w r hH (fun hf => by cases hf) hU (fun hf => by cases hf) hw
        simp only [e1] at h
        have hc : str.get? r2.p = some c := by
          rw [e2, hp, hs, List.get?_eq_getElem?, List.getElem?_append_right (Nat.le_refl _)]
          simp
        have hH2 := Facts.le_holds _ _ str r2.m (r2.p + 1) hok
          (Facts.consume_sound str w r2.m r2.p c e4 e5 hc)
        exact ih (pre ++ [c]) { r2 with cs := n, p := r2.p + 1 } r1 (by rw [hs]; simp)
          (by simp only [List.length_append, List.length_singleton]; rw [e2, hp]) hH2 e6 h

/-- The fields that `RagelParse` returns carry the delimiters as `UriOK` says. -/
theorem RagelParse_UriOK (str : Bytes) (u : URI) (h : RagelParse str = some (some u, none)) :
    UriOK str u := by
  simp only [RagelParse] at h
  have h0 : (facts uri_start).Holds str 0 0 := by
    have hf : facts uri_start = ⟨false, false, false, true, true⟩ := by decide
    rw [hf]
    refine ⟨Nat.le_refl _, Nat.zero_le _, fun e => ?_, fun e => ?_, fun e => ?_,
      fun _ i _ hi => ?_, fun _ i _ hi => ?_⟩
    · cases e
    · cases e
    · cases e
    · omega
    · omega
  have hU0 : UriOK str URI.zero := ⟨Or.inl rfl, by simp [URI.zero], by simp [URI.zero], Or.inl rfl⟩
  cases h1 : execLoop str str ⟨URI.zero, uri_start, 0, 0⟩ with
  | none => rw [h1] at h; cases h
  | some r =>
    rw [h1] at h
    simp only at h
    rcases execLoop_inv str str [] ⟨URI.zero, uri_start, 0, 0⟩ r rfl rfl h0 hU0 h1 with
      hz | ⟨hp, hH, hU⟩
    · exfalso
      have e0 : eofActions 0 = [] := by decide
      rw [hz, e0] at h
      simp only [execAll, ite_self] at h
      rw [hz] at h
      revert h
      simp [uri_first_final]
    · rw [if_pos hp] at h
      have hE := okEof_all r.cs
      simp only [okEof] at hE
      cases hw : Facts.acts true (eofActions r.cs) (facts r.cs, false) with
      | none => rw [hw] at hE; cases hE
      | some w =>
        obtain ⟨r2, e1, e2, e3, e4, e5, e6⟩ := Facts.acts_sound true str (eofActions r.cs)
          (facts r.cs, false) w r hH (fun hf => by cases hf) hU (fun _ => hp) hw
        simp only [e1] at h
        split_ifs at h with hc
        · simp only [Option.some.injEq, Prod.mk.injEq, and_true] at h
          rw [← h]
          exact e6
        · simp at h

/-- Claim C27: for every input that `RagelParse` accepts, the params are empty or
begin with `;`, while the userinfo has no `@`, the hostport none of `;`, `?`,
`@`, and the headers are empty or the text that follows a `?` of the input. -/
theorem RagelParse_delimiters (str : Bytes) (u : URI)
    (h : RagelParse str = some (some u, none)) :
    (u.params = [] ∨ ∃ t, u.params = B ";" ++ t) ∧ 64 ∉ u.userinfo ∧
    (∀ c ∈ u.hostport, c ≠ 59 ∧ c ≠ 63 ∧ c ≠ 64) ∧
    (u.headers = [] ∨ ∃ pre, str = pre ++ B "?" ++ u.headers) := by
  obtain ⟨h1, h2, h3, h4⟩ := RagelParse_UriOK str u h
  refine ⟨?_, h2, h3, ?_⟩
  · rcases h1 with h1 | ⟨t, h1⟩
    · exact Or.inl h1
    · exact Or.inr ⟨t, by rw [h1, B_semi]; rfl⟩
  · rcases h4 with h4 | ⟨pre, h4⟩
    · exact Or.inl h4
    · exact Or.inr ⟨pre, by rw [B_quest]; simpa using h4⟩

theorem RagelParse_delimiters_witness :
    (B ";transport=tcp" = [] ∨ ∃ t, B ";transport=tcp" = B ";" ++ t) ∧
    64 ∉ B "alice:secretword" ∧
    (∀ c ∈ B "atlanta.com", c ≠ 59 ∧ c ≠ 63 ∧ c ≠ 64) ∧
    (([] : Bytes) = [] ∨ ∃ pre, B "sip:alice:secretword@atlanta.com;transport=tcp"
      = pre ++ B "?" ++ []) :=
  RagelParse_delimiters (B "sip:alice:secretword@atlanta.com;transport=tcp")
    ⟨Scheme.SIP, B "alice:secretword", B "atlanta.com", B ";transport=tcp", []⟩ (by decide)

/-! ## C31, C32: the calls of the loop of `run`, without the timer -/

theorem runCalls_succ (n : Nat) (f : lexFunc) (l : lexer) :
    runCalls (n + 1) f l = andThenCalls (runCalls n) f l (f.call l) := rfl

theorem ForwardCalls_weaken (i : Bytes) (calls : List (lexFunc × lexer)) (lend : lexer) :
    ∀ (r k r1 k1 : Nat), r1 ≤ r → k1 ≤ k → ForwardCalls i r k calls lend →
      ForwardCalls i r1 k1 calls lend := by
  cases calls with
  | nil =>
    intro r k r1 k1 _ hk h
    simp only [ForwardCalls] at h ⊢
    exact ⟨h.1, by omega⟩
  | cons c calls =>
    obtain ⟨f, l⟩ := c
    intro r k r1 k1 hr hk h
    simp only [ForwardCalls] at h ⊢
    exact ⟨by omega, h.2.1, by omega, h.2.2.2⟩

theorem Forward_weaken (i : Bytes) (r k r1 k1 : Nat) (res : Option Calls) (hr : r1 ≤ r) (hk : k1 ≤ k)
    (h : Forward i r k res) : Forward i r1 k1 res := by
  obtain ⟨calls, lend, e, hc⟩ := h
  exact ⟨calls, lend, e, ForwardCalls_weaken i calls lend r k r1 k1 hr hk hc⟩

/-- One call that stays in range and moves forward, followed by a forward pass,
is a forward pass. -/
theorem fwd_step (i : Bytes) (n : Nat) (f : lexFunc) (l : lexer) (st : Step)
    (hcall : f.call l = some st) (hw : l.within i) (hw1 : st.l.within i)
    (hmono : l.cursor ≤ st.l.cursor)
    (hnext : ∀ g, st.next = some g →
      Forward i (f.rank + 1) st.l.cursor (runCalls n g st.l)) :
    Forward i f.rank l.cursor (runCalls (n + 1) f l) := by
  rw [runCalls_succ, hcall]
  obtain ⟨l1, sent, next⟩ := st
  cases next with
  | none =>
    refine ⟨[(f, l)], l1, rfl, ?_⟩
    simp only [ForwardCalls]
    exact ⟨le_refl _, hw, le_refl _, hw1, hmono⟩
  | some g =>
    obtain ⟨calls, lend, e, hc⟩ := hnext g rfl
    simp only at e hc hmono
    refine ⟨(f, l) :: calls, lend, by simp only [andThenCalls, e], ?_⟩
    simp only [ForwardCalls]
    exact ⟨le_refl _, hw, le_refl _, ForwardCalls_weaken i calls lend _ _ _ _ (le_refl _) hmono hc⟩

theorem within_mk (i : Bytes) (k m : Nat) :
    (⟨i, i.length, k, m⟩ : lexer).within i ↔ m ≤ k ∧ k ≤ i.length := by
  simp [lexer.within]

theorem within_cases (i : Bytes) (l : lexer) (hw : l.within i) :
    ∃ k m, l = ⟨i, i.length, k, m⟩ ∧ m ≤ k ∧ k ≤ i.length := by
  obtain ⟨i1, lim, k, m⟩ := l
  obtain ⟨h1, h2, h3, h4⟩ := hw
  simp only at h1 h2 h3 h4
  subst h1 h2
  exact ⟨k, m, rfl, h3, h4⟩

theorem headers_step (i : Bytes) (k m : Nat) (hk : k ≤ i.length) :
    ∃ st, lexer.lexHeaders ⟨i, i.length, k, m⟩ = some st ∧ st.l.within i ∧
      k ≤ st.l.cursor ∧ st.next = none := by
  simp only [lexer.lexHeaders]
  rcases hsuf : i.drop k with _ | ⟨x, c⟩
  · rw [current_nil i k k hsuf]
    simp [emit_eq i k k _ (le_refl _) hk, lexer.within, hk]
  · obtain ⟨hlt, hc, hclen⟩ := drop_cons_facts hsuf
    have hlen : k + 1 + (runes c).length ≤ i.length := by
      have := runes_length_le c
      omega
    have h2 : k + 1 ≤ i.length := by omega
    rw [current_cons i k k x c hsuf]
    simp only [cast_eq_eof, cast_eq_63, ne_eq, if_false]
    by_cases hx : x = 63
    · subst hx
      simp only [not_true_eq_false, if_false, sliceFrom, h2, if_true, hc,
        headersLoop_sim (runes c) i i.length (k + 1) (k + 1) hlen,
        emit_eq i (k + 1 + (runes c).length) (k + 1) _ (by omega) hlen]
      simp [lexer.within, hlen]
      omega
    · simp [hx, lexer.within, hk]

theorem headers_fwd (n : Nat) (i : Bytes) (l : lexer) (hw : l.within i) :
    Forward i 6 l.cursor (runCalls (n + 1) lexFunc.lexHeaders l) := by
  obtain ⟨k, m, rfl, hm, hk⟩ := within_cases i l hw
  obtain ⟨st, hcall, hw1, hmono, hnext⟩ := headers_step i k m hk
  exact fwd_step i n lexFunc.lexHeaders _ st hcall hw hw1 hmono
    (fun g hg => by rw [hnext] at hg; simp at hg)

theorem paramsLoop_step (cs : List Nat) (i : Bytes) (m : Nat) :
    ∀ k, m ≤ k → k + cs.length ≤ i.length →
    ∃ st, lexParamsLoop cs ⟨i, i.length, k, m⟩ = some st ∧ st.l.within i ∧
      k ≤ st.l.cursor ∧ (st.next = none ∨ st.next = some lexFunc.lexHeaders) := by
  induction cs with
  | nil =>
    intro k hm hk
    have hk1 : k ≤ i.length := by simpa using hk
    simp [lexParamsLoop, emit_eq i k m _ hm hk1, lexer.within, hm, hk1]
  | cons x cs ih =>
    intro k hm hk
    have h1 : k + 1 + cs.length ≤ i.length := by simp at hk; omega
    have h2 : k + 1 ≤ i.length := by omega
    have h3 : k ≤ i.length := by omega
    have h4 : m ≤ k + 1 := by omega
    obtain ⟨st, e, hw, hc, hn⟩ := ih (k + 1) h4 h1
    simp only [lexParamsLoop]
    split_ifs with ha hb hc1
    · simp [emit_eq i k m _ hm h3, lexer.within, hm, h3]
    · exact ⟨st, e, hw, by omega, hn⟩
    · exact ⟨st, e, hw, by omega, hn⟩
    · simp [sliceFrom, h2, lexer.within, h4]

theorem params_step (i : Bytes) (k m : Nat) (hk : k ≤ i.length) :
    ∃ st, lexer.lexParams ⟨i, i.length, k, m⟩ = some st ∧ st.l.within i ∧
      k ≤ st.l.cursor ∧ (st.next = none ∨ st.next = some lexFunc.lexHeaders) := by
  simp only [lexer.lexParams]
  rcases hsuf : i.drop k with _ | ⟨x, c⟩
  · rw [current_nil i k k hsuf]
    simp [emit_eq i k k _ (le_refl _) hk, lexer.within, hk]
  · obtain ⟨hlt, hc, hclen⟩ := drop_cons_facts hsuf
    have hlen : k + 1 + (runes c).length ≤ i.length := by
      have := runes_length_le c
      omega
    have h2 : k + 1 ≤ i.length := by omega
    rw [current_cons i k k x c hsuf]
    simp only [cast_eq_eof, cast_eq_63, cast_eq_59, ne_eq, if_false]
    by_cases hx : x = 63
    · simp [hx, lexer.within, hk]
    · by_cases hy : x = 59
      · subst hy
        obtain ⟨st, e, hw, hc1, hn⟩ := paramsLoop_step (runes c) i (k + 1) (k + 1) (le_refl _) hlen
        simp only [hx, if_false, not_true_eq_false, sliceFrom, h2, if_true, hc]
        exact ⟨st, e, hw, by omega, hn⟩
      · simp [hx, hy, lexer.within, hk]

theorem port_step (i : Bytes) (k m : Nat) (hm : m ≤ k) (hk : k ≤ i.length) :
    ∃ st, lexer.lexPort ⟨i, i.length, k, m⟩ = some st ∧ st.l.within i ∧
      k ≤ st.l.cursor ∧ (st.next = none ∨ st.next = some lexFunc.lexParams) := by
  simp only [lexer.lexPort]
  rcases hsuf : i.drop k with _ | ⟨x, c⟩
  · rw [current_nil i k m hsuf]
    simp [emit_eq i k m _ hm hk, lexer.within, hk, hm]
  · obtain ⟨hlt, hc, hclen⟩ := drop_cons_facts hsuf
    have h2 : k + 1 ≤ i.length := by omega
    rw [current_cons i k m x c hsuf]
    simp only [cast_eq_eof, cast_eq_58, ne_eq, if_false]
    by_cases hx : x = 58
    · subst hx
      have hd := dtoi_le c
      have h3 : k + 1 + (dtoi c).2.1 ≤ i.length := by omega
      simp only [not_true_eq_false, if_false, sliceFrom, h2, if_true, hc, slice, le_refl,
        Nat.le_add_right, h3, and_self, lexer.emit]
      split_ifs
      all_goals simp [lexer.within, h3]
      all_goals omega
    · simp [hx, lexer.within, hk, hm]

theorem hostnameLoop_step (cs : List Nat) (i : Bytes) (m : Nat) :
    ∀ k, m ≤ k → k + cs.length ≤ i.length →
    ∃ st, lexHostnameLoop cs ⟨i, i.length, k, m⟩ = some st ∧ st.l.within i ∧
      k ≤ st.l.cursor ∧
      (st.next = none ∨ st.next = some lexFunc.lexPort ∨ st.next = some lexFunc.lexParams ∨
        st.next = some lexFunc.lexHeaders) := by
  induction cs with
  | nil =>
    intro k hm hk
    have hk1 : k ≤ i.length := by simpa using hk
    simp [lexHostnameLoop, emit_eq i k m _ hm hk1, lexer.within, hm, hk1]
  | cons x cs ih =>
    intro k hm hk
    have h1 : k + 1 + cs.length ≤ i.length := by simp at hk; omega
    have h3 : k ≤ i.length := by omega
    have h4 : m ≤ k + 1 := by omega
    obtain ⟨st, e, hw, hc, hn⟩ := ih (k + 1) h4 h1
    simp only [lexHostnameLoop]
    split_ifs with ha hb hc1 hd
    · exact ⟨st, e, hw, by omega, hn⟩
    · simp [emit_eq i k m _ hm h3, lexer.within, hm, h3]
    · simp [emit_eq i k m _ hm h3, lexer.within, hm, h3]
    · simp [emit_eq i k m _ hm h3, lexer.within, hm, h3]
    · simp [lexer.within, hm, h3]

theorem ipv6Loop_step (cs : List Nat) (i : Bytes) (m : Nat) :
    ∀ k, m ≤ k → k + cs.length ≤ i.length →
    ∃ st, lexIPv6Loop cs ⟨i, i.length, k, m⟩ = some st ∧ st.l.within i ∧
      k ≤ st.l.cursor ∧ (st.next = none ∨ st.next = some lexFunc.lexPort) := by
  induction cs with
  | nil =>
    intro k hm hk
    have hk1 : k ≤ i.length := by simpa using hk
    simp [lexIPv6Loop, lexer.within, hm, hk1]
  | cons x cs ih =>
    intro k hm hk
    have h1 : k + 1 + cs.length ≤ i.length := by simp at hk; omega
    have h2 : k + 1 ≤ i.length := by omega
    have h4 : m ≤ k + 1 := by omega
    obtain ⟨st, e, hw, hc, hn⟩ := ih (k + 1) h4 h1
    simp only [lexIPv6Loop]
    split_ifs with ha hb
    · simp [emit_eq i (k + 1) m _ h4 h2, lexer.within, h4, h2]
    · exact ⟨st, e, hw, by omega, hn⟩
    · simp [lexer.within, h4, h2]

theorem hostport_step (i : Bytes) (k m : Nat) (hk : k ≤ i.length) :
    ∃ st, lexer.lexHostport ⟨i, i.length, k, m⟩ = some st ∧ st.l.within i ∧
      k ≤ st.l.cursor ∧
      (st.next = none ∨ st.next = some lexFunc.lexIPv6 ∨ st.next = some lexFunc.lexPort ∨
        (st.next = some lexFunc.lexHostname ∧ st.l.marker = st.l.cursor)) := by
  simp only [lexer.lexHostport]
  rcases hsuf : i.drop k with _ | ⟨x, c⟩
  · rw [current_nil i k k hsuf]
    simp [lexer.within, hk]
  · obtain ⟨hlt, hc, hclen⟩ := drop_cons_facts hsuf
    have h2 : k + 1 ≤ i.length := by omega
    rw [current_cons i k k x c hsuf]
    simp only [cast_eq_eof, cast_eq_91, if_false, Int.toNat_ofNat]
    by_cases hx : x = 91
    · simp [hx, lexer.within, h2]
    · simp only [hx, if_false, sliceFrom, hk, if_true, hsuf]
      obtain ⟨r, hr, hb⟩ := parseIPv4_spec (x :: c)
      rw [hr]
      obtain ⟨len, ok⟩ := r
      cases ok with
      | true =>
        have hlen : len ≤ (x :: c).length := hb rfl
        have h3 : k + len ≤ i.length := by simp at hlen; omega
        simp [emit_eq i (k + len) k Token.tHost (by omega) h3, lexer.within, h3]
      | false =>
        by_cases ha : isAlphaNum (byte x) = true
        · simp [ha, lexer.within, hk]
        · simp [ha, lexer.within, hk]

theorem userinfoLoop_step (i : Bytes) (lim m : Nat) : ∀ n k, k + n ≤ i.length →
    ∃ k1 e, lexUserinfoLoop n ⟨i, lim, k, m⟩ = some (⟨i, lim, k1, m⟩, e) ∧ k ≤ k1 ∧
      k1 ≤ k + n ∧ (e = none → k1 = k + n) := by
  intro n
  induction n with
  | zero => intro k _; exact ⟨k, none, by simp [lexUserinfoLoop], le_refl _, le_refl _, fun _ => rfl⟩
  | succ n ih =>
    intro k hk
    rcases hsuf : i.drop k with _ | ⟨x, c⟩
    · have : i.length ≤ k := by simpa using hsuf
      omega
    · obtain ⟨hlt, hc, hclen⟩ := drop_cons_facts hsuf
      have hx : i[k]? = some x := by rw [← List.head?_drop, hsuf]; rfl
      have hk1 : k + 1 + n ≤ i.length := by omega
      obtain ⟨k1, e, h1, h2, h3, h4⟩ := ih (k + 1) hk1
      simp only [lexUserinfoLoop, List.get?_eq_getElem?, hx]
      split_ifs with ha hb
      · exact ⟨k1, e, h1, by omega, by omega, fun h => by rw [h4 h]; omega⟩
      · exact ⟨k1, e, h1, by omega, by omega, fun h => by rw [h4 h]; omega⟩
      · have : k ≤ i.length := by omega
        exact ⟨k, some (errorf (B "invalid userinfo ..." ++ List.drop k i)),
          by simp [sliceFrom, this], le_refl _, by omega, fun h => by simp at h⟩

theorem userinfo_step (i : Bytes) (k m : Nat) (hk : k ≤ i.length)
    (hat : IndexByte i 64 = (IndexByte (i.drop k) 64).map (· + k)) :
    ∃ st, lexer.lexUserinfo ⟨i, i.length, k, m⟩ = some st ∧ st.l.within i ∧
      k ≤ st.l.cursor ∧ (st.next = none ∨ st.next = some lexFunc.lexHostport) := by
  simp only [lexer.lexUserinfo, hat]
  cases hj : IndexByte (i.drop k) 64 with
  | none => simp [lexer.within, hk]
  | some j =>
    have hjl := IndexByte_lt _ _ j hj
    simp only [List.length_drop] at hjl
    have hkj : k + j ≤ i.length := by omega
    obtain ⟨k1, e, h1, h2, h3, h4⟩ := userinfoLoop_step i i.length k j k hkj
    simp only [Option.map_some', Nat.add_sub_cancel, h1]
    cases e with
    | some e => simp [lexer.within, h2]; omega
    | none =>
      have hk1 := h4 rfl
      subst hk1
      simp only [emit_eq i (k + j) k Token.tUserinfo (by omega) hkj, Option.map_some']
      simp [lexer.within]
      omega

theorem scheme_step (data : Bytes) :
    ∃ st, lexer.lexScheme (newLexer data) = some st ∧ st.l.within data ∧
      (st.next = none ∨ (st.next = some lexFunc.lexUserinfo ∧
        IndexByte data 64 = (IndexByte (data.drop st.l.cursor) 64).map (· + st.l.cursor))) := by
  simp only [lexer.lexScheme, newLexer]
  by_cases h1 : HasPrefix data (B "sip:") = true
  · simp only [h1, if_true]
    have hp : B "sip:" <+: data := by simpa [HasPrefix] using h1
    obtain ⟨r, hr⟩ := hp
    rw [B_sip] at hr
    subst hr
    have he := emit_eq ([115, 105, 112, 58] ++ r) 4 0 Token.tSip (by omega) (by simp)
    simp only [he, Option.map_some']
    simp [lexer.within, IndexByte]
  · simp only [h1, if_false]
    by_cases h2 : HasPrefix data (B "sips:") = true
    · simp only [h2, if_true]
      have hp : B "sips:" <+: data := by simpa [HasPrefix] using h2
      obtain ⟨r, hr⟩ := hp
      rw [B_sips] at hr
      subst hr
      have he := emit_eq ([115, 105, 112, 115, 58] ++ r) 5 0 Token.tSips (by omega) (by simp)
      simp only [he, Option.map_some']
      simp [lexer.within, IndexByte]
    · simp [h2, lexer.within]

theorem hostname_step (i : Bytes) (k : Nat) (hk : k ≤ i.length) :
    ∃ st, lexer.lexHostname ⟨i, i.length, k, k⟩ = some st ∧ st.l.within i ∧
      k ≤ st.l.cursor ∧
      (st.next = none ∨ st.next = some lexFunc.lexPort ∨ st.next = some lexFunc.lexParams ∨
        st.next = some lexFunc.lexHeaders) := by
  have hlen : k + (runes (i.drop k)).length ≤ i.length := by
    have := runes_length_le (i.drop k)
    simp only [List.length_drop] at this
    omega
  simp only [lexer.lexHostname, sliceFrom, hk, if_true]
  exact hostnameLoop_step (runes (i.drop k)) i k k (le_refl _) hlen

theorem ipv6_step (i : Bytes) (k m : Nat) (hm : m ≤ k) (hk : k ≤ i.length) :
    ∃ st, lexer.lexIPv6 ⟨i, i.length, k, m⟩ = some st ∧ st.l.within i ∧
      k ≤ st.l.cursor ∧ (st.next = none ∨ st.next = some lexFunc.lexPort) := by
  have hlen : k + (runes (i.drop k)).length ≤ i.length := by
    have := runes_length_le (i.drop k)
    simp only [List.length_drop] at this
    omega
  simp only [lexer.lexIPv6, sliceFrom, hk, if_true]
  exact ipv6Loop_step (runes (i.drop k)) i m k hm hlen

theorem params_fwd (n : Nat) (i : Bytes) (l : lexer) (hw : l.within i) :
    Forward i 5 l.cursor (runCalls (n + 2) lexFunc.lexParams l) := by
  obtain ⟨k, m, rfl, hm, hk⟩ := within_cases i l hw
  obtain ⟨st, hcall, hw1, hmono, hnext⟩ := params_step i k m hk
  refine fwd_step i (n + 1) lexFunc.lexParams _ st hcall hw hw1 hmono (fun g hg => ?_)
  rcases hnext with h | h
  · rw [h] at hg; simp at hg
  · rw [h] at hg
    simp only [Option.some.injEq] at hg
    subst hg
    exact headers_fwd n i st.l hw1

theorem port_fwd (n : Nat) (i : Bytes) (l : lexer) (hw : l.within i) :
    Forward i 4 l.cursor (runCalls (n + 3) lexFunc.lexPort l) := by
  obtain ⟨k, m, rfl, hm, hk⟩ := within_cases i l hw
  obtain ⟨st, hcall, hw1, hmono, hnext⟩ := port_step i k m hm hk
  refine fwd_step i (n + 2) lexFunc.lexPort _ st hcall hw hw1 hmono (fun g hg => ?_)
  rcases hnext with h | h
  · rw [h] at hg; simp at hg
  · rw [h] at hg
    simp only [Option.some.injEq] at hg
    subst hg
    exact params_fwd n i st.l hw1

theorem hostname_fwd (n : Nat) (i : Bytes) (l : lexer) (hw : l.within i)
    (hmk : l.marker = l.cursor) :
    Forward i 3 l.cursor (runCalls (n + 4) lexFunc.lexHostname l) := by
  obtain ⟨k, m, rfl, hm, hk⟩ := within_cases i l hw
  simp only at hmk
  subst hmk
  obtain ⟨st, hcall, hw1, hmono, hnext⟩ := hostname_step i m hk
  refine fwd_step i (n + 3) lexFunc.lexHostname _ st hcall hw hw1 hmono (fun g hg => ?_)
  rcases hnext with h | h | h | h
  · rw [h] at hg; simp at hg
  · rw [h] at hg
    simp only [Option.some.injEq] at hg
    subst hg
    exact port_fwd n i st.l hw1
  · rw [h] at hg
    simp only [Option.some.injEq] at hg
    subst hg
    exact Forward_weaken i 5 _ 4 _ _ (by omega) (le_refl _) (params_fwd (n + 1) i st.l hw1)
  · rw [h] at hg
    simp only [Option.some.injEq] at hg
    subst hg
    exact Forward_weaken i 6 _ 4 _ _ (by omega) (le_refl _) (headers_fwd (n + 2) i st.l hw1)

theorem ipv6_fwd (n : Nat) (i : Bytes) (l : lexer) (hw : l.within i) :
    Forward i 3 l.cursor (runCalls (n + 4) lexFunc.lexIPv6 l) := by
  obtain ⟨k, m, rfl, hm, hk⟩ := within_cases i l hw
  obtain ⟨st, hcall, hw1, hmono, hnext⟩ := ipv6_step i k m hm hk
  refine fwd_step i (n + 3) lexFunc.lexIPv6 _ st hcall hw hw1 hmono (fun g hg => ?_)
  rcases hnext with h | h
  · rw [h] at hg; simp at hg
  · rw [h] at hg
    simp only [Option.some.injEq] at hg
    subst hg
    exact port_fwd n i st.l hw1

theorem hostport_fwd (n : Nat) (i : Bytes) (l : lexer) (hw : l.within i) :
    Forward i 2 l.cursor (runCalls (n + 5) lexFunc.lexHostport l) := by
  obtain ⟨k, m, rfl, hm, hk⟩ := within_cases i l hw
  obtain ⟨st, hcall, hw1, hmono, hnext⟩ := hostport_step i k m hk
  refine fwd_step i (n + 4) lexFunc.lexHostport _ st hcall hw hw1 hmono (fun g hg => ?_)
  rcases hnext with h | h | h | ⟨h, hmk⟩
  · rw [h] at hg; simp at hg
  · rw [h] at hg
    simp only [Option.some.injEq] at hg
    subst hg
    exact ipv6_fwd n i st.l hw1
  · rw [h] at hg
    simp only [Option.some.injEq] at hg
    subst hg
    exact Forward_weaken i 4 _ 3 _ _ (by omega) (le_refl _) (port_fwd (n + 1) i st.l hw1)
  · rw [h] at hg
    simp only [Option.some.injEq] at hg
    subst hg
    exact hostname_fwd n i st.l hw1 hmk

theorem userinfo_fwd (n : Nat) (i : Bytes) (l : lexer) (hw : l.within i)
    (hat : IndexByte i 64 = (IndexByte (i.drop l.cursor) 64).map (· + l.cursor)) :
    Forward i 1 l.cursor (runCalls (n + 6) lexFunc.lexUserinfo l) := by
  obtain ⟨k, m, rfl, hm, hk⟩ := within_cases i l hw
  obtain ⟨st, hcall, hw1, hmono, hnext⟩ := userinfo_step i k m hk hat
  refine fwd_step i (n + 5) lexFunc.lexUserinfo _ st hcall hw hw1 hmono (fun g hg => ?_)
  rcases hnext with h | h
  · rw [h] at hg; simp at hg
  · rw [h] at hg
    simp only [Option.some.injEq] at hg
    subst hg
    exact hostport_fwd n i st.l hw1

/-- In program order the loop of `run` makes a forward pass over every input and
ends within seven calls. -/
theorem scheme_fwd (n : Nat) (data : Bytes) :
    Forward data 0 0 (runCalls (n + 7) lexFunc.lexScheme (newLexer data)) := by
  have hw : (newLexer data).within data := by simp [newLexer, lexer.within]
  obtain ⟨st, hcall, hw1, hnext⟩ := scheme_step data
  refine fwd_step data (n + 6) lexFunc.lexScheme _ st hcall hw hw1 (Nat.zero_le _)
    (fun g hg => ?_)
  rcases hnext with h | ⟨h, hat⟩
  · rw [h] at hg; simp at hg
  · rw [h] at hg
    simp only [Option.some.injEq] at hg
    subst hg
    exact userinfo_fwd n data st.l hw1 hat

theorem rank_le_six (f : lexFunc) : f.rank ≤ 6 := by
  cases f <;> simp [lexFunc.rank]

theorem ForwardCalls_length (i : Bytes) (calls : List (lexFunc × lexer)) :
    ∀ (lend : lexer) (r k : Nat), r ≤ 7 → ForwardCalls i r k calls lend →
      calls.length + r ≤ 7 := by
  induction calls with
  | nil => intro lend r k hr _; simpa using hr
  | cons c calls ih =>
    obtain ⟨f, l⟩ := c
    intro lend r k _ h
    simp only [ForwardCalls] at h
    have h6 := rank_le_six f
    have := ih lend _ _ (by omega) h.2.2.2
    simp only [List.length_cons]
    omega

theorem ForwardCalls_ranks (i : Bytes) (calls : List (lexFunc × lexer)) :
    ∀ (lend : lexer) (r k : Nat), ForwardCalls i r k calls lend →
      (∀ c ∈ calls, r ≤ c.1.rank) ∧ calls.Pairwise (fun a b => a.1.rank < b.1.rank) := by
  induction calls with
  | nil => intro lend r k _; simp
  | cons c calls ih =>
    obtain ⟨f, l⟩ := c
    intro lend r k h
    simp only [ForwardCalls] at h
    obtain ⟨h1, h2⟩ := ih lend _ _ h.2.2.2
    refine ⟨?_, List.pairwise_cons.2 ⟨fun b hb => ?_, h2⟩⟩
    · intro b hb
      rcases List.mem_cons.1 hb with e | e
      · rw [e]; exact h.1
      · have := h1 b e
        omega
    · have := h1 b hb
      show f.rank < b.1.rank
      omega

theorem ForwardCalls_cursors (i : Bytes) (calls : List (lexFunc × lexer)) :
    ∀ (lend : lexer) (r k : Nat), ForwardCalls i r k calls lend →
      (∀ c ∈ calls, k ≤ c.2.cursor ∧ c.2.cursor ≤ lend.cursor) ∧ k ≤ lend.cursor ∧
      calls.Pairwise (fun a b => a.2.cursor ≤ b.2.cursor) := by
  induction calls with
  | nil =>
    intro lend r k h
    simp only [ForwardCalls] at h
    simp [h.2]
  | cons c calls ih =>
    obtain ⟨f, l⟩ := c
    intro lend r k h
    simp only [ForwardCalls] at h
    obtain ⟨h1, h2, h3⟩ := ih lend _ _ h.2.2.2
    refine ⟨?_, by omega, List.pairwise_cons.2 ⟨fun b hb => (h1 b hb).1, h3⟩⟩
    intro b hb
    rcases List.mem_cons.1 hb with e | e
    · rw [e]; exact ⟨h.2.2.1, h2⟩
    · have := h1 b e
      exact ⟨by omega, this.2⟩

theorem ForwardCalls_within (i : Bytes) (calls : List (lexFunc × lexer)) :
    ∀ (lend : lexer) (r k : Nat), ForwardCalls i r k calls lend →
      (∀ c ∈ calls, c.2.within i) ∧ lend.within i := by
  induction calls with
  | nil =>
    intro lend r k h
    simp only [ForwardCalls] at h
    simp [h.1]
  | cons c calls ih =>
    obtain ⟨f, l⟩ := c
    intro lend r k h
    simp only [ForwardCalls] at h
    obtain ⟨h1, h2⟩ := ih lend _ _ h.2.2.2
    refine ⟨?_, h2⟩
    intro b hb
    rcases List.mem_cons.1 hb with e | e
    · rw [e]; exact h.2.1
    · exact h1 b e

/-- In program order, that is when every value sent is received, the loop of
`run` ends within seven calls for every input, calls no state function twice, at
most one of `lexHostname` and `lexIPv6`, and never moves the cursor back. -/
theorem run_forward (data : Bytes) :
    ∃ calls lend, runCalls 7 lexFunc.lexScheme (newLexer data) = some (calls, lend, none) ∧
      calls.length ≤ 7 ∧ (calls.map Prod.fst).Nodup ∧
      calls.Pairwise (fun a b => a.1.rank < b.1.rank) ∧
      calls.Pairwise (fun a b => a.2.cursor ≤ b.2.cursor) ∧
      (∀ c ∈ calls, c.2.cursor ≤ lend.cursor) := by
  obtain ⟨calls, lend, e, hc⟩ := scheme_fwd 0 data
  have hlen := ForwardCalls_length data calls lend 0 0 (by omega) hc
  obtain ⟨_, hr⟩ := ForwardCalls_ranks data calls lend 0 0 hc
  obtain ⟨hk, _, hp⟩ := ForwardCalls_cursors data calls lend 0 0 hc
  refine ⟨calls, lend, e, by omega, ?_, hr, hp, fun c hm => (hk c hm).2⟩
  rw [List.Nodup, List.pairwise_map]
  refine hr.imp ?_
  intro a b hab heq
  rw [heq] at hab
  omega

theorem emit_ne_none (i : Bytes) (l : lexer) (tk : Token) (hw : l.within i) :
    l.emit tk ≠ none := by
  obtain ⟨h1, _, h3, h4⟩ := hw
  simp [lexer.emit, slice, h1, h3, h4]

theorem current_next_ne_none (l : lexer) (h : l.limit = l.input.length) :
    l.current ≠ none ∧ l.next ≠ none := by
  simp only [lexer.current, lexer.next, h]
  by_cases hc : l.cursor ≥ l.input.length
  · simp [hc]
  · have hlt : l.cursor < l.input.length := by omega
    simp [hc, List.getElem?_eq_getElem hlt]

/-- Without the timer: for every input, ASCII or not, every index and slice of the lexer
is in range.  The loop of `run` ends without panic; at every call of a state
function and after the last one `0 ≤ marker ≤ cursor ≤ len(input)` holds; with
these bounds `emit` does not panic; `current` and `next` do not index past the
end; and `LexerParseInTime` returns. -/
theorem lexer_indices_in_range_in_time (data : Bytes) :
    (∃ calls lend, runCalls 8 lexFunc.lexScheme (newLexer data) = some (calls, lend, none) ∧
      (∀ c ∈ calls, c.2.within data) ∧ lend.within data) ∧
    (∀ (l : lexer) (tk : Token), l.within data → l.emit tk ≠ none) ∧
    (∀ l : lexer, l.limit = l.input.length → l.current ≠ none ∧ l.next ≠ none) ∧
    (∃ sent, (newLexer data).run = some sent) ∧
    (∃ r, LexerParseInTime data = some r) := by
  obtain ⟨calls, lend, e, hc⟩ := scheme_fwd 1 data
  obtain ⟨h1, h2⟩ := ForwardCalls_within data calls lend 0 0 hc
  refine ⟨⟨calls, lend, e, h1, h2⟩, fun l tk hw => emit_ne_none data l tk hw,
    current_next_ne_none, ⟨schemeSent data, ?_⟩, ⟨_, LexerParseInTime_eq data⟩⟩
  simp [lexer.run, scheme_sim 1 data]

/-- The receive loop reads only the values that `received` counts. -/
theorem mainLoopInTime_received (data : Bytes) (evs : List Event) : ∀ u,
    mainLoopInTime data u evs = mainLoopInTime data u (evs.take (received evs)) := by
  induction evs with
  | nil => intro u; rfl
  | cons e evs ih =>
    intro u
    cases e with
    | err m => simp [received, mainLoopInTime]
    | item it =>
      simp only [received]
      split_ifs with ht
      · simp [mainLoopInTime, ht]
      · have : 1 + received evs = received evs + 1 := by omega
        rw [this, List.take_succ_cons]
        simp only [mainLoopInTime, ht, if_false]
        exact ih _

/-- Without the timer: for `sip:a:x` the loop of `run` does not reach a nil
state.  After four calls the state is `lexPort` with the cursor on the colon;
`lexPort` sends the error `invalid port ` and then, without returning, the item
`tPort`.  The error is the third value sent and the receive loop of `LexerParseInTime`
returns on it, so the send of the fourth value never completes and `lexPort`
never returns.  The same holds for `sip:a?b c` in `lexHeaders`. -/
theorem run_blocks_after_error_in_time :
    runCalls 4 lexFunc.lexScheme (newLexer (B "sip:a:x"))
      = some ([(lexFunc.lexScheme, ⟨B "sip:a:x", 7, 0, 0⟩),
          (lexFunc.lexUserinfo, ⟨B "sip:a:x", 7, 4, 0⟩),
          (lexFunc.lexHostport, ⟨B "sip:a:x", 7, 4, 4⟩),
          (lexFunc.lexHostname, ⟨B "sip:a:x", 7, 4, 4⟩)],
          ⟨B "sip:a:x", 7, 5, 4⟩, some lexFunc.lexPort) ∧
    lexer.lexPort ⟨B "sip:a:x", 7, 5, 4⟩
      = some ⟨⟨B "sip:a:x", 7, 6, 6⟩,
          [Event.err (B "invalid port "), Event.item ⟨Token.tPort, []⟩],
          some lexFunc.lexParams⟩ ∧
    (newLexer (B "sip:a:x")).run
      = some [Event.item ⟨Token.tSip, B "sip:"⟩, Event.item ⟨Token.tHost, B "a"⟩,
          Event.err (B "invalid port "), Event.item ⟨Token.tPort, []⟩,
          Event.err (B "invalid params")] ∧
    received [Event.item ⟨Token.tSip, B "sip:"⟩, Event.item ⟨Token.tHost, B "a"⟩,
      Event.err (B "invalid port "), Event.item ⟨Token.tPort, []⟩,
      Event.err (B "invalid params")] = 3 ∧
    LexerParseInTime (B "sip:a:x")
      = some (none, some (B "Invalid uri 'sip:a:x': invalid port ")) ∧
    ((newLexer (B "sip:a?b c")).run).map (fun sent => (sent.length, received sent))
      = some (5, 3) := by
  refine ⟨by decide, by decide, by decide, by decide, by decide, by decide⟩

/-! ## C33: where `DummyParser` indexes an empty string, without the timer -/

theorem parseHostport_ne (x : Nat) (t : Bytes) (uri : URI) :
    ∃ r uri1, r ≠ [] ∧ URIRegex.parseHostport ⟨x :: t, uri⟩ = some (⟨r, uri1⟩, none) := by
  have key : ∀ c idx, IndexByte (x :: t) c = some idx →
      ∃ h r, r ≠ [] ∧ slice (x :: t) 0 idx = some h ∧ sliceFrom (x :: t) idx = some r := by
    intro c idx hi
    have hlt := IndexByte_lt _ _ idx hi
    simp only [List.length_cons] at hlt
    have hle : idx ≤ (x :: t).length := by simp only [List.length_cons]; omega
    refine ⟨((x :: t).drop 0).take (idx - 0), (x :: t).drop idx, ?_, ?_, ?_⟩
    rotate_left
    · simp only [slice]; rw [if_pos ⟨Nat.zero_le _, hle⟩]
    · simp only [sliceFrom]; rw [if_pos hle]
    intro he
    have := congrArg List.length he
    simp at this
    omega
  simp only [URIRegex.parseHostport]
  cases h1 : IndexByte (x :: t) 59 with
  | some idx =>
    obtain ⟨h, r, hr, e1, e2⟩ := key 59 idx h1
    simp only [e1, e2]
    exact ⟨r, _, hr, rfl⟩
  | none =>
    cases h2 : IndexByte (x :: t) 63 with
    | some idx =>
      obtain ⟨h, r, hr, e1, e2⟩ := key 63 idx h2
      simp only [e1, e2]
      exact ⟨r, _, hr, rfl⟩
    | none => exact ⟨x :: t, _, by simp, rfl⟩

theorem parseParams_ne (x : Nat) (t : Bytes) (uri : URI) :
    ∃ r uri1, r ≠ [] ∧ URIRegex.parseParams ⟨x :: t, uri⟩ = some (⟨r, uri1⟩, none) := by
  simp only [URIRegex.parseParams, List.get?_cons_zero]
  by_cases hx : x = 59
  · subst hx
    simp only [ne_eq, not_true_eq_false, if_false]
    cases h1 : IndexByte (59 :: t) 63 with
    | some idx =>
      have hlt := IndexByte_lt _ _ idx h1
      have hpos : 1 ≤ idx := by
        cases idx with
        | zero => simp [IndexByte] at h1
        | succ j => omega
      have e1 : slice (59 :: t) 1 idx = some (((59 :: t).drop 1).take (idx - 1)) := by
        simp only [slice]
        rw [if_pos ⟨hpos, by omega⟩]
      have e2 : sliceFrom (59 :: t) idx = some ((59 :: t).drop idx) := by
        simp only [sliceFrom]
        rw [if_pos (by omega)]
      simp only [e1, e2]
      refine ⟨_, _, ?_, rfl⟩
      intro he
      have := congrArg List.length he
      simp at this
      simp at hlt
      omega
    | none =>
      simp only [sliceFrom, List.length_cons, Nat.le_add_left, if_true, Option.map_some']
      exact ⟨59 :: t, _, by simp, rfl⟩
  · simp only [ne_eq, hx, not_false_eq_true, if_true]
    exact ⟨x :: t, _, by simp, rfl⟩

theorem parseHeaders_ne (x : Nat) (t : Bytes) (uri : URI) :
    ∃ u, URIRegex.parseHeaders ⟨x :: t, uri⟩ = some (u, none) := by
  simp only [URIRegex.parseHeaders, List.get?_cons_zero]
  by_cases hx : x = 63
  · subst hx
    simp [sliceFrom]
  · simp [hx]

/-- From `parseHostport` on, `DummyParser` panics exactly on the empty input, and
returns no error otherwise. -/
theorem dummy_tail_none (inp : Bytes) (uri : URI) :
    (URIRegex.andThen (URIRegex.andThen (URIRegex.parseHostport ⟨inp, uri⟩)
        URIRegex.parseParams) URIRegex.parseHeaders = none ↔ inp = []) ∧
    (inp ≠ [] → ∃ u, URIRegex.andThen (URIRegex.andThen (URIRegex.parseHostport ⟨inp, uri⟩)
        URIRegex.parseParams) URIRegex.parseHeaders = some (u, none)) := by
  cases inp with
  | nil =>
    refine ⟨⟨fun _ => rfl, fun _ => ?_⟩, fun h => absurd rfl h⟩
    simp [URIRegex.parseHostport, IndexByte, URIRegex.andThen, URIRegex.parseParams]
  | cons x t =>
    obtain ⟨r, uri1, hr, e1⟩ := parseHostport_ne x t uri
    cases r with
    | nil => exact absurd rfl hr
    | cons y r =>
      obtain ⟨r2, uri2, hr2, e2⟩ := parseParams_ne y r uri1
      cases r2 with
      | nil => exact absurd rfl hr2
      | cons z r2 =>
        obtain ⟨u, e3⟩ := parseHeaders_ne z r2 uri2
        have e : URIRegex.andThen (URIRegex.andThen (URIRegex.parseHostport ⟨x :: t, uri⟩)
            URIRegex.parseParams) URIRegex.parseHeaders = some (u, none) := by
          rw [e1, URIRegex_andThen_ok, e2, URIRegex_andThen_ok, e3]
        refine ⟨⟨fun h => ?_, fun h => by simp at h⟩, fun _ => ⟨u, e⟩⟩
        rw [e] at h
        simp at h

/-- After the scheme, `parseUserinfo` leaves the empty input exactly when the
input is empty or ends with its first `@`. -/
theorem parseUserinfo_rest (r : Bytes) (uri : URI) :
    ∃ inp uri1, URIRegex.parseUserinfo ⟨r, uri⟩ = some (⟨inp, uri1⟩, none) ∧
      (inp = [] ↔ (r = [] ∨ ∃ U, 64 ∉ U ∧ r = U ++ [64])) := by
  simp only [URIRegex.parseUserinfo]
  cases hi : IndexByte r 64 with
  | none =>
    refine ⟨r, uri, rfl, ⟨fun h => Or.inl h, fun h => ?_⟩⟩
    rcases h with h | ⟨U, _, h⟩
    · exact h
    · exfalso
      exact IndexByte_none_mem r 64 hi 64 (by rw [h]; simp) rfl
  | some idx =>
    have hlt := IndexByte_lt _ _ idx hi
    obtain ⟨hsplit, hne⟩ := IndexByte_some_split r 64 idx hi
    have e1 : slice r 0 idx = some (r.take idx) := by
      simp only [slice]
      rw [if_pos ⟨Nat.zero_le _, by omega⟩]
      simp
    have e2 : sliceFrom r (idx + 1) = some (r.drop (idx + 1)) := by
      simp only [sliceFrom]
      rw [if_pos (by omega)]
    simp only [e1, e2]
    refine ⟨_, _, rfl, ⟨fun h => Or.inr ⟨r.take idx, fun hin => hne 64 hin rfl, ?_⟩, fun h => ?_⟩⟩
    · conv_lhs => rw [hsplit]
      rw [h]
    · rcases h with h | ⟨U, hU, h⟩
      · rw [h] at hlt; simp at hlt
      · have hidx : IndexByte r 64 = some U.length := by
          rw [h]
          exact IndexByte_first U [] 64 (fun x hx e => hU (e ▸ hx))
        rw [hi] at hidx
        simp only [Option.some.injEq] at hidx
        rw [hidx, h]
        simp

theorem DummyParser_after_scheme (data r : Bytes) (sch : Scheme)
    (h0 : URIRegex.parseScheme ⟨data, URI.zero⟩
      = some (⟨r, { URI.zero with scheme := sch }⟩, none)) :
    DummyParser data = none ↔ (r = [] ∨ ∃ U, 64 ∉ U ∧ r = U ++ [64]) := by
  obtain ⟨inp, uri1, e1, hiff⟩ := parseUserinfo_rest r { URI.zero with scheme := sch }
  obtain ⟨t1, t2⟩ := dummy_tail_none inp uri1
  simp only [DummyParser, h0, URIRegex_andThen_ok, e1]
  rw [← hiff]
  by_cases hinp : inp = []
  · rw [t1.2 hinp]
    simp [hinp]
  · obtain ⟨u, e⟩ := t2 hinp
    rw [e]
    simp [hinp]

/-- Without the timer: `DummyParser` indexes `u.input[0]` in `parseParams`
on an empty string, and so panics, exactly when nothing follows the scheme or
nothing follows the first `@`; `sip:` and `sip:alice@` are such inputs, on which
`LexerParseInTime` returns an error. -/
theorem DummyParser_index_out_of_range_in_time :
    (∀ data, DummyParser data = none ↔
      ∃ S, (S = B "sip:" ∨ S = B "sips:") ∧
        (data = S ∨ ∃ U, 64 ∉ U ∧ data = S ++ U ++ B "@")) ∧
    DummyParser (B "sip:") = none ∧ DummyParser (B "sip:alice@") = none ∧
    URIRegex.parseParams ⟨[], ⟨Scheme.SIP, B "alice", [], [], []⟩⟩ = none ∧
    LexerParseInTime (B "sip:") = some (none, some (B "Invalid uri 'sip:': invalid host/port")) ∧
    LexerParseInTime (B "sip:alice@")
      = some (none, some (B "Invalid uri 'sip:alice@': invalid host/port")) := by
  refine ⟨?_, by decide, by decide, by decide, by decide, by decide⟩
  intro data
  have hcase : ∀ (S r : Bytes) (sch : Scheme), data = S ++ r →
      URIRegex.parseScheme ⟨data, URI.zero⟩
        = some (⟨r, { URI.zero with scheme := sch }⟩, none) →
      (DummyParser data = none ↔ (data = S ∨ ∃ U, 64 ∉ U ∧ data = S ++ U ++ B "@")) := by
    intro S r sch hd h0
    rw [DummyParser_after_scheme data r sch h0, hd, B_at]
    constructor
    · rintro (h | ⟨U, hU, h⟩)
      · left; rw [h]; simp
      · right; exact ⟨U, hU, by rw [h]; simp⟩
    · rintro (h | ⟨U, hU, h⟩)
      · left
        have := congrArg List.length h
        simp at this
        exact this
      · right
        refine ⟨U, hU, ?_⟩
        rw [List.append_assoc] at h
        exact List.append_cancel_left h
  have hpre : ∀ S, (data = S ∨ ∃ U, 64 ∉ U ∧ data = S ++ U ++ B "@") → S <+: data := by
    intro S h
    rcases h with h | ⟨U, _, h⟩
    · rw [h]
    · rw [h, List.append_assoc]; exact List.prefix_append _ _
  have hsip : ∀ r, ¬ (B "sips:" <+: B "sip:" ++ r) := by
    intro r h
    rw [B_sip, B_sips] at h
    obtain ⟨t, ht⟩ := h
    simp at ht
  have hsips : ∀ r, ¬ (B "sip:" <+: B "sips:" ++ r) := by
    intro r h
    rw [B_sip, B_sips] at h
    obtain ⟨t, ht⟩ := h
    simp at ht
  by_cases h1 : HasPrefix data (B "sip:") = true
  · have hp : B "sip:" <+: data := by simpa [HasPrefix] using h1
    obtain ⟨r, hr⟩ := hp
    have h0 := parseScheme_sip r URI.zero
    rw [hr] at h0
    rw [hcase (B "sip:") r Scheme.SIP hr.symm h0]
    constructor
    · intro h; exact ⟨B "sip:", Or.inl rfl, h⟩
    · rintro ⟨S, hS | hS, h⟩
      · rw [hS] at h; exact h
      · exfalso
        apply hsip r
        rw [hr, ← hS]
        exact hpre S h
  · by_cases h2 : HasPrefix data (B "sips:") = true
    · have hp : B "sips:" <+: data := by simpa [HasPrefix] using h2
      obtain ⟨r, hr⟩ := hp
      have h0 := parseScheme_sips r URI.zero
      rw [hr] at h0
      rw [hcase (B "sips:") r Scheme.SIPS hr.symm h0]
      constructor
      · intro h; exact ⟨B "sips:", Or.inr rfl, h⟩
      · rintro ⟨S, hS | hS, h⟩
        · exfalso
          apply h1
          have := hpre S h
          rw [hS] at this
          simpa [HasPrefix] using this
        · rw [hS] at h; exact h
    · have hd : DummyParser data = some (none, some (B "Invalid URI scheme")) := by
        simp [DummyParser, URIRegex.parseScheme, h1, h2, URIRegex.andThen]
      rw [hd]
      constructor
      · intro h; simp at h
      · rintro ⟨S, hS | hS, h⟩
        · exfalso
          apply h1
          have := hpre S h
          rw [hS] at this
          simpa [HasPrefix] using this
        · exfalso
          apply h2
          have := hpre S h
          rw [hS] at this
          simpa [HasPrefix] using this

/-! ## C34: the form of the hostport, without the timer -/

/-- The host that the loop of `lexIPv6` sends over ASCII input is `done` and
then hexadecimal digits, `:` and `.` up to a `]`. -/
theorem hostForm_ipv6Loop (cs : Bytes) : ∀ (done : Bytes) (v : Bytes) (evs : List Event),
    (∀ c ∈ cs, c < 128) →
    ipv6LoopSent cs done cs = Event.item ⟨Token.tHost, v⟩ :: evs →
    ∃ m, v = done ++ (m ++ [93]) ∧ ∀ c ∈ m, isHex c = true ∨ c = 58 ∨ c = 46 := by
  induction cs with
  | nil => intro done v evs _ h; simp [ipv6LoopSent, errorf] at h
  | cons c cs ih =>
    intro done v evs hlt h
    have hc : c < 128 := hlt c (by simp)
    have hbyte : byte c = c := byte_of_lt c (by omega)
    simp only [ipv6LoopSent, List.take_succ_cons, List.take_zero, List.drop_succ_cons,
      List.drop_zero, hbyte] at h
    split_ifs at h with h1 h2
    · simp only [List.cons.injEq, Event.item.injEq, Item.mk.injEq, true_and] at h
      exact ⟨[], by rw [← h.1, h1]; simp, by simp⟩
    · obtain ⟨m, e, hm⟩ := ih (done ++ [c]) v evs (fun x hx => hlt x (by simp [hx])) h
      refine ⟨c :: m, by rw [e]; simp, ?_⟩
      intro x hx
      rcases List.mem_cons.1 hx with hx | hx
      · rw [hx]; exact h2
      · exact hm x hx
    · simp [errorf] at h

/-- The host that the loop of `lexHostname` sends over ASCII input is `done` and
then letters, digits, `-` and `.`. -/
theorem hostForm_hostnameLoop (cs : Bytes) : ∀ (done : Bytes) (v : Bytes) (evs : List Event),
    (∀ c ∈ cs, c < 128) →
    hostnameLoopSent cs done cs = Event.item ⟨Token.tHost, v⟩ :: evs →
    ∃ m, v = done ++ m ∧ ∀ c ∈ m, isHostByte c = true := by
  induction cs with
  | nil =>
    intro done v evs _ h
    simp only [hostnameLoopSent, List.cons.injEq, Event.item.injEq, Item.mk.injEq,
      true_and] at h
    exact ⟨[], by rw [← h.1]; simp, by simp⟩
  | cons c cs ih =>
    intro done v evs hlt h
    have hc : c < 128 := hlt c (by simp)
    have hbyte : byte c = c := byte_of_lt c (by omega)
    simp only [hostnameLoopSent, List.take_succ_cons, List.take_zero, List.drop_succ_cons,
      List.drop_zero, hbyte] at h
    split_ifs at h with h1 h2 h3 h4
    · obtain ⟨m, e, hm⟩ := ih (done ++ [c]) v evs (fun x hx => hlt x (by simp [hx])) h
      refine ⟨c :: m, by rw [e]; simp, ?_⟩
      intro x hx
      rcases List.mem_cons.1 hx with hx | hx
      · rw [hx]; exact (isHostByte_iff c).2 h1
      · exact hm x hx
    all_goals first
      | (simp only [List.cons.injEq, Event.item.injEq, Item.mk.injEq, true_and] at h
         exact ⟨[], by rw [← h.1]; simp, by simp⟩)
      | simp [errorf] at h

theorem isNum_isHostByte (c : Nat) (h : isNum c = true) : isHostByte c = true := by
  simp only [isHostByte, isLetter, isNum, Bool.or_eq_true, decide_eq_true_eq] at h ⊢
  omega

theorem isNum_isAlphaNum (c : Nat) (h : isNum c = true) : isAlphaNum c = true := by
  simp only [isAlphaNum, isNum, Bool.or_eq_true, decide_eq_true_eq] at h ⊢
  omega

/-- An IPv4 literal begins with a digit and consists of digits and `.`. -/
theorem isIPv4Literal_plain (lit : Bytes) (h : isIPv4Literal lit) : isPlainHost lit := by
  obtain ⟨d1, d2, d3, d4, e, o1, o2, o3, o4⟩ := h
  obtain ⟨n1, g1, _⟩ := o1
  cases d1 with
  | nil => exact absurd rfl n1
  | cons x t =>
    refine ⟨x, t ++ 46 :: (d2 ++ 46 :: (d3 ++ 46 :: d4)), by rw [e]; rfl,
      isNum_isAlphaNum x (g1 x (by simp)), ?_⟩
    intro c hc
    have hdot : isHostByte 46 = true := by decide
    simp only [List.mem_append, List.mem_cons] at hc
    rcases hc with hc | hc | hc | hc | hc | hc | hc
    · exact isNum_isHostByte c (g1 c (by simp [hc]))
    · rw [hc]; exact hdot
    · exact isNum_isHostByte c (o2.2.1 c hc)
    · rw [hc]; exact hdot
    · exact isNum_isHostByte c (o3.2.1 c hc)
    · rw [hc]; exact hdot
    · exact isNum_isHostByte c (o4.2.1 c hc)

/-- The host that `lexHostport` sends over ASCII input is a bracketed host or a
host without brackets. -/
theorem hostportSent_form (T : Bytes) (hT : ∀ c ∈ T, c < 128) (v : Bytes) (evs : List Event)
    (h : hostportSent T = Event.item ⟨Token.tHost, v⟩ :: evs) :
    isBracketHost v ∨ isPlainHost v := by
  match T, hT, h with
  | [], _, h => simp [hostportSent, errorf] at h
  | c :: r, hT, h =>
    have hlt : ∀ c ∈ r, c < 128 := fun x hx => hT x (by simp [hx])
    have hc : c < 128 := hT c (by simp)
    have hbyte : byte c = c := byte_of_lt c (by omega)
    have hrun : runes (c :: r) = c :: r := runes_ascii _ hT
    have hrunr : runes r = r := runes_ascii _ hlt
    simp only [hostportSent, hrun, hrunr] at h
    split_ifs at h with h1 h2 h3
    · obtain ⟨m, e, hm⟩ := hostForm_ipv6Loop r [91] v evs hlt h
      exact Or.inl ⟨m, by rw [e]; rfl, hm⟩
    · simp only [List.cons.injEq, Event.item.injEq, Item.mk.injEq, true_and] at h
      obtain ⟨q, hq, _⟩ := parseIPv4_spec (c :: r)
      obtain ⟨n, ok⟩ := q
      rw [hq] at h2 h
      simp only [Option.getD_some] at h2 h
      subst h2
      obtain ⟨lit, rest, e, hl, _, hn⟩ := parseIPv4_inv (c :: r) n hq
      have hv : v = lit := by
        rw [← h.1, e, hn, List.take_left]
      rw [hv]
      exact Or.inr (isIPv4Literal_plain lit hl)
    · rw [hbyte] at h3
      simp only [hostnameLoopSent, hbyte, h3, true_or, if_true, List.take_succ_cons,
        List.take_zero, List.drop_succ_cons, List.drop_zero, List.nil_append] at h
      obtain ⟨m, e, hm⟩ := hostForm_hostnameLoop r [c] v evs hlt h
      exact Or.inr ⟨c, m, by rw [e]; rfl, h3, hm⟩
    · simp [errorf] at h

/-- Without the timer: the hostport of an accepted ASCII input is a host `H`, or `H`, a
colon and a non-empty string of digits of value at most 65535, where `H` is a
bracketed host (`[`, then hexadecimal digits, `:` and `.`, then `]`) or begins
with a letter or digit and consists of letters, digits, `-` and `.`. -/
theorem LexerParseInTime_hostport_form (data : Bytes) (u : URI) (hascii : ∀ b ∈ data, b < 128)
    (h : LexerParseInTime data = some (some u, none)) :
    ∃ H, (isBracketHost H ∨ isPlainHost H) ∧
      (u.hostport = H ∨
        ∃ D, D ≠ [] ∧ (∀ c ∈ D, isNum c = true) ∧ decVal D ≤ 65535 ∧
          u.hostport = H ++ B ":" ++ D) := by
  obtain ⟨S, U, hst, PT, P, H, e0, _, _, _, _, ⟨evs, hev⟩, hp, _, _⟩ :=
    accepted_shape data u hascii h
  have hT : ∀ c ∈ hst ++ (PT ++ (P ++ H)), c < 128 := by
    intro c hc
    apply hascii c
    rw [e0]
    simp only [List.mem_append] at hc ⊢
    tauto
  refine ⟨hst, hostportSent_form _ hT hst evs hev, ?_⟩
  rcases hp with ⟨_, h2⟩ | ⟨d, _, hne, hd, hv, h2⟩
  · exact Or.inl h2
  · exact Or.inr ⟨d, hne, hd, hv, by rw [h2, B_colon]; simp⟩

theorem LexerParseInTime_hostport_form_witness :
    ∃ H, (isBracketHost H ∨ isPlainHost H) ∧
      (B "[::1]:5060" = H ∨
        ∃ D, D ≠ [] ∧ (∀ c ∈ D, isNum c = true) ∧ decVal D ≤ 65535 ∧
          B "[::1]:5060" = H ++ B ":" ++ D) :=
  LexerParseInTime_hostport_form (B "sip:bob@[::1]:5060;a=b")
    ⟨Scheme.SIP, B "bob", B "[::1]:5060", B "a=b", []⟩ (by decide) (by decide)



/-! ## C35: an ASCII byte of a string is one of its runes, without the timer -/

theorem acceptLo_ge (s0 : Nat) : 0x80 ≤ acceptLo s0 := by
  simp only [acceptLo]; split_ifs <;> omega

theorem getD_of_get? (t : Bytes) (i x : Nat) (h : t.get? i = some x) : t.getD i 0 = x := by
  rw [List.get?_eq_getElem?] at h
  simp [List.getD, h]

/-- The bytes that a rune of two or more bytes takes after its first byte are
above 127. -/
theorem decodeRune_skip (s0 : Nat) (t : Bytes) : ∀ i x, i + 1 < (decodeRune s0 t).2 →
    t.get? i = some x → 128 ≤ x := by
  intro i x hi hx
  have hlo := acceptLo_ge s0
  rcases runeSize_cases s0 with ⟨h, _⟩ | h | h | h | h
  · have e : (decodeRune s0 t).2 = 1 := by simp [decodeRune, h]
    omega
  · have e : (decodeRune s0 t).2 = 1 := by simp [decodeRune, h]
    omega
  · have e : decodeRune s0 t =
        if t.length + 1 < 2 then (RuneError, 1)
        else if t.getD 0 0 < acceptLo s0 ∨ acceptHi s0 < t.getD 0 0 then (RuneError, 1)
        else ((s0 % 32) * 64 + t.getD 0 0 % 64, 2) := by
      simp [decodeRune, h]
    rw [e] at hi
    split_ifs at hi with c1 c2
    · simp at hi
    · simp at hi
    · have h0 : i = 0 := by simp at hi; omega
      subst h0
      rw [getD_of_get? t 0 x hx] at c2
      omega
  · have e : decodeRune s0 t =
        if t.length + 1 < 3 then (RuneError, 1)
        else if t.getD 0 0 < acceptLo s0 ∨ acceptHi s0 < t.getD 0 0 then (RuneError, 1)
        else if ¬ isCont (t.getD 1 0) then (RuneError, 1)
        else ((s0 % 16) * 4096 + (t.getD 0 0 % 64) * 64 + t.getD 1 0 % 64, 3) := by
      simp [decodeRune, h]
    rw [e] at hi
    split_ifs at hi with c1 c2 c3
    · simp at hi
    · simp at hi
    · have h0 : i = 0 ∨ i = 1 := by simp at hi; omega
      rcases h0 with h0 | h0
      · subst h0
        rw [getD_of_get? t 0 x hx] at c2
        omega
      · subst h0
        rw [getD_of_get? t 1 x hx] at c3
        simp only [isCont, decide_eq_true_eq] at c3
        omega
    · simp at hi
  · have e : decodeRune s0 t =
        if t.length + 1 < 4 then (RuneError, 1)
        else if t.getD 0 0 < acceptLo s0 ∨ acceptHi s0 < t.getD 0 0 then (RuneError, 1)
        else if ¬ isCont (t.getD 1 0) then (RuneError, 1)
        else if ¬ isCont (t.getD 2 0) then (RuneError, 1)
        else ((s0 % 8) * 262144 + (t.getD 0 0 % 64) * 4096 + (t.getD 1 0 % 64) * 64
          + t.getD 2 0 % 64, 4) := by
      simp [decodeRune, h]
    rw [e] at hi
    split_ifs at hi with c1 c2 c3 c4
    · simp at hi
    · simp at hi
    · have h0 : i = 0 ∨ i = 1 ∨ i = 2 := by simp at hi; omega
      rcases h0 with h0 | h0 | h0
      · subst h0
        rw [getD_of_get? t 0 x hx] at c2
        omega
      · subst h0
        rw [getD_of_get? t 1 x hx] at c3
        simp only [isCont, decide_eq_true_eq] at c3
        omega
      · subst h0
        rw [getD_of_get? t 2 x hx] at c4
        simp only [isCont, decide_eq_true_eq] at c4
        omega
    · simp at hi
    · simp at hi

/-- An ASCII byte at the index `i` of a string is the rune at some index up to
`i` of the runes of the string. -/
theorem runesFrom_ascii_at (s : Bytes) : ∀ (skip i b : Nat), b < 128 →
    (∀ k x, k < skip → s.get? k = some x → 128 ≤ x) → s.get? i = some b →
    ∃ j, j ≤ i ∧ (runesFrom skip s).get? j = some b := by
  induction s with
  | nil => intro skip i b _ _ h; simp at h
  | cons s0 t ih =>
    intro skip i b hb hskip h
    cases skip with
    | succ k =>
      cases i with
      | zero =>
        have := hskip 0 s0 (by omega) (by simp)
        simp at h
        omega
      | succ i =>
        simp only [List.get?_cons_succ] at h
        obtain ⟨j, hj, e⟩ := ih k i b hb
          (fun k1 x hk hx => hskip (k1 + 1) x (by omega) (by simpa using hx)) h
        exact ⟨j, by omega, by simpa [runesFrom] using e⟩
    | zero =>
      cases i with
      | zero =>
        simp only [List.get?_cons_zero, Option.some.injEq] at h
        subst h
        refine ⟨0, le_refl _, ?_⟩
        rcases decodeRune_class s0 t with ⟨h1, _⟩ | h1
        · simp [runesFrom, h1]
        · exfalso
          have h2 : runeSize s0 = 1 := by simp [runeSize, hb]
          have h3 : (decodeRune s0 t).1 = s0 := by simp [decodeRune, h2]
          omega
      | succ i =>
        simp only [List.get?_cons_succ] at h
        obtain ⟨j, hj, e⟩ := ih ((decodeRune s0 t).2 - 1) i b hb
          (fun k1 x hk hx => decodeRune_skip s0 t k1 x (by omega) hx) h
        exact ⟨j + 1, by omega, by simpa [runesFrom] using e⟩

/-- A string has no `@` when the first `n` of its runes are not `@` and either
these are all its runes or there is no `@` from the index `n` on. -/
theorem no_at_of_runes (s : Bytes) (n : Nat)
    (hn : ∀ j c, j < n → (runes s).get? j = some c → c ≠ 64)
    (hrest : (runes s).length ≤ n ∨ 64 ∉ s.drop n) : 64 ∉ s := by
  intro hin
  obtain ⟨i, hi⟩ := List.get?_of_mem hin
  obtain ⟨j, hj, e⟩ := runesFrom_ascii_at s 0 i 64 (by decide) (fun k x hk _ => by omega) hi
  have hjn : n ≤ j := by
    by_contra hlt
    exact hn j 64 (by omega) e rfl
  rcases hrest with h | h
  · have := List.get?_eq_some.1 e
    obtain ⟨hlt, _⟩ := this
    simp only [runes] at h
    omega
  · apply h
    have : (s.drop n).get? (i - n) = some 64 := by
      rw [List.get?_eq_getElem?, List.getElem?_drop, ← List.get?_eq_getElem?]
      have : n + (i - n) = i := by omega
      rw [this]; exact hi
    exact List.get?_mem this

/-! ## C35: an accepted input has no `@` after the userinfo, without the timer -/

theorem headerErrs_no_at (cs : List Nat) : ∀ rest, headerErrs cs rest = [] → ∀ c ∈ cs, c ≠ 64 := by
  induction cs with
  | nil => intro rest _ c hc; simp at hc
  | cons x cs ih =>
    intro rest h c hc
    simp only [headerErrs] at h
    split_ifs at h with h1 h2
    · rcases List.mem_cons.1 hc with e | e
      · intro e64
        have hx : x = 64 := by omega
        subst hx
        revert h1; decide
      · exact ih _ h c e
    · rcases List.mem_cons.1 hc with e | e
      · intro e64
        have hx : x = 64 := by omega
        subst hx
        revert h2; decide
      · exact ih _ h c e

theorem at_headers (data : Bytes) (u0 u : URI) (suf : Bytes)
    (h : mainLoopInTime data u0 (headersSent suf) = (some u, none)) : 64 ∉ suf := by
  match suf, h with
  | [], _ => simp
  | c :: hs, h =>
    simp only [headersSent] at h
    split_ifs at h with hc
    · simp [mainLoopInTime, errorf] at h
    · obtain ⟨he, _⟩ := mainLoopInTime_errs_append data u0 _ _ (headerErrs_err _ _) u h
      have hr := headerErrs_no_at _ _ he
      have hhs : 64 ∉ hs :=
        no_at_of_runes hs (runes hs).length (fun j x _ hj => hr x (List.get?_mem hj))
          (Or.inl (le_refl _))
      have hc63 : c = 63 := by simpa using hc
      intro hin
      rcases List.mem_cons.1 hin with e | e
      · omega
      · exact hhs e

theorem at_paramsLoop (data : Bytes) (cs : List Nat) : ∀ (done rest : Bytes) (u0 u : URI),
    mainLoopInTime data u0 (paramsLoopSent cs done rest) = (some u, none) →
    ∃ n, (∀ j c, j < n → cs.get? j = some c → c ≠ 64) ∧ (cs.length ≤ n ∨ 64 ∉ rest.drop n) := by
  induction cs with
  | nil => intro done rest u0 u _; exact ⟨0, fun j c hj _ => by omega, Or.inl (le_refl _)⟩
  | cons x cs ih =>
    intro done rest u0 u h
    simp only [paramsLoopSent] at h
    split_ifs at h with h1 h2 h3
    · simp only [mainLoopInTime, reduceCtorEq, if_false] at h
      exact ⟨0, fun j c hj _ => by omega, Or.inr (by simpa using at_headers data _ u rest h)⟩
    · obtain ⟨n, hn, hr⟩ := ih _ _ u0 u h
      refine ⟨n + 1, ?_, ?_⟩
      · intro j c hj hc
        cases j with
        | zero =>
          simp only [List.get?_cons_zero, Option.some.injEq] at hc
          intro e64
          have hx : x = 64 := by omega
          subst hx
          revert h2; decide
        | succ j => exact hn j c (by omega) (by simpa using hc)
      · rcases hr with hr | hr
        · exact Or.inl (by simp; omega)
        · exact Or.inr (by simpa [List.drop_drop, Nat.add_comm] using hr)
    · obtain ⟨n, hn, hr⟩ := ih _ _ u0 u h
      refine ⟨n + 1, ?_, ?_⟩
      · intro j c hj hc
        cases j with
        | zero =>
          simp only [List.get?_cons_zero, Option.some.injEq] at hc
          intro e64
          have hx : x = 64 := by omega
          subst hx
          revert h3; decide
        | succ j => exact hn j c (by omega) (by simpa using hc)
      · rcases hr with hr | hr
        · exact Or.inl (by simp; omega)
        · exact Or.inr (by simpa [List.drop_drop, Nat.add_comm] using hr)
    · simp [mainLoopInTime, errorf] at h

theorem at_params (data : Bytes) (u0 u : URI) (suf : Bytes)
    (h : mainLoopInTime data u0 (paramsSent suf) = (some u, none)) : 64 ∉ suf := by
  match suf, h with
  | [], _ => simp
  | c :: ps, h =>
    simp only [paramsSent] at h
    split_ifs at h with h1 h2
    · exact at_headers data u0 u _ h
    · simp [mainLoopInTime, errorf] at h
    · obtain ⟨n, hn, hr⟩ := at_paramsLoop data (runes ps) [] ps u0 u h
      have hps := no_at_of_runes ps n hn hr
      have hc59 : c = 59 := by simpa using h2
      intro hin
      rcases List.mem_cons.1 hin with e | e
      · omega
      · exact hps e

theorem at_port (data : Bytes) (u0 u : URI) (done suf : Bytes)
    (h : mainLoopInTime data u0 (portSent done suf) = (some u, none)) : 64 ∉ suf := by
  match suf, h with
  | [], _ => simp
  | c :: r, h =>
    simp only [portSent] at h
    split_ifs at h with h1 h2
    · exact at_params data u0 u _ h
    · simp [mainLoopInTime, errorf] at h
    · simp only [List.nil_append, mainLoopInTime, reduceCtorEq, if_false] at h
      have hdrop := at_params data _ u _ h
      have hok : (dtoi r).2.2 = true := by
        by_contra hf
        exact h2 (Or.inl hf)
      obtain ⟨_, _, hdig, _⟩ := dtoi_ok r hok
      have hc58 : c = 58 := by simpa using h1
      intro hin
      rcases List.mem_cons.1 hin with e | e
      · omega
      · rw [← List.take_append_drop (dtoi r).2.1 r] at e
        rcases List.mem_append.1 e with e | e
        · have := hdig 64 e
          revert this; decide
        · exact hdrop e

theorem at_hostnameLoop (data : Bytes) (cs : List Nat) : ∀ (done rest : Bytes) (u0 u : URI),
    mainLoopInTime data u0 (hostnameLoopSent cs done rest) = (some u, none) →
    ∃ n, (∀ j c, j < n → cs.get? j = some c → c ≠ 64) ∧ (cs.length ≤ n ∨ 64 ∉ rest.drop n) := by
  induction cs with
  | nil => intro done rest u0 u _; exact ⟨0, fun j c hj _ => by omega, Or.inl (le_refl _)⟩
  | cons x cs ih =>
    intro done rest u0 u h
    simp only [hostnameLoopSent] at h
    split_ifs at h with h1 h2 h3 h4
    · obtain ⟨n, hn, hr⟩ := ih _ _ u0 u h
      refine ⟨n + 1, ?_, ?_⟩
      · intro j c hj hc
        cases j with
        | zero =>
          simp only [List.get?_cons_zero, Option.some.injEq] at hc
          intro e64
          have hx : x = 64 := by omega
          subst hx
          revert h1; decide
        | succ j => exact hn j c (by omega) (by simpa using hc)
      · rcases hr with hr | hr
        · exact Or.inl (by simp; omega)
        · exact Or.inr (by simpa [List.drop_drop, Nat.add_comm] using hr)
    · simp only [mainLoopInTime, reduceCtorEq, if_false] at h
      exact ⟨0, fun j c hj _ => by omega, Or.inr (by simpa using at_port data _ u _ rest h)⟩
    · simp only [mainLoopInTime, reduceCtorEq, if_false] at h
      exact ⟨0, fun j c hj _ => by omega, Or.inr (by simpa using at_params data _ u rest h)⟩
    · simp only [mainLoopInTime, reduceCtorEq, if_false] at h
      exact ⟨0, fun j c hj _ => by omega, Or.inr (by simpa using at_headers data _ u rest h)⟩
    · simp [mainLoopInTime, errorf] at h

theorem at_ipv6Loop (data : Bytes) (cs : List Nat) : ∀ (done rest : Bytes) (u0 u : URI),
    mainLoopInTime data u0 (ipv6LoopSent cs done rest) = (some u, none) →
    ∃ n, (∀ j c, j < n → cs.get? j = some c → c ≠ 64) ∧ (cs.length ≤ n ∨ 64 ∉ rest.drop n) := by
  induction cs with
  | nil => intro done rest u0 u h; simp [ipv6LoopSent, mainLoopInTime, errorf] at h
  | cons x cs ih =>
    intro done rest u0 u h
    simp only [ipv6LoopSent] at h
    split_ifs at h with h1 h2
    · simp only [mainLoopInTime, reduceCtorEq, if_false] at h
      refine ⟨1, ?_, Or.inr (at_port data _ u _ _ h)⟩
      intro j c hj hc
      have hj0 : j = 0 := by omega
      subst hj0
      simp only [List.get?_cons_zero, Option.some.injEq] at hc
      omega
    · obtain ⟨n, hn, hr⟩ := ih _ _ u0 u h
      refine ⟨n + 1, ?_, ?_⟩
      · intro j c hj hc
        cases j with
        | zero =>
          simp only [List.get?_cons_zero, Option.some.injEq] at hc
          intro e64
          have hx : x = 64 := by omega
          subst hx
          revert h2; decide
        | succ j => exact hn j c (by omega) (by simpa using hc)
      · rcases hr with hr | hr
        · exact Or.inl (by simp; omega)
        · exact Or.inr (by simpa [List.drop_drop, Nat.add_comm] using hr)
    · simp [mainLoopInTime, errorf] at h

/-- An input from the host on that is accepted has no `@`. -/
theorem at_hostport (data : Bytes) (u0 u : URI) (suf : Bytes)
    (h : mainLoopInTime data u0 (hostportSent suf) = (some u, none)) : 64 ∉ suf := by
  match suf, h with
  | [], h => simp [hostportSent, mainLoopInTime, errorf] at h
  | c :: r, h =>
    simp only [hostportSent] at h
    split_ifs at h with h1 h2 h3
    · obtain ⟨n, hn, hr⟩ := at_ipv6Loop data (runes r) [91] r u0 u h
      have hps := no_at_of_runes r n hn hr
      intro hin
      rcases List.mem_cons.1 hin with e | e
      · omega
      · exact hps e
    · simp only [mainLoopInTime, reduceCtorEq, if_false] at h
      have hdrop := at_port data _ u _ _ h
      obtain ⟨q, hq, _⟩ := parseIPv4_spec (c :: r)
      obtain ⟨n, ok⟩ := q
      rw [hq] at h2 hdrop
      simp only [Option.getD_some] at h2 hdrop
      subst h2
      obtain ⟨lit, rest, e, hl, _, hn⟩ := parseIPv4_inv (c :: r) n hq
      obtain ⟨x, t, e1, hx, ht⟩ := isIPv4Literal_plain lit hl
      rw [e, hn, List.drop_left] at hdrop
      rw [e]
      intro hin
      rcases List.mem_append.1 hin with e2 | e2
      · rw [e1] at e2
        rcases List.mem_cons.1 e2 with e3 | e3
        · rw [← e3] at hx
          revert hx; decide
        · have := ht 64 e3
          revert this; decide
      · exact hdrop e2
    · obtain ⟨n, hn, hr⟩ := at_hostnameLoop data (runes (c :: r)) [] (c :: r) u0 u h
      exact no_at_of_runes (c :: r) n hn hr
    · simp [mainLoopInTime, errorf] at h


/-! ## C35: the values sent are made of bytes of the input, without the timer -/

theorem vals_headers (suf : Bytes) (tk : Token) (v : Bytes)
    (h : Event.item ⟨tk, v⟩ ∈ headersSent suf) : ∀ x ∈ v, x ∈ suf := by
  match suf, h with
  | [], h =>
    simp only [headersSent, List.mem_singleton, Event.item.injEq, Item.mk.injEq] at h
    rw [h.2]; simp
  | c :: hs, h =>
    simp only [headersSent] at h
    split_ifs at h with hc
    · simp [errorf] at h
    · rcases List.mem_append.1 h with h | h
      · obtain ⟨m, hm⟩ := headerErrs_err _ _ _ h
        simp at hm
      · intro x hx
        have hv : v = hs.take (runes hs).length := by
          simp only [List.mem_cons, Event.item.injEq, Item.mk.injEq, List.mem_singleton,
            List.not_mem_nil, or_false] at h
          rcases h with h | h <;> exact h.2
        rw [hv] at hx
        exact List.mem_cons_of_mem _ (List.mem_of_mem_take hx)

theorem mem_take_one (rest : Bytes) (x : Nat) (h : x ∈ rest.take 1) : x ∈ rest :=
  List.mem_of_mem_take h

theorem mem_drop_one (rest : Bytes) (x : Nat) (h : x ∈ rest.drop 1) : x ∈ rest :=
  List.mem_of_mem_drop h

theorem vals_paramsLoop (cs : List Nat) : ∀ (done rest : Bytes) (tk : Token) (v : Bytes),
    Event.item ⟨tk, v⟩ ∈ paramsLoopSent cs done rest → ∀ x ∈ v, x ∈ done ∨ x ∈ rest := by
  induction cs with
  | nil =>
    intro done rest tk v h x hx
    have hv : v = done := by
      simp only [paramsLoopSent, List.mem_cons, Event.item.injEq, Item.mk.injEq,
        List.mem_singleton, List.not_mem_nil, or_false] at h
      rcases h with h | h <;> exact h.2
    rw [hv] at hx; exact Or.inl hx
  | cons c cs ih =>
    intro done rest tk v h x hx
    have step : Event.item ⟨tk, v⟩ ∈ paramsLoopSent cs (done ++ rest.take 1) (rest.drop 1) →
        x ∈ done ∨ x ∈ rest := by
      intro h1
      rcases ih _ _ tk v h1 x hx with h2 | h2
      · rcases List.mem_append.1 h2 with h3 | h3
        · exact Or.inl h3
        · exact Or.inr (mem_take_one rest x h3)
      · exact Or.inr (mem_drop_one rest x h2)
    simp only [paramsLoopSent] at h
    split_ifs at h with h1 h2 h3
    · rcases List.mem_cons.1 h with h | h
      · simp only [Event.item.injEq, Item.mk.injEq] at h
        rw [h.2] at hx; exact Or.inl hx
      · exact Or.inr (vals_headers rest tk v h x hx)
    · exact step h
    · exact step h
    · simp [errorf] at h

theorem vals_params (suf : Bytes) (tk : Token) (v : Bytes)
    (h : Event.item ⟨tk, v⟩ ∈ paramsSent suf) : ∀ x ∈ v, x ∈ suf := by
  match suf, h with
  | [], h =>
    simp only [paramsSent, List.mem_singleton, Event.item.injEq, Item.mk.injEq] at h
    rw [h.2]; simp
  | c :: ps, h =>
    simp only [paramsSent] at h
    split_ifs at h with h1 h2
    · exact vals_headers _ tk v h
    · simp [errorf] at h
    · intro x hx
      rcases vals_paramsLoop _ _ _ tk v h x hx with h3 | h3
      · simp at h3
      · exact List.mem_cons_of_mem _ h3

theorem vals_port (done suf : Bytes) (tk : Token) (v : Bytes)
    (h : Event.item ⟨tk, v⟩ ∈ portSent done suf) : ∀ x ∈ v, x ∈ done ∨ x ∈ suf := by
  match suf, h with
  | [], h =>
    simp only [portSent, List.mem_singleton, Event.item.injEq, Item.mk.injEq] at h
    rw [h.2]; intro x hx; exact Or.inl hx
  | c :: r, h =>
    simp only [portSent] at h
    intro x hx
    split_ifs at h with h1 h2
    · exact Or.inr (vals_params _ tk v h x hx)
    · simp only [List.singleton_append, List.mem_cons, errorf, reduceCtorEq, false_or,
        Event.item.injEq, Item.mk.injEq] at h
      rcases h with h | h
      · rw [h.2] at hx
        exact Or.inr (List.mem_cons_of_mem _ (List.mem_of_mem_take hx))
      · exact Or.inr (List.mem_cons_of_mem _ (List.mem_of_mem_drop (vals_params _ tk v h x hx)))
    · simp only [List.nil_append, List.mem_cons, Event.item.injEq, Item.mk.injEq] at h
      rcases h with h | h
      · rw [h.2] at hx
        exact Or.inr (List.mem_cons_of_mem _ (List.mem_of_mem_take hx))
      · exact Or.inr (List.mem_cons_of_mem _ (List.mem_of_mem_drop (vals_params _ tk v h x hx)))

theorem vals_hostnameLoop (cs : List Nat) : ∀ (done rest : Bytes) (tk : Token) (v : Bytes),
    Event.item ⟨tk, v⟩ ∈ hostnameLoopSent cs done rest → ∀ x ∈ v, x ∈ done ∨ x ∈ rest := by
  induction cs with
  | nil =>
    intro done rest tk v h x hx
    have hv : v = done := by
      simp only [hostnameLoopSent, List.mem_cons, Event.item.injEq, Item.mk.injEq,
        List.mem_singleton, List.not_mem_nil, or_false] at h
      rcases h with h | h <;> exact h.2
    rw [hv] at hx; exact Or.inl hx
  | cons c cs ih =>
    intro done rest tk v h x hx
    simp only [hostnameLoopSent] at h
    split_ifs at h with h1 h2 h3 h4
    · rcases ih _ _ tk v h x hx with h5 | h5
      · rcases List.mem_append.1 h5 with h6 | h6
        · exact Or.inl h6
        · exact Or.inr (mem_take_one rest x h6)
      · exact Or.inr (mem_drop_one rest x h5)
    · rcases List.mem_cons.1 h with h | h
      · simp only [Event.item.injEq, Item.mk.injEq] at h
        rw [h.2] at hx; exact Or.inl hx
      · exact vals_port done rest tk v h x hx
    · rcases List.mem_cons.1 h with h | h
      · simp only [Event.item.injEq, Item.mk.injEq] at h
        rw [h.2] at hx; exact Or.inl hx
      · exact Or.inr (vals_params rest tk v h x hx)
    · rcases List.mem_cons.1 h with h | h
      · simp only [Event.item.injEq, Item.mk.injEq] at h
        rw [h.2] at hx; exact Or.inl hx
      · exact Or.inr (vals_headers rest tk v h x hx)
    · simp [errorf] at h

theorem vals_ipv6Loop (cs : List Nat) : ∀ (done rest : Bytes) (tk : Token) (v : Bytes),
    Event.item ⟨tk, v⟩ ∈ ipv6LoopSent cs done rest → ∀ x ∈ v, x ∈ done ∨ x ∈ rest := by
  induction cs with
  | nil => intro done rest tk v h; simp [ipv6LoopSent, errorf] at h
  | cons c cs ih =>
    intro done rest tk v h x hx
    have hsplit : x ∈ done ++ rest.take 1 → x ∈ done ∨ x ∈ rest := by
      intro h5
      rcases List.mem_append.1 h5 with h6 | h6
      · exact Or.inl h6
      · exact Or.inr (mem_take_one rest x h6)
    simp only [ipv6LoopSent] at h
    split_ifs at h with h1 h2
    · rcases List.mem_cons.1 h with h | h
      · simp only [Event.item.injEq, Item.mk.injEq] at h
        rw [h.2] at hx; exact hsplit hx
      · rcases vals_port _ _ tk v h x hx with h5 | h5
        · exact hsplit h5
        · exact Or.inr (mem_drop_one rest x h5)
    · rcases ih _ _ tk v h x hx with h5 | h5
      · exact hsplit h5
      · exact Or.inr (mem_drop_one rest x h5)
    · simp [errorf] at h

/-- The values that the lexer sends from the host on are made of bytes of the
input from the host on. -/
theorem vals_hostport (suf : Bytes) (tk : Token) (v : Bytes)
    (h : Event.item ⟨tk, v⟩ ∈ hostportSent suf) : ∀ x ∈ v, x ∈ suf := by
  match suf, h with
  | [], h => simp [hostportSent, errorf] at h
  | c :: r, h =>
    simp only [hostportSent] at h
    intro x hx
    split_ifs at h with h1 h2 h3
    · rcases vals_ipv6Loop _ _ _ tk v h x hx with h5 | h5
      · simp only [List.mem_singleton] at h5
        rw [h5, h1]; simp
      · exact List.mem_cons_of_mem _ h5
    · rcases List.mem_cons.1 h with h | h
      · simp only [Event.item.injEq, Item.mk.injEq] at h
        rw [h.2] at hx
        exact List.mem_of_mem_take hx
      · rcases vals_port _ _ tk v h x hx with h5 | h5
        · exact List.mem_of_mem_take h5
        · exact List.mem_of_mem_drop h5
    · rcases vals_hostnameLoop _ _ _ tk v h x hx with h5 | h5
      · simp at h5
      · exact h5
    · simp [errorf] at h

/-- The fields that the receive loop fills from values without `@` have no `@`. -/
theorem mainLoopInTime_no_at (data : Bytes) (evs : List Event) : ∀ (u0 u : URI),
    (∀ tk v, Event.item ⟨tk, v⟩ ∈ evs → 64 ∉ v) →
    (64 ∉ u0.userinfo ∧ 64 ∉ u0.hostport ∧ 64 ∉ u0.params ∧ 64 ∉ u0.headers) →
    mainLoopInTime data u0 evs = (some u, none) →
    64 ∉ u.userinfo ∧ 64 ∉ u.hostport ∧ 64 ∉ u.params ∧ 64 ∉ u.headers := by
  induction evs with
  | nil => intro u0 u _ _ h; simp [mainLoopInTime] at h
  | cons e evs ih =>
    intro u0 u hv h0 h
    have hv1 : ∀ tk v, Event.item ⟨tk, v⟩ ∈ evs → 64 ∉ v :=
      fun tk v hm => hv tk v (List.mem_cons_of_mem _ hm)
    cases e with
    | err m => simp [mainLoopInTime] at h
    | item it =>
      obtain ⟨tk, v⟩ := it
      have hvv : 64 ∉ v := hv tk v (by simp)
      simp only [mainLoopInTime] at h
      split_ifs at h with ht
      · simp only [Prod.mk.injEq, Option.some.injEq, and_true] at h
        rw [← h]; exact h0
      · apply ih _ u hv1 _ h
        obtain ⟨a, b, c, d⟩ := h0
        cases tk <;> simp only [URI.setSegment] <;> refine ⟨?_, ?_, ?_, ?_⟩ <;>
          first
            | assumption
            | (simp only [List.mem_append, B_colon, List.mem_singleton]
               intro hh
               rcases hh with (hh | hh) | hh
               · exact b hh
               · omega
               · exact hvv hh)

/-- An accepted input from the userinfo on has no `@`, or one `@` that ends the
userinfo. -/
theorem userinfoSent_at (data : Bytes) (u0 u : URI) (r : Bytes)
    (h0 : 64 ∉ u0.userinfo ∧ 64 ∉ u0.hostport ∧ 64 ∉ u0.params ∧ 64 ∉ u0.headers)
    (h : mainLoopInTime data u0 (userinfoSent r) = (some u, none)) :
    (64 ∉ u.userinfo ∧ 64 ∉ u.hostport ∧ 64 ∉ u.params ∧ 64 ∉ u.headers) ∧
    (64 ∉ r ∨ ∃ rest, r = u.userinfo ++ 64 :: rest ∧ 64 ∉ rest) := by
  simp only [userinfoSent] at h
  cases hi : IndexByte r 64 with
  | none =>
    rw [hi] at h
    simp only at h
    have hno : 64 ∉ r := fun hin => IndexByte_none_mem r 64 hi 64 hin rfl
    refine ⟨mainLoopInTime_no_at data _ u0 u ?_ h0 h, Or.inl hno⟩
    intro tk v hm hin
    exact hno (vals_hostport r tk v hm 64 hin)
  | some k =>
    rw [hi] at h
    simp only at h
    obtain ⟨hsplit, hne⟩ := IndexByte_some_split r 64 k hi
    cases he : userinfoErr (r.take k) (r.drop k) with
    | some e =>
      rw [he] at h
      obtain ⟨m, hm⟩ := userinfoErr_err _ _ e he
      subst hm
      simp [mainLoopInTime] at h
    | none =>
      rw [he] at h
      simp only [mainLoopInTime, reduceCtorEq, if_false, URI.setSegment] at h
      have hu := mainLoopInTime_userinfo data _ _ u (rank_hostport _) h
      simp only at hu
      have hrest := at_hostport data _ u _ h
      have htake : 64 ∉ r.take k := fun hin => hne 64 hin rfl
      have hz : 64 ∉ ({ u0 with userinfo := r.take k } : URI).userinfo ∧
          64 ∉ ({ u0 with userinfo := r.take k } : URI).hostport ∧
          64 ∉ ({ u0 with userinfo := r.take k } : URI).params ∧
          64 ∉ ({ u0 with userinfo := r.take k } : URI).headers :=
        ⟨htake, h0.2.1, h0.2.2.1, h0.2.2.2⟩
      refine ⟨mainLoopInTime_no_at data _ { u0 with userinfo := r.take k } u ?_ hz h,
        Or.inr ⟨r.drop (k + 1), by rw [hu]; exact hsplit, hrest⟩⟩
      intro tk v hm hin
      exact hrest (vals_hostport _ tk v hm 64 hin)

/-- Without the timer: an accepted input, ASCII or not, has at most one `@`; no field of
the result contains `@`; and when the input has an `@`, it is the byte that
follows the userinfo, with no `@` after it. -/
theorem LexerParseInTime_at_most_one_at (data : Bytes) (u : URI)
    (h : LexerParseInTime data = some (some u, none)) :
    data.count 64 ≤ 1 ∧
    64 ∉ u.userinfo ∧ 64 ∉ u.hostport ∧ 64 ∉ u.params ∧ 64 ∉ u.headers ∧
    (64 ∈ data → ∃ S rest, (S = B "sip:" ∨ S = B "sips:") ∧
      data = S ++ u.userinfo ++ B "@" ++ rest ∧ 64 ∉ rest) := by
  rw [LexerParseInTime_eq] at h
  simp only [Option.some.injEq] at h
  have key : ∀ (S r : Bytes) (sch : Scheme), (S = B "sip:" ∨ S = B "sips:") → data = S ++ r →
      mainLoopInTime data { URI.zero with scheme := sch } (userinfoSent r) = (some u, none) →
      data.count 64 ≤ 1 ∧
      64 ∉ u.userinfo ∧ 64 ∉ u.hostport ∧ 64 ∉ u.params ∧ 64 ∉ u.headers ∧
      (64 ∈ data → ∃ S rest, (S = B "sip:" ∨ S = B "sips:") ∧
        data = S ++ u.userinfo ++ B "@" ++ rest ∧ 64 ∉ rest) := by
    intro S r sch hS hd hm
    have hS64 : 64 ∉ S := by
      rcases hS with hS | hS <;> rw [hS] <;> decide
    have hz : 64 ∉ ({ URI.zero with scheme := sch } : URI).userinfo ∧
        64 ∉ ({ URI.zero with scheme := sch } : URI).hostport ∧
        64 ∉ ({ URI.zero with scheme := sch } : URI).params ∧
        64 ∉ ({ URI.zero with scheme := sch } : URI).headers := by
      simp [URI.zero]
    obtain ⟨⟨a, b, c, d⟩, hr⟩ := userinfoSent_at data _ u r hz hm
    refine ⟨?_, a, b, c, d, ?_⟩
    · rw [hd, List.count_append, List.count_eq_zero.2 hS64]
      rcases hr with hr | ⟨rest, e, hrest⟩
      · rw [List.count_eq_zero.2 hr]; omega
      · rw [e, List.count_append, List.count_cons, List.count_eq_zero.2 a,
          List.count_eq_zero.2 hrest]
        simp
    · intro hin
      rcases hr with hr | ⟨rest, e, hrest⟩
      · exfalso
        rw [hd] at hin
        rcases List.mem_append.1 hin with hh | hh
        · exact hS64 hh
        · exact hr hh
      · refine ⟨S, rest, hS, ?_, hrest⟩
        rw [hd, B_at]
        conv_lhs => rw [e]
        simp
  simp only [schemeSent] at h
  split_ifs at h with h1 h2
  · have hp : B "sip:" <+: data := by simpa [HasPrefix] using h1
    obtain ⟨r, hr⟩ := hp
    simp only [mainLoopInTime, reduceCtorEq, if_false, URI.setSegment] at h
    have hdrop : List.drop 4 data = r := by rw [← hr, B_sip]; rfl
    rw [hdrop] at h
    exact key (B "sip:") r Scheme.SIP (Or.inl rfl) hr.symm h
  · have hp : B "sips:" <+: data := by simpa [HasPrefix] using h2
    obtain ⟨r, hr⟩ := hp
    simp only [mainLoopInTime, reduceCtorEq, if_false, URI.setSegment] at h
    have hdrop : List.drop 5 data = r := by rw [← hr, B_sips]; rfl
    rw [hdrop] at h
    exact key (B "sips:") r Scheme.SIPS (Or.inr rfl) hr.symm h
  · simp [mainLoopInTime, errorf] at h

theorem LexerParseInTime_at_most_one_at_witness :
    (B "sip:alice@atlanta.com;a=b").count 64 ≤ 1 ∧
    64 ∉ B "alice" ∧ 64 ∉ B "atlanta.com" ∧ 64 ∉ B "a=b" ∧ 64 ∉ ([] : Bytes) ∧
    (64 ∈ B "sip:alice@atlanta.com;a=b" → ∃ S rest, (S = B "sip:" ∨ S = B "sips:") ∧
      B "sip:alice@atlanta.com;a=b" = S ++ B "alice" ++ B "@" ++ rest ∧ 64 ∉ rest) :=
  LexerParseInTime_at_most_one_at (B "sip:alice@atlanta.com;a=b")
    ⟨Scheme.SIP, B "alice", B "atlanta.com", B "a=b", []⟩ (by decide)

/-! ## C36: the three outcomes of `dtoi` -/

/-- A failed loop of `dtoi` returns the bound `0xFFFFF`, or has read nothing. -/
theorem dtoiLoop_false (s : Bytes) : ∀ n i, (dtoiLoop s n i).2.2 = false →
    (dtoiLoop s n i).1 = 0xFFFFF ∨ (i = 0 ∧ ∀ x t, s = x :: t → isNum x = false) := by
  induction s with
  | nil =>
    intro n i h
    by_cases hi : i = 0
    · exact Or.inr ⟨hi, by simp⟩
    · simp [dtoiLoop, hi] at h
  | cons b s ih =>
    intro n i h
    by_cases hb : 48 ≤ b ∧ b ≤ 57
    · by_cases hbig : n * 10 + (b - 48) ≥ 0xFFFFF
      · left; simp [dtoiLoop, hb, hbig]
      · simp only [dtoiLoop, hb, and_self, if_true, hbig, if_false] at h ⊢
        rcases ih _ _ h with h1 | ⟨h1, _⟩
        · exact Or.inl h1
        · omega
    · by_cases hi : i = 0
      · right
        refine ⟨hi, ?_⟩
        intro x t e
        simp only [List.cons.injEq] at e
        rw [← e.1]
        simp only [isNum, decide_eq_false_iff_not]
        exact hb
      · simp [dtoiLoop, hb, hi] at h

theorem decVal_nil : decVal [] = 0 := rfl

/-- Claim C36: `dtoi` returns number, characters consumed, success.  When the
leading run of digits `d` of `s` is not empty and its value is below `0xFFFFF`,
the result is that value, the length of `d` and `true`; when `s` is empty or does
not begin with a digit the result is `(0, 0, false)`; when the value of a prefix
made of digits reaches `0xFFFFF` the result has the number `0xFFFFF` and `false`;
the count returned is never more than the length of `s`. -/
theorem dtoi_spec (s : Bytes) :
    (∀ d rest, s = d ++ rest → d ≠ [] → (∀ c ∈ d, isNum c = true) →
      (∀ x t, rest = x :: t → isNum x = false) → decVal d < 0xFFFFF →
      dtoi s = (decVal d, d.length, true)) ∧
    ((∀ x t, s = x :: t → isNum x = false) → dtoi s = (0, 0, false)) ∧
    (∀ d rest, s = d ++ rest → (∀ c ∈ d, isNum c = true) → 0xFFFFF ≤ decVal d →
      (dtoi s).1 = 0xFFFFF ∧ (dtoi s).2.2 = false) ∧
    (dtoi s).2.1 ≤ s.length := by
  refine ⟨?_, dtoi_nondigit s, ?_, dtoi_le s⟩
  · intro d rest e hne hd hr hv
    rw [e]
    exact dtoi_digits d rest hd hne hr hv
  · intro d rest e hd hv
    have hf : (dtoi s).2.2 = false := by
      rw [e]
      exact (dtoiLoop_big d rest 0 0 hd hv (by omega)).1
    refine ⟨?_, hf⟩
    rcases dtoiLoop_false s 0 0 hf with h1 | ⟨_, h1⟩
    · exact h1
    · exfalso
      cases d with
      | nil => simp [decVal] at hv
      | cons b d =>
        have hb := hd b (by simp)
        have := h1 b (d ++ rest) (by rw [e]; rfl)
        rw [hb] at this
        exact absurd this (by simp)

theorem dtoi_spec_witness :
    dtoi (B "5060;x") = (decVal (B "5060"), (B "5060").length, true) ∧
    dtoi (B ";x") = (0, 0, false) ∧
    ((dtoi (B "1048575")).1 = 0xFFFFF ∧ (dtoi (B "1048575")).2.2 = false) := by
  have hx : ∀ x t, B ";x" = x :: t → isNum x = false := by
    intro x t e
    have h : B ";x" = [59, 120] := by decide
    rw [h] at e
    cases e
    decide
  exact ⟨(dtoi_spec (B "5060;x")).1 (B "5060") (B ";x") (by decide) (by decide) (by decide)
      hx (by decide),
    (dtoi_spec (B ";x")).2.1 hx,
    (dtoi_spec (B "1048575")).2.2.1 (B "1048575") [] (by decide) (by decide) (by decide)⟩

/-! ## C37: the byte classes -/

/-- Claim C37: the byte classes are those of RFC 3261.  `isNum` holds of the
digits, `isHex` of the digits and the letters `a` to `f` and `A` to `F`,
`isAlphaNum` of the digits and the ASCII letters, `isUnreserved` of these and of
`- _ . ! ~ * ' ( )`; each class is included in the next; and no class has a value
above 127. -/
theorem byte_classes (c : Nat) :
    (isNum c = true ↔ 48 ≤ c ∧ c ≤ 57) ∧
    (isHex c = true ↔ isNum c = true ∨ (97 ≤ c ∧ c ≤ 102) ∨ (65 ≤ c ∧ c ≤ 70)) ∧
    (isAlphaNum c = true ↔ isNum c = true ∨ (97 ≤ c ∧ c ≤ 122) ∨ (65 ≤ c ∧ c ≤ 90)) ∧
    (isUnreserved c = true ↔ isAlphaNum c = true ∨ c ∈ [45, 95, 46, 33, 126, 42, 39, 40, 41]) ∧
    (isNum c = true → isHex c = true) ∧ (isHex c = true → isAlphaNum c = true) ∧
    (isAlphaNum c = true → isUnreserved c = true) ∧
    (128 ≤ c → isNum c = false ∧ isHex c = false ∧ isAlphaNum c = false ∧
      isUnreserved c = false) := by
  refine ⟨?_, ?_, ?_, ?_, ?_, ?_, ?_, ?_⟩
  · simp [isNum]
  · simp only [isHex, isNum, Bool.or_eq_true, decide_eq_true_eq]; tauto
  · simp only [isAlphaNum, isNum, Bool.or_eq_true, decide_eq_true_eq]; tauto
  · by_cases h : isAlphaNum c = true
    · simp [isUnreserved, h]
    · by_cases h2 : c = 45 ∨ c = 95 ∨ c = 46 ∨ c = 33 ∨ c = 126 ∨ c = 42 ∨ c = 39 ∨ c = 40 ∨ c = 41
      · simp [isUnreserved, h, h2]
      · simp only [isUnreserved, h, h2, if_false, List.mem_cons, List.mem_singleton,
          List.not_mem_nil, or_false, false_or]
        simp
  · simp only [isHex, isNum, Bool.or_eq_true, decide_eq_true_eq]; tauto
  · simp only [isHex, isAlphaNum, isNum, Bool.or_eq_true, decide_eq_true_eq]; omega
  · intro h; simp [isUnreserved, h]
  · intro h
    simp only [isUnreserved, isAlphaNum, isHex, isNum, Bool.or_eq_true, decide_eq_true_eq,
      Bool.or_eq_false_iff, decide_eq_false_iff_not]
    refine ⟨by omega, by omega, by omega, ?_⟩
    have h1 : ¬ (((97 ≤ c ∧ c ≤ 122) ∨ 65 ≤ c ∧ c ≤ 90) ∨ 48 ≤ c ∧ c ≤ 57) := by omega
    have h2 : ¬ (c = 45 ∨ c = 95 ∨ c = 46 ∨ c = 33 ∨ c = 126 ∨ c = 42 ∨ c = 39 ∨ c = 40 ∨ c = 41) := by omega
    simp [h1, h2]

theorem byte_classes_witness :
    isNum 200 = false ∧ isHex 200 = false ∧ isAlphaNum 200 = false ∧ isUnreserved 200 = false :=
  (byte_classes 200).2.2.2.2.2.2.2 (by decide)

/-! ## `LexerParse` with its timer and `LexerParseInTime` -/

theorem stamp_snd (w : Nat) (es : List Event) : (stamp w es).map Prod.snd = es := by
  cases es with
  | nil => rfl
  | cons e es => simp [stamp, Function.comp]

theorem stamp_le (w : Nat) (es : List Event) : ∀ p ∈ stamp w es, p.1 ≤ w := by
  cases es with
  | nil => intro p hp; simp [stamp] at hp
  | cons e es =>
    intro p hp
    simp only [stamp, List.mem_cons, List.mem_map] at hp
    rcases hp with hp | ⟨x, _, hx⟩
    · rw [hp]
    · rw [← hx]; exact Nat.zero_le _

/-- The values of `runTimed` are the values of `runLoop`. -/
theorem runTimed_events (n : Nat) : ∀ (f : lexFunc) (l : lexer) (acc : Nat),
    (runTimed n f l acc).map (List.map Prod.snd) = (runLoop n f l).map Prod.fst := by
  induction n with
  | zero => intro f l acc; rfl
  | succ n ih =>
    intro f l acc
    simp only [runTimed, runLoop]
    cases hc : f.call l with
    | none => rfl
    | some st =>
      obtain ⟨l1, sent, next⟩ := st
      cases next with
      | none => simp [stamp_snd]
      | some g =>
        have := ih g l1 (if sent = [] then acc + f.silent l ⟨l1, sent, some g⟩ else 0)
        simp only
        cases hr : runTimed n g l1 (if sent = [] then acc + f.silent l ⟨l1, sent, some g⟩ else 0) with
        | none =>
          rw [hr] at this
          cases hl : runLoop n g l1 with
          | none => simp
          | some v => rw [hl] at this; simp at this
        | some tv =>
          rw [hr] at this
          cases hl : runLoop n g l1 with
          | none => rw [hl] at this; simp at this
          | some v =>
            rw [hl] at this
            obtain ⟨s1, left⟩ := v
            simp only [Option.map_some', Option.some.injEq] at this
            simp [stamp_snd, this]

theorem silent_le (f : lexFunc) (l : lexer) (st : Step) :
    f.silent l st ≤ st.l.cursor - l.cursor := by
  cases f <;> simp only [lexFunc.silent] <;>
    first
    | exact Nat.zero_le _
    | exact le_refl _
    | exact Nat.min_le_left _ _
    | (split_ifs <;> omega)

/-- One call that stays in range and moves forward keeps the waits within the
input left. -/
theorem timed_step (i : Bytes) (n : Nat) (f : lexFunc) (l : lexer) (st : Step)
    (hcall : f.call l = some st) (hw1 : st.l.within i) (hmono : l.cursor ≤ st.l.cursor)
    (hnext : ∀ g acc1, st.next = some g →
      StampsWithin i st.l.cursor acc1 (runTimed n g st.l acc1)) :
    ∀ acc, StampsWithin i l.cursor acc (runTimed (n + 1) f l acc) := by
  intro acc
  have hs := silent_le f l st
  have hk1 : st.l.cursor ≤ i.length := hw1.2.2.2
  simp only [runTimed, hcall]
  have hfirst : ∀ p ∈ stamp (acc + f.silent l st) st.sent, p.1 + l.cursor ≤ acc + i.length := by
    intro p hp
    have := stamp_le _ _ p hp
    omega
  cases hn : st.next with
  | none => exact ⟨_, rfl, hfirst⟩
  | some g =>
    obtain ⟨tv, e, htv⟩ := hnext g (if st.sent = [] then acc + f.silent l st else 0) hn
    refine ⟨stamp (acc + f.silent l st) st.sent ++ tv, by simp only [e, Option.map_some'], ?_⟩
    intro p hp
    rcases List.mem_append.1 hp with hp | hp
    · exact hfirst p hp
    · have := htv p hp
      split_ifs at this <;> omega

theorem headers_timed (n : Nat) (i : Bytes) (l : lexer) (hw : l.within i) :
    ∀ acc, StampsWithin i l.cursor acc (runTimed (n + 1) lexFunc.lexHeaders l acc) := by
  obtain ⟨k, m, rfl, hm, hk⟩ := within_cases i l hw
  obtain ⟨st, hcall, hw1, hmono, hnext⟩ := headers_step i k m hk
  refine timed_step i (n + 0) lexFunc.lexHeaders _ st hcall hw1 hmono (fun g acc1 hg => ?_)
  rw [hnext] at hg; simp at hg

theorem params_timed (n : Nat) (i : Bytes) (l : lexer) (hw : l.within i) :
    ∀ acc, StampsWithin i l.cursor acc (runTimed (n + 2) lexFunc.lexParams l acc) := by
  obtain ⟨k, m, rfl, hm, hk⟩ := within_cases i l hw
  obtain ⟨st, hcall, hw1, hmono, hnext⟩ := params_step i k m hk
  refine timed_step i (n + 1) lexFunc.lexParams _ st hcall hw1 hmono (fun g acc1 hg => ?_)
  rcases hnext with h | h
  · rw [h] at hg; simp at hg
  · rw [h] at hg
    simp only [Option.some.injEq] at hg
    subst hg
    exact headers_timed n i st.l hw1 acc1

theorem port_timed (n : Nat) (i : Bytes) (l : lexer) (hw : l.within i) :
    ∀ acc, StampsWithin i l.cursor acc (runTimed (n + 3) lexFunc.lexPort l acc) := by
  obtain ⟨k, m, rfl, hm, hk⟩ := within_cases i l hw
  obtain ⟨st, hcall, hw1, hmono, hnext⟩ := port_step i k m hm hk
  refine timed_step i (n + 2) lexFunc.lexPort _ st hcall hw1 hmono (fun g acc1 hg => ?_)
  rcases hnext with h | h
  · rw [h] at hg; simp at hg
  · rw [h] at hg
    simp only [Option.some.injEq] at hg
    subst hg
    exact params_timed n i st.l hw1 acc1

theorem hostname_timed (n : Nat) (i : Bytes) (l : lexer) (hw : l.within i)
    (hmk : l.marker = l.cursor) :
    ∀ acc, StampsWithin i l.cursor acc (runTimed (n + 4) lexFunc.lexHostname l acc) := by
  obtain ⟨k, m, rfl, hm, hk⟩ := within_cases i l hw
  simp only at hmk
  subst hmk
  obtain ⟨st, hcall, hw1, hmono, hnext⟩ := hostname_step i m hk
  refine timed_step i (n + 3) lexFunc.lexHostname _ st hcall hw1 hmono (fun g acc1 hg => ?_)
  rcases hnext with h | h | h | h
  · rw [h] at hg; simp at hg
  · rw [h] at hg
    simp only [Option.some.injEq] at hg
    subst hg
    exact port_timed n i st.l hw1 acc1
  · rw [h] at hg
    simp only [Option.some.injEq] at hg
    subst hg
    exact params_timed (n + 1) i st.l hw1 acc1
  · rw [h] at hg
    simp only [Option.some.injEq] at hg
    subst hg
    exact headers_timed (n + 2) i st.l hw1 acc1

theorem ipv6_timed (n : Nat) (i : Bytes) (l : lexer) (hw : l.within i) :
    ∀ acc, StampsWithin i l.cursor acc (runTimed (n + 4) lexFunc.lexIPv6 l acc) := by
  obtain ⟨k, m, rfl, hm, hk⟩ := within_cases i l hw
  obtain ⟨st, hcall, hw1, hmono, hnext⟩ := ipv6_step i k m hm hk
  refine timed_step i (n + 3) lexFunc.lexIPv6 _ st hcall hw1 hmono (fun g acc1 hg => ?_)
  rcases hnext with h | h
  · rw [h] at hg; simp at hg
  · rw [h] at hg
    simp only [Option.some.injEq] at hg
    subst hg
    exact port_timed n i st.l hw1 acc1

theorem hostport_timed (n : Nat) (i : Bytes) (l : lexer) (hw : l.within i) :
    ∀ acc, StampsWithin i l.cursor acc (runTimed (n + 5) lexFunc.lexHostport l acc) := by
  obtain ⟨k, m, rfl, hm, hk⟩ := within_cases i l hw
  obtain ⟨st, hcall, hw1, hmono, hnext⟩ := hostport_step i k m hk
  refine timed_step i (n + 4) lexFunc.lexHostport _ st hcall hw1 hmono (fun g acc1 hg => ?_)
  rcases hnext with h | h | h | ⟨h, hmk⟩
  · rw [h] at hg; simp at hg
  · rw [h] at hg
    simp only [Option.some.injEq] at hg
    subst hg
    exact ipv6_timed n i st.l hw1 acc1
  · rw [h] at hg
    simp only [Option.some.injEq] at hg
    subst hg
    exact port_timed (n + 1) i st.l hw1 acc1
  · rw [h] at hg
    simp only [Option.some.injEq] at hg
    subst hg
    exact hostname_timed n i st.l hw1 hmk acc1

theorem userinfo_timed (n : Nat) (i : Bytes) (l : lexer) (hw : l.within i)
    (hat : IndexByte i 64 = (IndexByte (i.drop l.cursor) 64).map (· + l.cursor)) :
    ∀ acc, StampsWithin i l.cursor acc (runTimed (n + 6) lexFunc.lexUserinfo l acc) := by
  obtain ⟨k, m, rfl, hm, hk⟩ := within_cases i l hw
  obtain ⟨st, hcall, hw1, hmono, hnext⟩ := userinfo_step i k m hk hat
  refine timed_step i (n + 5) lexFunc.lexUserinfo _ st hcall hw1 hmono (fun g acc1 hg => ?_)
  rcases hnext with h | h
  · rw [h] at hg; simp at hg
  · rw [h] at hg
    simp only [Option.some.injEq] at hg
    subst hg
    exact hostport_timed n i st.l hw1 acc1

/-- The wait for every value that the lexer sends is at most the length of the
input. -/
theorem scheme_timed (n : Nat) (data : Bytes) :
    ∃ tv, runTimed (n + 7) lexFunc.lexScheme (newLexer data) 0 = some tv ∧
      ∀ p ∈ tv, p.1 ≤ data.length := by
  obtain ⟨st, hcall, hw1, hnext⟩ := scheme_step data
  have h := timed_step data (n + 6) lexFunc.lexScheme (newLexer data) st hcall hw1
    (Nat.zero_le _) (fun g acc1 hg => by
      rcases hnext with h | ⟨h, hat⟩
      · rw [h] at hg; simp at hg
      · rw [h] at hg
        simp only [Option.some.injEq] at hg
        subst hg
        exact userinfo_timed n data st.l hw1 hat acc1) 0
  obtain ⟨tv, e, htv⟩ := h
  refine ⟨tv, e, fun p hp => ?_⟩
  have := htv p hp
  simp only [newLexer] at this
  omega

/-- When every wait is within the budget the timer does not fire. -/
theorem mainLoop_in_time (budget : Nat) (data : Bytes) (tv : List (Nat × Event)) : ∀ u,
    (∀ p ∈ tv, p.1 ≤ budget) →
    mainLoop budget data u tv = mainLoopInTime data u (tv.map Prod.snd) := by
  induction tv with
  | nil => intro u _; rfl
  | cons p tv ih =>
    intro u h
    obtain ⟨w, e⟩ := p
    have hw : ¬ budget < w := by
      have := h (w, e) (by simp)
      simp only at this
      omega
    have ht : ∀ p ∈ tv, p.1 ≤ budget := fun p hp => h p (by simp [hp])
    cases e with
    | err m => simp [mainLoop, mainLoopInTime, hw]
    | item it =>
      simp only [mainLoop, mainLoopInTime, hw, if_false, List.map_cons]
      split_ifs
      · rfl
      · exact ih _ ht

/-- The loop with the timer returns what the loop without it returns, or the
timeout error. -/
theorem mainLoop_or_timeout (budget : Nat) (data : Bytes) (tv : List (Nat × Event)) : ∀ u,
    mainLoop budget data u tv = mainLoopInTime data u (tv.map Prod.snd) ∨
    mainLoop budget data u tv
      = (none, some (B "Invalid uri '" ++ data ++ B "': timeout parsing")) := by
  induction tv with
  | nil => intro u; exact Or.inl rfl
  | cons p tv ih =>
    intro u
    obtain ⟨w, e⟩ := p
    by_cases hw : budget < w
    · right
      cases e <;> simp [mainLoop, hw]
    · cases e with
      | err m => left; simp [mainLoop, mainLoopInTime, hw]
      | item it =>
        simp only [mainLoop, mainLoopInTime, hw, if_false, List.map_cons]
        split_ifs
        · exact Or.inl rfl
        · exact ih _

theorem LexerParse_unfold (budget : Nat) (data : Bytes) :
    ∃ tv, (∀ p ∈ tv, p.1 ≤ data.length) ∧ tv.map Prod.snd = schemeSent data ∧
      LexerParse budget data = some (mainLoop budget data URI.zero tv) ∧
      LexerParseInTime data = some (mainLoopInTime data URI.zero (tv.map Prod.snd)) := by
  obtain ⟨tv, e, htv⟩ := scheme_timed 1 data
  have hev := runTimed_events 8 lexFunc.lexScheme (newLexer data) 0
  rw [e, scheme_sim 1 data] at hev
  simp only [Option.map_some', Option.some.injEq] at hev
  refine ⟨tv, htv, hev, by simp [LexerParse, e], ?_⟩
  rw [LexerParseInTime_eq, hev]

/-- On an input no longer than the budget the timer does not fire. -/
theorem LexerParse_in_time (budget : Nat) (data : Bytes) (h : data.length ≤ budget) :
    LexerParse budget data = LexerParseInTime data := by
  obtain ⟨tv, htv, _, e1, e2⟩ := LexerParse_unfold budget data
  rw [e1, e2, mainLoop_in_time budget data tv URI.zero (fun p hp => le_trans (htv p hp) h)]

/-- With its timer `LexerParse` returns what it returns without, or the timeout
error. -/
theorem LexerParse_or_timeout (budget : Nat) (data : Bytes) :
    LexerParse budget data = LexerParseInTime data ∨
    LexerParse budget data
      = some (none, some (B "Invalid uri '" ++ data ++ B "': timeout parsing")) := by
  obtain ⟨tv, _, _, e1, e2⟩ := LexerParse_unfold budget data
  rw [e1, e2]
  rcases mainLoop_or_timeout budget data tv URI.zero with h | h
  · exact Or.inl (by rw [h])
  · exact Or.inr (by rw [h])

/-- An input that `LexerParse` accepts with its timer is accepted without it,
with the same result. -/
theorem LexerParse_accepted (budget : Nat) (data : Bytes) (u : URI)
    (h : LexerParse budget data = some (some u, none)) :
    LexerParseInTime data = some (some u, none) := by
  rcases LexerParse_or_timeout budget data with e | e
  · rw [← e]; exact h
  · rw [e] at h
    simp at h


/-! ## The first values arrive without a wait -/

theorem runTimed_call_next (n : Nat) (f g : lexFunc) (l : lexer) (acc : Nat) (st : Step)
    (hcall : f.call l = some st) (hn : st.next = some g) :
    runTimed (n + 1) f l acc
      = (runTimed n g st.l (if st.sent = [] then acc + f.silent l st else 0)).map
          fun rest => stamp (acc + f.silent l st) st.sent ++ rest := by
  simp only [runTimed, hcall, hn]

theorem runTimed_call_end (n : Nat) (f : lexFunc) (l : lexer) (acc : Nat) (st : Step)
    (hcall : f.call l = some st) (hn : st.next = none) :
    runTimed (n + 1) f l acc = some (stamp (acc + f.silent l st) st.sent) := by
  simp only [runTimed, hcall, hn]

theorem runTimed_scheme_bad (n : Nat) (data : Bytes)
    (h1 : HasPrefix data (B "sip:") = false) (h2 : HasPrefix data (B "sips:") = false) :
    runTimed (n + 1) lexFunc.lexScheme (newLexer data) 0
      = some [(0, errorf (B "invalid scheme"))] := by
  have hcall : lexFunc.lexScheme.call (newLexer data)
      = some ⟨newLexer data, [errorf (B "invalid scheme")], none⟩ := by
    simp [lexFunc.call, lexer.lexScheme, newLexer, h1, h2]
  rw [runTimed_call_end n _ _ 0 _ hcall rfl]
  rfl

theorem runTimed_scheme_sip (n : Nat) (r : Bytes) :
    runTimed (n + 1) lexFunc.lexScheme (newLexer (B "sip:" ++ r)) 0
      = (runTimed n lexFunc.lexUserinfo ⟨B "sip:" ++ r, (B "sip:" ++ r).length, 4, 0⟩ 0).map
          fun rest => (0, Event.item ⟨Token.tSip, B "sip:"⟩) :: rest := by
  have he := emit_eq (B "sip:" ++ r) 4 0 Token.tSip (by omega) (by simp [B_sip])
  have hp : HasPrefix (B "sip:" ++ r) (B "sip:") = true := by simp [HasPrefix]
  have ht : List.take (4 - 0) (List.drop 0 (B "sip:" ++ r)) = B "sip:" := by simp [B_sip]
  rw [ht] at he
  have hcall : lexFunc.lexScheme.call (newLexer (B "sip:" ++ r))
      = some ⟨⟨B "sip:" ++ r, (B "sip:" ++ r).length, 4, 0⟩,
          [Event.item ⟨Token.tSip, B "sip:"⟩], some lexFunc.lexUserinfo⟩ := by
    simp only [lexFunc.call, lexer.lexScheme, newLexer, hp, if_true, he, Option.map_some']
  rw [runTimed_call_next n _ _ _ 0 _ hcall rfl]
  rfl

theorem runTimed_scheme_sips (n : Nat) (r : Bytes) :
    runTimed (n + 1) lexFunc.lexScheme (newLexer (B "sips:" ++ r)) 0
      = (runTimed n lexFunc.lexUserinfo ⟨B "sips:" ++ r, (B "sips:" ++ r).length, 5, 0⟩ 0).map
          fun rest => (0, Event.item ⟨Token.tSips, B "sips:"⟩) :: rest := by
  have he := emit_eq (B "sips:" ++ r) 5 0 Token.tSips (by omega) (by simp [B_sips])
  have hp : HasPrefix (B "sips:" ++ r) (B "sips:") = true := by simp [HasPrefix]
  have hq : ¬ HasPrefix (B "sips:" ++ r) (B "sip:") = true := by
    simp [HasPrefix, B_sip, B_sips, List.isPrefixOf]
  have ht : List.take (5 - 0) (List.drop 0 (B "sips:" ++ r)) = B "sips:" := by simp [B_sips]
  rw [ht] at he
  have hcall : lexFunc.lexScheme.call (newLexer (B "sips:" ++ r))
      = some ⟨⟨B "sips:" ++ r, (B "sips:" ++ r).length, 5, 0⟩,
          [Event.item ⟨Token.tSips, B "sips:"⟩], some lexFunc.lexUserinfo⟩ := by
    simp only [lexFunc.call, lexer.lexScheme, newLexer, hq, hp, if_true, if_false, he,
      Option.map_some', Bool.false_eq_true]
  rw [runTimed_call_next n _ _ _ 0 _ hcall rfl]
  rfl

theorem runTimed_userinfo_absent (n : Nat) (i : Bytes) (k m acc : Nat)
    (h : ∀ c ∈ i, c ≠ 64) :
    runTimed (n + 1) lexFunc.lexUserinfo ⟨i, i.length, k, m⟩ acc
      = runTimed n lexFunc.lexHostport ⟨i, i.length, k, k⟩ acc := by
  have hcall : lexFunc.lexUserinfo.call ⟨i, i.length, k, m⟩
      = some ⟨⟨i, i.length, k, k⟩, [], some lexFunc.lexHostport⟩ := by
    simp only [lexFunc.call, lexer.lexUserinfo, IndexByte_none i h]
  rw [runTimed_call_next n _ _ _ acc _ hcall rfl]
  simp [stamp, lexFunc.silent]

theorem runTimed_hostport_nil (n : Nat) (i : Bytes) (k m acc : Nat) (h : i.drop k = []) :
    runTimed (n + 1) lexFunc.lexHostport ⟨i, i.length, k, m⟩ acc
      = some [(acc, errorf (B "invalid host/port"))] := by
  have hcall : lexFunc.lexHostport.call ⟨i, i.length, k, m⟩
      = some ⟨⟨i, i.length, k, k⟩, [errorf (B "invalid host/port")], none⟩ := by
    simp only [lexFunc.call, lexer.lexHostport]
    rw [current_nil i k k h]
    simp
  rw [runTimed_call_end n _ _ acc _ hcall rfl]
  simp [stamp, lexFunc.silent]

theorem runTimed_hostport_bad (n : Nat) (i : Bytes) (k m acc x : Nat) (t : Bytes)
    (h : i.drop k = x :: t) (hx : x < 256) (hx91 : x ≠ 91) (hxa : isAlphaNum x = false) :
    runTimed (n + 1) lexFunc.lexHostport ⟨i, i.length, k, m⟩ acc
      = some [(acc, errorf (B "invalid host part"))] := by
  have hnd : ∀ a b, x :: t = a :: b → isNum a = false := by
    intro a b hab
    simp only [List.cons.injEq] at hab
    rw [← hab.1]
    simp [isAlphaNum, isNum] at hxa ⊢
    omega
  have hbx : isAlphaNum (byte x) = false := by rw [byte_of_lt x hx]; exact hxa
  have hk : k ≤ i.length := by
    have := (drop_cons_facts h).1
    omega
  have hcall : lexFunc.lexHostport.call ⟨i, i.length, k, m⟩
      = some ⟨⟨i, i.length, k, k⟩, [errorf (B "invalid host part")], none⟩ := by
    simp only [lexFunc.call, lexer.lexHostport]
    rw [current_cons i k k x t h]
    simp [cast_eq_eof, cast_eq_91, hx91, sliceFrom, hk, h, parseIPv4_nondigit _ hnd, hbx]
  rw [runTimed_call_end n _ _ acc _ hcall rfl]
  simp [stamp, lexFunc.silent]

/-- On an input of `n` bytes and a budget of `n` bytes or more, `LexerParse`
returns what it returns without the timer. -/
theorem LexerParse_add (budget n : Nat) (data : Bytes) (r : Option Result)
    (hn : data.length = n) (h : LexerParseInTime data = r) :
    LexerParse (budget + n) data = r := by
  rw [LexerParse_in_time (budget + n) data (by omega), h]

/-! ## Inputs on which the timer fires -/

theorem mainLoop_timeout (budget : Nat) (data : Bytes) (w : Nat) (e : Event)
    (rest : List (Nat × Event)) (hw : budget < w) :
    ∀ (pre : List (Nat × Event)) (u : URI),
    (∀ p ∈ pre, ∃ it, p.2 = Event.item it ∧ it.token ≠ Token.tEOF) →
    mainLoop budget data u (pre ++ (w, e) :: rest)
      = (none, some (B "Invalid uri '" ++ data ++ B "': timeout parsing")) := by
  intro pre
  induction pre with
  | nil => intro u _; cases e <;> simp [mainLoop, hw]
  | cons p pre ih =>
    intro u h
    obtain ⟨w1, e1⟩ := p
    obtain ⟨it, he, hne⟩ := h (w1, e1) (by simp)
    simp only at he
    subst he
    simp only [List.cons_append, mainLoop, hne, if_false]
    split_ifs
    · rfl
    · exact ih _ (fun p hp => h p (by simp [hp]))

theorem LexerParse_timerFires (budget : Nat) (data : Bytes)
    (h : TimerFires budget (runTimed 8 lexFunc.lexScheme (newLexer data) 0)) :
    LexerParse budget data
      = some (none, some (B "Invalid uri '" ++ data ++ B "': timeout parsing")) := by
  obtain ⟨tv, e, _⟩ := scheme_timed 1 data
  obtain ⟨pre, w, ev, rest, e1, hpre, hw⟩ := h tv e
  simp only [LexerParse, e, Option.map_some', e1]
  rw [mainLoop_timeout budget data w ev rest hw pre URI.zero hpre]

theorem stamp_items (w : Nat) (sent : List Event)
    (hs : ∀ e ∈ sent, ∃ it, e = Event.item it ∧ it.token ≠ Token.tEOF) :
    ∀ p ∈ stamp w sent, ∃ it, p.2 = Event.item it ∧ it.token ≠ Token.tEOF := by
  intro p hp
  have hmem : p.2 ∈ (stamp w sent).map Prod.snd := List.mem_map_of_mem _ hp
  rw [stamp_snd] at hmem
  exact hs p.2 hmem

theorem timerFires_map (budget : Nat) (res : Option (List (Nat × Event)))
    (front : List (Nat × Event))
    (hf : ∀ p ∈ front, ∃ it, p.2 = Event.item it ∧ it.token ≠ Token.tEOF)
    (h : TimerFires budget res) :
    TimerFires budget (res.map fun rest => front ++ rest) := by
  intro tv htv
  cases res with
  | none => simp at htv
  | some tv0 =>
    simp only [Option.map_some', Option.some.injEq] at htv
    obtain ⟨pre, w, e, rest, e1, hpre, hw⟩ := h tv0 rfl
    refine ⟨front ++ pre, w, e, rest, by rw [← htv, e1]; simp, ?_, hw⟩
    intro p hp
    rcases List.mem_append.1 hp with hp | hp
    · exact hf p hp
    · exact hpre p hp

theorem timerFires_next (budget n : Nat) (f g : lexFunc) (l : lexer) (acc : Nat) (st : Step)
    (hcall : f.call l = some st) (hn : st.next = some g)
    (hs : ∀ e ∈ st.sent, ∃ it, e = Event.item it ∧ it.token ≠ Token.tEOF)
    (h : TimerFires budget
      (runTimed n g st.l (if st.sent = [] then acc + f.silent l st else 0))) :
    TimerFires budget (runTimed (n + 1) f l acc) := by
  rw [runTimed_call_next n f g l acc st hcall hn]
  exact timerFires_map budget _ _ (stamp_items _ _ hs) h

theorem timerFires_here (budget n : Nat) (f : lexFunc) (l : lexer) (acc : Nat) (st : Step)
    (hcall : f.call l = some st) (hs : st.sent ≠ []) (hw : budget < acc + f.silent l st) :
    TimerFires budget (runTimed (n + 1) f l acc) := by
  intro tv htv
  obtain ⟨l1, sent, next⟩ := st
  cases sent with
  | nil => exact absurd rfl hs
  | cons e es =>
    cases next with
    | none =>
      rw [runTimed_call_end n f l acc _ hcall rfl] at htv
      simp only [Option.some.injEq, stamp] at htv
      exact ⟨[], _, e, _, by rw [← htv]; rfl, by simp, hw⟩
    | some g =>
      rw [runTimed_call_next n f g l acc _ hcall rfl] at htv
      cases hr : runTimed n g l1 (if (e :: es) = [] then acc + f.silent l ⟨l1, e :: es, some g⟩ else 0) with
      | none => rw [hr] at htv; simp at htv
      | some tv0 =>
        rw [hr] at htv
        simp only [Option.map_some', Option.some.injEq, stamp] at htv
        exact ⟨[], _, e, _, by rw [← htv]; rfl, by simp, hw⟩

theorem scheme_fires (budget : Nat) (S r : Bytes) (hS : S = B "sip:" ∨ S = B "sips:")
    (h : TimerFires budget
      (runTimed 7 lexFunc.lexUserinfo ⟨S ++ r, (S ++ r).length, S.length, 0⟩ 0)) :
    TimerFires budget (runTimed 8 lexFunc.lexScheme (newLexer (S ++ r)) 0) := by
  rcases hS with e | e
  · subst e
    rw [runTimed_scheme_sip 7 r]
    exact timerFires_map budget _ [(0, Event.item ⟨Token.tSip, B "sip:"⟩)]
      (fun p hp => by
        simp only [List.mem_singleton] at hp
        subst hp
        exact ⟨_, rfl, by decide⟩) h
  · subst e
    rw [runTimed_scheme_sips 7 r]
    exact timerFires_map budget _ [(0, Event.item ⟨Token.tSips, B "sips:"⟩)]
      (fun p hp => by
        simp only [List.mem_singleton] at hp
        subst hp
        exact ⟨_, rfl, by decide⟩) h

theorem runTimed_hostport_name (n : Nat) (i : Bytes) (k m acc x : Nat) (t : Bytes)
    (h : i.drop k = x :: t) (hx : isLetter x = true) :
    runTimed (n + 1) lexFunc.lexHostport ⟨i, i.length, k, m⟩ acc
      = runTimed n lexFunc.lexHostname ⟨i, i.length, k, k⟩ acc := by
  have hl : (97 ≤ x ∧ x ≤ 122) ∨ (65 ≤ x ∧ x ≤ 90) := by
    simpa [isLetter] using hx
  have hnd : ∀ a b, x :: t = a :: b → isNum a = false := by
    intro a b hab
    simp only [List.cons.injEq] at hab
    rw [← hab.1]
    simp only [isNum, decide_eq_false_iff_not]
    omega
  have hx91 : x ≠ 91 := by omega
  have hbx : isAlphaNum (byte x) = true := by
    rw [byte_of_lt x (by omega)]
    simp only [isAlphaNum, Bool.or_eq_true, decide_eq_true_eq]
    omega
  have hk : k ≤ i.length := by
    have := (drop_cons_facts h).1
    omega
  have hcall : lexFunc.lexHostport.call ⟨i, i.length, k, m⟩
      = some ⟨⟨i, i.length, k, k⟩, [], some lexFunc.lexHostname⟩ := by
    simp only [lexFunc.call, lexer.lexHostport]
    rw [current_cons i k k x t h]
    simp [cast_eq_eof, cast_eq_91, hx91, sliceFrom, hk, h, parseIPv4_nondigit _ hnd, hbx]
  rw [runTimed_call_next n _ _ _ acc _ hcall rfl]
  simp [stamp, lexFunc.silent]

theorem lexHostnameLoop_skip (a : Bytes) (ha : ∀ c ∈ a, isHostByte c = true) :
    ∀ (cs : List Nat) (i : Bytes) (lim k m : Nat),
    lexHostnameLoop (a ++ cs) ⟨i, lim, k, m⟩
      = lexHostnameLoop cs ⟨i, lim, k + a.length, m⟩ := by
  induction a with
  | nil => intro cs i lim k m; rfl
  | cons x a ih =>
    intro cs i lim k m
    have hx := ha x (by simp)
    have hlt := isHostByte_lt x hx
    have hc : isAlphaNum (byte x) = true ∨ x = 45 ∨ x = 46 := by
      rw [byte_of_lt x (by omega)]
      exact (isHostByte_iff x).1 hx
    simp only [List.cons_append, lexHostnameLoop, hc, if_true, List.append_eq]
    rw [ih (fun c hc => ha c (by simp [hc])) cs i lim (k + 1) m]
    simp only [List.length_cons]
    congr 2
    omega

theorem lexHostnameLoop_sends (cs : List Nat) : ∀ (l : lexer) (st : Step),
    lexHostnameLoop cs l = some st → st.sent ≠ [] ∧ l.cursor ≤ st.l.cursor := by
  induction cs with
  | nil =>
    intro l st h
    simp only [lexHostnameLoop] at h
    split at h
    · simp only [Option.some.injEq] at h
      subst h
      simp
    · simp at h
  | cons c cs ih =>
    intro l st h
    simp only [lexHostnameLoop] at h
    split_ifs at h with h1 h2 h3 h4
    · have := ih _ st h
      simp only at this
      exact ⟨this.1, by omega⟩
    all_goals
      first
      | (simp only [Option.map_eq_some'] at h
         obtain ⟨e, _, he⟩ := h
         subst he
         simp)
      | (simp only [Option.some.injEq] at h
         subst h
         simp)

theorem hostname_fires (budget n : Nat) (i : Bytes) (k acc : Nat) (a rest : Bytes)
    (hk : k ≤ i.length) (h : i.drop k = a ++ rest) (ha : ∀ c ∈ a, isHostByte c = true)
    (hw : budget < acc + a.length) :
    TimerFires budget (runTimed (n + 1) lexFunc.lexHostname ⟨i, i.length, k, k⟩ acc) := by
  obtain ⟨st, hcall, _, _, _⟩ := hostname_step i k hk
  have hc := hcall
  simp only [lexer.lexHostname, sliceFrom, hk, if_true, h] at hc
  rw [runes_append_ascii a rest (fun b hb => isHostByte_lt b (ha b hb)),
    lexHostnameLoop_skip a ha] at hc
  obtain ⟨h1, h2⟩ := lexHostnameLoop_sends _ _ st hc
  simp only at h2
  refine timerFires_here budget n lexFunc.lexHostname _ acc st hcall h1 ?_
  simp only [lexFunc.silent]
  omega

/-- For every budget of the timer, `sip:` and a host name of letters `a` longer
than the budget gets the timeout error. -/
theorem long_hostname_fires (budget : Nat) (S tail : Bytes) (hS : S = B "sip:" ∨ S = B "sips:")
    (h64 : ∀ c ∈ tail, c ≠ 64) :
    LexerParse budget (S ++ (List.replicate (budget + 1) 97 ++ tail))
      = some (none, some (B "Invalid uri '" ++ (S ++ (List.replicate (budget + 1) 97 ++ tail))
          ++ B "': timeout parsing")) := by
  apply LexerParse_timerFires
  apply scheme_fires budget S _ hS
  have hS64 : ∀ c ∈ S, c ≠ 64 := by
    rcases hS with e | e <;> rw [e] <;> decide
  have hall : ∀ c ∈ S ++ (List.replicate (budget + 1) 97 ++ tail), c ≠ 64 := by
    intro c hc
    rcases List.mem_append.1 hc with h | h
    · exact hS64 c h
    · rcases List.mem_append.1 h with h | h
      · rw [List.eq_of_mem_replicate h]; decide
      · exact h64 c h
  have hd : (S ++ (List.replicate (budget + 1) 97 ++ tail)).drop S.length
      = List.replicate (budget + 1) 97 ++ tail := by simp
  rw [runTimed_userinfo_absent 6 _ S.length 0 0 hall,
    runTimed_hostport_name 5 _ S.length S.length 0 97 (List.replicate budget 97 ++ tail)
      (by rw [hd]; rfl) (by decide)]
  exact hostname_fires budget 4 _ S.length 0 (List.replicate (budget + 1) 97) tail (by simp) hd
    (fun c hc => by rw [List.eq_of_mem_replicate hc]; decide) (by simp)

theorem hostname_next_fires (budget n : Nat) (i : Bytes) (k acc : Nat) (a : Bytes) (d : Nat)
    (rest : Bytes) (g : lexFunc) (hk : k ≤ i.length) (h : i.drop k = a ++ d :: rest)
    (ha : ∀ c ∈ a, isHostByte c = true)
    (hd : (d = 58 ∧ g = lexFunc.lexPort) ∨ (d = 59 ∧ g = lexFunc.lexParams) ∨
      (d = 63 ∧ g = lexFunc.lexHeaders))
    (hnext : TimerFires budget (runTimed n g ⟨i, i.length, k + a.length, k⟩ 0)) :
    TimerFires budget (runTimed (n + 1) lexFunc.lexHostname ⟨i, i.length, k, k⟩ acc) := by
  have hlen : k + a.length ≤ i.length := by
    have := congrArg List.length h
    simp only [List.length_drop, List.length_append, List.length_cons] at this
    omega
  have hd128 : d < 128 := by omega
  have hcall : lexFunc.lexHostname.call ⟨i, i.length, k, k⟩
      = some ⟨⟨i, i.length, k + a.length, k⟩,
          [Event.item ⟨Token.tHost, (i.drop k).take (k + a.length - k)⟩], some g⟩ := by
    simp only [lexFunc.call, lexer.lexHostname, sliceFrom, hk, if_true, h]
    rw [runes_append_ascii a _ (fun b hb => isHostByte_lt b (ha b hb)), runes_cons_lt d rest hd128,
      lexHostnameLoop_skip a ha]
    have he := emit_eq i (k + a.length) k Token.tHost (by omega) hlen
    rw [h] at he
    rcases hd with ⟨h1, h2⟩ | ⟨h1, h2⟩ | ⟨h1, h2⟩ <;> subst h1 <;> subst h2 <;>
      simp [lexHostnameLoop, he, isAlphaNum, isNum, byte]
  refine timerFires_next budget n _ g _ acc _ hcall rfl ?_ ?_
  · intro e he
    simp only [List.mem_singleton] at he
    exact ⟨_, he, by simp⟩
  · simpa using hnext

theorem decVal_zeros (n : Nat) : decVal (List.replicate n 48) = 0 := by
  have : ∀ n, (List.replicate n 48).foldl (fun n b => n * 10 + (b - 48)) 0 = 0 := by
    intro n
    induction n with
    | zero => rfl
    | succ n ih => simpa [List.replicate_succ] using ih
  exact this n

theorem port_fires (budget n : Nat) (i : Bytes) (k m acc : Nat) (d : Bytes)
    (h : i.drop k = 58 :: d) (hne : d ≠ [])
    (hd : ∀ c ∈ d, isNum c = true) (hv : decVal d ≤ 65535) (hw : budget < acc + d.length) :
    TimerFires budget (runTimed (n + 1) lexFunc.lexPort ⟨i, i.length, k, m⟩ acc) := by
  obtain ⟨hlt, hc, hclen⟩ := drop_cons_facts h
  have hlen : k + 1 + d.length ≤ i.length := by omega
  have hdt := dtoi_digits d [] hd hne (by intro x t hx; cases hx) (by omega)
  rw [List.append_nil] at hdt
  have he := emit_eq i (k + 1 + d.length) (k + 1) Token.tPort (by omega) hlen
  have hcall : lexFunc.lexPort.call ⟨i, i.length, k, m⟩
      = some ⟨⟨i, i.length, k + 1 + d.length, k + 1⟩,
          [Event.item ⟨Token.tPort, (i.drop (k + 1)).take (k + 1 + d.length - (k + 1))⟩],
          some lexFunc.lexParams⟩ := by
    simp only [lexFunc.call, lexer.lexPort]
    rw [current_cons i k m 58 d h]
    have h1 : k + 1 ≤ i.length := by omega
    have hv1 : ¬ decVal d > 65535 := by omega
    simp [eof, sliceFrom, h1, hc, hdt, he, hv1]
  refine timerFires_here budget n _ _ acc _ hcall (by simp) ?_
  simp only [lexFunc.silent]
  omega

theorem atlanta_fires (budget : Nat) (d : Nat) (tail : Bytes) (g : lexFunc)
    (hd : (d = 58 ∧ g = lexFunc.lexPort) ∨ (d = 59 ∧ g = lexFunc.lexParams) ∨
      (d = 63 ∧ g = lexFunc.lexHeaders))
    (h64 : ∀ c ∈ tail, c ≠ 64)
    (hnext : (B "sip:" ++ (B "atlanta.com" ++ d :: tail)).drop 15 = d :: tail →
      TimerFires budget (runTimed 4 g ⟨B "sip:" ++ (B "atlanta.com" ++ d :: tail),
        (B "sip:" ++ (B "atlanta.com" ++ d :: tail)).length, 15, 4⟩ 0)) :
    LexerParse budget (B "sip:" ++ (B "atlanta.com" ++ d :: tail))
      = some (none, some (B "Invalid uri '" ++ (B "sip:" ++ (B "atlanta.com" ++ d :: tail))
          ++ B "': timeout parsing")) := by
  apply LexerParse_timerFires
  apply scheme_fires budget (B "sip:") _ (Or.inl rfl)
  have hall : ∀ c ∈ B "sip:" ++ (B "atlanta.com" ++ d :: tail), c ≠ 64 := by
    intro c hc
    have h4 : ∀ c ∈ B "sip:", c ≠ 64 := by decide
    have h11 : ∀ c ∈ B "atlanta.com", c ≠ 64 := by decide
    rcases List.mem_append.1 hc with h | h
    · exact h4 c h
    · rcases List.mem_append.1 h with h | h
      · exact h11 c h
      · rcases List.mem_cons.1 h with h | h
        · omega
        · exact h64 c h
  have hl4 : (B "sip:").length = 4 := by decide
  have hl11 : (B "atlanta.com").length = 11 := by decide
  have hd4 : (B "sip:" ++ (B "atlanta.com" ++ d :: tail)).drop 4
      = B "atlanta.com" ++ d :: tail := by
    rw [← hl4]; simp
  have hdd : (B "sip:" ++ (B "atlanta.com" ++ d :: tail)).drop 15 = d :: tail := by
    have : 15 = 4 + 11 := rfl
    rw [this, ← List.drop_drop, hd4, ← hl11]
    simp
  have hlen : 4 ≤ (B "sip:" ++ (B "atlanta.com" ++ d :: tail)).length := by
    simp [hl4]
  rw [hl4, runTimed_userinfo_absent 6 _ 4 0 0 hall,
    runTimed_hostport_name 5 _ 4 4 0 97 (B "tlanta.com" ++ d :: tail)
      (by rw [hd4]; rfl) (by decide)]
  have := hostname_next_fires budget 4 _ 4 0 (B "atlanta.com") d tail g hlen hd4 (by decide) hd
  rw [hl11] at this
  exact this (hnext hdd)

/-- For every budget of the timer, `sip:atlanta.com:` and a port of zeros longer
than the budget gets the timeout error. -/
theorem long_port_fires (budget : Nat) :
    LexerParse budget (B "sip:" ++ (B "atlanta.com" ++ 58 :: List.replicate (budget + 1) 48))
      = some (none, some (B "Invalid uri '"
          ++ (B "sip:" ++ (B "atlanta.com" ++ 58 :: List.replicate (budget + 1) 48))
          ++ B "': timeout parsing")) := by
  refine atlanta_fires budget 58 _ lexFunc.lexPort (Or.inl ⟨rfl, rfl⟩)
    (fun c hc => by rw [List.eq_of_mem_replicate hc]; decide) (fun hdd => ?_)
  exact port_fires budget 3 _ _ _ 0 (List.replicate (budget + 1) 48) hdd (by simp)
    (fun c hc => by rw [List.eq_of_mem_replicate hc]; decide)
    (by rw [decVal_zeros]; omega) (by simp)

theorem lexParamsLoop_skip (a : Bytes) (ha : ∀ c ∈ a, isParamByte c = true) :
    ∀ (cs : List Nat) (i : Bytes) (lim k m : Nat),
    lexParamsLoop (a ++ cs) ⟨i, lim, k, m⟩ = lexParamsLoop cs ⟨i, lim, k + a.length, m⟩ := by
  induction a with
  | nil => intro cs i lim k m; rfl
  | cons x a ih =>
    intro cs i lim k m
    have hx := ha x (by simp)
    have hlt := isParamByte_lt x hx
    have hne := isParamByte_ne_63 x hx
    have hb := byte_of_lt x (by omega)
    have hrec := ih (fun c hc => ha c (by simp [hc])) cs i lim (k + 1) m
    have hk : k + 1 + a.length = k + (a.length + 1) := by omega
    simp only [List.cons_append, lexParamsLoop, hne, if_false, hb, List.append_eq, hrec,
      List.length_cons, hk]
    simp only [isParamByte, Bool.or_eq_true, decide_eq_true_eq] at hx
    split_ifs with h1 h2
    · rfl
    · rfl
    · exfalso
      rcases hx with (((hx | hx) | hx) | hx) | hx
      · exact h1 (Or.inl hx)
      · exact h1 (Or.inr (Or.inl hx))
      · exact h1 (Or.inr (Or.inr (Or.inl hx)))
      · exact h1 (Or.inr (Or.inr (Or.inr hx)))
      · exact h2 hx

theorem lexParamsLoop_sends (cs : List Nat) : ∀ (l : lexer) (st : Step),
    lexParamsLoop cs l = some st → st.sent ≠ [] ∧ l.cursor ≤ st.l.cursor := by
  induction cs with
  | nil =>
    intro l st h
    simp only [lexParamsLoop] at h
    split at h
    · simp only [Option.some.injEq] at h
      subst h
      simp
    · simp at h
  | cons c cs ih =>
    intro l st h
    simp only [lexParamsLoop] at h
    split_ifs at h with h1 h2 h3
    · simp only [Option.map_eq_some'] at h
      obtain ⟨e, _, he⟩ := h
      subst he
      simp
    · have := ih _ st h
      simp only at this
      exact ⟨this.1, by omega⟩
    · have := ih _ st h
      simp only at this
      exact ⟨this.1, by omega⟩
    · simp only [Option.map_eq_some'] at h
      obtain ⟨e, _, he⟩ := h
      subst he
      simp

theorem params_fires (budget n : Nat) (i : Bytes) (k m acc : Nat) (a rest : Bytes)
    (hk : k ≤ i.length) (h : i.drop k = 59 :: (a ++ rest))
    (ha : ∀ c ∈ a, isParamByte c = true) (hw : budget < acc + a.length) :
    TimerFires budget (runTimed (n + 1) lexFunc.lexParams ⟨i, i.length, k, m⟩ acc) := by
  obtain ⟨hlt, hc, hclen⟩ := drop_cons_facts h
  obtain ⟨st, hcall, _, _, _⟩ := params_step i k m hk
  have hcl := hcall
  simp only [lexer.lexParams] at hcl
  rw [current_cons i k k 59 _ h] at hcl
  have h1 : k + 1 ≤ i.length := by omega
  simp only [eof, sliceFrom, h1, hc, if_true] at hcl
  norm_num at hcl
  rw [runes_append_ascii a rest (fun b hb => isParamByte_lt b (ha b hb)),
    lexParamsLoop_skip a ha] at hcl
  obtain ⟨h2, h3⟩ := lexParamsLoop_sends _ _ st hcl
  simp only at h3
  refine timerFires_here budget n lexFunc.lexParams _ acc st hcall h2 ?_
  simp only [lexFunc.silent]
  omega

/-- For every budget of the timer, `sip:atlanta.com;` and params of letters `a`
longer than the budget get the timeout error. -/
theorem long_params_fires (budget : Nat) :
    LexerParse budget (B "sip:" ++ (B "atlanta.com" ++ 59 :: List.replicate (budget + 1) 97))
      = some (none, some (B "Invalid uri '"
          ++ (B "sip:" ++ (B "atlanta.com" ++ 59 :: List.replicate (budget + 1) 97))
          ++ B "': timeout parsing")) := by
  refine atlanta_fires budget 59 _ lexFunc.lexParams (Or.inr (Or.inl ⟨rfl, rfl⟩))
    (fun c hc => by rw [List.eq_of_mem_replicate hc]; decide) (fun hdd => ?_)
  have hlen : 15 ≤ (B "sip:" ++ (B "atlanta.com" ++ 59 :: List.replicate (budget + 1) 97)).length := by
    have := congrArg List.length hdd
    simp only [List.length_drop, List.length_cons] at this
    omega
  exact params_fires budget 3 _ _ _ 0 (List.replicate (budget + 1) 97) [] hlen
    (by rw [hdd]; simp) (fun c hc => by rw [List.eq_of_mem_replicate hc]; decide) (by simp)

theorem headerLegal_of (c : Nat) (h : isHeaderByte c = true) : headerLegal c = true := by
  have hlt := isHeaderByte_lt c h
  simp only [headerLegal, byte_of_lt c (by omega)]
  simp only [isHeaderByte, Bool.or_eq_true, decide_eq_true_eq] at h ⊢
  tauto

theorem headers_fires (budget n : Nat) (i : Bytes) (k m acc : Nat) (a rest : Bytes)
    (h : i.drop k = 63 :: (a ++ rest))
    (ha : ∀ c ∈ a, isHeaderByte c = true) (hw : budget < acc + a.length) :
    TimerFires budget (runTimed (n + 1) lexFunc.lexHeaders ⟨i, i.length, k, m⟩ acc) := by
  obtain ⟨hlt, hc, hclen⟩ := drop_cons_facts h
  have hr : runes (a ++ rest) = a ++ runes rest :=
    runes_append_ascii a rest (fun b hb => isHeaderByte_lt b (ha b hb))
  have hlen : k + 1 + (runes (a ++ rest)).length ≤ i.length := by
    have := runes_length_le (a ++ rest)
    omega
  have h2 : k + 1 ≤ i.length := by omega
  have hcall : lexFunc.lexHeaders.call ⟨i, i.length, k, m⟩
      = some ⟨⟨i, i.length, k + 1 + (runes (a ++ rest)).length, k + 1⟩,
          headerErrs (runes (a ++ rest)) (i.drop (k + 1))
            ++ [Event.item ⟨Token.tHeader,
                  (i.drop (k + 1)).take (k + 1 + (runes (a ++ rest)).length - (k + 1))⟩,
                Event.item ⟨Token.tEOF,
                  (i.drop (k + 1)).take (k + 1 + (runes (a ++ rest)).length - (k + 1))⟩],
          none⟩ := by
    simp only [lexFunc.call, lexer.lexHeaders]
    rw [current_cons i k k 63 _ h]
    simp only [cast_eq_eof, cast_eq_63, ne_eq, if_false, not_true_eq_false, sliceFrom, h2,
      if_true, hc, headersLoop_sim (runes (a ++ rest)) i i.length (k + 1) (k + 1) hlen,
      emit_eq i (k + 1 + (runes (a ++ rest)).length) (k + 1) _ (by omega) hlen]
  refine timerFires_here budget n _ _ acc _ hcall (by simp) ?_
  have ht : a.length ≤ ((runes (a ++ rest)).takeWhile headerLegal).length := by
    rw [hr, List.takeWhile_append_of_pos (fun c hc => headerLegal_of c (ha c hc))]
    simp
  have hl : a.length ≤ (runes (a ++ rest)).length := by rw [hr]; simp
  simp only [lexFunc.silent, hc]
  omega

/-- For every budget of the timer, `sip:atlanta.com?` and headers of letters `a`
longer than the budget get the timeout error. -/
theorem long_headers_fires (budget : Nat) :
    LexerParse budget (B "sip:" ++ (B "atlanta.com" ++ 63 :: List.replicate (budget + 1) 97))
      = some (none, some (B "Invalid uri '"
          ++ (B "sip:" ++ (B "atlanta.com" ++ 63 :: List.replicate (budget + 1) 97))
          ++ B "': timeout parsing")) := by
  refine atlanta_fires budget 63 _ lexFunc.lexHeaders (Or.inr (Or.inr ⟨rfl, rfl⟩))
    (fun c hc => by rw [List.eq_of_mem_replicate hc]; decide) (fun hdd => ?_)
  exact headers_fires budget 3 _ _ _ 0 (List.replicate (budget + 1) 97) []
    (by rw [hdd]; simp) (fun c hc => by rw [List.eq_of_mem_replicate hc]; decide) (by simp)

theorem lexUserinfoLoop_skip (a : Bytes) (ha : ∀ c ∈ a, isUserinfoByte c = true) :
    ∀ (n : Nat) (i : Bytes) (lim k m : Nat) (rest : Bytes), i.drop k = a ++ rest →
    lexUserinfoLoop (a.length + n) ⟨i, lim, k, m⟩
      = lexUserinfoLoop n ⟨i, lim, k + a.length, m⟩ := by
  induction a with
  | nil => intro n i lim k m rest _; simp
  | cons x a ih =>
    intro n i lim k m rest h
    have hx := ha x (by simp)
    rw [List.cons_append] at h
    obtain ⟨hlt, hc, _⟩ := drop_cons_facts h
    have hg : i.get? k = some x := by rw [get?_eq_head_drop, h]; rfl
    have hn : (x :: a).length + n = (a.length + n) + 1 := by simp; omega
    have hrec := ih (fun c hc => ha c (by simp [hc])) n i lim (k + 1) m rest hc
    have hk : k + 1 + a.length = k + (x :: a).length := by simp; omega
    rw [hn]
    simp only [lexUserinfoLoop, hg, hrec, hk]
    simp only [isUserinfoByte, Bool.or_eq_true] at hx
    split_ifs with h1 h2
    · rfl
    · rfl
    · rcases hx with hx | hx
      · exact absurd hx h1
      · exact absurd hx h2

theorem userinfo_fires (budget n : Nat) (i : Bytes) (k m acc : Nat) (a : Bytes) (x : Nat)
    (rest : Bytes) (h : i.drop k = a ++ x :: rest)
    (hat : IndexByte i 64 = some (k + (a.length + 1)))
    (ha : ∀ c ∈ a, isUserinfoByte c = true) (hx : isUserinfoByte x = false)
    (hw : budget < acc + a.length) :
    TimerFires budget (runTimed (n + 1) lexFunc.lexUserinfo ⟨i, i.length, k, m⟩ acc) := by
  have hlen : k + a.length < i.length := by
    have := congrArg List.length h
    simp only [List.length_drop, List.length_append, List.length_cons] at this
    omega
  have hd : i.drop (k + a.length) = x :: rest := by
    rw [← List.drop_drop, h]; simp
  have hg : i.get? (k + a.length) = some x := by rw [get?_eq_head_drop, hd]; rfl
  have hx1 : isUnreserved x = false ∧ isUserExtra x = false := by
    simpa [isUserinfoByte] using hx
  have hcall : lexFunc.lexUserinfo.call ⟨i, i.length, k, m⟩
      = some ⟨⟨i, i.length, k + a.length, k⟩,
          [errorf (B "invalid userinfo ..." ++ i.drop (k + a.length))], none⟩ := by
    simp only [lexFunc.call, lexer.lexUserinfo, hat]
    have hsub : k + (a.length + 1) - k = a.length + 1 := by omega
    rw [hsub, lexUserinfoLoop_skip a ha 1 i i.length k k (x :: rest) h]
    rw [List.get?_eq_getElem?] at hg
    simp [lexUserinfoLoop, hg, hx1.1, hx1.2, sliceFrom, le_of_lt hlen]
  refine timerFires_here budget n _ _ acc _ hcall (by simp) ?_
  simp only [lexFunc.silent, if_true]
  omega

/-- For every budget of the timer, `sip:`, a run of letters `a` longer than the
budget, a blank, `@` and more gets the timeout error. -/
theorem long_userinfo_fires (budget : Nat) (S tail : Bytes) (hS : S = B "sip:" ∨ S = B "sips:") :
    LexerParse budget (S ++ (List.replicate (budget + 1) 97 ++ 32 :: 64 :: tail))
      = some (none, some (B "Invalid uri '"
          ++ (S ++ (List.replicate (budget + 1) 97 ++ 32 :: 64 :: tail))
          ++ B "': timeout parsing")) := by
  apply LexerParse_timerFires
  apply scheme_fires budget S _ hS
  have hS64 : ∀ c ∈ S, c ≠ 64 := by
    rcases hS with e | e <;> rw [e] <;> decide
  have hd : (S ++ (List.replicate (budget + 1) 97 ++ 32 :: 64 :: tail)).drop S.length
      = List.replicate (budget + 1) 97 ++ 32 :: 64 :: tail := by simp
  have hat : IndexByte (S ++ (List.replicate (budget + 1) 97 ++ 32 :: 64 :: tail)) 64
      = some (S.length + ((List.replicate (budget + 1) 97).length + 1)) := by
    have := IndexByte_first (S ++ (List.replicate (budget + 1) 97 ++ [32])) tail 64 (by
      intro c hc
      rcases List.mem_append.1 hc with h | h
      · exact hS64 c h
      · rcases List.mem_append.1 h with h | h
        · rw [List.eq_of_mem_replicate h]; decide
        · simp only [List.mem_singleton] at h
          omega)
    simp only [List.append_assoc, List.singleton_append, List.length_append,
      List.length_singleton] at this
    simpa using this
  exact userinfo_fires budget 6 _ S.length 0 0 (List.replicate (budget + 1) 97) 32 (64 :: tail)
    hd hat (fun c hc => by rw [List.eq_of_mem_replicate hc]; decide) (by decide) (by simp)

theorem runTimed_hostport_bracket (n : Nat) (i : Bytes) (k m acc : Nat) (t : Bytes)
    (h : i.drop k = 91 :: t) :
    runTimed (n + 1) lexFunc.lexHostport ⟨i, i.length, k, m⟩ acc
      = runTimed n lexFunc.lexIPv6 ⟨i, i.length, k + 1, k⟩ (acc + 1) := by
  have hcall : lexFunc.lexHostport.call ⟨i, i.length, k, m⟩
      = some ⟨⟨i, i.length, k + 1, k⟩, [], some lexFunc.lexIPv6⟩ := by
    simp only [lexFunc.call, lexer.lexHostport]
    rw [current_cons i k k 91 t h]
    simp [eof]
  rw [runTimed_call_next n _ _ _ acc _ hcall rfl]
  simp [stamp, lexFunc.silent]

theorem lexIPv6Loop_skip (a : Bytes) (ha : ∀ c ∈ a, c < 128 ∧ isHex c = true) :
    ∀ (cs : List Nat) (i : Bytes) (lim k m : Nat),
    lexIPv6Loop (a ++ cs) ⟨i, lim, k, m⟩ = lexIPv6Loop cs ⟨i, lim, k + a.length, m⟩ := by
  induction a with
  | nil => intro cs i lim k m; rfl
  | cons x a ih =>
    intro cs i lim k m
    obtain ⟨hlt, hx⟩ := ha x (by simp)
    have hb := byte_of_lt x (by omega)
    have h93 : x ≠ 93 := by
      intro h
      rw [h] at hx
      revert hx
      decide
    have hc : isHex (byte x) = true ∨ x = 58 ∨ x = 46 := Or.inl (by rw [hb]; exact hx)
    have hrec := ih (fun c hc => ha c (by simp [hc])) cs i lim (k + 1) m
    have hk : k + 1 + a.length = k + (a.length + 1) := by omega
    simp only [List.cons_append, lexIPv6Loop, h93, if_false, hc, if_true, List.append_eq, hrec,
      List.length_cons, hk]

theorem lexIPv6Loop_sends (cs : List Nat) : ∀ (l : lexer) (st : Step),
    lexIPv6Loop cs l = some st → st.sent ≠ [] ∧ l.cursor ≤ st.l.cursor := by
  induction cs with
  | nil =>
    intro l st h
    simp only [lexIPv6Loop, Option.some.injEq] at h
    subst h
    simp
  | cons c cs ih =>
    intro l st h
    simp only [lexIPv6Loop] at h
    split_ifs at h with h1 h2
    · simp only [Option.map_eq_some'] at h
      obtain ⟨e, _, he⟩ := h
      subst he
      simp
    · have := ih _ st h
      simp only at this
      exact ⟨this.1, by omega⟩
    · simp only [Option.some.injEq] at h
      subst h
      simp

theorem ipv6_fires (budget n : Nat) (i : Bytes) (k m acc : Nat) (a rest : Bytes)
    (hm : m ≤ k) (hk : k ≤ i.length) (h : i.drop k = a ++ rest)
    (ha : ∀ c ∈ a, c < 128 ∧ isHex c = true) (hw : budget < acc + a.length) :
    TimerFires budget (runTimed (n + 1) lexFunc.lexIPv6 ⟨i, i.length, k, m⟩ acc) := by
  obtain ⟨st, hcall, _, _, _⟩ := ipv6_step i k m hm hk
  have hc := hcall
  simp only [lexer.lexIPv6, sliceFrom, hk, if_true, h] at hc
  rw [runes_append_ascii a rest (fun b hb => (ha b hb).1), lexIPv6Loop_skip a ha] at hc
  obtain ⟨h1, h2⟩ := lexIPv6Loop_sends _ _ st hc
  simp only at h2
  refine timerFires_here budget n lexFunc.lexIPv6 _ acc st hcall h1 ?_
  simp only [lexFunc.silent]
  omega

/-- For every budget of the timer, a scheme, `[` and a run of digits `1` as long
as the budget, without `]`, gets the timeout error. -/
theorem long_ipv6_fires (budget : Nat) (S : Bytes) (hS : S = B "sip:" ∨ S = B "sips:") :
    LexerParse budget (S ++ (91 :: List.replicate budget 49))
      = some (none, some (B "Invalid uri '" ++ (S ++ (91 :: List.replicate budget 49))
          ++ B "': timeout parsing")) := by
  apply LexerParse_timerFires
  apply scheme_fires budget S _ hS
  have hS64 : ∀ c ∈ S, c ≠ 64 := by
    rcases hS with e | e <;> rw [e] <;> decide
  have hall : ∀ c ∈ S ++ (91 :: List.replicate budget 49), c ≠ 64 := by
    intro c hc
    rcases List.mem_append.1 hc with h | h
    · exact hS64 c h
    · rcases List.mem_cons.1 h with h | h
      · omega
      · rw [List.eq_of_mem_replicate h]; decide
  have hd : (S ++ (91 :: List.replicate budget 49)).drop S.length
      = 91 :: List.replicate budget 49 := by simp
  have hd1 : (S ++ (91 :: List.replicate budget 49)).drop (S.length + 1)
      = List.replicate budget 49 ++ [] := by
    rw [← List.drop_drop, hd]; simp
  rw [runTimed_userinfo_absent 6 _ S.length 0 0 hall,
    runTimed_hostport_bracket 5 _ S.length S.length 0 _ hd]
  exact ipv6_fires budget 4 _ (S.length + 1) S.length (0 + 1) (List.replicate budget 49) []
    (by omega) (by simp) hd1 (fun c hc => by rw [List.eq_of_mem_replicate hc]; decide)
    (by simp)

/-! ## The claims on an accepted input, with the timer -/

/-- Claim C3: the fields of an accepted ASCII input are contiguous pieces of the
input in the order scheme, userinfo, hostport, params, headers. -/
theorem LexerParse_fields_in_order (budget : Nat) (data : Bytes) (u : URI)
    (hascii : ∀ b ∈ data, b < 128) (h : LexerParse budget data = some (some u, none)) :
    ∃ S U P H, (S = B "sip:" ∨ S = B "sips:") ∧ (U = [] ∨ U = u.userinfo ++ B "@") ∧
      (P = [] ∨ P = B ";" ++ u.params) ∧ (H = [] ∨ H = B "?" ++ u.headers) ∧
      data = S ++ U ++ u.hostport ++ P ++ H :=
  LexerParseInTime_fields_in_order data u hascii (LexerParse_accepted budget data u h)

theorem LexerParse_fields_in_order_witness :
    ∃ S U P H, (S = B "sip:" ∨ S = B "sips:") ∧ (U = [] ∨ U = B "alice" ++ B "@") ∧
      (P = [] ∨ P = B ";" ++ B "x=1") ∧ (H = [] ∨ H = B "?" ++ B "y=2") ∧
      B "sip:alice@[::1]:5060;x=1?y=2" = S ++ U ++ B "[::1]:5060" ++ P ++ H :=
  LexerParse_fields_in_order 10 (B "sip:alice@[::1]:5060;x=1?y=2")
    ⟨Scheme.SIP, B "alice", B "[::1]:5060", B "x=1", B "y=2"⟩ (by decide) (by decide)

/-- Claim C4: an input that begins with neither `sip:` nor `sips:` yields a nil URI
and the error `Invalid uri '<input>': invalid scheme`, whatever the budget of the
timer: `lexScheme` sends the error without a scan. -/
theorem LexerParse_invalid_scheme (budget : Nat) (data : Bytes)
    (h1 : HasPrefix data (B "sip:") = false) (h2 : HasPrefix data (B "sips:") = false) :
    LexerParse budget data
      = some (none, some (B "Invalid uri '" ++ data ++ B "': invalid scheme")) := by
  have hb : B "': " ++ B "invalid scheme" = B "': invalid scheme" := by decide
  simp [LexerParse, runTimed_scheme_bad 7 data h1 h2, mainLoop, errorf, hb]

theorem LexerParse_invalid_scheme_witness :
    HasPrefix (B " SIP:a") (B "sip:") = false ∧ HasPrefix (B " SIP:a") (B "sips:") = false ∧
    LexerParse 0 (B " SIP:a")
      = some (none, some (B "Invalid uri '" ++ B " SIP:a" ++ B "': invalid scheme")) :=
  ⟨by decide, by decide, LexerParse_invalid_scheme 0 (B " SIP:a") (by decide) (by decide)⟩

/-- Claim C5: an accepted input never has the scheme UNKNOWN: the scheme is SIP
exactly when the input begins with `sip:` and SIPS exactly when it begins with
`sips:`. -/
theorem LexerParse_scheme (budget : Nat) (data : Bytes) (u : URI)
    (h : LexerParse budget data = some (some u, none)) :
    u.scheme ≠ Scheme.UNKNOWN ∧
    (u.scheme = Scheme.SIP ↔ HasPrefix data (B "sip:") = true) ∧
    (u.scheme = Scheme.SIPS ↔ HasPrefix data (B "sips:") = true) :=
  LexerParseInTime_scheme data u (LexerParse_accepted budget data u h)

theorem LexerParse_scheme_witness :
    LexerParse 1 (B "sips:a") = some (some ⟨Scheme.SIPS, [], B "a", [], []⟩, none) ∧
    (Scheme.SIPS ≠ Scheme.UNKNOWN ∧
    (Scheme.SIPS = Scheme.SIP ↔ HasPrefix (B "sips:a") (B "sip:") = true) ∧
    (Scheme.SIPS = Scheme.SIPS ↔ HasPrefix (B "sips:a") (B "sips:") = true)) :=
  ⟨by decide, LexerParse_scheme 1 (B "sips:a") ⟨Scheme.SIPS, [], B "a", [], []⟩ (by decide)⟩

/-- Claim C6: for every input and every budget of the timer `LexerParse` returns
either a URI and a nil error, or a nil URI and an error. -/
theorem LexerParse_uri_or_error (budget : Nat) (data : Bytes) :
    (∃ uri, LexerParse budget data = some (some uri, none)) ∨
    (∃ err, LexerParse budget data = some (none, some err)) := by
  rcases LexerParse_or_timeout budget data with e | e
  · rw [e]; exact LexerParseInTime_uri_or_error data
  · exact Or.inr ⟨_, e⟩

/-- Claim C7: the hostport of an accepted input, ASCII or not, is not empty. -/
theorem LexerParse_hostport_ne_nil (budget : Nat) (data : Bytes) (u : URI)
    (h : LexerParse budget data = some (some u, none)) : u.hostport ≠ [] :=
  LexerParseInTime_hostport_ne_nil data u (LexerParse_accepted budget data u h)

theorem LexerParse_hostport_ne_nil_witness :
    LexerParse 2 [115, 105, 112, 58, 97, 197, 129]
      = some (some ⟨Scheme.SIP, [], [97, 197], [], []⟩, none) ∧
    ([97, 197] : Bytes) ≠ [] :=
  ⟨by decide, LexerParse_hostport_ne_nil 2 [115, 105, 112, 58, 97, 197, 129]
    ⟨Scheme.SIP, [], [97, 197], [], []⟩ (by decide)⟩

/-- Claim C8: after a valid scheme and without `@`, an empty rest fails with
`invalid host/port`, and a rest whose first byte is neither `[` nor a letter or
digit fails with `invalid host part`, whatever the budget of the timer: the
lexer sends the scheme and the error without a scan of its own. -/
theorem LexerParse_invalid_host (budget : Nat) (S r : Bytes)
    (hS : S = B "sip:" ∨ S = B "sips:") (h64 : ∀ c ∈ r, c ≠ 64) :
    (r = [] → LexerParse budget (S ++ r)
      = some (none, some (B "Invalid uri '" ++ (S ++ r) ++ B "': invalid host/port"))) ∧
    (∀ x t, r = x :: t → x < 256 → x ≠ 91 → isAlphaNum x = false →
      LexerParse budget (S ++ r)
        = some (none, some (B "Invalid uri '" ++ (S ++ r) ++ B "': invalid host part"))) := by
  have hb1 : B "': " ++ B "invalid host/port" = B "': invalid host/port" := by decide
  have hb2 : B "': " ++ B "invalid host part" = B "': invalid host part" := by decide
  have hS64 : ∀ c ∈ S, c ≠ 64 := by
    rcases hS with e | e <;> rw [e] <;> decide
  have hall : ∀ c ∈ S ++ r, c ≠ 64 := by
    intro c hc
    rcases List.mem_append.1 hc with h | h
    · exact hS64 c h
    · exact h64 c h
  have key : ∀ (ev : Event),
      (∀ n k m acc, (S ++ r).drop k = r → runTimed (n + 1) lexFunc.lexHostport
        ⟨S ++ r, (S ++ r).length, k, m⟩ acc = some [(acc, ev)]) →
      ∃ tk, runTimed 8 lexFunc.lexScheme (newLexer (S ++ r)) 0
        = some [(0, Event.item ⟨tk, S⟩), (0, ev)] := by
    intro ev hev
    rcases hS with e | e
    · subst e
      refine ⟨Token.tSip, ?_⟩
      rw [runTimed_scheme_sip 7 r, runTimed_userinfo_absent 6 _ 4 0 0 hall,
        hev 5 4 4 0 (by simp [B_sip])]
      rfl
    · subst e
      refine ⟨Token.tSips, ?_⟩
      rw [runTimed_scheme_sips 7 r, runTimed_userinfo_absent 6 _ 5 0 0 hall,
        hev 5 5 5 0 (by simp [B_sips])]
      rfl
  have htk : ∀ tk, (tk = Token.tSip ∨ tk = Token.tSips) → tk ≠ Token.tEOF := by
    intro tk h
    rcases h with h | h <;> rw [h] <;> decide
  refine ⟨fun hr => ?_, fun x t hr hx hx91 hxa => ?_⟩
  · obtain ⟨tk, e⟩ := key (errorf (B "invalid host/port")) (fun n k m acc hd =>
      runTimed_hostport_nil n _ k m acc (by rw [hd, hr]))
    have hne : tk ≠ Token.tEOF := by
      intro h
      rw [h] at e
      have := runTimed_events 8 lexFunc.lexScheme (newLexer (S ++ r)) 0
      rw [e, scheme_sim 1] at this
      simp only [Option.map_some', Option.some.injEq, List.map_cons, List.map_nil] at this
      rcases hS with e1 | e1 <;> subst e1 <;>
        simp [schemeSent, HasPrefix, B_sip, B_sips, List.isPrefixOf] at this
    simp [LexerParse, e, mainLoop, errorf, hne, hb1]
  · obtain ⟨tk, e⟩ := key (errorf (B "invalid host part")) (fun n k m acc hd =>
      runTimed_hostport_bad n _ k m acc x t (by rw [hd, hr]) hx hx91 hxa)
    have hne : tk ≠ Token.tEOF := by
      intro h
      rw [h] at e
      have := runTimed_events 8 lexFunc.lexScheme (newLexer (S ++ r)) 0
      rw [e, scheme_sim 1] at this
      simp only [Option.map_some', Option.some.injEq, List.map_cons, List.map_nil] at this
      rcases hS with e1 | e1 <;> subst e1 <;>
        simp [schemeSent, HasPrefix, B_sip, B_sips, List.isPrefixOf] at this
    simp [LexerParse, e, mainLoop, errorf, hne, hb2]

theorem LexerParse_invalid_host_witness :
    LexerParse 0 (B "sips:" ++ [])
      = some (none, some (B "Invalid uri '" ++ (B "sips:" ++ []) ++ B "': invalid host/port")) ∧
    LexerParse 0 (B "sip:" ++ B ";foo?bar")
      = some (none,
          some (B "Invalid uri '" ++ (B "sip:" ++ B ";foo?bar") ++ B "': invalid host part")) :=
  ⟨(LexerParse_invalid_host 0 (B "sips:") [] (Or.inr rfl) (by decide)).1 rfl,
   (LexerParse_invalid_host 0 (B "sip:") (B ";foo?bar") (Or.inl rfl) (by decide)).2
      59 (B "foo?bar") (by decide) (by decide) (by decide) (by decide)⟩

/-- Claim C14: for every accepted input, without `@` in the input the userinfo is
empty, and with `@` the userinfo is the bytes between the colon of the scheme
and the first `@`, each of them a legal userinfo byte. -/
theorem LexerParse_userinfo (budget : Nat) (data : Bytes) (u : URI)
    (h : LexerParse budget data = some (some u, none)) :
    (64 ∉ data → u.userinfo = []) ∧
    (64 ∈ data → ∃ S rest, (S = B "sip:" ∨ S = B "sips:") ∧
      data = S ++ u.userinfo ++ B "@" ++ rest ∧ (∀ c ∈ u.userinfo, c ≠ 64) ∧
      ∀ c ∈ u.userinfo, isUserinfoByte c = true) :=
  LexerParseInTime_userinfo data u (LexerParse_accepted budget data u h)

theorem LexerParse_userinfo_witness :
    (64 ∉ B "sip:alice@atlanta.com" → B "alice" = []) ∧
    (64 ∈ B "sip:alice@atlanta.com" → ∃ S rest, (S = B "sip:" ∨ S = B "sips:") ∧
      B "sip:alice@atlanta.com" = S ++ B "alice" ++ B "@" ++ rest ∧
      (∀ c ∈ B "alice", c ≠ 64) ∧ ∀ c ∈ B "alice", isUserinfoByte c = true) :=
  LexerParse_userinfo 11 (B "sip:alice@atlanta.com")
    ⟨Scheme.SIP, B "alice", B "atlanta.com", [], []⟩ (by decide)

/-- Claim C28: on every input made only of ASCII bytes that `LexerParse` accepts,
`DummyParser` succeeds and returns a URI with the same scheme, userinfo,
hostport, params and headers. -/
theorem DummyParser_agrees (budget : Nat) (data : Bytes) (u : URI)
    (hascii : ∀ b ∈ data, b < 128) (h : LexerParse budget data = some (some u, none)) :
    DummyParser data = some (some u, none) :=
  DummyParser_agrees_in_time data u hascii (LexerParse_accepted budget data u h)

theorem DummyParser_agrees_witness :
    DummyParser (B "sip:alice:secretword@atlanta.com;transport=tcp")
      = some (some ⟨Scheme.SIP, B "alice:secretword", B "atlanta.com", B "transport=tcp", []⟩,
          none) :=
  DummyParser_agrees 16 (B "sip:alice:secretword@atlanta.com;transport=tcp")
    ⟨Scheme.SIP, B "alice:secretword", B "atlanta.com", B "transport=tcp", []⟩
    (by decide) (by decide)

/-- Claim C34: the hostport of an accepted ASCII input is a host `H`, or `H`, a
colon and a non-empty string of digits of value at most 65535, where `H` is a
bracketed host (`[`, then hexadecimal digits, `:` and `.`, then `]`) or begins
with a letter or digit and consists of letters, digits, `-` and `.`. -/
theorem LexerParse_hostport_form (budget : Nat) (data : Bytes) (u : URI)
    (hascii : ∀ b ∈ data, b < 128) (h : LexerParse budget data = some (some u, none)) :
    ∃ H, (isBracketHost H ∨ isPlainHost H) ∧
      (u.hostport = H ∨
        ∃ D, D ≠ [] ∧ (∀ c ∈ D, isNum c = true) ∧ decVal D ≤ 65535 ∧
          u.hostport = H ++ B ":" ++ D) :=
  LexerParseInTime_hostport_form data u hascii (LexerParse_accepted budget data u h)

theorem LexerParse_hostport_form_witness :
    ∃ H, (isBracketHost H ∨ isPlainHost H) ∧
      (B "[::1]:5060" = H ∨
        ∃ D, D ≠ [] ∧ (∀ c ∈ D, isNum c = true) ∧ decVal D ≤ 65535 ∧
          B "[::1]:5060" = H ++ B ":" ++ D) :=
  LexerParse_hostport_form 6 (B "sip:bob@[::1]:5060;a=b")
    ⟨Scheme.SIP, B "bob", B "[::1]:5060", B "a=b", []⟩ (by decide) (by decide)

/-- Claim C35: an accepted input, ASCII or not, has at most one `@`; no field of
the result contains `@`; and when the input has an `@`, it is the byte that
follows the userinfo, with no `@` after it. -/
theorem LexerParse_at_most_one_at (budget : Nat) (data : Bytes) (u : URI)
    (h : LexerParse budget data = some (some u, none)) :
    data.count 64 ≤ 1 ∧
    64 ∉ u.userinfo ∧ 64 ∉ u.hostport ∧ 64 ∉ u.params ∧ 64 ∉ u.headers ∧
    (64 ∈ data → ∃ S rest, (S = B "sip:" ∨ S = B "sips:") ∧
      data = S ++ u.userinfo ++ B "@" ++ rest ∧ 64 ∉ rest) :=
  LexerParseInTime_at_most_one_at data u (LexerParse_accepted budget data u h)

theorem LexerParse_at_most_one_at_witness :
    (B "sip:alice@atlanta.com;a=b").count 64 ≤ 1 ∧
    64 ∉ B "alice" ∧ 64 ∉ B "atlanta.com" ∧ 64 ∉ B "a=b" ∧ 64 ∉ ([] : Bytes) ∧
    (64 ∈ B "sip:alice@atlanta.com;a=b" → ∃ S rest, (S = B "sip:" ∨ S = B "sips:") ∧
      B "sip:alice@atlanta.com;a=b" = S ++ B "alice" ++ B "@" ++ rest ∧ 64 ∉ rest) :=
  LexerParse_at_most_one_at 11 (B "sip:alice@atlanta.com;a=b")
    ⟨Scheme.SIP, B "alice", B "atlanta.com", B "a=b", []⟩ (by decide)

/-- Claim C32: for every input, ASCII or not, every index and slice of the lexer
is in range.  The loop of `run` ends without panic; at every call of a state
function and after the last one `0 ≤ marker ≤ cursor ≤ len(input)` holds; with
these bounds `emit` does not panic; `current` and `next` do not index past the
end; and `LexerParse` returns, whatever the budget of its timer. -/
theorem lexer_indices_in_range (data : Bytes) :
    (∃ calls lend, runCalls 8 lexFunc.lexScheme (newLexer data) = some (calls, lend, none) ∧
      (∀ c ∈ calls, c.2.within data) ∧ lend.within data) ∧
    (∀ (l : lexer) (tk : Token), l.within data → l.emit tk ≠ none) ∧
    (∀ l : lexer, l.limit = l.input.length → l.current ≠ none ∧ l.next ≠ none) ∧
    (∃ sent, (newLexer data).run = some sent) ∧
    (∀ budget, ∃ r, LexerParse budget data = some r) := by
  obtain ⟨h1, h2, h3, h4, _⟩ := lexer_indices_in_range_in_time data
  refine ⟨h1, h2, h3, h4, fun budget => ?_⟩
  obtain ⟨tv, _, _, e, _⟩ := LexerParse_unfold budget data
  exact ⟨_, e⟩

/-! ## The defects, with the timer -/

/-- Claim C17: the input `sip:a` followed by the two bytes of U+0141 is accepted
whenever the timer leaves the lexer the time for 7 bytes; the loop of
`lexHostname` reads the rune as `byte(0x141) = 'A'` and moves the cursor by one
byte, so the hostport is `a` and the byte 197. -/
theorem LexerParse_multibyte_host :
    runes [97, 197, 129] = [97, 0x141] ∧ byte 0x141 = 65 ∧
    (∀ budget, LexerParse (budget + 7) [115, 105, 112, 58, 97, 197, 129]
      = some (some ⟨Scheme.SIP, [], [97, 197], [], []⟩, none)) ∧
    isHostByte 197 = false ∧ 197 ≠ 58 ∧ 197 ≠ 91 ∧ 197 ≠ 93 := by
  obtain ⟨h1, h2, h3, h4⟩ := LexerParseInTime_multibyte_host
  exact ⟨h1, h2, fun budget => LexerParse_add budget 7 _ _ rfl h3, h4⟩

/-- Claim C20: `LexerParse` returns a URI for `sip:atlanta.com;foo?bar`, with
params `foo` and headers `bar`, whenever the timer leaves the lexer the time for
its 23 bytes, and `RagelParse` returns the error `Invalid URI` for it. -/
theorem LexerParse_RagelParse_differ :
    (∀ budget, LexerParse (budget + 23) (B "sip:atlanta.com;foo?bar")
      = some (some ⟨Scheme.SIP, [], B "atlanta.com", B "foo", B "bar"⟩, none)) ∧
    RagelParse (B "sip:atlanta.com;foo?bar")
      = some (none, some (B "Invalid URI 'sip:atlanta.com;foo?bar'.")) := by
  obtain ⟨h1, h2⟩ := LexerParseInTime_RagelParse_differ
  exact ⟨fun budget => LexerParse_add budget 23 _ _ (by decide) h1, h2⟩

/-- Claim C22: `lexIPv6` only tests each rune against the class of hexadecimal
digits, `:` and `.`; the empty bracket pair and a content made of dots or of
colons are accepted as hosts, whenever the timer leaves the lexer the time for
the input. -/
theorem LexerParse_empty_brackets :
    (∀ budget, LexerParse (budget + 6) (B "sip:[]")
      = some (some ⟨Scheme.SIP, [], B "[]", [], []⟩, none)) ∧
    (∀ budget, LexerParse (budget + 9) (B "sip:[...]")
      = some (some ⟨Scheme.SIP, [], B "[...]", [], []⟩, none)) ∧
    (∀ budget, LexerParse (budget + 11) (B "sip:[:::::]")
      = some (some ⟨Scheme.SIP, [], B "[:::::]", [], []⟩, none)) := by
  obtain ⟨h1, h2, h3⟩ := LexerParseInTime_empty_brackets
  exact ⟨fun budget => LexerParse_add budget 6 _ _ (by decide) h1,
    fun budget => LexerParse_add budget 9 _ _ (by decide) h2,
    fun budget => LexerParse_add budget 11 _ _ (by decide) h3⟩

/-- Claim C23: for the host `1.2.3.4.com`, of digits, letters and dots,
`parseIPv4` matches the seven bytes `1.2.3.4`, `lexHostport` sends them as the
host without looking at what follows, and `lexParams` fails on `.com`, whenever
the timer leaves the lexer the time for the input; `RagelParse` accepts the
input with the whole text as hostport. -/
theorem LexerParse_ipv4_prefix_host :
    (∀ c ∈ B "1.2.3.4.com", isHostByte c = true) ∧ isNum ((B "1.2.3.4.com").headD 0) = true ∧
    parseIPv4 (B "1.2.3.4.com") = some (7, true) ∧
    (∀ budget, LexerParse (budget + 15) (B "sip:1.2.3.4.com")
      = some (none, some (B "Invalid uri 'sip:1.2.3.4.com': invalid params"))) ∧
    RagelParse (B "sip:1.2.3.4.com")
      = some (some ⟨Scheme.SIP, [], B "1.2.3.4.com", [], []⟩, none) := by
  obtain ⟨h1, h2, h3, h4, h5⟩ := LexerParseInTime_ipv4_prefix_host
  exact ⟨h1, h2, h3, fun budget => LexerParse_add budget 15 _ _ (by decide) h4, h5⟩

/-- Claim C24: `lexHeaders` only tests each rune against the class of header
bytes; `sip:atlanta.com;foo?bar`, whose header has no `=`, and
`sip:atlanta.com?=v`, whose header has an empty name, are accepted whenever the
timer leaves the lexer the time for the input. -/
theorem LexerParse_header_without_eq :
    61 ∉ B "bar" ∧
    (∀ budget, LexerParse (budget + 23) (B "sip:atlanta.com;foo?bar")
      = some (some ⟨Scheme.SIP, [], B "atlanta.com", B "foo", B "bar"⟩, none)) ∧
    (∀ budget, LexerParse (budget + 18) (B "sip:atlanta.com?=v")
      = some (some ⟨Scheme.SIP, [], B "atlanta.com", [], B "=v"⟩, none)) := by
  obtain ⟨h1, h2, h3⟩ := LexerParseInTime_header_without_eq
  exact ⟨h1, fun budget => LexerParse_add budget 23 _ _ (by decide) h2,
    fun budget => LexerParse_add budget 18 _ _ (by decide) h3⟩

/-- Claim C25: `lexParams` asks nothing of what follows a `;`; whenever the timer
leaves the lexer the time for the input, `sip:atlanta.com;` is accepted with
empty params and `sip:atlanta.com;;a` with the params `;a`. -/
theorem LexerParse_empty_param :
    (∀ budget, LexerParse (budget + 16) (B "sip:atlanta.com;")
      = some (some ⟨Scheme.SIP, [], B "atlanta.com", [], []⟩, none)) ∧
    (∀ budget, LexerParse (budget + 18) (B "sip:atlanta.com;;a")
      = some (some ⟨Scheme.SIP, [], B "atlanta.com", B ";a", []⟩, none)) := by
  obtain ⟨h1, h2⟩ := LexerParseInTime_empty_param
  exact ⟨fun budget => LexerParse_add budget 16 _ _ (by decide) h1,
    fun budget => LexerParse_add budget 18 _ _ (by decide) h2⟩

/-- Claim C26: `sip:@atlanta.com`, whose `@` directly follows the colon of the
scheme, is accepted with an empty userinfo whenever the timer leaves the lexer
the time for the input. -/
theorem LexerParse_empty_userinfo :
    64 ∈ B "sip:@atlanta.com" ∧
    (∀ budget, LexerParse (budget + 16) (B "sip:@atlanta.com")
      = some (some ⟨Scheme.SIP, [], B "atlanta.com", [], []⟩, none)) := by
  obtain ⟨h1, h2⟩ := LexerParseInTime_empty_userinfo
  exact ⟨h1, fun budget => LexerParse_add budget 16 _ _ (by decide) h2⟩

/-- Claim C31: for `sip:a:x` the loop of `run` does not reach a nil state.  After
four calls the state is `lexPort` with the cursor on the colon; `lexPort` sends
the error `invalid port ` and then, without returning, the item `tPort`.  The
error is the third value sent and the receive loop of `LexerParse` returns on
it, so the send of the fourth value never completes and `lexPort` never returns.
The same holds for `sip:a?b c` in `lexHeaders`. -/
theorem run_blocks_after_error :
    runCalls 4 lexFunc.lexScheme (newLexer (B "sip:a:x"))
      = some ([(lexFunc.lexScheme, ⟨B "sip:a:x", 7, 0, 0⟩),
          (lexFunc.lexUserinfo, ⟨B "sip:a:x", 7, 4, 0⟩),
          (lexFunc.lexHostport, ⟨B "sip:a:x", 7, 4, 4⟩),
          (lexFunc.lexHostname, ⟨B "sip:a:x", 7, 4, 4⟩)],
          ⟨B "sip:a:x", 7, 5, 4⟩, some lexFunc.lexPort) ∧
    lexer.lexPort ⟨B "sip:a:x", 7, 5, 4⟩
      = some ⟨⟨B "sip:a:x", 7, 6, 6⟩,
          [Event.err (B "invalid port "), Event.item ⟨Token.tPort, []⟩],
          some lexFunc.lexParams⟩ ∧
    (newLexer (B "sip:a:x")).run
      = some [Event.item ⟨Token.tSip, B "sip:"⟩, Event.item ⟨Token.tHost, B "a"⟩,
          Event.err (B "invalid port "), Event.item ⟨Token.tPort, []⟩,
          Event.err (B "invalid params")] ∧
    received [Event.item ⟨Token.tSip, B "sip:"⟩, Event.item ⟨Token.tHost, B "a"⟩,
      Event.err (B "invalid port "), Event.item ⟨Token.tPort, []⟩,
      Event.err (B "invalid params")] = 3 ∧
    (∀ budget, LexerParse (budget + 7) (B "sip:a:x")
      = some (none, some (B "Invalid uri 'sip:a:x': invalid port "))) ∧
    ((newLexer (B "sip:a?b c")).run).map (fun sent => (sent.length, received sent))
      = some (5, 3) := by
  obtain ⟨h1, h2, h3, h4, h5, h6⟩ := run_blocks_after_error_in_time
  exact ⟨h1, h2, h3, h4, fun budget => LexerParse_add budget 7 _ _ (by decide) h5, h6⟩

/-- Claim C33: `DummyParser` indexes `u.input[0]` in `parseParams` on an empty
string, and so panics, exactly when nothing follows the scheme or nothing
follows the first `@`; `sip:` and `sip:alice@` are such inputs, on which
`LexerParse` returns an error. -/
theorem DummyParser_index_out_of_range :
    (∀ data, DummyParser data = none ↔
      ∃ S, (S = B "sip:" ∨ S = B "sips:") ∧
        (data = S ∨ ∃ U, 64 ∉ U ∧ data = S ++ U ++ B "@")) ∧
    DummyParser (B "sip:") = none ∧ DummyParser (B "sip:alice@") = none ∧
    URIRegex.parseParams ⟨[], ⟨Scheme.SIP, B "alice", [], [], []⟩⟩ = none ∧
    (∀ budget, LexerParse budget (B "sip:")
      = some (none, some (B "Invalid uri 'sip:': invalid host/port"))) ∧
    (∀ budget, LexerParse (budget + 10) (B "sip:alice@")
      = some (none, some (B "Invalid uri 'sip:alice@': invalid host/port"))) := by
  obtain ⟨h1, h2, h3, h4, h5, h6⟩ := DummyParser_index_out_of_range_in_time
  refine ⟨h1, h2, h3, h4, fun budget => ?_,
    fun budget => LexerParse_add budget 10 _ _ (by decide) h6⟩
  have hb : B "': " ++ B "invalid host/port" = B "': invalid host/port" := by decide
  have hr := runTimed_scheme_sip 7 []
  rw [runTimed_userinfo_absent 6 _ 4 0 0 (by decide),
    runTimed_hostport_nil 5 _ 4 4 0 (by decide)] at hr
  simp only [List.append_nil] at hr
  simp only [LexerParse, hr, Option.map_some', mainLoop, Nat.not_lt_zero, if_false,
    reduceCtorEq]
  decide

/-- The timeout error is none of the errors of the lexer, whose reasons all begin
with `invalid`. -/
theorem timeout_ne (data R rest : Bytes) (h : R.get? 3 = some 105) :
    B "Invalid uri '" ++ data ++ B "': timeout parsing"
      ≠ B "Invalid uri '" ++ data ++ R ++ rest := by
  intro e
  simp only [List.append_assoc] at e
  have e1 := List.append_cancel_left (List.append_cancel_left e)
  have e2 := congrArg (fun l => l.get? 3) e1
  have h3 : 3 < R.length := by
    rcases Nat.lt_or_ge 3 R.length with h3 | h3
    · exact h3
    · rw [List.get?_eq_none.2 h3] at h
      cases h
  simp only [List.get?_eq_getElem?] at e2 h
  rw [List.getElem?_append_left h3, h] at e2
  revert e2
  decide

/-! ## Claims that hold while the timer does not fire -/

/-- Claim C1 as stated fails: the select of `LexerParse` gives up when the lexer
sends nothing for 10 ms.  `sip:` and a host name of eleven letters `a` is a text
of the claim, and where the lexer moves over ten bytes in 10 ms the result is
the timeout error; whatever the budget, `sip:` and a host name of more letters
`a` than the budget gets it. -/
theorem accepts_counterexample :
    isLetter 97 = true ∧ (∀ c ∈ List.replicate 10 97, isHostByte c = true) ∧
    LexerParse 10 (B "sip:" ++ 97 :: List.replicate 10 97)
      = some (none, some (B "Invalid uri 'sip:aaaaaaaaaaa': timeout parsing")) ∧
    ∀ budget, LexerParse budget (B "sip:" ++ 97 :: List.replicate budget 97)
      = some (none, some (B "Invalid uri '" ++ (B "sip:" ++ 97 :: List.replicate budget 97)
          ++ B "': timeout parsing")) := by
  have key : ∀ budget, LexerParse budget (B "sip:" ++ 97 :: List.replicate budget 97)
      = some (none, some (B "Invalid uri '" ++ (B "sip:" ++ 97 :: List.replicate budget 97)
          ++ B "': timeout parsing")) := by
    intro budget
    have := long_hostname_fires budget (B "sip:") [] (Or.inl rfl) (by simp)
    simpa [List.replicate_succ] using this
  refine ⟨by decide, by decide, ?_, key⟩
  rw [key 10]
  decide

/-- Claim C1, amended: a text `S ++ [u ++ "@"] ++ h ++ [":" ++ d] ++ [";" ++ p] ++
["?" ++ q]` of the claim, no longer than the bytes over which the lexer moves in
the 10 ms of the timer, is accepted, with the scheme of `S`, userinfo `u`,
hostport `h` (with `":" ++ d` when the port is present), params `p`, headers `q`,
and the empty string for every omitted part. -/
theorem LexerParse_accepts (budget : Nat) (S : Bytes) (sch : Scheme) (u : Option Bytes)
    (x : Nat) (t : Bytes) (d p q : Option Bytes)
    (hS : (S = B "sip:" ∧ sch = Scheme.SIP) ∨ (S = B "sips:" ∧ sch = Scheme.SIPS))
    (hu : ∀ v, u = some v → ∀ c ∈ v, isUserinfoByte c = true)
    (hx : isLetter x = true) (ht : ∀ c ∈ t, isHostByte c = true)
    (hd : ∀ v, d = some v → v ≠ [] ∧ (∀ c ∈ v, isNum c = true) ∧ decVal v ≤ 65535)
    (hp : ∀ v, p = some v → ∀ c ∈ v, isParamByte c = true)
    (hq : ∀ v, q = some v → ∀ c ∈ v, isHeaderByte c = true)
    (hb : (S ++ withSuffix u (B "@") ++ (x :: t) ++ withPrefix (B ":") d
        ++ withPrefix (B ";") p ++ withPrefix (B "?") q).length ≤ budget) :
    LexerParse budget (S ++ withSuffix u (B "@") ++ (x :: t) ++ withPrefix (B ":") d
        ++ withPrefix (B ";") p ++ withPrefix (B "?") q)
      = some (some ⟨sch, u.getD [], (x :: t) ++ withPrefix (B ":") d, p.getD [], q.getD []⟩,
          none) := by
  rw [LexerParse_in_time budget _ hb]
  exact LexerParseInTime_accepts S sch u x t d p q hS hu hx ht hd hp hq

theorem LexerParse_accepts_witness :
    LexerParse 53 (B "sips:" ++ withSuffix (some (B "bob:pa55w0rd")) (B "@")
        ++ (101 :: B "xample.com") ++ withPrefix (B ":") (some (B "8080"))
        ++ withPrefix (B ";") (some (B "user=phone")) ++ withPrefix (B "?") (some (B "X-t=foo")))
      = some (some ⟨Scheme.SIPS, (some (B "bob:pa55w0rd")).getD [],
          (101 :: B "xample.com") ++ withPrefix (B ":") (some (B "8080")),
          (some (B "user=phone")).getD [], (some (B "X-t=foo")).getD []⟩, none) :=
  LexerParse_accepts 53 (B "sips:") Scheme.SIPS (some (B "bob:pa55w0rd")) 101 (B "xample.com")
    (some (B "8080")) (some (B "user=phone")) (some (B "X-t=foo"))
    (Or.inr ⟨rfl, rfl⟩) (by decide) (by decide) (by decide) (by decide) (by decide) (by decide)
    (by decide)

/-- Claim C9 as stated fails: a port of eleven zeros has the value 0, and where
the lexer moves over ten bytes in 10 ms `sip:atlanta.com:` and that port gets
the timeout error; whatever the budget, a port of more zeros than the budget
gets it. -/
theorem port_range_counterexample :
    (∀ c ∈ List.replicate 11 48, isNum c = true) ∧ decVal (List.replicate 11 48) ≤ 65535 ∧
    LexerParse 10 (B "sip:atlanta.com:" ++ List.replicate 11 48)
      = some (none, some (B "Invalid uri 'sip:atlanta.com:00000000000': timeout parsing")) ∧
    ∀ budget, LexerParse budget (B "sip:atlanta.com:" ++ List.replicate (budget + 1) 48)
      = some (none, some (B "Invalid uri '"
          ++ (B "sip:atlanta.com:" ++ List.replicate (budget + 1) 48)
          ++ B "': timeout parsing")) := by
  have e : ∀ X : Bytes, B "sip:atlanta.com:" ++ X = B "sip:" ++ (B "atlanta.com" ++ 58 :: X) := by
    intro X
    have : B "sip:atlanta.com:" = B "sip:" ++ (B "atlanta.com" ++ [58]) := by decide
    rw [this]; simp
  have key : ∀ budget, LexerParse budget (B "sip:atlanta.com:" ++ List.replicate (budget + 1) 48)
      = some (none, some (B "Invalid uri '"
          ++ (B "sip:atlanta.com:" ++ List.replicate (budget + 1) 48)
          ++ B "': timeout parsing")) := by
    intro budget
    rw [e]
    exact long_port_fires budget
  refine ⟨by decide, by decide, ?_, key⟩
  rw [key 10]
  decide

/-- Claim C9, amended: for a non-empty string `d` of digits such that
`sip:atlanta.com:` followed by `d` is no longer than the bytes over which the
lexer moves in the 10 ms of the timer, that text is accepted exactly when the
value of `d` is at most 65535, and then the hostport is `atlanta.com:` followed
by `d`. -/
theorem LexerParse_port_range (budget : Nat) (d : Bytes) (hne : d ≠ [])
    (hd : ∀ c ∈ d, isNum c = true) (hb : (B "sip:atlanta.com:" ++ d).length ≤ budget) :
    ((∃ u, LexerParse budget (B "sip:atlanta.com:" ++ d) = some (some u, none))
      ↔ decVal d ≤ 65535) ∧
    (∀ u, LexerParse budget (B "sip:atlanta.com:" ++ d) = some (some u, none) →
      u.hostport = B "atlanta.com:" ++ d) := by
  rw [LexerParse_in_time budget _ hb]
  exact LexerParseInTime_port_range d hne hd

theorem LexerParse_port_range_witness :
    (∃ u, LexerParse 21 (B "sip:atlanta.com:" ++ B "0") = some (some u, none)) ∧
    (∃ u, LexerParse 21 (B "sip:atlanta.com:" ++ B "65535") = some (some u, none)) ∧
    ¬ (∃ u, LexerParse 21 (B "sip:atlanta.com:" ++ B "65536") = some (some u, none)) :=
  ⟨(LexerParse_port_range 21 (B "0") (by decide) (by decide) (by decide)).1.2 (by decide),
   (LexerParse_port_range 21 (B "65535") (by decide) (by decide) (by decide)).1.2 (by decide),
   fun h => absurd
     ((LexerParse_port_range 21 (B "65536") (by decide) (by decide) (by decide)).1.1 h)
     (by decide)⟩

/-- Claim C10 as stated fails: a host name of eleven letters `a` before the colon
is a text of the claim, and where the lexer moves over ten bytes in 10 ms the
reason is `timeout parsing`, which does not begin with `invalid port`; whatever
the budget, a host name of more letters `a` than the budget gets that reason. -/
theorem invalid_port_counterexample :
    isHostName (List.replicate 11 97) ∧
    LexerParse 10 (B "sip:" ++ List.replicate 11 97 ++ B ":" ++ [])
      = some (none, some (B "Invalid uri 'sip:aaaaaaaaaaa:': timeout parsing")) ∧
    (¬ ∃ rest, LexerParse 10 (B "sip:" ++ List.replicate 11 97 ++ B ":" ++ [])
      = some (none, some (B "Invalid uri '" ++ (B "sip:" ++ List.replicate 11 97 ++ B ":" ++ [])
          ++ B "': invalid port" ++ rest))) ∧
    ∀ budget, LexerParse budget (B "sip:" ++ List.replicate (budget + 1) 97 ++ B ":" ++ [])
      = some (none, some (B "Invalid uri '"
          ++ (B "sip:" ++ List.replicate (budget + 1) 97 ++ B ":" ++ [])
          ++ B "': timeout parsing")) := by
  have key : ∀ budget,
      LexerParse budget (B "sip:" ++ List.replicate (budget + 1) 97 ++ B ":" ++ [])
      = some (none, some (B "Invalid uri '"
          ++ (B "sip:" ++ List.replicate (budget + 1) 97 ++ B ":" ++ [])
          ++ B "': timeout parsing")) := by
    intro budget
    have := long_hostname_fires budget (B "sip:") (B ":") (Or.inl rfl) (by decide)
    simpa only [List.append_assoc, List.append_nil] using this
  refine ⟨⟨97, List.replicate 10 97, rfl, by decide, by decide⟩, ?_, ?_, key⟩
  · rw [key 10]
    decide
  · rintro ⟨rest, h⟩
    rw [key 10] at h
    simp only [Option.some.injEq, Prod.mk.injEq, true_and] at h
    exact timeout_ne _ (B "': invalid port") rest (by decide) h

/-- Claim C10, amended: after a host name or an IPv4 literal and `:`, a rest
without `@` that does not begin with a digit fails with a reason that begins
`invalid port`, when the input is no longer than the bytes over which the lexer
moves in the 10 ms of the timer. -/
theorem LexerParse_invalid_port (budget : Nat) (h r : Bytes)
    (hh : isHostName h ∨ isIPv4Literal h) (h64 : ∀ c ∈ r, c ≠ 64)
    (hdig : isNum (r.headD 0) = false)
    (hb : (B "sip:" ++ h ++ B ":" ++ r).length ≤ budget) :
    ∃ rest, LexerParse budget (B "sip:" ++ h ++ B ":" ++ r)
      = some (none, some (B "Invalid uri '" ++ (B "sip:" ++ h ++ B ":" ++ r)
          ++ B "': invalid port" ++ rest)) := by
  rw [LexerParse_in_time budget _ hb]
  exact LexerParseInTime_invalid_port h r hh h64 hdig

theorem LexerParse_invalid_port_witness :
    (∃ rest, LexerParse 15 (B "sip:" ++ B "1.1.1.1" ++ B ":" ++ B "a22")
      = some (none, some (B "Invalid uri '" ++ (B "sip:" ++ B "1.1.1.1" ++ B ":" ++ B "a22")
          ++ B "': invalid port" ++ rest))) ∧
    (∃ rest, LexerParse 16 (B "sip:" ++ B "atlanta.com" ++ B ":" ++ [])
      = some (none, some (B "Invalid uri '" ++ (B "sip:" ++ B "atlanta.com" ++ B ":" ++ [])
          ++ B "': invalid port" ++ rest))) :=
  ⟨LexerParse_invalid_port 15 (B "1.1.1.1") (B "a22")
      (Or.inr ⟨B "1", B "1", B "1", B "1", by decide, ⟨by decide, by decide, by decide⟩,
        ⟨by decide, by decide, by decide⟩, ⟨by decide, by decide, by decide⟩,
        ⟨by decide, by decide, by decide⟩⟩)
      (by decide) (by decide) (by decide),
   LexerParse_invalid_port 16 (B "atlanta.com") []
      (Or.inl ⟨97, B "tlanta.com", by decide, by decide, by decide⟩)
      (by decide) (by decide) (by decide)⟩

/-- Claim C13 as stated fails: `sip:256.0.0.1` is accepted whenever the timer
leaves the lexer the time for its 13 bytes, `256.0.0.1` being read as a host
name. -/
theorem octet_boundary_counterexample :
    (∀ x ∈ B "256", isNum x = true) ∧ 255 < decVal (B "256") ∧
    B "256.0.0.1" = B "256" ++ B "." ++ B "0" ++ B "." ++ B "0" ++ B "." ++ B "1" ∧
    ∀ budget, LexerParse (budget + 13) (B "sip:256.0.0.1")
      = some (some ⟨Scheme.SIP, [], B "256.0.0.1", [], []⟩, none) := by
  obtain ⟨h1, h2, h3, h4⟩ := octet_boundary_counterexample_in_time
  refine ⟨h1, h2, h3, fun budget => ?_⟩
  have hl : (B "sip:256.0.0.1").length = 13 := by decide
  rw [LexerParse_in_time (budget + 13) _ (by rw [hl]; omega), h4]

/-- Claim C13, amended: on inputs no longer than the bytes over which the lexer
moves in the 10 ms of the timer, `sip:255.255.255.255` is accepted with the
hostport `255.255.255.255`; four non-empty strings of ASCII digits separated by
`.`, one of them of value above 255, are rejected by `parseIPv4`, and
`LexerParse` of `sip:` and that text succeeds with the text as hostport, read as
a host name. -/
theorem LexerParse_octet_boundary (budget : Nat) (a b c d : Bytes)
    (ha : a ≠ [] ∧ ∀ x ∈ a, isNum x = true) (hb : b ≠ [] ∧ ∀ x ∈ b, isNum x = true)
    (hc : c ≠ [] ∧ ∀ x ∈ c, isNum x = true) (hd : d ≠ [] ∧ ∀ x ∈ d, isNum x = true)
    (hbig : 255 < decVal a ∨ 255 < decVal b ∨ 255 < decVal c ∨ 255 < decVal d)
    (h19 : (B "sip:255.255.255.255").length ≤ budget)
    (hlen : (B "sip:" ++ (a ++ B "." ++ b ++ B "." ++ c ++ B "." ++ d)).length ≤ budget) :
    LexerParse budget (B "sip:255.255.255.255")
      = some (some ⟨Scheme.SIP, [], B "255.255.255.255", [], []⟩, none) ∧
    parseIPv4 (a ++ B "." ++ b ++ B "." ++ c ++ B "." ++ d) = some (0, false) ∧
    LexerParse budget (B "sip:" ++ (a ++ B "." ++ b ++ B "." ++ c ++ B "." ++ d))
      = some (some ⟨Scheme.SIP, [], a ++ B "." ++ b ++ B "." ++ c ++ B "." ++ d, [], []⟩,
          none) := by
  rw [LexerParse_in_time budget _ h19, LexerParse_in_time budget _ hlen]
  exact LexerParseInTime_octet_boundary a b c d ha hb hc hd hbig

theorem LexerParse_octet_boundary_witness :
    LexerParse 19 (B "sip:255.255.255.255")
      = some (some ⟨Scheme.SIP, [], B "255.255.255.255", [], []⟩, none) ∧
    parseIPv4 (B "256" ++ B "." ++ B "0" ++ B "." ++ B "0" ++ B "." ++ B "1") = some (0, false) ∧
    LexerParse 19 (B "sip:" ++ (B "256" ++ B "." ++ B "0" ++ B "." ++ B "0" ++ B "." ++ B "1"))
      = some (some ⟨Scheme.SIP, [],
          B "256" ++ B "." ++ B "0" ++ B "." ++ B "0" ++ B "." ++ B "1", [], []⟩, none) :=
  LexerParse_octet_boundary 19 (B "256") (B "0") (B "0") (B "1")
    ⟨by decide, by decide⟩ ⟨by decide, by decide⟩ ⟨by decide, by decide⟩
    ⟨by decide, by decide⟩ (Or.inl (by decide)) (by decide) (by decide)

/-- Claim C15 as stated fails: in `sip:aaaaaaaaaaa @a` a blank, which is no legal
userinfo byte, stands before the `@`, and where the lexer moves over ten bytes
in 10 ms the reason is `timeout parsing`, which does not begin with `invalid
userinfo`; whatever the budget, more letters `a` than the budget before the
blank get that reason. -/
theorem invalid_userinfo_counterexample :
    isUserinfoByte 32 = false ∧
    LexerParse 10 (B "sip:" ++ (List.replicate 11 97 ++ B " ") ++ B "@" ++ B "a")
      = some (none, some (B "Invalid uri 'sip:aaaaaaaaaaa @a': timeout parsing")) ∧
    (¬ ∃ m, LexerParse 10 (B "sip:" ++ (List.replicate 11 97 ++ B " ") ++ B "@" ++ B "a")
      = some (none, some (B "Invalid uri '"
          ++ (B "sip:" ++ (List.replicate 11 97 ++ B " ") ++ B "@" ++ B "a")
          ++ B "': invalid userinfo" ++ m))) ∧
    ∀ budget,
      LexerParse budget (B "sip:" ++ (List.replicate (budget + 1) 97 ++ B " ") ++ B "@" ++ B "a")
      = some (none, some (B "Invalid uri '"
          ++ (B "sip:" ++ (List.replicate (budget + 1) 97 ++ B " ") ++ B "@" ++ B "a")
          ++ B "': timeout parsing")) := by
  have key : ∀ budget,
      LexerParse budget (B "sip:" ++ (List.replicate (budget + 1) 97 ++ B " ") ++ B "@" ++ B "a")
      = some (none, some (B "Invalid uri '"
          ++ (B "sip:" ++ (List.replicate (budget + 1) 97 ++ B " ") ++ B "@" ++ B "a")
          ++ B "': timeout parsing")) := by
    intro budget
    have := long_userinfo_fires budget (B "sip:") (B "a") (Or.inl rfl)
    have e : (B "sip:" ++ (List.replicate (budget + 1) 97 ++ B " ") ++ B "@" ++ B "a")
        = B "sip:" ++ (List.replicate (budget + 1) 97 ++ 32 :: 64 :: B "a") := by
      have e1 : B " " = [32] := by decide
      have e2 : B "@" = [64] := by decide
      rw [e1, e2]; simp
    rw [e]
    exact this
  refine ⟨by decide, ?_, ?_, key⟩
  · rw [key 10]
    decide
  · rintro ⟨m, h⟩
    rw [key 10] at h
    simp only [Option.some.injEq, Prod.mk.injEq, true_and] at h
    exact timeout_ne _ (B "': invalid userinfo") m (by decide) h

/-- Claim C15, amended: an input that begins with `sip:` or `sips:`, has between
the colon and the first `@` a byte that is no legal userinfo byte, and is no
longer than the bytes over which the lexer moves in the 10 ms of the timer,
fails with a reason that begins `invalid userinfo`. -/
theorem LexerParse_invalid_userinfo (budget : Nat) (S v rest : Bytes)
    (hS : S = B "sip:" ∨ S = B "sips:") (hv : ∀ c ∈ v, c ≠ 64)
    (hbad : ∃ c ∈ v, isUserinfoByte c = false)
    (hb : (S ++ v ++ B "@" ++ rest).length ≤ budget) :
    ∃ m, LexerParse budget (S ++ v ++ B "@" ++ rest)
      = some (none, some (B "Invalid uri '" ++ (S ++ v ++ B "@" ++ rest)
          ++ B "': invalid userinfo" ++ m)) := by
  rw [LexerParse_in_time budget _ hb]
  exact LexerParseInTime_invalid_userinfo S v rest hS hv hbad

theorem LexerParse_invalid_userinfo_witness :
    ∃ m, LexerParse 22 (B "sip:" ++ B "al ice" ++ B "@" ++ B "atlanta.com")
      = some (none, some (B "Invalid uri '"
          ++ (B "sip:" ++ B "al ice" ++ B "@" ++ B "atlanta.com")
          ++ B "': invalid userinfo" ++ m)) :=
  LexerParse_invalid_userinfo 22 (B "sip:") (B "al ice") (B "atlanta.com") (Or.inl rfl)
    (by decide) ⟨32, by decide, by decide⟩ (by decide)

/-- Claim C18 as stated fails: eleven letters `a` are legal param bytes, and where
the lexer moves over ten bytes in 10 ms `sip:atlanta.com;` and these params get
the timeout error; whatever the budget, params of more letters `a` than the
budget get it. -/
theorem params_counterexample :
    (∀ c ∈ List.replicate 11 97, isParamByte c = true) ∧
    LexerParse 10 (B "sip:atlanta.com;" ++ List.replicate 11 97)
      = some (none, some (B "Invalid uri 'sip:atlanta.com;aaaaaaaaaaa': timeout parsing")) ∧
    ∀ budget, LexerParse budget (B "sip:atlanta.com;" ++ List.replicate (budget + 1) 97)
      = some (none, some (B "Invalid uri '"
          ++ (B "sip:atlanta.com;" ++ List.replicate (budget + 1) 97)
          ++ B "': timeout parsing")) := by
  have e : ∀ X : Bytes, B "sip:atlanta.com;" ++ X = B "sip:" ++ (B "atlanta.com" ++ 59 :: X) := by
    intro X
    have : B "sip:atlanta.com;" = B "sip:" ++ (B "atlanta.com" ++ [59]) := by decide
    rw [this]; simp
  have key : ∀ budget, LexerParse budget (B "sip:atlanta.com;" ++ List.replicate (budget + 1) 97)
      = some (none, some (B "Invalid uri '"
          ++ (B "sip:atlanta.com;" ++ List.replicate (budget + 1) 97)
          ++ B "': timeout parsing")) := by
    intro budget
    rw [e]
    exact long_params_fires budget
  refine ⟨by decide, ?_, key⟩
  rw [key 10]
  decide

/-- Claim C18, amended: for an ASCII string `p` without `@` and `?` such that
`sip:atlanta.com;` followed by `p` is no longer than the bytes over which the
lexer moves in the 10 ms of the timer, `LexerParse` of that text succeeds if and
only if every byte of `p` is a legal param byte; on success the params are `p`,
and otherwise it fails with a reason that begins `invalid param`. -/
theorem LexerParse_params (budget : Nat) (p : Bytes) (hascii : ∀ c ∈ p, c < 128)
    (h64 : 64 ∉ p) (h63 : 63 ∉ p) (hb : (B "sip:atlanta.com;" ++ p).length ≤ budget) :
    ((∃ u, LexerParse budget (B "sip:atlanta.com;" ++ p) = some (some u, none)) ↔
      ∀ c ∈ p, isParamByte c = true) ∧
    ((∀ c ∈ p, isParamByte c = true) → LexerParse budget (B "sip:atlanta.com;" ++ p)
      = some (some ⟨Scheme.SIP, [], B "atlanta.com", p, []⟩, none)) ∧
    ((∃ c ∈ p, isParamByte c = false) → ∃ m, LexerParse budget (B "sip:atlanta.com;" ++ p)
      = some (none, some (B "Invalid uri '" ++ (B "sip:atlanta.com;" ++ p)
          ++ B "': invalid param" ++ m))) := by
  rw [LexerParse_in_time budget _ hb]
  exact LexerParseInTime_params p hascii h64 h63

theorem LexerParse_params_witness :
    ((∃ u, LexerParse 29 (B "sip:atlanta.com;" ++ B "transport=tcp") = some (some u, none)) ↔
      ∀ c ∈ B "transport=tcp", isParamByte c = true) ∧
    ((∀ c ∈ B "transport=tcp", isParamByte c = true) →
      LexerParse 29 (B "sip:atlanta.com;" ++ B "transport=tcp")
        = some (some ⟨Scheme.SIP, [], B "atlanta.com", B "transport=tcp", []⟩, none)) ∧
    ((∃ c ∈ B "transport=tcp", isParamByte c = false) →
      ∃ m, LexerParse 29 (B "sip:atlanta.com;" ++ B "transport=tcp")
        = some (none, some (B "Invalid uri '" ++ (B "sip:atlanta.com;" ++ B "transport=tcp")
            ++ B "': invalid param" ++ m))) :=
  LexerParse_params 29 (B "transport=tcp") (by decide) (by decide) (by decide) (by decide)

/-- Claim C19 as stated fails: `sip:atlanta.com?a@b` is accepted, whenever the
timer leaves the lexer the time for its 19 bytes, although `@` is no legal
header byte, and its headers are empty: the text before `@` is the userinfo.
And eleven letters `a` are legal header bytes, but where the lexer moves over
ten bytes in 10 ms `sip:atlanta.com?` and these headers get the timeout error;
whatever the budget, headers of more letters `a` than the budget get it. -/
theorem headers_counterexample :
    (∀ budget, LexerParse (budget + 19) (B "sip:atlanta.com?" ++ B "a@b")
      = some (some ⟨Scheme.SIP, B "atlanta.com?a", B "b", [], []⟩, none)) ∧
    isHeaderByte 64 = false ∧ 64 ∈ B "a@b" ∧
    (∀ c ∈ List.replicate 11 97, isHeaderByte c = true) ∧
    LexerParse 10 (B "sip:atlanta.com?" ++ List.replicate 11 97)
      = some (none, some (B "Invalid uri 'sip:atlanta.com?aaaaaaaaaaa': timeout parsing")) ∧
    ∀ budget, LexerParse budget (B "sip:atlanta.com?" ++ List.replicate (budget + 1) 97)
      = some (none, some (B "Invalid uri '"
          ++ (B "sip:atlanta.com?" ++ List.replicate (budget + 1) 97)
          ++ B "': timeout parsing")) := by
  have e : ∀ X : Bytes, B "sip:atlanta.com?" ++ X = B "sip:" ++ (B "atlanta.com" ++ 63 :: X) := by
    intro X
    have : B "sip:atlanta.com?" = B "sip:" ++ (B "atlanta.com" ++ [63]) := by decide
    rw [this]; simp
  have key : ∀ budget, LexerParse budget (B "sip:atlanta.com?" ++ List.replicate (budget + 1) 97)
      = some (none, some (B "Invalid uri '"
          ++ (B "sip:atlanta.com?" ++ List.replicate (budget + 1) 97)
          ++ B "': timeout parsing")) := by
    intro budget
    rw [e]
    exact long_headers_fires budget
  obtain ⟨h1, h2, h3⟩ := headers_counterexample_in_time
  have hl : (B "sip:atlanta.com?" ++ B "a@b").length = 19 := by decide
  refine ⟨fun budget => ?_, h2, h3, by decide, ?_, key⟩
  · rw [LexerParse_in_time (budget + 19) _ (by rw [hl]; omega), h1]
  · rw [key 10]
    decide

/-- Claim C19, amended: for an ASCII string `q` without `@` such that
`sip:atlanta.com?` followed by `q` is no longer than the bytes over which the
lexer moves in the 10 ms of the timer, `LexerParse` of that text succeeds if and
only if every byte of `q` is a legal header byte, and on success the headers are
`q`. -/
theorem LexerParse_headers (budget : Nat) (q : Bytes) (hascii : ∀ c ∈ q, c < 128)
    (h64 : 64 ∉ q) (hb : (B "sip:atlanta.com?" ++ q).length ≤ budget) :
    ((∃ u, LexerParse budget (B "sip:atlanta.com?" ++ q) = some (some u, none)) ↔
      ∀ c ∈ q, isHeaderByte c = true) ∧
    ((∀ c ∈ q, isHeaderByte c = true) → LexerParse budget (B "sip:atlanta.com?" ++ q)
      = some (some ⟨Scheme.SIP, [], B "atlanta.com", [], q⟩, none)) := by
  rw [LexerParse_in_time budget _ hb]
  exact LexerParseInTime_headers q hascii h64

theorem LexerParse_headers_witness :
    ((∃ u, LexerParse 35 (B "sip:atlanta.com?" ++ B "subject=project%20x")
        = some (some u, none)) ↔
      ∀ c ∈ B "subject=project%20x", isHeaderByte c = true) ∧
    ((∀ c ∈ B "subject=project%20x", isHeaderByte c = true) →
      LexerParse 35 (B "sip:atlanta.com?" ++ B "subject=project%20x")
        = some (some ⟨Scheme.SIP, [], B "atlanta.com", [], B "subject=project%20x"⟩, none)) :=
  LexerParse_headers 35 (B "subject=project%20x") (by decide) (by decide) (by decide)

/-- Claim C21 as stated fails: `sip:[` and ten digits `1` have no `]`, and where
the lexer moves over ten bytes in 10 ms the reason is `timeout parsing`, which
does not begin with `invalid host part ipv6`; whatever the budget, as many
digits `1` as the budget after the `[` get that reason. -/
theorem unterminated_ipv6_counterexample :
    64 ∉ List.replicate 10 49 ∧ 93 ∉ List.replicate 10 49 ∧
    LexerParse 10 (B "sip:" ++ B "[" ++ List.replicate 10 49)
      = some (none, some (B "Invalid uri 'sip:[1111111111': timeout parsing")) ∧
    (¬ ∃ m, LexerParse 10 (B "sip:" ++ B "[" ++ List.replicate 10 49)
      = some (none, some (B "Invalid uri '" ++ (B "sip:" ++ B "[" ++ List.replicate 10 49)
          ++ B "': invalid host part ipv6" ++ m))) ∧
    ∀ budget, LexerParse budget (B "sip:" ++ B "[" ++ List.replicate budget 49)
      = some (none, some (B "Invalid uri '" ++ (B "sip:" ++ B "[" ++ List.replicate budget 49)
          ++ B "': timeout parsing")) := by
  have key : ∀ budget, LexerParse budget (B "sip:" ++ B "[" ++ List.replicate budget 49)
      = some (none, some (B "Invalid uri '" ++ (B "sip:" ++ B "[" ++ List.replicate budget 49)
          ++ B "': timeout parsing")) := by
    intro budget
    have := long_ipv6_fires budget (B "sip:") (Or.inl rfl)
    have e : B "sip:" ++ B "[" ++ List.replicate budget 49
        = B "sip:" ++ (91 :: List.replicate budget 49) := by
      have e1 : B "[" = [91] := by decide
      rw [e1]; simp
    rw [e]
    exact this
  refine ⟨by decide, by decide, ?_, ?_, key⟩
  · rw [key 10]
    decide
  · rintro ⟨m, h⟩
    rw [key 10] at h
    simp only [Option.some.injEq, Prod.mk.injEq, true_and] at h
    exact timeout_ne _ (B "': invalid host part ipv6") m (by decide) h

/-- Claim C21, amended: an input with a valid scheme and no `@` whose host begins
with `[` and has no `]` after it, and which is no longer than the bytes over
which the lexer moves in the 10 ms of the timer, fails with a reason that begins
`invalid host part ipv6`. -/
theorem LexerParse_unterminated_ipv6 (budget : Nat) (S r : Bytes)
    (hS : S = B "sip:" ∨ S = B "sips:") (h64 : 64 ∉ r) (h93 : 93 ∉ r)
    (hb : (S ++ B "[" ++ r).length ≤ budget) :
    ∃ m, LexerParse budget (S ++ B "[" ++ r)
      = some (none, some (B "Invalid uri '" ++ (S ++ B "[" ++ r)
          ++ B "': invalid host part ipv6" ++ m)) := by
  rw [LexerParse_in_time budget _ hb]
  exact LexerParseInTime_unterminated_ipv6 S r hS h64 h93

theorem LexerParse_unterminated_ipv6_witness :
    (∃ m, LexerParse 11 (B "sip:" ++ B "[" ++ B "::1")
      = some (none, some (B "Invalid uri '" ++ (B "sip:" ++ B "[" ++ B "::1")
          ++ B "': invalid host part ipv6" ++ m))) ∧
    (∃ m, LexerParse 11 (B "sips:" ++ B "[" ++ B "::1;x")
      = some (none, some (B "Invalid uri '" ++ (B "sips:" ++ B "[" ++ B "::1;x")
          ++ B "': invalid host part ipv6" ++ m))) :=
  ⟨LexerParse_unterminated_ipv6 11 (B "sip:") (B "::1") (Or.inl rfl) (by decide) (by decide)
      (by decide),
   LexerParse_unterminated_ipv6 11 (B "sips:") (B "::1;x") (Or.inr rfl) (by decide) (by decide)
      (by decide)⟩

/-! ## Defects that the receive loop shows -/

/-- Claim C2: `sip:a;`, `sip:@a` and `sip:a?` are accepted, whenever the timer
leaves the lexer the time for their 6 bytes, with empty params, userinfo and
headers: the bare delimiter is lost and the re-concatenation of the fields gives
`sip:a`.  `RagelParse` rejects the three inputs.  On every other accepted ASCII
input, where no piece is a bare delimiter, the re-concatenation is the input. -/
theorem roundtrip_bare_delimiter :
    (∀ b ∈ B "sip:a;", b < 128) ∧ (∀ b ∈ B "sip:@a", b < 128) ∧ (∀ b ∈ B "sip:a?", b < 128) ∧
    (∀ budget, LexerParse (budget + 6) (B "sip:a;")
      = some (some ⟨Scheme.SIP, [], B "a", [], []⟩, none)) ∧
    (∀ budget, LexerParse (budget + 6) (B "sip:@a")
      = some (some ⟨Scheme.SIP, [], B "a", [], []⟩, none)) ∧
    (∀ budget, LexerParse (budget + 6) (B "sip:a?")
      = some (some ⟨Scheme.SIP, [], B "a", [], []⟩, none)) ∧
    reassemble ⟨Scheme.SIP, [], B "a", [], []⟩ = B "sip:a" ∧
    B "sip:a;" ≠ reassemble ⟨Scheme.SIP, [], B "a", [], []⟩ ∧
    B "sip:@a" ≠ reassemble ⟨Scheme.SIP, [], B "a", [], []⟩ ∧
    B "sip:a?" ≠ reassemble ⟨Scheme.SIP, [], B "a", [], []⟩ ∧
    RagelParse (B "sip:a;") = some (none, some (B "Invalid URI 'sip:a;'.")) ∧
    RagelParse (B "sip:@a") = some (none, some (B "Invalid URI 'sip:@a'.")) ∧
    RagelParse (B "sip:a?") = some (none, some (B "Invalid URI 'sip:a?'.")) ∧
    (∀ (budget : Nat) (data : Bytes) (u : URI), (∀ b ∈ data, b < 128) →
      LexerParse budget data = some (some u, none) →
      ∃ U P H, data = schemeText u.scheme ++ B ":" ++ U ++ u.hostport ++ P ++ H ∧
        (if u.userinfo ≠ [] then U = u.userinfo ++ B "@" else U = [] ∨ U = B "@") ∧
        (if u.params ≠ [] then P = B ";" ++ u.params else P = [] ∨ P = B ";") ∧
        (if u.headers ≠ [] then H = B "?" ++ u.headers else H = [] ∨ H = B "?") ∧
        (U ≠ B "@" → P ≠ B ";" → H ≠ B "?" → data = reassemble u)) := by
  obtain ⟨h0, h1, h2, h3, h4, h5⟩ := roundtrip_counterexample_in_time
  refine ⟨h0, by decide, by decide,
    fun budget => LexerParse_add budget 6 _ _ (by decide) h1,
    fun budget => LexerParse_add budget 6 _ _ (by decide) h2,
    fun budget => LexerParse_add budget 6 _ _ (by decide) h3,
    h4, h5, by decide, by decide, by decide, by decide, by decide, ?_⟩
  intro budget data u hascii h
  exact LexerParseInTime_roundtrip data u hascii (LexerParse_accepted budget data u h)

/-- Claim C16: `sip:a%zz@atlanta.com` and `sip:atlanta.com;x=%` are accepted,
whenever the timer leaves the lexer the time for the input, with a `%` that no
two hexadecimal digits follow; `RagelParse` rejects both, and accepts
`sip:a%41@atlanta.com`.  The lexer takes `%` as a legal byte of the userinfo, the
params and the headers like any other and asks nothing of the bytes after it:
for all strings `v`, `p`, `q` of legal userinfo, param and header bytes,
`sip:v@atlanta.com;p?q` is accepted with userinfo `v`, params `p` and headers
`q`. -/
theorem percent_not_validated :
    (∀ budget, LexerParse (budget + 20) (B "sip:a%zz@atlanta.com")
      = some (some ⟨Scheme.SIP, B "a%zz", B "atlanta.com", [], []⟩, none)) ∧
    (∀ budget, LexerParse (budget + 19) (B "sip:atlanta.com;x=%")
      = some (some ⟨Scheme.SIP, [], B "atlanta.com", B "x=%", []⟩, none)) ∧
    isHex 122 = false ∧
    RagelParse (B "sip:a%zz@atlanta.com")
      = some (none, some (B "Invalid URI 'sip:a%zz@atlanta.com'.")) ∧
    RagelParse (B "sip:atlanta.com;x=%")
      = some (none, some (B "Invalid URI 'sip:atlanta.com;x=%'.")) ∧
    RagelParse (B "sip:a%41@atlanta.com")
      = some (some ⟨Scheme.SIP, B "a%41", B "atlanta.com", [], []⟩, none) ∧
    isUserinfoByte 37 = true ∧ isParamByte 37 = true ∧ isHeaderByte 37 = true ∧
    (∀ (budget : Nat) (v p q : Bytes), (∀ c ∈ v, isUserinfoByte c = true) →
      (∀ c ∈ p, isParamByte c = true) → (∀ c ∈ q, isHeaderByte c = true) →
      (B "sip:" ++ v ++ B "@" ++ B "atlanta.com" ++ B ";" ++ p ++ B "?" ++ q).length ≤ budget →
      LexerParse budget (B "sip:" ++ v ++ B "@" ++ B "atlanta.com" ++ B ";" ++ p ++ B "?" ++ q)
        = some (some ⟨Scheme.SIP, v, B "atlanta.com", p, q⟩, none)) := by
  obtain ⟨h1, h2, h3⟩ := percent_counterexample_in_time
  refine ⟨fun budget => LexerParse_add budget 20 _ _ (by decide) h1,
    fun budget => LexerParse_add budget 19 _ _ (by decide) h2, h3,
    by decide, by decide, by decide, by decide, by decide, by decide, ?_⟩
  intro budget v p q hv hp hq hb
  rw [LexerParse_in_time budget _ hb]
  exact (LexerParseInTime_percent v p q hv hp hq).2.2.2

theorem taken_error_last : ∀ (sent : List Event) (k : Nat), k ≤ received sent →
    ∀ (pre : List Event) (m : Bytes) (post : List Event),
    sent.take k = pre ++ Event.err m :: post →
    post = [] ∧ ∀ e ∈ pre, ∃ it, e = Event.item it := by
  intro sent
  induction sent with
  | nil =>
    intro k _ pre m post h
    simp at h
  | cons e sent ih =>
    intro k hk pre m post h
    cases k with
    | zero => simp at h
    | succ k =>
      rw [List.take_succ_cons] at h
      cases e with
      | err e1 =>
        simp only [received] at hk
        have hk0 : k = 0 := by omega
        subst hk0
        rw [List.take_zero] at h
        cases pre with
        | nil =>
          simp only [List.nil_append, List.cons.injEq] at h
          exact ⟨h.2.symm, by simp⟩
        | cons p pre =>
          simp only [List.cons_append, List.cons.injEq] at h
          have := h.2
          simp at this
      | item it =>
        cases pre with
        | nil => simp at h
        | cons p pre =>
          simp only [List.cons_append, List.cons.injEq] at h
          obtain ⟨hp, hrest⟩ := h
          simp only [received] at hk
          by_cases heof : it.token = Token.tEOF
          · simp only [heof, if_true] at hk
            have hk0 : k = 0 := by omega
            subst hk0
            simp at hrest
          · simp only [heof, if_false] at hk
            obtain ⟨h1, h2⟩ := ih k (by omega) pre m post hrest
            refine ⟨h1, ?_⟩
            intro x hx
            rcases List.mem_cons.1 hx with hx | hx
            · exact ⟨it, by rw [hx, ← hp]⟩
            · exact h2 x hx

/-- The receive loop of `LexerParse` reads only the values that `received`
counts. -/
theorem mainLoop_received (budget : Nat) (data : Bytes) (tv : List (Nat × Event)) : ∀ u,
    mainLoop budget data u tv
      = mainLoop budget data u (tv.take (received (tv.map Prod.snd))) := by
  induction tv with
  | nil => intro u; rfl
  | cons p tv ih =>
    intro u
    obtain ⟨w, e⟩ := p
    cases e with
    | err m => simp [received, mainLoop]
    | item it =>
      simp only [List.map_cons, received]
      split_ifs with ht
      · simp [mainLoop, ht]
      · have : 1 + received (tv.map Prod.snd) = received (tv.map Prod.snd) + 1 := by omega
        rw [this, List.take_succ_cons]
        simp only [mainLoop, ht, if_false]
        split_ifs
        · rfl
        · exact ih _

/-- Claim C30: the values that the lexer produces are those whose send completes.
The channels are unbuffered and the receive loop of `LexerParse`, their only
receiver, reads only the first `received sent` of the values `sent` that the
state functions go to send: it returns at the first error, at the first `tEOF`
or, earlier, on its timer.  For every input the run of the state functions ends
without panic, and among the values produced an error is the last one and every
value before it is an item: there is at most one error, and no item and no error
after it.  For `sip:a:x` and `sip:a?b c`, where `lexPort` and `lexHeaders` go on
after `errorf`, the values produced end with the error. -/
theorem error_is_terminal :
    (∀ (budget : Nat) (data : Bytes) (u : URI) (tv : List (Nat × Event)),
      mainLoop budget data u tv
        = mainLoop budget data u (tv.take (received (tv.map Prod.snd)))) ∧
    (∀ data : Bytes, ∃ sent, (newLexer data).run = some sent ∧
      ∀ k, k ≤ received sent → ∀ (pre : List Event) (m : Bytes) (post : List Event),
        sent.take k = pre ++ Event.err m :: post →
        post = [] ∧ ∀ e ∈ pre, ∃ it, e = Event.item it) ∧
    ((newLexer (B "sip:a:x")).run).map (fun sent => sent.take (received sent))
      = some [Event.item ⟨Token.tSip, B "sip:"⟩, Event.item ⟨Token.tHost, B "a"⟩,
          Event.err (B "invalid port ")] ∧
    ((newLexer (B "sip:a?b c")).run).map (fun sent => sent.take (received sent))
      = some [Event.item ⟨Token.tSip, B "sip:"⟩, Event.item ⟨Token.tHost, B "a"⟩,
          Event.err (B "invalid header ...>c")] := by
  refine ⟨fun budget data u tv => mainLoop_received budget data tv u, fun data => ?_,
    by decide, by decide⟩
  refine ⟨schemeSent data, by simp [lexer.run, scheme_sim 1 data], ?_⟩
  exact taken_error_last (schemeSent data)

end SipUri
